import Mathlib

/-!
# Rysteria server: a shallow embedding of the session, crafting, deletion and loot code

The definitions below follow the C sources (`Server/Client.c`, `Server/Server.c`,
`Server/Simulation.c`, `Shared/Component/Mob.c`, `Client/Game.c`).

Conventions.
* `uint8_t`, `uint32_t`, `uint64_t` values are natural numbers; where the C code can wrap,
  the wrap is written out with `% 2 ^ w`.
* `float` and `double` values are exact rationals.
* `rr_frand()` and `rand()` are read from an explicit source of draws.
* Code of the repository whose source is not available (`rr_get_hash`, `rr_encrypt`,
  the `proto_bug` codec, the entity allocator) is a parameter or is modelled from the
  specification, and says so in its doc comment.
-/

namespace Rysteria

/-! ## Constants -/

/-- Number of rarities (`rr_rarity_id_common` .. `rr_rarity_id_calamity`): the tables of
`StaticData.c` indexed by `rr_rarity_id_max` have 16 entries. -/
def rr_rarity_id_max : Nat := 16

/-- Number of petal ids: `RR_PETAL_DATA[rr_petal_id_max]` has 36 rows. -/
def rr_petal_id_max : Nat := 36

/-- Row 1 of `RR_PETAL_DATA` (row 0 is `rr_petal_id_none`). -/
def rr_petal_id_basic : Nat := 1

/-- Modelled from the spec: the enum of clientbound headers is missing from the tree;
`craft_result` is the seventh header in the spec's list (`update` being 0). -/
def rr_clientbound_craft_result : Nat := 6

/-- Table `CRAFT_XP_GAINS[rr_rarity_id_max - 1]` of `Server/Client.c`. -/
def CRAFT_XP_GAINS : Nat → ℚ
  | 0 => 1
  | 1 => 8
  | 2 => 60
  | 3 => 750
  | 4 => 25000
  | 5 => 1000000
  | 6 => 100000000
  | 7 => 5000000000
  | 8 => 10000000000
  | 9 => 24000000000
  | 10 => 90000000000
  | 11 => 130000000000
  | 12 => 250000000000
  | 13 => 700000000000
  | 14 => 2000000000000
  | _ => 0

/-! ## The `proto_bug` encoder and the outgoing queue -/

/-- One `proto_bug_write_*` call: the kind of field and the value written. The byte layout
belongs to `Shared/pb.h`; a packet is the sequence of fields written. -/
inductive pb_field where
  | uint8 (v : Nat)
  | uint32 (v : Nat)
  | uint64 (v : Nat)
  | varuint (v : Nat)
  | float64 (v : ℚ)
  | raw (bytes : List Nat)
  | string (s : String) (size : Nat)
  deriving DecidableEq, Repr

/-- One node of the queue `message_root .. message_at`: the buffer handed to
`rr_server_client_write_message`, and the key `rr_encrypt` was run with on it (`none` when
the buffer was copied as it was). -/
structure rr_server_client_message where
  packet : List pb_field
  key : Option Nat
  deriving DecidableEq, Repr

/-- The fields of `struct rr_server_client_dev_cheats` (Server.c 1247-1287). -/
structure rr_server_client_dev_cheats where
  invisible : Bool
  invulnerable : Bool
  no_aggro : Bool
  no_wall_collision : Bool
  no_collision : Bool
  no_grid_influence : Bool
  speed_percent : ℚ
  fov_percent : ℚ
  deriving DecidableEq

/-- The cheats of a client after `rr_server_client_init`: all flags zero, both percents 1. -/
def dev_cheats_init : rr_server_client_dev_cheats :=
  { invisible := false, invulnerable := false, no_aggro := false, no_wall_collision := false,
    no_collision := false, no_grid_influence := false, speed_percent := 1, fov_percent := 1 }

/-- The fields of `struct rr_server_client` read or written by the embedded functions.
A pointer to a player_info component is the index of its entity (`none` for `NULL`);
`uuid` is `rivet_account.uuid`. The fields with a default are zeroed by
`rr_server_client_init` (`dev_cheats` is then given its two percents). -/
structure rr_server_client where
  inventory : Nat → Nat → Nat
  craft_fails : Nat → Nat → Nat
  experience : ℚ
  verified : Bool
  pending_kick : Bool
  received_first_packet : Bool
  clientbound_encryption_key : Nat
  serverbound_encryption_key : Nat
  requested_verification : Nat
  quick_verification : Nat
  message_length : Nat
  messages : List rr_server_client_message
  dev : Bool := false
  in_use : Bool := false
  disconnected : Bool := false
  disconnected_ticks : Nat := 0
  afk_ticks : Nat := 0
  in_squad : Bool := false
  squad : Nat := 0
  squad_pos : Nat := 0
  player_info : Option Nat := none
  player_accel_x : ℚ := 0
  player_accel_y : ℚ := 0
  uuid : String := ""
  ip_address : String := ""
  ticks_to_next_squad_action : Nat := 0
  ticks_to_next_kick_vote : Nat := 0
  dev_cheats : rr_server_client_dev_cheats := dev_cheats_init
  joined_squad_before : Nat → Bool := fun _ => false
  blocked_clients : Nat → Bool := fun _ => false
  pending_quick_join : Bool := false
  checkpoint : Nat := 0
  mob_gallery : Nat → Nat → Nat := fun _ _ => 0

/-- Assignment `table[id][rarity] = v` on a two-dimensional table. -/
def set2 (t : Nat → Nat → Nat) (id rarity v : Nat) : Nat → Nat → Nat :=
  fun i r => if i = id ∧ r = rarity then v else t i r

/-- Function `rr_server_client_write_message` (Client.c 102-130). `hash` is `rr_get_hash`. The
counter `message_length` is post-incremented by the test itself, on both branches. -/
def rr_server_client_write_message (hash : Nat → Nat) (this : rr_server_client)
    (data : List pb_field) : rr_server_client :=
  let this1 := { this with message_length := this.message_length + 1 }
  if this.message_length ≥ 512 then
    { this1 with pending_kick := true }
  else if this1.received_first_packet then
    let k := hash this1.clientbound_encryption_key
    { this1 with
      clientbound_encryption_key := k
      messages := this1.messages ++ [{ packet := data, key := some k }] }
  else
    { this1 with messages := this1.messages ++ [{ packet := data, key := none }] }

/-! ## Crafting (`rr_server_client_craft_petal`) -/

/-- The values returned by the successive calls of `rr_frand()` and `rand()`. -/
structure rr_rng where
  frand : Nat → ℚ
  rand : Nat → Nat

/-- The variables carried by the `while (now >= 5)` loop, together with the number of
draws already taken from each random source. -/
structure craft_loop_state where
  now : Nat
  success : Nat
  fails : Nat
  xp_gain : ℚ
  frand_used : Nat
  rand_used : Nat

/-- One pass through the body of the loop (Client.c 193-202), entered with `now >= 5`.
`base` is `RR_CRAFT_CHANCES[rarity]`. For the basic petal the `||` short-circuits, so
neither the draw nor the `++craft_fails` happens. -/
def craft_loop_body (rng : rr_rng) (id rarity : Nat) (base : ℚ) (s : craft_loop_state) :
    craft_loop_state :=
  if id = rr_petal_id_basic then
    { s with success := s.success + 1, fails := 0, now := s.now - 5,
             xp_gain := s.xp_gain + CRAFT_XP_GAINS rarity }
  else
    let fails1 : Nat := (s.fails + 1) % 2 ^ 32
    if rng.frand s.frand_used < base * (fails1 : ℚ) then
      { s with success := s.success + 1, fails := 0, now := s.now - 5,
               frand_used := s.frand_used + 1,
               xp_gain := s.xp_gain + CRAFT_XP_GAINS rarity }
    else
      { s with fails := fails1, now := s.now - (1 + rng.rand s.rand_used % 4),
               frand_used := s.frand_used + 1, rand_used := s.rand_used + 1,
               xp_gain := s.xp_gain + CRAFT_XP_GAINS rarity }

/-- The loop `while (now >= 5) { ... }` (Client.c 191-203). -/
def craft_loop (rng : rr_rng) (id rarity : Nat) (base : ℚ) (s : craft_loop_state) :
    craft_loop_state :=
  if 5 ≤ s.now then
    craft_loop rng id rarity base (craft_loop_body rng id rarity base s)
  else s
termination_by s.now
decreasing_by
  unfold craft_loop_body
  dsimp only
  split_ifs <;> dsimp only <;> omega

/-- The craft result packet (Client.c 231-240), as the sequence of encoder writes. -/
def craft_result_packet (id rarity success consumed attempts : Nat) (xp_gain : ℚ) :
    List pb_field :=
  [pb_field.uint8 rr_clientbound_craft_result, pb_field.uint8 id, pb_field.uint8 rarity,
   pb_field.varuint success, pb_field.varuint consumed, pb_field.varuint attempts,
   pb_field.float64 xp_gain]

/-- Function `rr_server_client_craft_petal` (Client.c 177-243) on the client record.
`RR_CRAFT_CHANCES` is filled at start-up by `get_prd_base` and is a parameter here.
Lines 210-229 (the level derived from `experience` copied to the squad slot, the
player_info and the flower, and the write to the account service) touch no field of the
record and are left out. -/
def rr_server_client_craft_petal (hash : Nat → Nat) (RR_CRAFT_CHANCES : Nat → ℚ)
    (rng : rr_rng) (this : rr_server_client) (id rarity count : Nat) : rr_server_client :=
  if id ≥ rr_petal_id_max ∨ rarity ≥ rr_rarity_id_max - 1 then this
  else if count < 5 then this
  else if this.inventory id rarity < count then this
  else
    let s := craft_loop rng id rarity (RR_CRAFT_CHANCES rarity)
      { now := count, success := 0, fails := this.craft_fails id rarity, xp_gain := 0,
        frand_used := 0, rand_used := 0 }
    let inv1 := set2 this.inventory id rarity
      ((this.inventory id rarity + 2 ^ 32 - (count - s.now)) % 2 ^ 32)
    let inv2 := set2 inv1 id (rarity + 1) ((inv1 id (rarity + 1) + s.success) % 2 ^ 32)
    let this1 := { this with
      inventory := inv2
      craft_fails := set2 this.craft_fails id rarity s.fails
      experience := this.experience + s.xp_gain }
    rr_server_client_write_message hash this1
      (craft_result_packet id rarity s.success (count - s.now) s.fails s.xp_gain)

/-! ## Session: handshake, rolling keys, quick verification -/

/-- The functions of `Shared/Crypto.h` and `Shared/pb.h` that the packet handler calls;
their sources are not part of the tree, so they are parameters. The readers return the
value read and the rest of the buffer. -/
structure rr_shared where
  rr_get_hash : Nat → Nat
  rr_decrypt : List Nat → Nat → List Nat
  proto_bug_read_uint8 : List Nat → Nat × List Nat
  proto_bug_read_uint64 : List Nat → Nat × List Nat

/-- Function `rr_server_client_init` (Client.c 41-51): everything zeroed, then the two keys and the
verification value drawn from `rr_get_rand()`, and `quick_verification = RR_SECRET8`. -/
def rr_server_client_init (RR_SECRET8 rand0 rand1 rand2 : Nat) : rr_server_client :=
  { inventory := fun _ _ => 0
    craft_fails := fun _ _ => 0
    experience := 0
    verified := false
    pending_kick := false
    received_first_packet := false
    clientbound_encryption_key := rand0
    serverbound_encryption_key := rand1
    requested_verification := rand2
    quick_verification := RR_SECRET8
    message_length := 0
    messages := [] }

/-- Outcome of one `LWS_CALLBACK_RECEIVE`: the client record, the value returned to
libwebsockets (`-1` closes the connection), and the header and payload handed to
`switch (header)` when that switch is reached. -/
structure receive_result where
  client : rr_server_client
  ret : Int
  dispatched : Option (Nat × List Nat)

/-- Case `LWS_CALLBACK_RECEIVE` of `handle_lws_event` (Server.c 492-669), up to the dispatch on
the header. `quick_verification` is a byte, so the hash is truncated when stored. The
first-packet branch ends here at the verification test (Server.c 504-522); what follows
it (523-631: the account strings, the dev mark, the duplicate and the reconnect loops)
works on the whole server and is `handle_first_packet` below. -/
def handle_lws_receive (sh : rr_shared) (client : rr_server_client) (packet : List Nat) :
    receive_result :=
  let data := sh.rr_decrypt packet client.serverbound_encryption_key
  let c1 := { client with
    serverbound_encryption_key :=
      sh.rr_get_hash (sh.rr_get_hash client.serverbound_encryption_key) }
  if ¬ c1.received_first_packet then
    let c2 := { c1 with received_first_packet := true }
    let r1 := sh.proto_bug_read_uint64 data
    let r2 := sh.proto_bug_read_uint64 r1.2
    if r2.1 ≠ c2.requested_verification then
      { client := { c2 with pending_kick := true }, ret := -1, dispatched := none }
    else
      { client := c2, ret := 0, dispatched := none }
  else if ¬ c1.verified then
    { client := c1, ret := 0, dispatched := none }
  else
    let c2 := { c1 with quick_verification := sh.rr_get_hash c1.quick_verification % 256 }
    let qv := sh.proto_bug_read_uint8 data
    if qv.1 ≠ c2.quick_verification then
      { client := { c2 with pending_kick := true }, ret := -1, dispatched := none }
    else
      let header := sh.proto_bug_read_uint8 qv.2
      { client := c2, ret := 0, dispatched := some (header.1, header.2) }

/-- Outcome of one `LWS_CALLBACK_SERVER_WRITEABLE`: the client record, the messages given
to `lws_write` in order, and the return value. -/
structure writeable_result where
  client : rr_server_client
  written : List rr_server_client_message
  ret : Int

/-- Case `LWS_CALLBACK_SERVER_WRITEABLE` (Server.c 456-491): a client pending kick has its queue
freed unsent and the connection closed; otherwise every queued message is written out.
Either way the queue is emptied and `message_length` reset. -/
def handle_lws_writeable (client : rr_server_client) : writeable_result :=
  if client.pending_kick then
    { client := { client with messages := [], message_length := 0 }, written := [], ret := -1 }
  else
    { client := { client with messages := [], message_length := 0 },
      written := client.messages, ret := 0 }

/-- The callbacks and writes that act on one client during a session. -/
inductive session_event where
  | write (data : List pb_field)
  | writeable
  | receive (packet : List Nat)

/-- A client together with everything written to its socket so far. -/
structure session where
  client : rr_server_client
  wire : List rr_server_client_message

/-- One event of a session. -/
def session_step (sh : rr_shared) (s : session) : session_event → session
  | session_event.write data =>
      { s with client := rr_server_client_write_message sh.rr_get_hash s.client data }
  | session_event.writeable =>
      { client := (handle_lws_writeable s.client).client
        wire := s.wire ++ (handle_lws_writeable s.client).written }
  | session_event.receive packet =>
      { s with client := (handle_lws_receive sh s.client packet).client }

/-- A sequence of events, in order. -/
def session_run (sh : rr_shared) (s : session) (es : List session_event) : session :=
  es.foldl (session_step sh) s

/-- Number of `receive` events in a sequence. -/
def count_receive : List session_event → Nat
  | [] => 0
  | session_event.receive _ :: es => count_receive es + 1
  | _ :: es => count_receive es

/-- The fields of `struct rr_websocket` used by the client when a frame arrives. -/
structure rr_game_socket where
  recieved_first_packet : Bool
  clientbound_encryption_key : Nat
  serverbound_encryption_key : Nat
  quick_verification : Nat

/-- The client on a frame that is not the handshake (Game.c 877-883): the clientbound key is
hashed once, then `rr_decrypt` is run with the new key. Returns the socket and the key
given to `rr_decrypt`. -/
def rr_game_on_data (hash : Nat → Nat) (g : rr_game_socket) : rr_game_socket × Nat :=
  ({ g with clientbound_encryption_key := hash g.clientbound_encryption_key },
   hash g.clientbound_encryption_key)

/-- The client on a run of `n` frames after the handshake: the final socket and the keys
given to `rr_decrypt`, in order. -/
def rr_game_on_data_n (hash : Nat → Nat) (g : rr_game_socket) : Nat → rr_game_socket × List Nat
  | 0 => (g, [])
  | n + 1 =>
      let r := rr_game_on_data hash g
      let rest := rr_game_on_data_n hash r.1 n
      (rest.1, r.2 :: rest.2)

/-- Key agreement of a session whose clientbound key was `k0` when the first packet had
been received: the server holds `hash^N(k0)` where `N` counts the messages written to the
socket or still queued, and the `i`-th of them (from 0) was encrypted with
`hash^(i+1)(k0)`. -/
def session_keys_agree (hash : Nat → Nat) (k0 : Nat) (s : session) : Prop :=
  s.client.clientbound_encryption_key = hash^[(s.wire ++ s.client.messages).length] k0 ∧
  (s.wire ++ s.client.messages).map (fun m => m.key) =
    (List.range (s.wire ++ s.client.messages).length).map (fun i => some (hash^[i + 1] k0))

/-! ## Handshake -/

/-- Modelled from the spec: `rr_encrypt` of `Shared/Crypto.c` is missing from the tree. The
spec describes it as XOR with a keystream rolled from the key ("every packet is XORed with
the sender-side rolling keystream", "keystream XOR layers"). `ks key i` is the keystream
byte for position `i`; the first `size` bytes of the buffer are XORed with it, starting at
position `i`. -/
def rr_encrypt_from (ks : Nat → Nat → Nat) (key : Nat) : Nat → List Nat → Nat → List Nat
  | _, [], _ => []
  | _, b :: bs, 0 => b :: bs
  | i, b :: bs, size + 1 => (b ^^^ ks key i) :: rr_encrypt_from ks key (i + 1) bs size

/-- Modelled from the spec: `rr_encrypt(start, size, key)`, the keystream XOR over the
first `size` bytes. -/
def rr_encrypt (ks : Nat → Nat → Nat) (data : List Nat) (size key : Nat) : List Nat :=
  rr_encrypt_from ks key 0 data size

/-- Modelled from the spec: `rr_decrypt(start, size, key)` of `Shared/Crypto.c` is missing
from the tree; the client "deciphers via the fixed keystream passes", the same XOR. -/
def rr_decrypt (ks : Nat → Nat → Nat) (data : List Nat) (size key : Nat) : List Nat :=
  rr_encrypt_from ks key 0 data size

/-- Modelled from the spec: the fixed-size integer writers of `Shared/pb.h` are missing from
the tree; an `n`-byte integer is written low byte first. -/
def proto_bug_write_le : Nat → Nat → List Nat
  | 0, _ => []
  | n + 1, v => (v % 256) :: proto_bug_write_le n (v / 256)

/-- Modelled from the spec: value of a little-endian byte string, the inverse of
`proto_bug_write_le`. -/
def proto_bug_read_le : List Nat → Nat
  | [] => 0
  | b :: bs => b + 256 * proto_bug_read_le bs

/-- The buffer `outgoing_message[0 .. 1024)` after the four encoder writes of Server.c
388-400: verification (u64), `rr_get_rand()` (u32), clientbound key (u64), serverbound
key (u64); bytes from offset 28 on keep what the scratch buffer held (`window`). -/
def handshake_plain (window : List Nat) (verification nonce ckey skey : Nat) : List Nat :=
  proto_bug_write_le 8 verification ++ proto_bug_write_le 4 nonce ++
    proto_bug_write_le 8 ckey ++ proto_bug_write_le 8 skey ++ window.drop 28

/-- The five `rr_encrypt` calls of Server.c 401-405, in order. -/
def handshake_obscure (ks : Nat → Nat → Nat) (data : List Nat) : List Nat :=
  rr_encrypt ks
    (rr_encrypt ks
      (rr_encrypt ks
        (rr_encrypt ks
          (rr_encrypt ks data 1024 21094093777837637)
          8 1)
        1024 59731158950470853)
      1024 64709235936361169)
    1024 59013169977270713

/-- The five `rr_decrypt` calls of Game.c 847-851, in order. -/
def handshake_reveal (ks : Nat → Nat → Nat) (data : List Nat) : List Nat :=
  rr_decrypt ks
    (rr_decrypt ks
      (rr_decrypt ks
        (rr_decrypt ks
          (rr_decrypt ks data 1024 21094093777837637)
          8 1)
        1024 59731158950470853)
      1024 64709235936361169)
    1024 59013169977270713

/-- Case `LWS_CALLBACK_ESTABLISHED` for a free slot (Server.c 379-407): the client is
initialised, the handshake is built in the scratch buffer, obscured, and its first 1024
bytes are handed to `rr_server_client_write_message`. `rand0 .. rand3` are the four values
of `rr_get_rand()` in call order. -/
def handle_lws_established (hash : Nat → Nat) (ks : Nat → Nat → Nat) (RR_SECRET8 : Nat)
    (window : List Nat) (rand0 rand1 rand2 rand3 : Nat) : rr_server_client :=
  let client := rr_server_client_init RR_SECRET8 rand0 rand1 rand2
  rr_server_client_write_message hash client
    [pb_field.raw ((handshake_obscure ks
      (handshake_plain window client.requested_verification rand3
        client.clientbound_encryption_key client.serverbound_encryption_key)).take 1024)]

/-- What the client keeps from the handshake frame. -/
structure handshake_read where
  verification : Nat
  socket : rr_game_socket

/-- The client on the first frame (Game.c 844-859): five `rr_decrypt` passes, then the
verification (u64), four unused bytes, and the two keys (u64 each) are read in order. -/
def rr_game_on_handshake (ks : Nat → Nat → Nat) (RR_SECRET8 : Nat) (data : List Nat) :
    handshake_read :=
  let d := handshake_reveal ks data
  { verification := proto_bug_read_le (d.take 8)
    socket :=
      { recieved_first_packet := true
        clientbound_encryption_key := proto_bug_read_le ((d.drop 12).take 8)
        serverbound_encryption_key := proto_bug_read_le ((d.drop 20).take 8)
        quick_verification := RR_SECRET8 } }

/-- A keystream used where a concrete handshake is evaluated. -/
def sample_keystream (key i : Nat) : Nat := (key + 7 * i) % 256

/-! ## Entities and deferred deletion (`Server/Simulation.c`) -/

/-- The fields of `struct rr_simulation` behind entity liveness and deletion. An entity
index is 16 bits wide, `entity_hash_tracker` holds its 16-bit generation, and the three
bitsets are indexed by entity. `component_tracker k e` tells whether component kind `k` is
attached to `e`; `components_freed e` records that the free hooks have run for `e`. -/
structure rr_simulation where
  entity_tracker : Nat → Bool
  entity_hash_tracker : Nat → Nat
  pending_deletions : Nat → Bool
  deleted_last_tick : Nat → Bool
  component_tracker : Nat → Nat → Bool
  components_freed : Nat → Bool

/-- Function `rr_simulation_entity_alive` (Simulation.c 455-460): `(EntityIdx)hash` is the low 16
bits, `hash >> 16` the generation. -/
def rr_simulation_entity_alive (this : rr_simulation) (hash : Nat) : Bool :=
  this.entity_tracker (hash % 65536) &&
    decide (this.entity_hash_tracker (hash % 65536) = hash >>> 16) &&
    !this.deleted_last_tick (hash % 65536)

/-- Function `rr_simulation_get_entity_hash` (Simulation.c 462-466). -/
def rr_simulation_get_entity_hash (this : rr_simulation) (id : Nat) : Nat :=
  (this.entity_hash_tracker id <<< 16) ||| id

/-- Modelled from the spec: `rr_simulation_request_entity_deletion` of
`Server/EntityAllocation.c` is missing from the tree; "`request_deletion(e)` sets a bit;
subsequent `entity_alive(hash)` returns false; components are freed at end of tick". The
bit of `e` is set in `pending_deletions`, which `rr_simulation_tick` copies to find the
entities to free, and in `deleted_last_tick`, the set that `rr_simulation_entity_alive`
reads; trackers and components are left alone. -/
def rr_simulation_request_entity_deletion (this : rr_simulation) (entity : Nat) :
    rr_simulation :=
  { this with
    pending_deletions := fun i => if i = entity then true else this.pending_deletions i
    deleted_last_tick := fun i => if i = entity then true else this.deleted_last_tick i }

/-- Modelled from the spec: `rr_simulation_has_<component>`, the lookup of a component of
an entity, reads the component's tracker. -/
def rr_simulation_has_component (this : rr_simulation) (kind entity : Nat) : Bool :=
  this.component_tracker kind entity

/-- Modelled from the spec: `__rr_simulation_pending_deletion_free_components` of
`Server/EntityAllocation.c` is missing from the tree; "the sweep invokes each component's
free hook" for the entity. -/
def pending_deletion_free_components (entity : Nat) (this : rr_simulation) : rr_simulation :=
  { this with components_freed := fun i => if i = entity then true else this.components_freed i }

/-- Modelled from the spec: `__rr_simulation_pending_deletion_unset_entity` of
`Server/EntityAllocation.c` is missing from the tree; after it "all components of E are
absent" and the entity's slot is free. -/
def pending_deletion_unset_entity (entity : Nat) (this : rr_simulation) : rr_simulation :=
  { this with
    entity_tracker := fun i => if i = entity then false else this.entity_tracker i
    component_tracker := fun k i => if i = entity then false else this.component_tracker k i }

/-- Call of `rr_bitset_for_each_bit` over `deleted_last_tick`: the callback is run for every set
bit below `max`, in increasing order. -/
def for_each_deleted (max : Nat) (cb : Nat → rr_simulation → rr_simulation)
    (this : rr_simulation) : rr_simulation :=
  (List.range max).foldl (fun s i => if s.deleted_last_tick i then cb i s else s) this

/-- Function `rr_simulation_tick` (Simulation.c 421-453). `systems` stands for the passes of lines
423-437 (component vectors, the systems, `tick_maze`), `max` for `RR_MAX_ENTITY_COUNT`.
Then `memcpy` of `pending_deletions` into `deleted_last_tick`, `memset` of
`pending_deletions`, and the two sweeps over `deleted_last_tick`. -/
def rr_simulation_tick (max : Nat) (systems : rr_simulation → rr_simulation)
    (this : rr_simulation) : rr_simulation :=
  let s1 := systems this
  let s2 := { s1 with
    deleted_last_tick := s1.pending_deletions
    pending_deletions := fun _ => false }
  let s3 := for_each_deleted max pending_deletion_free_components s2
  for_each_deleted max pending_deletion_unset_entity s3

/-- A simulation with one live entity, index 5 and generation 3, carrying component 0. -/
def simulation_one : rr_simulation :=
  { entity_tracker := fun i => decide (i = 5)
    entity_hash_tracker := fun i => if i = 5 then 3 else 0
    pending_deletions := fun _ => false
    deleted_last_tick := fun _ => false
    component_tracker := fun k i => decide (k = 0 ∧ i = 5)
    components_freed := fun _ => false }

/-! ## Mobs: despawn and loot (`Server/Simulation.c`, `Shared/Component/Mob.c`) -/

/-- Row 9 of `RR_MOB_DATA` and of `RR_MOB_NAMES` ("Meteor"). -/
def rr_mob_id_meteor : Nat := 9

/-- The fields of `struct rr_component_mob` used by despawn and by the free hook. -/
structure rr_component_mob where
  id : Nat
  rarity : Nat
  player_spawned : Bool
  no_drop : Bool
  ticks_to_despawn : Nat

/-- The fields of `struct rr_component_health` read by the free hook. -/
structure rr_component_health where
  max_health : ℚ
  squad_damage_counter : Nat → ℚ

/-- What the free hook reads of an arena component attached to the mob's own entity:
whether there is one, its `player_entered` flag and `first_squad_to_enter`. -/
structure rr_mob_arena where
  has_arena : Bool
  player_entered : Bool
  first_squad_to_enter : Nat

/-- A drop entity created by the free hook: petal id, rarity and the squad that may pick
it up. -/
structure rr_component_drop where
  id : Nat
  rarity : Nat
  can_be_picked_up_by : Nat
  deriving DecidableEq, Repr

/-- Outcome of `despawn_mob` for one mob: the mob component and whether
`rr_simulation_request_entity_deletion` was called for it. -/
structure despawn_result where
  mob : rr_component_mob
  deletion_requested : Bool

/-- Function `despawn_mob` (Simulation.c 273-305). `arena` is `physical->arena`, `has_arena` tells
whether the entity carries an arena component, `player_count` is that of the maze cell
under the mob. The pre-decrement of the unsigned timer wraps at 0. -/
def despawn_mob (mob : rr_component_mob) (arena : Nat) (has_arena : Bool)
    (player_count : Nat) : despawn_result :=
  if arena ≠ 1 then { mob := mob, deletion_requested := false }
  else if has_arena then { mob := mob, deletion_requested := false }
  else if mob.player_spawned then { mob := mob, deletion_requested := false }
  else if player_count = 0 then
    let t0 := if mob.ticks_to_despawn > 30 * 25 then 30 * 25 else mob.ticks_to_despawn
    let t1 := (t0 + 2 ^ 32 - 1) % 2 ^ 32
    if t1 = 0 then
      { mob := { mob with ticks_to_despawn := t1, no_drop := false },
        deletion_requested := true }
    else
      { mob := { mob with ticks_to_despawn := t1 }, deletion_requested := false }
  else
    { mob := { mob with ticks_to_despawn := 30 * 25 }, deletion_requested := false }

/-- Function `despawn_mob` on consecutive ticks of a mob in arena 1 without arena component;
`counts` lists the `player_count` of its cell tick by tick. The run stops with the tick
that requests the deletion (the entity is freed at the end of that tick). -/
def despawn_run (mob : rr_component_mob) : List Nat → despawn_result
  | [] => { mob := mob, deletion_requested := false }
  | c :: cs =>
      if (despawn_mob mob 1 false c).deletion_requested then despawn_mob mob 1 false c
      else despawn_run (despawn_mob mob 1 false c).mob cs

/-- The squad filter at the head of the loop of `rr_component_mob_free` (Mob.c 89-103):
`true` when the loop body goes on to the gallery and loot code for `squad`, `false` when
it hits one of the `continue`s. `golden` is `rr_mob_id_golden_meteor`. -/
def mob_free_rolls_loot (golden : Nat) (mob : rr_component_mob) (arena : rr_mob_arena)
    (health : rr_component_health) (squad : Nat) : Bool :=
  if arena.has_arena ∧ arena.player_entered then
    if squad ≠ arena.first_squad_to_enter then false else true
  else if mob.id ≠ rr_mob_id_meteor ∧
      health.squad_damage_counter squad ≤ health.max_health * (2 / 10) then false
  else if mob.id = golden ∧
      health.squad_damage_counter squad ≤ health.max_health * (2 / 10) then false
  else true

/-- Function `rr_component_mob_free` (Mob.c 57-192) as far as drops go: the drop entities created.
`squad_count` is `RR_SQUAD_COUNT`; `loot squad` is the list of (petal id, rarity) pairs
that the rolls of lines 131-163 produce for that squad. The grid-point and mob-count
bookkeeping and the gallery updates of lines 76-84 and 105-129 create no entity. -/
def rr_component_mob_free (squad_count golden : Nat) (mob : rr_component_mob)
    (arena : rr_mob_arena) (health : rr_component_health)
    (loot : Nat → List (Nat × Nat)) : List rr_component_drop :=
  if mob.player_spawned then []
  else if mob.no_drop then []
  else
    ((List.range squad_count).filter (mob_free_rolls_loot golden mob arena health)).flatMap
      (fun squad => (loot squad).map
        (fun d => { id := d.1, rarity := d.2, can_be_picked_up_by := squad }))

/-- No arena component on the mob's entity. -/
def no_arena : rr_mob_arena :=
  { has_arena := false, player_entered := false, first_squad_to_enter := 0 }

/-- Scenario S6: a mob of 100 health points, squad 0 dealt 60 and squad 1 dealt `b`. -/
def health_S6 (b : ℚ) : rr_component_health :=
  { max_health := 100
    squad_damage_counter := fun s => if s = 0 then 60 else if s = 1 then b else 0 }

/-- A wild triceratops (row 0 of `RR_MOB_DATA`), freshly spawned. -/
def mob_S6 : rr_component_mob :=
  { id := 0, rarity := 0, player_spawned := false, no_drop := false,
    ticks_to_despawn := 120 * 25 }

/-- Scenario S5: a wild meteor left alone. -/
def mob_S5 : rr_component_mob :=
  { id := rr_mob_id_meteor, rarity := 0, player_spawned := false, no_drop := false,
    ticks_to_despawn := 120 * 25 }

/-- Health of a mob nobody has hit. -/
def health_untouched : rr_component_health :=
  { max_health := 100, squad_damage_counter := fun _ => 0 }

/-! ## Account persistence (`rr_server_client_write_to_api`, `rr_server_client_read_from_api`) -/

/-- Modelled from the spec: the `rr_binary_encoder` of `Shared/Binary.h` is missing from the
tree. A buffer is the sequence of fields written to it: a byte, a varuint, a 64-bit float
or a NUL-terminated string. -/
inductive api_field where
  | uint8 (v : Nat)
  | varuint (v : Nat)
  | float64 (v : ℚ)
  | nt_string (s : String)
  deriving DecidableEq

/-- Modelled from the spec: `rr_binary_encoder_read_uint8`, the value of the next field and
the rest of the buffer; a read that does not meet a byte yields 0. -/
def rr_binary_encoder_read_uint8 : List api_field → Nat × List api_field
  | api_field.uint8 v :: rest => (v, rest)
  | _ :: rest => (0, rest)
  | [] => (0, [])

/-- Modelled from the spec: `rr_binary_encoder_read_varuint`, stored into a `uint32_t` by
the caller. -/
def rr_binary_encoder_read_varuint : List api_field → Nat × List api_field
  | api_field.varuint v :: rest => (v % 2 ^ 32, rest)
  | _ :: rest => (0, rest)
  | [] => (0, [])

/-- Modelled from the spec: `rr_binary_encoder_read_float64`. -/
def rr_binary_encoder_read_float64 : List api_field → ℚ × List api_field
  | api_field.float64 v :: rest => (v, rest)
  | _ :: rest => (0, rest)
  | [] => (0, [])

/-- Modelled from the spec: `rr_binary_encoder_read_nt_string`. -/
def rr_binary_encoder_read_nt_string : List api_field → String × List api_field
  | api_field.nt_string s :: rest => (s, rest)
  | _ :: rest => ("", rest)
  | [] => ("", [])

/-- One of the three pairs of nested loops of `rr_server_client_write_to_api` (Client.c
315-346): for every `id` of `ids` and every rarity, a non-zero `table[id][rarity]` is
written as the byte `id + shift`, the byte `rarity` and the varuint count. -/
def api_write_table (table : Nat → Nat → Nat) (ids : List Nat) (shift : Nat) :
    List api_field :=
  ids.flatMap (fun id => (List.range rr_rarity_id_max).flatMap (fun rarity =>
    if table id rarity = 0 then []
    else [api_field.uint8 ((id + shift) % 256), api_field.uint8 rarity,
          api_field.varuint (table id rarity)]))

/-- Function `rr_server_client_write_to_api` (Client.c 305-350): the buffer given to
`lws_write`, or `none` for a dev client, for which nothing is written. `mob_id_max` is
`rr_mob_id_max`. -/
def rr_server_client_write_to_api (mob_id_max : Nat) (this : rr_server_client) :
    Option (List api_field) :=
  if this.dev then none
  else
    some ([api_field.uint8 2, api_field.nt_string this.uuid,
        api_field.float64 this.experience, api_field.uint8 (this.checkpoint % 256)] ++
      api_write_table this.inventory (List.range' 1 (rr_petal_id_max - 1)) 0 ++
      [api_field.uint8 0] ++
      api_write_table this.craft_fails (List.range' 1 (rr_petal_id_max - 1)) 0 ++
      [api_field.uint8 0] ++
      api_write_table this.mob_gallery (List.range mob_id_max) 1 ++
      [api_field.uint8 0])

/-- One of the three `while (id)` loops of `rr_server_client_read_from_api` (Client.c
276-301), entered with `id` already read: `table[id - shift][rarity] = count` when
`id - shift < id_max` and `rarity < rr_rarity_id_max`, then the next `id` is read. Every
pass but the first follows a non-zero byte taken from the buffer, so `fuel` above the
length of the buffer is never used up. -/
def api_read_table (id_max shift : Nat) :
    Nat → Nat → List api_field → (Nat → Nat → Nat) → (Nat → Nat → Nat) × List api_field
  | 0, _, rest, table => (table, rest)
  | fuel + 1, id, rest, table =>
      if id = 0 then (table, rest)
      else
        let rarity := rr_binary_encoder_read_uint8 rest
        let count := rr_binary_encoder_read_varuint rarity.2
        let table1 :=
          if id - shift < id_max ∧ rarity.1 < rr_rarity_id_max then
            set2 table (id - shift) rarity.1 count.1
          else table
        let next := rr_binary_encoder_read_uint8 count.2
        api_read_table id_max shift fuel next.1 next.2 table1

/-- The read of the first `id` followed by the loop. -/
def api_read_list (id_max shift : Nat) (buffer : List api_field) (table : Nat → Nat → Nat) :
    (Nat → Nat → Nat) × List api_field :=
  api_read_table id_max shift (buffer.length + 1) (rr_binary_encoder_read_uint8 buffer).1
    (rr_binary_encoder_read_uint8 buffer).2 table

/-- Function `rr_server_client_read_from_api` (Client.c 245-303): the return value and the
client. `xp_to_reach_level` belongs to `Shared/Utilities`; it is only used for a dev
client. -/
def rr_server_client_read_from_api (mob_id_max : Nat) (xp_to_reach_level : Nat → ℚ)
    (this : rr_server_client) (encoder : List api_field) : Nat × rr_server_client :=
  let this0 := { this with
    inventory := fun _ _ => 0, craft_fails := fun _ _ => 0, mob_gallery := fun _ _ => 0 }
  let uuid := rr_binary_encoder_read_nt_string encoder
  if uuid.1 ≠ this0.uuid then (0, this0)
  else if this0.dev then
    (1, { this0 with
      checkpoint := 4
      experience := ((List.range' 2 299).map xp_to_reach_level).sum
      inventory := fun id rarity =>
        if 1 ≤ id ∧ id < rr_petal_id_max ∧ rarity < rr_rarity_id_max then 1000000 else 0
      mob_gallery := fun id rarity =>
        if id < mob_id_max ∧ rarity < rr_rarity_id_max then 1 else 0 })
  else
    let experience := rr_binary_encoder_read_float64 uuid.2
    let checkpoint := rr_binary_encoder_read_uint8 experience.2
    let inventory := api_read_list rr_petal_id_max 0 checkpoint.2 this0.inventory
    let craft_fails := api_read_list rr_petal_id_max 0 inventory.2 this0.craft_fails
    let mob_gallery := api_read_list mob_id_max 1 craft_fails.2 this0.mob_gallery
    (1, { this0 with
      experience := experience.1
      checkpoint := checkpoint.1
      inventory := inventory.1
      craft_fails := craft_fails.1
      mob_gallery := mob_gallery.1 })

/-- The fields written for a list of (byte, rarity, count) entries. -/
def api_encode_triples : List (Nat × Nat × Nat) → List api_field
  | [] => []
  | t :: ts =>
      api_field.uint8 t.1 :: api_field.uint8 t.2.1 :: api_field.varuint t.2.2 ::
        api_encode_triples ts

/-- The entries that `api_write_table` writes, in order. -/
def api_table_triples (table : Nat → Nat → Nat) (ids : List Nat) (shift : Nat) :
    List (Nat × Nat × Nat) :=
  ids.flatMap (fun id => (List.range rr_rarity_id_max).flatMap (fun rarity =>
    if table id rarity = 0 then [] else [((id + shift) % 256, rarity, table id rarity)]))

/-- The assignment made by one pass of the read loop for the entry `t`. -/
def api_apply_triple (id_max shift : Nat) (table : Nat → Nat → Nat) (t : Nat × Nat × Nat) :
    Nat → Nat → Nat :=
  if t.1 - shift < id_max ∧ t.2.1 < rr_rarity_id_max then
    set2 table (t.1 - shift) t.2.1 (t.2.2 % 2 ^ 32)
  else table

/-! ## The server: clients, squads and player_info components -/

/-- Modelled from the spec: the header of the `squad_fail` frame, fourth in the list of
clientbound packet headers. -/
def rr_clientbound_squad_fail : Nat := 3

/-- Modelled from the spec: "a null entity is reserved"; the handlers only compare with
it. -/
def RR_NULL_ENTITY : Nat := 0

/-- Modelled from the spec: squads are "4-slot rooms". -/
def RR_SQUAD_MEMBER_COUNT : Nat := 4

/-- Modelled from the spec: one entry of a loadout, a petal id and a rarity. -/
structure rr_id_rarity_pair where
  id : Nat := 0
  rarity : Nat := 0
  deriving DecidableEq

/-- Modelled from the spec: a slot of a squad, with the fields that `Server.c` uses.
`client` is the pointer to the client, as an index into `clients`; `kick_vote_pos` is
signed, `-1` standing for no vote. -/
structure rr_squad_member where
  in_use : Bool := false
  client : Nat := 0
  is_dev : Bool := false
  playing : Bool := false
  kick_vote_count : Nat := 0
  kick_vote_pos : Int := -1
  nickname : String := ""
  loadout : Nat → rr_id_rarity_pair := fun _ => {}
  level : Nat := 0

/-- Modelled from the spec: a squad, "a room of up to 4 clients", with its owner's
position, its private flag, its join code and the flag that exposes the code. -/
structure rr_squad where
  members : Nat → rr_squad_member := fun _ => {}
  owner : Nat := 0
  «private» : Bool := false
  expose_code : Bool := false
  squad_code : String := ""

/-- Modelled from the spec: the player_info component, with the fields that the
connection handlers use. -/
structure rr_component_player_info where
  parent_id : Nat
  client : Nat := 0
  flower_id : Nat := RR_NULL_ENTITY
  input : Nat := 0
  entities_in_view : Nat → Bool := fun _ => false

/-- The server record `struct rr_server`, with the fields that the connection handlers
use. `player_info` is the storage of the player_info components, by entity. -/
structure rr_server where
  clients : Nat → rr_server_client
  clients_in_use : Nat → Bool
  squads : Nat → rr_squad
  simulation : rr_simulation
  player_info : Nat → rr_component_player_info
  server_alias : String := ""

/-- The constants and functions of headers and files that are not part of the tree
(`Server/Squad.c`, `Shared/Utilities.c`, `Server/Simulation.h`), as parameters. -/
structure rr_server_env where
  RR_MAX_CLIENT_COUNT : Nat
  RR_SQUAD_COUNT : Nat
  RR_MAX_SLOT_COUNT : Nat
  rr_get_hash : Nat → Nat
  rr_client_leave_squad : rr_server → Nat → rr_server
  is_dead_flower : rr_simulation → Nat → Bool
  rr_trim_string : String → String
  rr_validate_user_string : String → Bool

/-- Assignment `this->clients[i] = c`. -/
def set_client (this : rr_server) (i : Nat) (c : rr_server_client) : rr_server :=
  { this with clients := fun k => if k = i then c else this.clients k }

/-- Assignment `this->squads[squad].members[pos] = m`. -/
def set_member (this : rr_server) (squad pos : Nat) (m : rr_squad_member) : rr_server :=
  { this with squads := fun q =>
      if q = squad then
        { this.squads q with members := fun p =>
            if p = pos then m else (this.squads q).members p }
      else this.squads q }

/-- Modelled from the spec: `rr_squad_get_client_slot` of `Server/Squad.c`, the slot at
the client's "squad/position". -/
def rr_squad_get_client_slot (this : rr_server) (client : rr_server_client) :
    rr_squad_member :=
  (this.squads client.squad).members client.squad_pos

/-- Function `rr_server_client_free` (Server.c 118-142), for the client at index `i`: the
player_info entity, if any, is requested for deletion, the client leaves its squad, every
client forgets having blocked `i`, and the queue is freed. -/
def rr_server_client_free (env : rr_server_env) (server : rr_server) (i : Nat) : rr_server :=
  let s1 : rr_server :=
    match (server.clients i).player_info with
    | some p =>
        { server with simulation :=
            (rr_simulation_request_entity_deletion server.simulation
              (server.player_info p).parent_id) }
    | none => server
  let s2 := env.rr_client_leave_squad s1 i
  { s2 with clients := fun j =>
      let c := s2.clients j
      let c1 :=
        if j < env.RR_MAX_CLIENT_COUNT then
          { c with blocked_clients := fun k => if k = i % 256 then false else c.blocked_clients k }
        else c
      if j = i then { c1 with messages := [], message_length := 0 } else c1 }

/-- The marking done by case `LWS_CALLBACK_CLOSED` (Server.c 422-427) on the client at
index `i`: disconnected, no acceleration, no input. The socket handle is not part of the
record. -/
def lws_closed_mark (this : rr_server) (i : Nat) : rr_server :=
  let c := this.clients i
  let c1 := { c with disconnected := true, player_accel_x := 0, player_accel_y := 0 }
  let s1 := set_client this i c1
  match c1.player_info with
  | some p =>
      { s1 with player_info := fun e =>
          if e = p then { s1.player_info e with input := 0 } else s1.player_info e }
  | none => s1

/-- Case `LWS_CALLBACK_CLOSED` of `handle_lws_event` (Server.c 416-455) for the client at
index `i`. The notice written to the api socket is not part of the record. -/
def handle_lws_closed (env : rr_server_env) (this : rr_server) (i : Nat) : rr_server :=
  let s2 := lws_closed_mark this i
  if (s2.clients i).verified = false ∨ (s2.clients i).pending_kick = true then
    rr_server_client_free env
      { set_client s2 i { s2.clients i with in_use := false } with
        clients_in_use := fun k => if k = i then false else s2.clients_in_use k } i
  else s2

/-- The test `player_info != NULL && flower_id != RR_NULL_ENTITY && !is_dead_flower(...)`
of `server_tick` (Server.c 1491-1494). -/
def client_flower_alive (env : rr_server_env) (this : rr_server) (client : rr_server_client) :
    Bool :=
  match client.player_info with
  | none => false
  | some p =>
      decide ((this.player_info p).flower_id ≠ RR_NULL_ENTITY) &&
        !env.is_dead_flower this.simulation (this.player_info p).flower_id

/-- The two decrements of `server_tick` (Server.c 1468-1471): each cooldown counts down
while it is above 0. -/
def server_tick_cooldown_client (c0 : rr_server_client) : rr_server_client :=
  let c1 :=
    if c0.ticks_to_next_squad_action > 0 then
      { c0 with ticks_to_next_squad_action := c0.ticks_to_next_squad_action - 1 }
    else c0
  if c1.ticks_to_next_kick_vote > 0 then
    { c1 with ticks_to_next_kick_vote := c1.ticks_to_next_kick_vote - 1 }
  else c1

/-- The kick-vote bookkeeping of `server_tick` (Server.c 1469-1480) for the client at
index `i`: both cooldowns count down, and when the kick-vote cooldown reaches 0 in a
squad, the vote of the client's slot is withdrawn (`kick_vote_count` is a byte). -/
def server_tick_cooldowns (this : rr_server) (i : Nat) : rr_server :=
  let c0 := this.clients i
  let c2 := server_tick_cooldown_client c0
  let s2 := set_client this i c2
  if c0.ticks_to_next_kick_vote > 0 ∧ c2.ticks_to_next_kick_vote = 0 ∧ c2.in_squad = true then
    let member := rr_squad_get_client_slot s2 c2
    if member.kick_vote_pos ≠ -1 then
      let voted := (s2.squads c2.squad).members member.kick_vote_pos.toNat
      let s3 := set_member s2 c2.squad member.kick_vote_pos.toNat
        { voted with kick_vote_count := (voted.kick_vote_count + 255) % 256 }
      set_member s3 c2.squad c2.squad_pos
        { rr_squad_get_client_slot s3 c2 with kick_vote_pos := -1 }
    else s2
  else s2

/-- The first half of the AFK kick of `server_tick` (Server.c 1497-1500) for the client at
index `i`, which has a player_info: the entity is requested for deletion and the pointer
set to `NULL`. -/
def server_tick_afk_request (this : rr_server) (i : Nat) : rr_server :=
  let s5 : rr_server :=
    match (this.clients i).player_info with
    | some p =>
        { this with simulation :=
            (rr_simulation_request_entity_deletion this.simulation
              (this.player_info p).parent_id) }
    | none => this
  set_client s5 i { s5.clients i with player_info := none }

/-- The second half of the AFK kick (Server.c 1501-1513): the client leaves its squad
and, unless disconnected, is sent `squad_fail` with fail type 3. -/
def server_tick_afk_notify (env : rr_server_env) (this : rr_server) (i : Nat) : rr_server :=
  let s7 := env.rr_client_leave_squad this i
  if (s7.clients i).disconnected = false then
    set_client s7 i
      (rr_server_client_write_message env.rr_get_hash (s7.clients i)
        [pb_field.uint8 rr_clientbound_squad_fail, pb_field.uint8 3])
  else s7

/-- The body of the loop of `server_tick` (Server.c 1465-1517) for the client at index
`i`, whose bit in `clients_in_use` is set: the cooldowns, the grace window of a
disconnected client, and the AFK counter. The rest of the body (1518-1622) writes the
update frame for the client. -/
def server_tick_client (env : rr_server_env) (this : rr_server) (i : Nat) : rr_server :=
  let s3 := server_tick_cooldowns this i
  let c3 := s3.clients i
  if c3.disconnected then
    let c4 := { c3 with disconnected_ticks := c3.disconnected_ticks + 1 }
    let s4 := set_client s3 i c4
    if c4.disconnected_ticks > 60 * 25 then
      rr_server_client_free env
        { set_client s4 i { c4 with in_use := false } with
          clients_in_use := fun k => if k = i then false else s4.clients_in_use k } i
    else s4
  else if c3.dev = false ∧ client_flower_alive env s3 c3 = true then
    let c4 := { c3 with afk_ticks := c3.afk_ticks + 1 }
    let s4 := set_client s3 i c4
    if c4.afk_ticks > 10 * 60 * 25 then
      server_tick_afk_notify env (server_tick_afk_request s4 i) i
    else s4
  else set_client s3 i { c3 with afk_ticks := 0 }

/-- Case `rr_serverbound_input` past its first guard (Server.c 675-731), for the client at
index `i` with the player_info `p`: `movementFlags` is the byte read from the packet, and
`x`, `y` are the values that lines 679-712 compute from it, from the mouse coordinates
and from `speed_percent`. -/
def rr_serverbound_input_apply (env : rr_server_env) (this : rr_server) (i p : Nat)
    (movementFlags : Nat) (x y : ℚ) : rr_server :=
  let client := this.clients i
  if (this.player_info p).flower_id = RR_NULL_ENTITY ∨
      env.is_dead_flower this.simulation (this.player_info p).flower_id = true then this
  else
    let c1 :=
      if (x ≠ 0 ∨ y ≠ 0) ∧ |x| < 10000 ∧ |y| < 10000 then
        { (if client.player_accel_x ≠ x ∨ client.player_accel_y ≠ y then
            { client with afk_ticks := 0 } else client) with
          player_accel_x := x, player_accel_y := y }
      else
        { (if client.player_accel_x ≠ 0 ∨ client.player_accel_y ≠ 0 then
            { client with afk_ticks := 0 } else client) with
          player_accel_x := 0, player_accel_y := 0 }
    let c2 :=
      if (this.player_info p).input ≠ (movementFlags >>> 4) &&& 3 then
        { c1 with afk_ticks := 0 }
      else c1
    { set_client this i c2 with player_info := (fun e =>
        if e = p then { this.player_info e with input := (movementFlags >>> 4) &&& 3 }
        else this.player_info e) }

/-- Case `rr_serverbound_input` of the packet switch (Server.c 671-732) for the client at
index `i`: nothing happens without a player_info. -/
def rr_serverbound_input (env : rr_server_env) (this : rr_server) (i : Nat)
    (movementFlags : Nat) (x y : ℚ) : rr_server :=
  match (this.clients i).player_info with
  | none => this
  | some p => rr_serverbound_input_apply env this i p movementFlags x y

/-- The events that reach one client of the server: a pass of `server_tick` over it, or
an input packet from it. -/
inductive client_event where
  | tick
  | input (movementFlags : Nat) (x y : ℚ)

/-- The effect of one event on the server. -/
def client_step (env : rr_server_env) (i : Nat) (this : rr_server) :
    client_event → rr_server
  | client_event.tick => server_tick_client env this i
  | client_event.input movementFlags x y => rr_serverbound_input env this i movementFlags x y

/-- The server after a sequence of events of the client at index `i`. -/
def client_run (env : rr_server_env) (i : Nat) (this : rr_server)
    (events : List client_event) : rr_server :=
  events.foldl (client_step env i) this

/-- The number of ticks in a sequence of events. -/
def count_ticks : List client_event → Nat
  | [] => 0
  | client_event.tick :: es => count_ticks es + 1
  | client_event.input _ _ _ :: es => count_ticks es

/-- The acceleration that an input packet stores (Server.c 713-726). -/
def input_accel (x y : ℚ) : ℚ × ℚ :=
  if (x ≠ 0 ∨ y ≠ 0) ∧ |x| < 10000 ∧ |y| < 10000 then (x, y) else (0, 0)

/-- An event that changes neither the stored acceleration nor the input bits. -/
def input_idle (accel_x accel_y : ℚ) (input : Nat) : client_event → Prop
  | client_event.tick => True
  | client_event.input movementFlags x y =>
      input_accel x y = (accel_x, accel_y) ∧ (movementFlags >>> 4) &&& 3 = input

/-- A connected, non-dev client at index `i` with the player_info `p`, whose flower is
alive, in a server with the simulation `sim` and the player_info storage `pi`. -/
def client_in_game (env : rr_server_env) (sim : rr_simulation)
    (pi : Nat → rr_component_player_info) (p : Nat) (accel_x accel_y : ℚ) (i : Nat)
    (this : rr_server) : Prop :=
  this.simulation = sim ∧ this.player_info = pi ∧
  (this.clients i).dev = false ∧ (this.clients i).disconnected = false ∧
  (this.clients i).player_info = some p ∧
  (this.clients i).player_accel_x = accel_x ∧ (this.clients i).player_accel_y = accel_y ∧
  (pi p).flower_id ≠ RR_NULL_ENTITY ∧ env.is_dead_flower sim (pi p).flower_id = false

/-- The session of the client at index `i` is kept from `s` to `t`: its slot stays
in use, it keeps its player_info and its place in its squad, every squad keeps its
members, and the simulation (with its pending deletions) is the same. -/
def same_session (i : Nat) (s t : rr_server) : Prop :=
  t.clients_in_use = s.clients_in_use ∧ t.simulation = s.simulation ∧
  (t.clients i).in_use = (s.clients i).in_use ∧
  (t.clients i).player_info = (s.clients i).player_info ∧
  (t.clients i).in_squad = (s.clients i).in_squad ∧
  (t.clients i).squad = (s.clients i).squad ∧
  (t.clients i).squad_pos = (s.clients i).squad_pos ∧
  ∀ q r, ((t.squads q).members r).in_use = ((s.squads q).members r).in_use ∧
    ((t.squads q).members r).client = ((s.squads q).members r).client

/-! ## The first packet: account, duplicate connection, reconnect -/

/-- The uuid that the dev test of the first packet compares with (Server.c 533). -/
def dev_uuid : String := "00000000-0000-0000-0000-000000000000"

/-- The account part of the first packet (Server.c 523-542), reached once the
verification value has matched: `rivet_account` is zeroed and read (only the uuid is part
of the record), then the client is marked dev, always under `SANDBOX`, otherwise when its
uuid is `dev_uuid`. `_rest` is the remainder of the packet after the two strings, where
the client has put its dev flag; nothing of it is read. -/
def first_packet_account (SANDBOX : Bool) (client : rr_server_client) (uuid : String)
    (_rest : List Nat) : rr_server_client :=
  let c1 := { client with uuid := uuid }
  if SANDBOX then { c1 with dev := true }
  else if uuid = dev_uuid then { c1 with dev := true }
  else c1

/-- A loop `for (j = 0; j < n; ++j)` whose body leaves through `continue` unless `p j`,
and ends in `break` otherwise: the first `j` from `j0` on with `p j`, among `n`. -/
def find_client (p : Nat → Bool) : Nat → Nat → Option Nat
  | 0, _ => none
  | n + 1, j0 => if p j0 then some j0 else find_client p n (j0 + 1)

/-- The end of both loops of the first packet (Server.c 563-570, 621-628): a disconnected
client `j` is taken out of use and freed, a connected one is marked for kick. -/
def release_client (env : rr_server_env) (this : rr_server) (j : Nat) : rr_server :=
  if (this.clients j).disconnected then
    rr_server_client_free env
      { set_client this j { this.clients j with in_use := false } with
        clients_in_use := fun k => if k = j then false else this.clients_in_use k } j
  else set_client this j { this.clients j with pending_kick := true }

/-- The conditions under which the first loop acts on client `j` (Server.c 546-562): a
verified client in use from the same address under another uuid, neither being dev. -/
def duplicate_candidate (this : rr_server) (i j : Nat) : Bool :=
  decide (i ≠ j) && this.clients_in_use j && (this.clients j).verified &&
    !(this.clients j).pending_kick &&
    !((this.clients i).dev || (this.clients j).dev) &&
    decide ((this.clients i).uuid ≠ (this.clients j).uuid) &&
    decide ((this.clients i).ip_address = (this.clients j).ip_address)

/-- The first loop of the first packet (Server.c 544-571). -/
def first_packet_duplicate (env : rr_server_env) (this : rr_server) (i : Nat) : rr_server :=
  match find_client (duplicate_candidate this i) env.RR_MAX_CLIENT_COUNT 0 with
  | some j => release_client env this j
  | none => this

/-- The conditions under which the second loop acts on client `j` (Server.c 575-589): a
verified client in use with the same uuid and the same dev status, disconnected if
dev. -/
def adopt_candidate (this : rr_server) (i j : Nat) : Bool :=
  decide (i ≠ j) && this.clients_in_use j && (this.clients j).verified &&
    !(this.clients j).pending_kick &&
    decide ((this.clients i).dev = (this.clients j).dev) &&
    !((this.clients i).dev && !(this.clients j).disconnected) &&
    decide ((this.clients i).uuid = (this.clients j).uuid)

/-- The copies that open the transfer (Server.c 590-602): client `i` takes the
player_info, the cheats, the cooldowns and the two bitsets of client `j`. -/
def adopt_fields (this : rr_server) (i j : Nat) : rr_server :=
  set_client this i
    { this.clients i with
      player_info := (this.clients j).player_info
      dev_cheats := (this.clients j).dev_cheats
      ticks_to_next_squad_action := (this.clients j).ticks_to_next_squad_action
      ticks_to_next_kick_vote := (this.clients j).ticks_to_next_kick_vote
      joined_squad_before := (this.clients j).joined_squad_before
      blocked_clients := (this.clients j).blocked_clients }

/-- The loop over `k` (Server.c 603-609): every client that blocked `j` blocks `i`. -/
def adopt_blocked (env : rr_server_env) (this : rr_server) (i j : Nat) : rr_server :=
  { this with clients := fun k =>
    (if k < env.RR_MAX_CLIENT_COUNT ∧ (this.clients k).blocked_clients j = true then
      { this.clients k with blocked_clients := fun b =>
          if b = i then true else (this.clients k).blocked_clients b }
    else this.clients k) }

/-- The place in the squad (Server.c 610-612). -/
def adopt_squad (this : rr_server) (i j : Nat) : rr_server :=
  set_client this i
    { this.clients i with
      squad_pos := (this.clients j).squad_pos
      squad := (this.clients j).squad
      in_squad := (this.clients j).in_squad }

/-- The back-pointer of the player_info (Server.c 613-618): it points to client `i`, and
the entities in view are forgotten. -/
def adopt_player_info (this : rr_server) (i : Nat) : rr_server :=
  { this with player_info :=
    (match (this.clients i).player_info with
    | some p => fun e =>
        if e = p then
          { this.player_info e with client := i, entities_in_view := fun _ => false }
        else this.player_info e
    | none => this.player_info) }

/-- The back-pointer of the squad slot (Server.c 618-619). -/
def adopt_squad_slot (this : rr_server) (i : Nat) : rr_server :=
  { this with squads :=
    (if (this.clients i).in_squad then
      (set_member this (this.clients i).squad (this.clients i).squad_pos
        { rr_squad_get_client_slot this (this.clients i) with client := i }).squads
    else this.squads) }

/-- The transfer of the second loop (Server.c 590-621): the five steps above, after which
`j` is left without player_info and squad. -/
def adopt_transfer (env : rr_server_env) (this : rr_server) (i j : Nat) : rr_server :=
  let s5 := adopt_squad_slot
    (adopt_player_info (adopt_squad (adopt_blocked env (adopt_fields this i j) i j) i j) i) i
  set_client s5 j { s5.clients j with player_info := none, in_squad := false }

/-- The second loop of the first packet (Server.c 573-631). -/
def first_packet_adopt (env : rr_server_env) (this : rr_server) (i : Nat) : rr_server :=
  match find_client (adopt_candidate this i) env.RR_MAX_CLIENT_COUNT 0 with
  | some j => release_client env (adopt_transfer env this i j) j
  | none => this

/-- The first packet of the client at index `i` past the verification test (Server.c
523-631): the account, then the two loops. The notice to the account service that follows
is not part of the record. -/
def handle_first_packet (env : rr_server_env) (SANDBOX : Bool) (this : rr_server) (i : Nat)
    (uuid : String) (rest : List Nat) : rr_server :=
  let s1 := set_client this i (first_packet_account SANDBOX (this.clients i) uuid rest)
  first_packet_adopt env (first_packet_duplicate env s1 i) i

/-! ## Dev cheats (`rr_serverbound_dev_cheat`) -/

/-- The content of a `dev_cheat` packet: the case chosen by the cheat type byte and the
values that the case reads from the packet. `unknown` is a type byte without a case. -/
inductive rr_dev_cheat where
  | summon_mob (id rarity count no_drop : Nat)
  | kill_mobs
  | flags (flags : Nat)
  | speed_percent (v : ℚ)
  | fov_percent (v : ℚ)
  | unknown

/-- What the dev branches read from the simulation, as parameters: `rr_mob_id_max`; for
the mob number `i` of a summon and its attempt `j`, whether the position drawn lies on a
cell of the maze on which mobs may stand; the entities of the mob vector; and whether a
mob lies within reach of the camera. -/
structure dev_cheat_world where
  rr_mob_id_max : Nat
  spawn_ok : Nat → Nat → Bool
  mobs : List Nat
  in_reach : Nat → Bool

/-- Outcome of a `dev_cheat` packet: the server, and for every call of
`rr_simulation_alloc_mob` the id, the rarity and the `no_drop` of the mob. -/
structure dev_cheat_result where
  server : rr_server
  summoned : List (Nat × Nat × Nat)

/-- Function `rr_fclamp` of `Shared/Utilities`, modelled from the spec: the value kept
within the two bounds. -/
def rr_fclamp (v lo hi : ℚ) : ℚ := if v < lo then lo else if hi < v then hi else v

/-- Case `rr_serverbound_dev_cheat` of the packet switch (Server.c 1171-1292) for the
client at index `i`. Every case starts with `if (!client->dev) break;`. `kill_mobs` is
`rr_simulation_dev_cheat_kill_mob` (Server.c 324-338) over the mob vector; the `no_drop`
flag it clears and the health refilled by the `flags` case are not part of the record. -/
def rr_serverbound_dev_cheat (w : dev_cheat_world) (this : rr_server) (i : Nat) :
    rr_dev_cheat → dev_cheat_result
  | rr_dev_cheat.summon_mob id rarity count no_drop =>
      if (this.clients i).dev = false then { server := this, summoned := [] }
      else if (this.clients i).player_info = none then { server := this, summoned := [] }
      else if id ≥ w.rr_mob_id_max ∨ rarity ≥ rr_rarity_id_max then
        { server := this, summoned := [] }
      else
        { server := this
          summoned :=
            ((List.range count).filter (fun m => (List.range 255).any (w.spawn_ok m))).map
              (fun _ => (id, rarity, no_drop)) }
  | rr_dev_cheat.kill_mobs =>
      if (this.clients i).dev = false then { server := this, summoned := [] }
      else if (this.clients i).player_info = none then { server := this, summoned := [] }
      else
        { server := { this with simulation :=
            (w.mobs.foldl (fun sim e =>
              if w.in_reach e then rr_simulation_request_entity_deletion sim e else sim)
              this.simulation) }
          summoned := [] }
  | rr_dev_cheat.flags flags =>
      if (this.clients i).dev = false then { server := this, summoned := [] }
      else
        { server := set_client this i
            { this.clients i with dev_cheats :=
              { (this.clients i).dev_cheats with
                invisible := decide ((flags >>> 0) &&& 1 = 1)
                invulnerable := decide ((flags >>> 1) &&& 1 = 1)
                no_aggro := decide ((flags >>> 2) &&& 1 = 1)
                no_wall_collision := decide ((flags >>> 3) &&& 1 = 1)
                no_collision := decide ((flags >>> 4) &&& 1 = 1)
                no_grid_influence := decide ((flags >>> 5) &&& 1 = 1) } }
          summoned := [] }
  | rr_dev_cheat.speed_percent v =>
      if (this.clients i).dev = false then { server := this, summoned := [] }
      else
        { server := set_client this i
            { this.clients i with dev_cheats :=
              { (this.clients i).dev_cheats with
                speed_percent := rr_fclamp v 0 1 ^ 2 * 19 + 1 } }
          summoned := [] }
  | rr_dev_cheat.fov_percent v =>
      if (this.clients i).dev = false then { server := this, summoned := [] }
      else
        { server := set_client this i
            { this.clients i with dev_cheats :=
              { (this.clients i).dev_cheats with
                fov_percent := rr_fclamp v 0 1 ^ 2 * 19 + 1 } }
          summoned := [] }
  | rr_dev_cheat.unknown => { server := this, summoned := [] }

/-! ## Squad kick (`rr_serverbound_squad_kick`) -/

/-- The guards and the vote of case `rr_serverbound_squad_kick` (Server.c 1023-1058) for
the sender at index `i`: the server, and whether the case goes on to remove the member
(`false` stands for `break`). `kick_vote_count` is a byte. -/
def squad_kick_vote (env : rr_server_env) (SANDBOX : Bool) (this : rr_server) (i : Nat)
    (index pos : Nat) : rr_server × Bool :=
  if index ≥ env.RR_SQUAD_COUNT then (this, false)
  else if pos ≥ RR_SQUAD_MEMBER_COUNT then (this, false)
  else if ((this.squads index).members pos).in_use = false then (this, false)
  else if SANDBOX = true ∧ ((this.squads index).members pos).is_dev = true then (this, false)
  else if (this.clients i).dev = true then (this, true)
  else if (this.clients i).in_squad = false then (this, false)
  else if (this.clients i).squad ≠ index then (this, false)
  else if (this.clients i).squad_pos = pos then (this, false)
  else if (this.squads index).«private» = true then
    (if (this.clients i).squad_pos ≠ (this.squads index).owner then (this, false)
    else (this, true))
  else if (this.clients i).ticks_to_next_kick_vote > 0 then (this, false)
  else
    let s1 := set_client this i { this.clients i with ticks_to_next_kick_vote := 60 * 25 }
    let s2 := set_member s1 (s1.clients i).squad (s1.clients i).squad_pos
      { rr_squad_get_client_slot s1 (s1.clients i) with kick_vote_pos := (pos : Int) }
    let s3 := set_member s2 index pos
      { (s2.squads index).members pos with
        kick_vote_count := (((s2.squads index).members pos).kick_vote_count + 1) % 256 }
    if (((s2.squads index).members pos).kick_vote_count + 1) % 256 <
        RR_SQUAD_MEMBER_COUNT - 1 then (s3, false)
    else (s3, true)

/-- The removal that ends case `rr_serverbound_squad_kick` (Server.c 1059-1079): the
player_info of the member's client is requested for deletion, the client leaves its
squad, remembers the squad, and is sent `squad_fail` with fail type 2 if connected. -/
def squad_kick_remove (env : rr_server_env) (this : rr_server) (index pos : Nat) :
    rr_server :=
  let to_kick := ((this.squads index).members pos).client
  let s1 : rr_server :=
    match (this.clients to_kick).player_info with
    | some p =>
        set_client
          { this with simulation :=
              (rr_simulation_request_entity_deletion this.simulation
                (this.player_info p).parent_id) }
          to_kick { this.clients to_kick with player_info := none }
    | none => this
  let s2 := env.rr_client_leave_squad s1 to_kick
  let s3 := set_client s2 to_kick
    { s2.clients to_kick with joined_squad_before := fun q =>
        if q = index then true else (s2.clients to_kick).joined_squad_before q }
  if (s3.clients to_kick).disconnected then s3
  else
    set_client s3 to_kick
      (rr_server_client_write_message env.rr_get_hash (s3.clients to_kick)
        [pb_field.uint8 rr_clientbound_squad_fail, pb_field.uint8 2])

/-- Case `rr_serverbound_squad_kick` of the packet switch (Server.c 1021-1081) for the
sender at index `i`; `index` and `pos` are the two bytes read from the packet. -/
def rr_serverbound_squad_kick (env : rr_server_env) (SANDBOX : Bool) (this : rr_server)
    (i : Nat) (index pos : Nat) : rr_server :=
  if (squad_kick_vote env SANDBOX this i index pos).2 then
    squad_kick_remove env (squad_kick_vote env SANDBOX this i index pos).1 index pos
  else (squad_kick_vote env SANDBOX this i index pos).1

/-! ## Squad update (`rr_serverbound_squad_update`) -/

/-- The loop over the loadout entries of case `rr_serverbound_squad_update` (Server.c
914-942), entered at index `i` with `n` entries to go: `data` is the rest of the packet,
`temp_inv` the local copy of the inventory, `loadout` the loadout of the member, which is
written entry by entry as the packet is read. A `break` leaves the loadout as it stands;
an entry that the inventory does not cover zeroes it. -/
def squad_update_loadout (sh : rr_shared) (RR_MAX_SLOT_COUNT : Nat) :
    Nat → Nat → List Nat → (Nat → Nat → Nat) → (Nat → rr_id_rarity_pair) →
      (Nat → rr_id_rarity_pair)
  | 0, _, _, _, loadout => loadout
  | n + 1, i, data, temp_inv, loadout =>
      let id := sh.proto_bug_read_uint8 data
      let rarity := sh.proto_bug_read_uint8 id.2
      if id.1 ≥ rr_petal_id_max then loadout
      else if rarity.1 ≥ rr_rarity_id_max then loadout
      else
        let l1 : Nat → rr_id_rarity_pair := fun k =>
          if k = i then { id := id.1, rarity := rarity.1 } else loadout k
        if id.1 ≠ 0 ∧ temp_inv id.1 rarity.1 = 0 then fun _ => {}
        else
          let t1 :=
            if id.1 ≠ 0 then set2 temp_inv id.1 rarity.1 (temp_inv id.1 rarity.1 - 1)
            else temp_inv
          let id2 := sh.proto_bug_read_uint8 rarity.2
          let rarity2 := sh.proto_bug_read_uint8 id2.2
          if id2.1 ≥ rr_petal_id_max then l1
          else if rarity2.1 ≥ rr_rarity_id_max then l1
          else
            let l2 : Nat → rr_id_rarity_pair := fun k =>
              if k = i + RR_MAX_SLOT_COUNT then { id := id2.1, rarity := rarity2.1 }
              else l1 k
            if id2.1 ≠ 0 ∧ t1 id2.1 rarity2.1 = 0 then fun _ => {}
            else
              let t2 :=
                if id2.1 ≠ 0 then set2 t1 id2.1 rarity2.1 (t1 id2.1 rarity2.1 - 1) else t1
              squad_update_loadout sh RR_MAX_SLOT_COUNT n (i + 1) rarity2.2 t2 l2

/-- The name that case `rr_serverbound_squad_update` stores (Server.c 900-903): the
trimmed nickname of the packet, or "Anonymous" when that is empty or not valid. -/
def squad_update_nickname (env : rr_server_env) (nickname : String) : String :=
  if env.rr_trim_string nickname = "" ∨
      env.rr_validate_user_string (env.rr_trim_string nickname) = false then "Anonymous"
  else env.rr_trim_string nickname

/-- The writes of case `rr_serverbound_squad_update` to the slot of the sender (Server.c
898-942): `nickname` is the string read from the packet, `data` the rest of the packet,
`inventory` the inventory of the sender. -/
def squad_update_member (env : rr_server_env) (sh : rr_shared) (inventory : Nat → Nat → Nat)
    (member : rr_squad_member) (nickname : String) (data : List Nat) : rr_squad_member :=
  let m1 := { member with nickname := squad_update_nickname env nickname }
  let loadout_count := sh.proto_bug_read_uint8 data
  if loadout_count.1 > env.RR_MAX_SLOT_COUNT then m1
  else
    { m1 with loadout :=
        (squad_update_loadout sh env.RR_MAX_SLOT_COUNT loadout_count.1 0 loadout_count.2
          inventory m1.loadout) }

/-- Case `rr_serverbound_squad_update` of the packet switch (Server.c 892-942) for the
sender at index `i`. The block on `pending_quick_join` that ends the case (943-970)
writes neither the nickname nor the loadout and is not part of the function. -/
def rr_serverbound_squad_update (env : rr_server_env) (sh : rr_shared) (this : rr_server)
    (i : Nat) (nickname : String) (data : List Nat) : rr_server :=
  if (this.clients i).in_squad = false then this
  else
    set_member this (this.clients i).squad (this.clients i).squad_pos
      (squad_update_member env sh (this.clients i).inventory
        (rr_squad_get_client_slot this (this.clients i)) nickname data)

/-! ## Petal detach (`Server/System/PetalBehavior.c`) -/

/-- Row 6 of `RR_PETAL_DATA`. -/
def rr_petal_id_shell : Nat := 6

/-- Row 7 of `RR_PETAL_DATA`. -/
def rr_petal_id_peas : Nat := 7

/-- Row 15 of `RR_PETAL_DATA`. -/
def rr_petal_id_web : Nat := 15

/-- Row 16 of `RR_PETAL_DATA`. -/
def rr_petal_id_seed : Nat := 16

/-- Row 17 of `RR_PETAL_DATA`. -/
def rr_petal_id_gravel : Nat := 17

/-- Row 24 of `RR_PETAL_DATA`. -/
def rr_petal_id_nest : Nat := 24

/-- Row 26 of `RR_PETAL_DATA`. -/
def rr_petal_id_meat : Nat := 26

/-- Modelled from the spec: the petal component, with the fields that the detach logic
uses. -/
structure rr_component_petal where
  id : Nat
  rarity : Nat := 0
  detached : Bool := false
  effect_delay : Int := 0
  deriving DecidableEq

/-- Modelled from the spec: the entry of a slot for one petal, "petal entity handles
array, cooldown ticks". -/
structure rr_component_player_info_petal where
  entity_hash : Nat
  cooldown_ticks : Int
  deriving DecidableEq

/-- A petal together with the entry `slots[outer_pos].petals[inner_pos]` of its owner. -/
structure petal_slot where
  petal : rr_component_petal
  ppetal : rr_component_player_info_petal
  deriving DecidableEq

/-- Function `system_petal_detach` (PetalBehavior.c 174-185): the petal is detached, the
entry of the slot gives up its handle and starts the cooldown of the petal data. -/
def system_petal_detach (this : petal_slot) (cooldown : Int) : petal_slot :=
  { petal := { this.petal with detached := true }
    ppetal := { entity_hash := RR_NULL_ENTITY, cooldown_ticks := cooldown } }

/-- The switch on the petal id of `system_flower_petal_movement_logic` (PetalBehavior.c
250-549), entered with `effect_delay == 0`, as far as the petal flags and the entry of
the slot go. `input` is `player_info->input`, `cooldown` is `petal_data->cooldown`,
`seed_target` tells whether the seed has found a dead flower of its team within reach,
and `seed_delay` is `25 * RR_PETAL_RARITY_SCALE[rarity].seed_cooldown`. The other cases
(azalea, mint, bubble and the default) write none of these fields. -/
def petal_effect (input : Nat) (cooldown : Int) (seed_target : Bool) (seed_delay : Int)
    (this : petal_slot) : petal_slot :=
  if this.petal.id = rr_petal_id_shell then
    if input &&& 1 = 0 then this
    else
      { system_petal_detach this cooldown with
        petal := { (system_petal_detach this cooldown).petal with effect_delay := 75 } }
  else if this.petal.id = rr_petal_id_peas then
    if input &&& 1 = 0 then this
    else
      { system_petal_detach this cooldown with
        petal := { (system_petal_detach this cooldown).petal with effect_delay := 38 } }
  else if this.petal.id = rr_petal_id_web then
    if input &&& 3 = 0 then this
    else
      { system_petal_detach this cooldown with
        petal := { (system_petal_detach this cooldown).petal with effect_delay := 20 } }
  else if this.petal.id = rr_petal_id_meat then
    if input &&& 3 = 0 then this
    else { this with petal := { this.petal with detached := true, effect_delay := 500 } }
  else if this.petal.id = rr_petal_id_nest then
    if input &&& 2 = 0 then this
    else { this with petal := { this.petal with effect_delay := 15 * 25, detached := true } }
  else if this.petal.id = rr_petal_id_seed then
    if seed_target then
      { this with petal := { this.petal with effect_delay := seed_delay, detached := true } }
    else this
  else if this.petal.id = rr_petal_id_gravel then
    if input &&& 3 = 0 then this
    else
      { system_petal_detach this cooldown with
        petal := { (system_petal_detach this cooldown).petal with effect_delay := 65 } }
  else this

/-- Function `system_flower_petal_movement_logic` (PetalBehavior.c 228-610), as far as
the petal flags and the entry of the slot go: nothing without a rotation, the switch
when `effect_delay` is 0, otherwise the countdown of a petal that is not detached. The
movement that follows writes to the physical component only. -/
def system_flower_petal_movement_logic (rotation_count input : Nat) (cooldown : Int)
    (seed_target : Bool) (seed_delay : Int) (this : petal_slot) : petal_slot :=
  if rotation_count = 0 then this
  else if this.petal.effect_delay = 0 then
    petal_effect input cooldown seed_target seed_delay this
  else if this.petal.detached = false then
    { this with petal := { this.petal with effect_delay := this.petal.effect_delay - 1 } }
  else this

/-! ## Petal modifiers: the global rotation -/

/-- Row 5 of `RR_PETAL_DATA`. -/
def rr_petal_id_berry : Nat := 5

/-- Row 20 of `RR_PETAL_DATA`. -/
def rr_petal_id_droplet : Nat := 20

/-- Modelled from the spec: a slot of a player_info, "each: id, rarity, petal entity
handles array, cooldown ticks"; `petals` holds the first `count` entries. -/
structure rr_component_player_info_petal_slot where
  id : Nat
  rarity : Nat := 0
  petals : List rr_component_player_info_petal := []

/-- One pass of the loop over the slots of `petal_modifiers` (PetalBehavior.c 638-699) on
the two locals `to_rotate` and `rot_count`, the latter a byte. Row `i` of
`RR_PETAL_DATA` carries the id `i`, so `data->id` is the id of the slot. The other
branches of the chain (leaf, feather, crest, third_eye, bone, magnet) write neither
local. -/
def petal_modifiers_step (acc : ℚ × Nat) (slot : rr_component_player_info_petal_slot) :
    ℚ × Nat :=
  if slot.id = rr_petal_id_berry then (acc.1 + (2 / 100 + 12 / 1000 * (slot.rarity : ℚ)), acc.2)
  else if slot.id = rr_petal_id_droplet then (acc.1, (acc.2 + 1) % 256)
  else acc

/-- The factor of the last statement of `petal_modifiers` (PetalBehavior.c 702-703):
`(rot_count % 3) ? (rot_count % 3 == 2) ? 0 : -1 : 1`. -/
def rotation_factor (rot_count : Nat) : ℚ :=
  if rot_count % 3 ≠ 0 then (if rot_count % 3 = 2 then 0 else -1) else 1

/-- Function `petal_modifiers` (PetalBehavior.c 612-704) as far as `global_rotation`
goes: `slots` are the first `slot_count` slots of the player_info, `to_rotate` starts at
0.1 and `rot_count` at 0. -/
def petal_modifiers (slots : List rr_component_player_info_petal_slot)
    (global_rotation : ℚ) : ℚ :=
  global_rotation +
    (slots.foldl petal_modifiers_step (1 / 10, 0)).1 *
      rotation_factor (slots.foldl petal_modifiers_step (1 / 10, 0)).2

/-! ## Mob AI: the per-entity tick -/

/-- The value of `rr_ai_state_idle`, the first member of its enumeration. -/
def rr_ai_state_idle : Nat := 0

/-- The fields of `struct rr_component_ai` that `system_for_each` of `Ai.c` touches. -/
structure rr_component_ai where
  target_entity : Nat
  ai_state : Nat
  ticks_until_next_action : Int
  aggro_range : ℚ

/-- The fields of `struct rr_component_physical` that `system_for_each` of `Ai.c`
touches. -/
structure rr_component_physical where
  x : ℚ
  y : ℚ
  stun_ticks : Int
  knockback_scale : ℚ

/-- The three components of the entity that `system_for_each` of `Ai.c` fetches. -/
structure ai_entity where
  ai : rr_component_ai
  mob : rr_component_mob
  physical : rr_component_physical

/-- What `system_for_each` of `Ai.c` calls but `src/` does not define, over the rest of
the simulation `W`: whether the entity is a centipede node with a parent, whether it is an
arena, `rr_simulation_entity_alive`, `is_dead_flower`, `dev_cheat_enabled(.., no_aggro)`,
the position of another entity, `rr_vector_magnitude_cmp`,
`tick_summon_return_to_owner` with the value it returns, and the `switch` over `mob->id`
that calls the species behaviour `tick_ai_*`. -/
structure ai_env (W : Type) where
  centipede_child : W → Bool
  has_arena : W → Bool
  rr_simulation_entity_alive : W → Nat → Bool
  is_dead_flower : W → Nat → Bool
  no_aggro : W → Nat → Bool
  position : W → Nat → ℚ × ℚ
  rr_vector_magnitude_cmp : ℚ × ℚ → ℚ → Int
  tick_summon_return_to_owner : ai_entity → W → (ai_entity × W) × Bool
  tick_ai_species : Nat → ai_entity → W → ai_entity × W

/-- The three assignments both target checks of `system_for_each` make: no target, idle,
and 25 ticks until the next action. -/
def ai_reset_target (ai : rr_component_ai) : rr_component_ai :=
  { ai with target_entity := RR_NULL_ENTITY, ai_state := rr_ai_state_idle,
            ticks_until_next_action := 25 }

/-- The first check of `system_for_each`: a target that is not alive, is a dead flower or
has the `no_aggro` cheat is dropped. -/
def ai_check_target_valid {W : Type} (env : ai_env W) (w : W) (ai : rr_component_ai) :
    rr_component_ai :=
  if ai.target_entity ≠ RR_NULL_ENTITY ∧
      (env.rr_simulation_entity_alive w ai.target_entity = false ∨
        env.is_dead_flower w ai.target_entity = true ∨
        env.no_aggro w ai.target_entity = true) then
    ai_reset_target ai
  else ai

/-- The second check of `system_for_each`: a target farther than `aggro_range + 200` is
dropped. -/
def ai_check_target_range {W : Type} (env : ai_env W) (w : W)
    (physical : rr_component_physical) (ai : rr_component_ai) : rr_component_ai :=
  if ai.target_entity ≠ RR_NULL_ENTITY then
    if env.rr_vector_magnitude_cmp
        (physical.x - (env.position w ai.target_entity).1,
          physical.y - (env.position w ai.target_entity).2)
        (ai.aggro_range + 200) = 1 then
      ai_reset_target ai
    else ai
  else ai

/-- The entity after both target checks of `system_for_each`. -/
def ai_target_checks {W : Type} (env : ai_env W) (e : ai_entity) (w : W) : ai_entity :=
  { e with ai := ai_check_target_range env w e.physical (ai_check_target_valid env w e.ai) }

/-- The lines `if (mob->player_spawned) if (tick_summon_return_to_owner(..)) return;` of
`system_for_each`: the state they leave and whether the function returns there. -/
def ai_summon_rule {W : Type} (env : ai_env W) (e : ai_entity) (w : W) :
    (ai_entity × W) × Bool :=
  if e.mob.player_spawned = true then env.tick_summon_return_to_owner e w
  else ((e, w), false)

/-- The branch `if (physical->stun_ticks > 0)` of `system_for_each`: the knockback scale
becomes 1 and a positive action timer goes down by one. -/
def ai_stunned (e : ai_entity) : ai_entity :=
  { e with
    physical := { e.physical with knockback_scale := 1 }
    ai := (if 0 < e.ai.ticks_until_next_action then
        { e.ai with ticks_until_next_action := e.ai.ticks_until_next_action - 1 }
      else e.ai) }

/-- The `switch (mob->id)` of `system_for_each` followed by the unconditional
`--ai->ticks_until_next_action`. -/
def ai_species_tick {W : Type} (env : ai_env W) (e : ai_entity) (w : W) : ai_entity × W :=
  ({ (env.tick_ai_species e.mob.id e w).1 with
      ai := { (env.tick_ai_species e.mob.id e w).1.ai with
        ticks_until_next_action :=
          (env.tick_ai_species e.mob.id e w).1.ai.ticks_until_next_action - 1 } },
    (env.tick_ai_species e.mob.id e w).2)

/-- The function `system_for_each` of `Server/System/Ai.c` on one entity and the rest of
the simulation. -/
def system_for_each {W : Type} (env : ai_env W) (e : ai_entity) (w : W) : ai_entity × W :=
  if env.centipede_child w = true then (e, w)
  else if env.has_arena w = true then (e, w)
  else if (ai_summon_rule env (ai_target_checks env e w) w).2 = true then
    (ai_summon_rule env (ai_target_checks env e w) w).1
  else if 0 < (ai_summon_rule env (ai_target_checks env e w) w).1.1.physical.stun_ticks then
    (ai_stunned (ai_summon_rule env (ai_target_checks env e w) w).1.1,
      (ai_summon_rule env (ai_target_checks env e w) w).1.2)
  else
    ai_species_tick env (ai_summon_rule env (ai_target_checks env e w) w).1.1
      (ai_summon_rule env (ai_target_checks env e w) w).1.2

/-! ## The squad dump of `server_tick` -/

/-- Modelled from the spec: the header of the `squad_dump` frame, second in the list of
clientbound packet headers. -/
def rr_clientbound_squad_dump : Nat := 1

/-- The byte that `proto_bug_write_uint8` is handed for a signed `int8_t`. -/
def uint8_of_int8 (v : Int) : Nat := (v % 256).toNat

/-- The byte that `proto_bug_write_uint8` is handed for a flag. -/
def uint8_of_bool (b : Bool) : Nat := if b then 1 else 0

/-- The value `kick_vote_pos` written by the squad dump (Server.c 1561-1568): `-3` outside
a squad, else the slot's value, with `-2` for "no vote, and not allowed to vote yet". -/
def squad_dump_kick_vote_pos (this : rr_server) (client : rr_server_client) : Int :=
  if client.in_squad = true then
    if (rr_squad_get_client_slot this client).kick_vote_pos = -1 ∧
        0 < client.ticks_to_next_kick_vote then -2
    else (rr_squad_get_client_slot this client).kick_vote_pos
  else -3

/-- The fields written for one slot of a squad (Server.c 1575-1601): a single 0 for a
free slot, else the member's flags, level, nickname and the `2 * RR_MAX_SLOT_COUNT`
loadout entries. The index `j` of the member's client is a `uint8_t`. -/
def squad_dump_member (env : rr_server_env) (this : rr_server) (client : rr_server_client)
    (member : rr_squad_member) : List pb_field :=
  if member.in_use = false then [pb_field.uint8 0]
  else
    [pb_field.uint8 1, pb_field.uint8 (uint8_of_bool member.playing),
     pb_field.uint8 (uint8_of_bool (this.clients member.client).disconnected),
     pb_field.uint8 (uint8_of_bool (client.blocked_clients (member.client % 256))),
     pb_field.uint8 (uint8_of_bool member.is_dev),
     pb_field.uint8 member.kick_vote_count,
     pb_field.varuint member.level,
     pb_field.string member.nickname 16] ++
    (List.range (env.RR_MAX_SLOT_COUNT * 2)).flatMap (fun j =>
      [pb_field.uint8 (member.loadout j).id, pb_field.uint8 (member.loadout j).rarity])

/-- The string `joined_code` of the squad dump (Server.c 1608-1614) for squad `s`: the
server alias and the squad's code for a dev client, an exposed code or the client's own
squad, and the constant `"(private)"` otherwise. -/
def squad_dump_joined_code (this : rr_server) (client : rr_server_client) (s : Nat) : String :=
  if client.dev = true ∨ (this.squads s).expose_code = true ∨
      (client.in_squad = true ∧ client.squad = s) then
    this.server_alias ++ "-" ++ (this.squads s).squad_code
  else "(private)"

/-- The fields written for squad `s` (Server.c 1572-1615): its `RR_SQUAD_MEMBER_COUNT`
slots, owner, private flag, `expose_code`, the biome and the squad code. -/
def squad_dump_squad (env : rr_server_env) (RR_GLOBAL_BIOME : Nat) (this : rr_server)
    (client : rr_server_client) (s : Nat) : List pb_field :=
  (List.range RR_SQUAD_MEMBER_COUNT).flatMap (fun i =>
      squad_dump_member env this client ((this.squads s).members i)) ++
    [pb_field.uint8 (this.squads s).owner,
     pb_field.uint8 (uint8_of_bool (this.squads s).«private»),
     pb_field.uint8 (uint8_of_bool (this.squads s).expose_code),
     pb_field.uint8 RR_GLOBAL_BIOME,
     pb_field.string (squad_dump_joined_code this client s) 16]

/-- The squad dump that `server_tick` builds for the client at index `i` (Server.c
1556-1616). -/
def squad_dump_packet (env : rr_server_env) (RR_GLOBAL_BIOME : Nat) (this : rr_server)
    (i : Nat) : List pb_field :=
  [pb_field.uint8 rr_clientbound_squad_dump,
   pb_field.uint8 (uint8_of_bool (this.clients i).dev),
   pb_field.uint8 (uint8_of_int8 (squad_dump_kick_vote_pos this (this.clients i)))] ++
  (List.range env.RR_SQUAD_COUNT).flatMap (fun s =>
    squad_dump_squad env RR_GLOBAL_BIOME this (this.clients i) s)

/-- The end of the per-client loop of `server_tick` (Server.c 1556-1618): the squad dump
is queued for the client at index `i`. -/
def server_tick_squad_dump (env : rr_server_env) (RR_GLOBAL_BIOME : Nat) (this : rr_server)
    (i : Nat) : rr_server :=
  set_client this i
    (rr_server_client_write_message env.rr_get_hash (this.clients i)
      (squad_dump_packet env RR_GLOBAL_BIOME this i))

/-- The server state that differs from `this` only in the `squad_code` of squad `q`. -/
def with_squad_code (this : rr_server) (q : Nat) (code : String) : rr_server :=
  { this with squads := fun s =>
      if s = q then { this.squads s with squad_code := code } else this.squads s }

/-! ## Loot rolls of `rr_component_mob_free` (Mob.c 131-163) -/

/-- The rarity `rr_rarity_id_exotic`, seventh of the enumeration. -/
def rr_rarity_id_exotic : Nat := 6

/-- The rarity `rr_rarity_id_nebula`, fourteenth of the enumeration. -/
def rr_rarity_id_nebula : Nat := 13

/-- Column `min_rarity` of `RR_PETAL_DATA` (StaticData.c 80-118), row by row. -/
def RR_PETAL_DATA_min_rarity_column : List Nat :=
  [0, 0, 0, 0, 0, 2, 2, 2, 1, 1, 0, 2, 0, 0, 0, 2, 4, 1, 0, 2, 0, 1, 1, 4, 4, 1, 0, 0, 1, 0,
   1, 0, 1, 5, 15, 10]

/-- The read `RR_PETAL_DATA[id].min_rarity`. -/
def RR_PETAL_DATA_min_rarity (id : Nat) : Nat := RR_PETAL_DATA_min_rarity_column.getD id 0

/-- Table `RR_DROP_RARITY_COEFFICIENTS[rr_rarity_id_nebula + 2]` as written in
StaticData.c, before `init_game_coefficients` rescales its entries in place. -/
def RR_DROP_RARITY_COEFFICIENTS : List ℚ :=
  [0, 1, 8, 15, 40, 150, 500, 2500, 6100, 9000, 13500, 20000, 32000, 42000, 55000]

/-- Table `RR_MOB_LOOT_RARITY_COEFFICIENTS[rr_rarity_id_max]` as written in
StaticData.c, before `init_game_coefficients` rescales its entries in place. -/
def RR_MOB_LOOT_RARITY_COEFFICIENTS : List ℚ :=
  [5 / 2, 4, 6, 15, 35, 140, 490, 2150, 5240, 8480, 12900, 18200, 30600, 40500, 50200, 9400]

/-- The value `cap` of the loot rolls: the mob's rarity, or one less from exotic on. -/
def loot_cap (rarity : Nat) : Nat :=
  if rarity ≥ rr_rarity_id_exotic then rarity - 1 else rarity

/-- The value `end` of one pass of the inner loop (Mob.c 145-150). A read outside the
table `coeff` gives `none`. -/
def loot_end (coeff : List ℚ) (min_rarity cap drop : Nat) : Option ℚ :=
  (if drop = cap + 1 then some 1 else coeff.get? drop).bind (fun e =>
    if cap < min_rarity then some 1
    else if drop < min_rarity then coeff.get? min_rarity
    else some e)

/-- The inner loop `for (drop = 0; drop <= cap + 1; ++drop)` (Mob.c 143-154), from
`drop` on; the result is the value of `drop` when the loop is left. `pow` is the C
function, `coefficient` the value `RR_MOB_LOOT_RARITY_COEFFICIENTS[this->rarity]`. The
first argument bounds the number of passes. -/
def loot_loop (coeff : List ℚ) (pow : ℚ → ℚ → ℚ) (coefficient seed s2 : ℚ)
    (min_rarity cap : Nat) : Nat → Nat → Option Nat
  | 0, _ => none
  | fuel + 1, drop =>
    if drop ≤ cap + 1 then
      match loot_end coeff min_rarity cap drop with
      | none => none
      | some e =>
        if seed ≤ pow (1 - (1 - e) * s2) coefficient then some drop
        else loot_loop coeff pow coefficient seed s2 min_rarity cap fuel (drop + 1)
    else some drop

/-- The roll for one loot entry `(id, s2)` with the draw `seed` (Mob.c 137-154): the
value of `drop` after the inner loop. -/
def loot_roll (coeff loot_coeff : List ℚ) (pow : ℚ → ℚ → ℚ) (rarity id : Nat)
    (s2 seed : ℚ) : Option Nat :=
  (loot_coeff.get? rarity).bind (fun coefficient =>
    loot_loop coeff pow coefficient seed s2 (RR_PETAL_DATA_min_rarity id) (loot_cap rarity)
      (loot_cap rarity + 3) 0)

/-- The loop `for (i = 0; i < 4; ++i)` over the loot entries (Mob.c 135-159), from entry
`i` on with `n` entries left: the pairs stored in `spawn_ids` and `spawn_rarities`.
`loot i` is `RR_MOB_DATA[this->id].loot[i]` and `seed i` the draw of `rr_frand()` for
it. -/
def mob_loot_from (coeff loot_coeff : List ℚ) (pow : ℚ → ℚ → ℚ) (rarity : Nat)
    (loot : Nat → Nat × ℚ) (seed : Nat → ℚ) : Nat → Nat → Option (List (Nat × Nat))
  | 0, _ => some []
  | n + 1, i =>
    if (loot i).1 = 0 then some []
    else
      match loot_roll coeff loot_coeff pow rarity (loot i).1 (loot i).2 (seed i) with
      | none => none
      | some drop =>
        (mob_loot_from coeff loot_coeff pow rarity loot seed n (i + 1)).map (fun rest =>
          if drop = 0 then rest else ((loot i).1, drop - 1) :: rest)

/-- The loot rolls of `rr_component_mob_free` for one squad (Mob.c 131-159). -/
def mob_loot (coeff loot_coeff : List ℚ) (pow : ℚ → ℚ → ℚ) (rarity : Nat)
    (loot : Nat → Nat × ℚ) (seed : Nat → ℚ) : Option (List (Nat × Nat)) :=
  mob_loot_from coeff loot_coeff pow rarity loot seed 4 0

/-! ## Maze cells: overload, spawn timers and mob spawning (`Server/Simulation.c`) -/

/-- The fields of `struct rr_maze_grid` that `init_maze`, `tick_grid`, `tick_maze` and
`spawn_mob` use. The numeric fields are floats. -/
structure rr_maze_grid where
  value : Nat := 0
  difficulty : ℚ := 0
  local_difficulty : ℚ := 0
  overload_factor : ℚ := 0
  player_count : Nat := 0
  grid_points : ℚ := 0
  spawn_timer : ℚ := 0

/-- The macro `PLAYER_COUNT_CAP` of `Simulation.c`. -/
def PLAYER_COUNT_CAP : Nat := 12

/-- The macro `ALL_MOBS` of `Simulation.c`. -/
def ALL_MOBS : Nat := 255

/-- The macro `DIFFICULT_MOBS` of `Simulation.c`. -/
def DIFFICULT_MOBS : Nat := 254

/-- Row 0 of `RR_MOB_DATA`. -/
def rr_mob_id_triceratops : Nat := 0

/-- Row 2 of `RR_MOB_DATA`. -/
def rr_mob_id_fern : Nat := 2

/-- Row 5 of `RR_MOB_DATA`. -/
def rr_mob_id_dakotaraptor : Nat := 5

/-- Row 7 of `RR_MOB_DATA`. -/
def rr_mob_id_ornithomimus : Nat := 7

/-- Table `RR_MOB_DIFFICULTY_COEFFICIENTS[rr_mob_id_max]` of StaticData.c; the rows not
written are zero. -/
def RR_MOB_DIFFICULTY_COEFFICIENTS (id : Nat) : Nat :=
  [3, 4, 1, 2, 5, 5, 3, 2, 4, 1, 5, 3].getD id 0

/-- The test `grid->value == 0 || (grid->value & 8)` at the head of `tick_grid`, negated:
the cell is walkable. -/
def grid_walkable (grid : rr_maze_grid) : Bool :=
  !(decide (grid.value = 0) || decide (grid.value &&& 8 ≠ 0))

/-- Function `get_max_points` (Simulation.c 308-313). `powf` is the C function, `pvp` the flag
of arena 1. -/
def get_max_points (powf : ℚ → ℚ → ℚ) (pvp : Bool) (grid : rr_maze_grid) : ℚ :=
  (if pvp then 3 / 10 else 3) * (2 / 10 + (grid.player_count : ℚ) * (12 / 10)) *
    powf (11 / 10) grid.overload_factor

/-- The first statements of `tick_grid` on a walkable cell (Simulation.c 319-331): the
local difficulty is clamped to `[-0.5, PLAYER_COUNT_CAP]`; when it is positive the
overload factor grows and is clamped to `[0, 1.5 * local_difficulty]`, otherwise it
decays by `0.025 / 25` and is clamped to `[0, overload_factor]`. -/
def tick_grid_overload (grid : rr_maze_grid) : rr_maze_grid :=
  if 0 < rr_fclamp grid.local_difficulty (-(1 / 2)) PLAYER_COUNT_CAP then
    { grid with
      local_difficulty := rr_fclamp grid.local_difficulty (-(1 / 2)) PLAYER_COUNT_CAP
      overload_factor :=
        rr_fclamp
          (grid.overload_factor +
            5 / 1000 * rr_fclamp grid.local_difficulty (-(1 / 2)) PLAYER_COUNT_CAP / 25)
          0 (15 / 10 * rr_fclamp grid.local_difficulty (-(1 / 2)) PLAYER_COUNT_CAP) }
  else
    { grid with
      local_difficulty := rr_fclamp grid.local_difficulty (-(1 / 2)) PLAYER_COUNT_CAP
      overload_factor :=
        rr_fclamp (grid.overload_factor - 25 / 1000 / 25) 0 grid.overload_factor }

/-- The local `spawn_at` of `tick_grid` (Simulation.c 332-340):
`base_modifier * difficulty_modifier * overload_modifier / player_modifier`. -/
def tick_grid_spawn_at (powf : ℚ → ℚ → ℚ) (pvp : Bool) (grid : rr_maze_grid) : ℚ :=
  get_max_points powf pvp grid / (get_max_points powf pvp grid - grid.grid_points) *
    (150 + 3 * grid.difficulty) *
    powf (12 / 10) (grid.local_difficulty + grid.overload_factor) /
    (1 + (grid.player_count : ℚ) * 4 / 3)

/-- The arguments of `rr_simulation_alloc_mob` in `spawn_mob`, and the cell stored as the
mob's `zone`. -/
structure rr_spawned_mob where
  x : ℚ
  y : ℚ
  id : Nat
  rarity : Nat
  zone_x : Nat
  zone_y : Nat

/-- What one call of `spawn_mob` gets from outside the function: the cell's
`spawn_function` (`none` for `NULL`, else the value it returns), the draw compared with
1, the values of the successive calls of `get_spawn_id`, `get_spawn_rarity`,
`should_spawn_at`, the two draws of each position, `too_close`, the product
`RR_MOB_DATA[id].radius * RR_MOB_RARITY_SCALING[rarity].radius`, the maze's `grid_size`
and `rr_mob_id_golden_meteor`. -/
structure spawn_mob_inputs where
  spawn_function : Option Nat
  frand_first : ℚ
  get_spawn_id : Nat → Nat
  get_spawn_rarity : ℚ → Nat
  should_spawn_at : Nat → Nat → Bool
  frand_x : Nat → ℚ
  frand_y : Nat → ℚ
  too_close : ℚ → ℚ → ℚ → Bool
  radius : Nat → Nat → ℚ
  grid_size : ℚ
  rr_mob_id_golden_meteor : Nat

/-- The ids that the `DIFFICULT_MOBS` loop of `spawn_mob` draws again. -/
def spawn_mob_redraw (inp : spawn_mob_inputs) (id : Nat) : Bool :=
  !(decide (id ≠ rr_mob_id_dakotaraptor) && decide (id ≠ rr_mob_id_ornithomimus) &&
    decide (id ≠ rr_mob_id_triceratops) && decide (id ≠ rr_mob_id_fern) &&
    decide (id ≠ rr_mob_id_meteor) && decide (id ≠ inp.rr_mob_id_golden_meteor))

/-- The loop `for (i = 0; i < 10; ++i)` of the `DIFFICULT_MOBS` case of `spawn_mob`, with
`n` passes left at pass `i`; `id` is the value held before the pass. -/
def spawn_mob_difficult (inp : spawn_mob_inputs) : Nat → Nat → Nat → Nat
  | 0, _, id => id
  | n + 1, i, _ =>
    if spawn_mob_redraw inp (inp.get_spawn_id i) then
      spawn_mob_difficult inp n (i + 1) (inp.get_spawn_id i)
    else inp.get_spawn_id i

/-- The id chosen by `spawn_mob` (Simulation.c 188-208). -/
def spawn_mob_id (inp : spawn_mob_inputs) : Nat :=
  match inp.spawn_function with
  | some v =>
    if inp.frand_first < 1 then
      if v = ALL_MOBS then inp.get_spawn_id 0
      else if v = DIFFICULT_MOBS then spawn_mob_difficult inp 10 0 v
      else v
    else inp.get_spawn_id 0
  | none => inp.get_spawn_id 0

/-- The loop `for (n = 0; n < 10; ++n)` of `spawn_mob` (Simulation.c 213-228), with `fuel`
passes left at pass `n`: the mob allocated, if a position is found that is not too
close. -/
def spawn_mob_attempts (inp : spawn_mob_inputs) (grid_x grid_y id rarity : Nat) :
    Nat → Nat → Option rr_spawned_mob
  | 0, _ => none
  | fuel + 1, n =>
    if inp.too_close (((grid_x : ℚ) + inp.frand_x n) * inp.grid_size)
        (((grid_y : ℚ) + inp.frand_y n) * inp.grid_size)
        (inp.radius id rarity + 500) = true then
      spawn_mob_attempts inp grid_x grid_y id rarity fuel (n + 1)
    else
      some { x := ((grid_x : ℚ) + inp.frand_x n) * inp.grid_size
             y := ((grid_y : ℚ) + inp.frand_y n) * inp.grid_size
             id := id, rarity := rarity, zone_x := grid_x, zone_y := grid_y }

/-- Function `spawn_mob` (Simulation.c 182-229): the cell afterwards and the mob allocated, if
any. -/
def spawn_mob (inp : spawn_mob_inputs) (grid_x grid_y : Nat) (grid : rr_maze_grid) :
    rr_maze_grid × Option rr_spawned_mob :=
  if inp.should_spawn_at (spawn_mob_id inp)
      (inp.get_spawn_rarity (grid.difficulty + grid.local_difficulty * 0)) = false then
    (grid, none)
  else
    match spawn_mob_attempts inp grid_x grid_y (spawn_mob_id inp)
        (inp.get_spawn_rarity (grid.difficulty + grid.local_difficulty * 0)) 10 0 with
    | none => (grid, none)
    | some mob =>
      ({ grid with
          grid_points := grid.grid_points + (RR_MOB_DIFFICULTY_COEFFICIENTS mob.id : ℚ)
          spawn_timer := 0 },
        some mob)

/-- What `tick_grid` and `spawn_mob` get from outside: `powf`, the `pvp` flag of arena 1,
the draw of `rr_frand` for the spawn timer of a cell, and the inputs of a `spawn_mob`
call on a cell. -/
structure tick_maze_env where
  powf : ℚ → ℚ → ℚ
  pvp : Bool
  rr_frand : Nat → Nat → ℚ
  spawn : Nat → Nat → spawn_mob_inputs

/-- One call of `spawn_mob`: the cell it was called for and the mob it allocated. -/
structure spawn_mob_call where
  grid_x : Nat
  grid_y : Nat
  mob : Option rr_spawned_mob

/-- Outcome of `tick_grid`: the cell afterwards, the calls of `spawn_mob` made, and the
value returned. -/
structure tick_grid_result where
  grid : rr_maze_grid
  calls : List spawn_mob_call
  ret : Nat

/-- Function `tick_grid` (Simulation.c 314-356) on the cell at `(grid_x, grid_y)`. -/
def tick_grid (env : tick_maze_env) (grid_x grid_y : Nat) (grid : rr_maze_grid) :
    tick_grid_result :=
  if grid.value = 0 ∨ grid.value &&& 8 ≠ 0 then { grid := grid, calls := [], ret := 0 }
  else if get_max_points env.powf env.pvp (tick_grid_overload grid) ≤
      (tick_grid_overload grid).grid_points then
    { grid := tick_grid_overload grid, calls := [], ret := 0 }
  else if (tick_grid_overload grid).player_count = 0 then
    { grid :=
        { tick_grid_overload grid with
          overload_factor :=
            rr_fclamp ((tick_grid_overload grid).overload_factor - 25 / 1000 / 25) 0 15
          spawn_timer := env.rr_frand grid_x grid_y * (75 / 100) *
            tick_grid_spawn_at env.powf env.pvp (tick_grid_overload grid) }
      calls := [], ret := 0 }
  else if tick_grid_spawn_at env.powf env.pvp (tick_grid_overload grid) ≤
      (tick_grid_overload grid).spawn_timer then
    { grid := (spawn_mob (env.spawn grid_x grid_y) grid_x grid_y (tick_grid_overload grid)).1
      calls := [{ grid_x := grid_x, grid_y := grid_y,
                  mob := (spawn_mob (env.spawn grid_x grid_y) grid_x grid_y
                    (tick_grid_overload grid)).2 }]
      ret := 1 }
  else
    { grid := { tick_grid_overload grid with
                spawn_timer := (tick_grid_overload grid).spawn_timer + 1 }
      calls := [], ret := 0 }

/-- The first loop of `tick_maze` (Simulation.c 361-363) on one cell:
`local_difficulty = player_count = 0`. -/
def tick_maze_reset (grid : rr_maze_grid) : rr_maze_grid :=
  { grid with local_difficulty := 0, player_count := 0 }

/-- The maze, with cells addressed by their coordinates as `rr_component_arena_get_grid`
does, and the calls of `spawn_mob` made so far in the tick. -/
structure tick_maze_state where
  maze : Nat → Nat → rr_maze_grid
  calls : List spawn_mob_call

/-- Assignment to the cell at `(x, y)`. -/
def set_grid (maze : Nat → Nat → rr_maze_grid) (x y : Nat) (grid : rr_maze_grid) :
    Nat → Nat → rr_maze_grid :=
  fun x' y' => if x' = x ∧ y' = y then grid else maze x' y'

/-- One call `tick_grid(this, cell, x, y)` of `tick_maze`, on the state of the maze. -/
def tick_grid_at (env : tick_maze_env) (x y : Nat) (st : tick_maze_state) :
    tick_maze_state :=
  { maze := set_grid st.maze x y (tick_grid env x y (st.maze x y)).grid
    calls := st.calls ++ (tick_grid env x y (st.maze x y)).calls }

/-- The pattern `if (tick_grid(this, cell, x, y)) continue;` of `tick_maze`, `rest` being
what follows in the loop body. -/
def tick_grid_then (env : tick_maze_env) (x y : Nat)
    (rest : tick_maze_state → tick_maze_state) (st : tick_maze_state) : tick_maze_state :=
  if (tick_grid env x y (st.maze x y)).ret ≠ 0 then tick_grid_at env x y st
  else rest (tick_grid_at env x y st)

/-- The test `nw->grid_points + ne->grid_points + sw->grid_points + se->grid_points >
max_overall` of `tick_maze` for the 2x2 block at `(grid_x, grid_y)`. -/
def tick_maze_block_full (env : tick_maze_env) (maze : Nat → Nat → rr_maze_grid)
    (grid_x grid_y : Nat) : Prop :=
  get_max_points env.powf env.pvp (maze grid_x grid_y) +
      get_max_points env.powf env.pvp (maze (grid_x + 1) grid_y) +
      get_max_points env.powf env.pvp (maze grid_x (grid_y + 1)) +
      get_max_points env.powf env.pvp (maze (grid_x + 1) (grid_y + 1)) <
    (maze grid_x grid_y).grid_points + (maze (grid_x + 1) grid_y).grid_points +
      (maze grid_x (grid_y + 1)).grid_points + (maze (grid_x + 1) (grid_y + 1)).grid_points

instance (env : tick_maze_env) (maze : Nat → Nat → rr_maze_grid) (grid_x grid_y : Nat) :
    Decidable (tick_maze_block_full env maze grid_x grid_y) := by
  unfold tick_maze_block_full
  infer_instance

/-- The body of the inner loop of `tick_maze` (Simulation.c 371-393) for the 2x2 block
whose north-west cell is `(grid_x, grid_y)`. -/
def tick_maze_block (env : tick_maze_env) (grid_x grid_y : Nat) (st : tick_maze_state) :
    tick_maze_state :=
  if tick_maze_block_full env st.maze grid_x grid_y then st
  else
    tick_grid_then env grid_x grid_y
      (tick_grid_then env (grid_x + 1) grid_y
        (tick_grid_then env grid_x (grid_y + 1)
          (tick_grid_at env (grid_x + 1) (grid_y + 1)))) st

/-- The north-west cells visited by the two loops `grid_x += 2`, `grid_y += 2` of
`tick_maze`, in order. -/
def tick_maze_blocks (maze_dim : Nat) : List (Nat × Nat) :=
  (List.range ((maze_dim + 1) / 2)).flatMap (fun i =>
    (List.range ((maze_dim + 1) / 2)).map (fun j => (2 * i, 2 * j)))

/-- The spawning loops of `tick_maze` (Simulation.c 367-395), after the counting of
flowers and the despawning of mobs. -/
def tick_maze (env : tick_maze_env) (maze_dim : Nat) (st : tick_maze_state) :
    tick_maze_state :=
  (tick_maze_blocks maze_dim).foldl (fun s b => tick_maze_block env b.1 b.2 s) st

/-- The conditions on a cell, as it is when `tick_grid` is called on it, under which
`tick_grid` reaches its call of `spawn_mob`: the cell is walkable, has a player in
range, has fewer grid points than `max_points`, and its spawn timer has reached
`spawn_at`; both are computed after the overload update at the head of `tick_grid`. -/
def spawn_gate (env : tick_maze_env) (grid : rr_maze_grid) : Prop :=
  grid_walkable grid = true ∧ 0 < grid.player_count ∧
  grid.grid_points < get_max_points env.powf env.pvp (tick_grid_overload grid) ∧
  tick_grid_spawn_at env.powf env.pvp (tick_grid_overload grid) ≤ grid.spawn_timer

/-- What holds of a call of `spawn_mob` logged during a pass over the maze `maze`: it was
made for a cell that passes the gate, and its mob is the one `spawn_mob` allocates on
that cell. -/
def spawn_call_ok (env : tick_maze_env) (maze : Nat → Nat → rr_maze_grid)
    (c : spawn_mob_call) : Prop :=
  spawn_gate env (maze c.grid_x c.grid_y) ∧
  c.mob = (spawn_mob (env.spawn c.grid_x c.grid_y) c.grid_x c.grid_y
    (tick_grid_overload (maze c.grid_x c.grid_y))).2

/-- A part `f` of the body of the loop of `tick_maze` that works on the cells `cells`
only: it logs at most one call of `spawn_mob`, for one of these cells and under the gate,
and leaves every other cell as it was. -/
def tick_cells_ok (env : tick_maze_env) (cells : List (Nat × Nat))
    (f : tick_maze_state → tick_maze_state) : Prop :=
  ∀ st : tick_maze_state, ∃ new : List spawn_mob_call,
    (f st).calls = st.calls ++ new ∧ new.length ≤ 1 ∧
    (∀ c ∈ new, (c.grid_x, c.grid_y) ∈ cells ∧ spawn_call_ok env st.maze c) ∧
    (∀ x y, (x, y) ∉ cells → (f st).maze x y = st.maze x y)

/-- The north-west cell of the 2x2 block of `tick_maze` that the cell `(x, y)` lies in. -/
def tick_maze_block_of (x y : Nat) : Nat × Nat := (2 * (x / 2), 2 * (y / 2))

/-! ## Maze expansion (`init_maze`, `Shared/StaticData.c`) -/

/-- The macro `maze_grid(x, y)` of StaticData.c: the index `(y) * size + (x)` into the maze
array, in 32-bit unsigned arithmetic. -/
def maze_grid_index (size x y : Nat) : Nat := (y * size + x) % 2 ^ 32

/-- The macro `offset(a, b)` of StaticData.c at the tile `(x, y)`: 0 outside the template,
else `template[(y + b) * size / 2 + x + a]`, the product being taken in 32-bit unsigned
arithmetic before the division. -/
def maze_offset (size : Nat) (template : Nat → Nat) (x y : Nat) (a b : Int) : Nat :=
  if (x : Int) + a < 0 ∨ (y : Int) + b < 0 ∨ ((size / 2 : Nat) : Int) ≤ (x : Int) + a ∨
      ((size / 2 : Nat) : Int) ≤ (y : Int) + b then 0
  else
    template ((((y : Int) + b).toNat * size % 2 ^ 32 / 2 + ((x : Int) + a).toNat) % 2 ^ 32)

/-- The assignment `maze[i].difficulty = d`. -/
def maze_set_difficulty (maze : Nat → rr_maze_grid) (i : Nat) (d : ℚ) : Nat → rr_maze_grid :=
  fun j => if j = i then { maze j with difficulty := d } else maze j

/-- The assignment `maze[i].value = v`. -/
def maze_set_value (maze : Nat → rr_maze_grid) (i : Nat) (v : Nat) : Nat → rr_maze_grid :=
  fun j => if j = i then { maze j with value := v } else maze j

/-- The value `this_tile` after `this_tile = this_tile != 0`. -/
def init_maze_this_tile (size : Nat) (template : Nat → Nat) (x y : Nat) : Nat :=
  if maze_offset size template x y 0 0 ≠ 0 then 1 else 0

/-- The value that the body of `init_maze` writes to the cell `(x * 2, y * 2)`. -/
def init_maze_value_nw (size : Nat) (template : Nat → Nat) (x y : Nat) : Nat :=
  if init_maze_this_tile size template x y ≠ 0 then
    if maze_offset size template x y 0 (-1) = 0 then
      if maze_offset size template x y (-1) 0 = 0 then 7
      else init_maze_this_tile size template x y
    else init_maze_this_tile size template x y
  else
    if maze_offset size template x y 0 (-1) ≠ 0 then
      if maze_offset size template x y (-1) 0 ≠ 0 ∧ maze_offset size template x y (-1) (-1) ≠ 0
      then 15
      else init_maze_this_tile size template x y
    else init_maze_this_tile size template x y

/-- The value that the body of `init_maze` writes to the cell `(x * 2 + 1, y * 2)`. -/
def init_maze_value_ne (size : Nat) (template : Nat → Nat) (x y : Nat) : Nat :=
  if init_maze_this_tile size template x y ≠ 0 then
    if maze_offset size template x y 0 (-1) = 0 then
      if maze_offset size template x y 1 0 = 0 then 5
      else init_maze_this_tile size template x y
    else init_maze_this_tile size template x y
  else
    if maze_offset size template x y 0 (-1) ≠ 0 then
      if maze_offset size template x y 1 0 ≠ 0 ∧ maze_offset size template x y 1 (-1) ≠ 0
      then 13
      else init_maze_this_tile size template x y
    else init_maze_this_tile size template x y

/-- The value that the body of `init_maze` writes to the cell `(x * 2, y * 2 + 1)`. -/
def init_maze_value_sw (size : Nat) (template : Nat → Nat) (x y : Nat) : Nat :=
  if init_maze_this_tile size template x y ≠ 0 then
    if maze_offset size template x y 0 1 = 0 then
      if maze_offset size template x y (-1) 0 = 0 then 6
      else init_maze_this_tile size template x y
    else init_maze_this_tile size template x y
  else
    if maze_offset size template x y 0 1 ≠ 0 then
      if maze_offset size template x y (-1) 0 ≠ 0 ∧ maze_offset size template x y (-1) 1 ≠ 0
      then 14
      else init_maze_this_tile size template x y
    else init_maze_this_tile size template x y

/-- The value that the body of `init_maze` writes to the cell `(x * 2 + 1, y * 2 + 1)`. -/
def init_maze_value_se (size : Nat) (template : Nat → Nat) (x y : Nat) : Nat :=
  if init_maze_this_tile size template x y ≠ 0 then
    if maze_offset size template x y 0 1 = 0 then
      if maze_offset size template x y 1 0 = 0 then 4
      else init_maze_this_tile size template x y
    else init_maze_this_tile size template x y
  else
    if maze_offset size template x y 0 1 ≠ 0 then
      if maze_offset size template x y 1 0 ≠ 0 ∧ maze_offset size template x y 1 1 ≠ 0
      then 12
      else init_maze_this_tile size template x y
    else init_maze_this_tile size template x y

/-- The four assignments to `difficulty` of the body of `init_maze`, compiled under
`RR_SERVER`. -/
def init_maze_tile_difficulty (size : Nat) (template : Nat → Nat) (x y : Nat)
    (maze : Nat → rr_maze_grid) : Nat → rr_maze_grid :=
  maze_set_difficulty
    (maze_set_difficulty
      (maze_set_difficulty
        (maze_set_difficulty maze (maze_grid_index size (x * 2) (y * 2))
          (maze_offset size template x y 0 0 : ℚ))
        (maze_grid_index size (x * 2 + 1) (y * 2)) (maze_offset size template x y 0 0 : ℚ))
      (maze_grid_index size (x * 2) (y * 2 + 1)) (maze_offset size template x y 0 0 : ℚ))
    (maze_grid_index size (x * 2 + 1) (y * 2 + 1)) (maze_offset size template x y 0 0 : ℚ)

/-- The body of the loops of `init_maze` for the tile `(x, y)` on the server: the four
assignments to `difficulty`, then the assignments to `value` of the two upper and the two
lower cells. -/
def init_maze_tile (size : Nat) (template : Nat → Nat) (x y : Nat)
    (maze : Nat → rr_maze_grid) : Nat → rr_maze_grid :=
  maze_set_value
    (maze_set_value
      (maze_set_value
        (maze_set_value (init_maze_tile_difficulty size template x y maze)
          (maze_grid_index size (x * 2) (y * 2)) (init_maze_value_nw size template x y))
        (maze_grid_index size (x * 2 + 1) (y * 2)) (init_maze_value_ne size template x y))
      (maze_grid_index size (x * 2) (y * 2 + 1)) (init_maze_value_sw size template x y))
    (maze_grid_index size (x * 2 + 1) (y * 2 + 1)) (init_maze_value_se size template x y)

/-- The tiles `(x, y)` visited by the loops `y < size / 2`, `x < size / 2` of `init_maze`,
in order. -/
def init_maze_tiles (size : Nat) : List (Nat × Nat) :=
  (List.range (size / 2)).flatMap (fun y => (List.range (size / 2)).map (fun x => (x, y)))

/-- Function `init_maze` (StaticData.c 372-462) on the server. -/
def init_maze (size : Nat) (template : Nat → Nat) (maze : Nat → rr_maze_grid) :
    Nat → rr_maze_grid :=
  (init_maze_tiles size).foldl (fun m t => init_maze_tile size template t.1 t.2 m) maze

/-- What the maze expansion establishes of the cell `grid` whose template tile has the
value `tile`: the cell passes the walkable test of `tick_grid` exactly when the tile is
not zero, its value is one of the ten tile shapes, and its difficulty is the tile's
value. -/
def init_maze_cell_ok (tile : Nat) (grid : rr_maze_grid) : Prop :=
  (grid_walkable grid = true ↔ tile ≠ 0) ∧
  grid.value ∈ [0, 1, 4, 5, 6, 7, 12, 13, 14, 15] ∧
  grid.difficulty = (tile : ℚ)

/-- The number of entries of a loadout, primary and secondary slots together, that are
equal to `(id, rarity)`. -/
def loadout_entries (RR_MAX_SLOT_COUNT : Nat) (loadout : Nat → rr_id_rarity_pair)
    (id rarity : Nat) : Nat :=
  (List.range (RR_MAX_SLOT_COUNT * 2)).countP
    (fun k => decide (loadout k = { id := id, rarity := rarity }))

/-! ## Hatching (`system_egg_hatching_logic` and the reload loop, `PetalBehavior.c`) -/

/-- Row 9 of `RR_PETAL_DATA`. -/
def rr_petal_id_egg : Nat := 9

/-- Row 27 of `RR_PETAL_DATA`. -/
def rr_petal_id_bubble : Nat := 27

/-- Row 28 of `RR_PETAL_DATA`. -/
def rr_petal_id_meteor : Nat := 28

/-- Row 1 of `RR_MOB_DATA`. -/
def rr_mob_id_trex : Nat := 1

/-- Column `id` of `RR_PETAL_DATA` (StaticData.c 80-118): row `k` names the petal id of
value `k`. -/
def RR_PETAL_DATA_id_column : List Nat := List.range rr_petal_id_max

/-- The read `RR_PETAL_DATA[id].id`. -/
def RR_PETAL_DATA_id (id : Nat) : Nat := RR_PETAL_DATA_id_column.getD id 0

/-- The mob that `system_egg_hatching_logic` allocates. `id` and `rarity` are the locals
`m_id` and `m_rar`, `none` standing for a local that was never assigned; `owner` is the
owner set on the mob's relations, `aggro` tells whether the AI type was set to aggro and
the nest copied, which the function does for a T-rex. -/
structure hatched_mob where
  id : Option Nat
  rarity : Option Nat
  owner : Nat
  aggro : Bool
  player_spawned : Bool
  deriving DecidableEq

/-- Outcome of `system_egg_hatching_logic`: whether the petal entity was requested for
deletion, and the mob allocated, if the function got that far. -/
structure hatch_result where
  deletion_requested : Bool
  mob : Option hatched_mob
  deriving DecidableEq

/-- The local `m_id` of `system_egg_hatching_logic` when it is used. -/
def hatching_m_id (petal : rr_component_petal) : Option Nat :=
  if petal.id = rr_petal_id_egg then some rr_mob_id_trex
  else if petal.id = rr_petal_id_meteor then some rr_mob_id_meteor
  else none

/-- The local `m_rar` of `system_egg_hatching_logic` when it is used. -/
def hatching_m_rar (petal : rr_component_petal) : Option Nat :=
  if petal.id = rr_petal_id_egg then some (if petal.rarity ≥ 1 then petal.rarity - 1 else 0)
  else if petal.id = rr_petal_id_meteor then
    some (if petal.rarity ≥ 1 then petal.rarity - 1 else 0)
  else none

/-- Function `system_egg_hatching_logic` (PetalBehavior.c 706-747) for the petal behind the
slot entry; `flower_id` is `player_info->flower_id`. -/
def system_egg_hatching_logic (flower_id : Nat) (petal : rr_component_petal) : hatch_result :=
  if petal.effect_delay > 0 then { deletion_requested := false, mob := none }
  else
    { deletion_requested := true
      mob := some
        { id := hatching_m_id petal
          rarity := hatching_m_rar petal
          owner := flower_id
          aggro := decide (hatching_m_id petal = some rr_mob_id_trex)
          player_spawned := true } }

/-- What one pass of the inner loop of `rr_system_petal_reload_foreach_function` reads
from the simulation for its slot entry: whether the entity behind the entry is alive,
the cooldown of the petal data and the reload speed (in whole ticks), whether a bubble
was seen, the
`effect_delay` of a petal fresh from `rr_simulation_alloc_petal`, whether the entity is
in another arena, whether it still has a petal component after
`system_nest_egg_choosing_logic`, and that petal component. -/
structure reload_entry_inputs where
  entity_alive : Bool
  cooldown : Int
  reload_speed : Int
  has_bubble : Bool
  alloc_effect_delay : Int
  other_arena : Bool
  has_petal : Bool
  petal : rr_component_petal

/-- The first statement of a pass of the inner loop of the reload function: an entry
whose entity is not alive gives up its handle and starts its cooldown. -/
def reload_entry_clear (w : reload_entry_inputs) (p_petal : rr_component_player_info_petal) :
    rr_component_player_info_petal :=
  if p_petal.entity_hash ≠ RR_NULL_ENTITY ∧ w.entity_alive = false then
    { entity_hash := RR_NULL_ENTITY, cooldown_ticks := w.cooldown }
  else p_petal

/-- The cooldown of an empty entry after `cooldown_ticks -= reload_speed`, the bubble
case having reset it before. -/
def reload_entry_cooldown (slot : rr_component_player_info_petal_slot)
    (w : reload_entry_inputs) (p_petal : rr_component_player_info_petal) : Int :=
  (if slot.id = rr_petal_id_bubble ∧ w.has_bubble = true then w.cooldown
    else p_petal.cooldown_ticks) - w.reload_speed

/-- One pass of the inner loop of `rr_system_petal_reload_foreach_function`
(PetalBehavior.c 866-953) as far as hatching goes: the outcome of
`system_egg_hatching_logic` if the pass calls it. A petal fresh from
`rr_simulation_alloc_petal` has the id and the rarity of the slot, which are the
arguments of the call. -/
def reload_entry_hatching (flower_id : Nat) (slot : rr_component_player_info_petal_slot)
    (w : reload_entry_inputs) (p_petal : rr_component_player_info_petal) :
    Option hatch_result :=
  if (reload_entry_clear w p_petal).entity_hash = RR_NULL_ENTITY then
    if reload_entry_cooldown slot w (reload_entry_clear w p_petal) ≤ 0 then
      if RR_PETAL_DATA_id slot.id = rr_petal_id_meteor then
        some (system_egg_hatching_logic flower_id
          { id := slot.id, rarity := slot.rarity, effect_delay := w.alloc_effect_delay })
      else none
    else none
  else if w.other_arena = true ∨ (slot.id = rr_petal_id_bubble ∧ w.has_bubble = true) then none
  else if RR_PETAL_DATA_id slot.id = rr_petal_id_egg then
    if w.has_petal = true then some (system_egg_hatching_logic flower_id w.petal)
    else none
  else none

/-- The loop of `rr_server_client_create_player_info` (Server.c 100-115) as far as ids and
rarities go: the pairs copied from the member's loadout into `slots[i]` and
`secondary_slots[i]` for `i < slot_count`, where `slot_count` is
`RR_SLOT_COUNT_FROM_LEVEL(level)`. -/
def create_player_info_slots (RR_MAX_SLOT_COUNT slot_count : Nat)
    (loadout : Nat → rr_id_rarity_pair) : List (rr_id_rarity_pair × rr_id_rarity_pair) :=
  (List.range slot_count).map (fun i => (loadout i, loadout (i + RR_MAX_SLOT_COUNT)))

/-- A stand-in for `rr_get_hash` on 64-bit keys, used where a concrete run is evaluated. -/
def sample_hash (k : Nat) : Nat := (k * 6364136223846793005 + 1442695040888963407) % 2 ^ 64

/-- Stand-ins for the absent crypto and codec functions, used where a concrete run is
evaluated: the identity cipher and byte-wise readers. -/
def sample_shared : rr_shared :=
  { rr_get_hash := sample_hash
    rr_decrypt := fun p _ => p
    proto_bug_read_uint8 := fun l => (l.headD 0, l.tail)
    proto_bug_read_uint64 := fun l => (l.headD 0, l.tail) }

/-- The client side of scenario S2 after the handshake. -/
def game_S2 : rr_game_socket :=
  { recieved_first_packet := true
    clientbound_encryption_key := 11
    serverbound_encryption_key := 12
    quick_verification := 14 }

/-- A short session: one message written and flushed, one packet received, one more
message written. -/
def events_S2 : List session_event :=
  [session_event.write [pb_field.uint8 4], session_event.writeable,
   session_event.receive [197, 0], session_event.write [pb_field.uint8 4]]

/-- A random source that always returns 0. -/
def rng_zero : rr_rng := { frand := fun _ => 0, rand := fun _ => 0 }

/-- Scenario S2: a verified client whose only petals are ten common basic petals. -/
def client_S2 : rr_server_client :=
  { inventory := fun i r => if i = 1 ∧ r = 0 then 10 else 0
    craft_fails := fun _ _ => 0
    experience := 0
    verified := true
    pending_kick := false
    received_first_packet := true
    clientbound_encryption_key := 11
    serverbound_encryption_key := 12
    requested_verification := 13
    quick_verification := 14
    message_length := 0
    messages := [] }

/-- The client record after a run of received packets. -/
def receive_all (sh : rr_shared) (c : rr_server_client) (ps : List (List Nat)) :
    rr_server_client :=
  ps.foldl (fun c p => (handle_lws_receive sh c p).client) c

/-- Scenario S2 before the account service has answered: first packet received, not yet
verified. -/
def client_unverified : rr_server_client := { client_S2 with verified := false }

/-- A random source whose draws from `rr_frand()` are all 1/2. -/
def rng_half : rr_rng := { frand := fun _ => 1 / 2, rand := fun _ => 0 }

/-- Loop state of a request for 5 petals after 3 consecutive failures. -/
def craft_state_3 : craft_loop_state :=
  { now := 5, success := 0, fails := 3, xp_gain := 0, frand_used := 0, rand_used := 0 }

/-- An account with progress: ten common pellets, three failed crafts, seven kills. -/
def client_account : rr_server_client :=
  { client_S2 with
    uuid := "7f3c"
    experience := 5 / 2
    checkpoint := 3
    inventory := fun i r => if i = 2 ∧ r = 0 then 10 else 0
    craft_fails := fun i r => if i = 2 ∧ r = 1 then 3 else 0
    mob_gallery := fun i r => if i = 0 ∧ r = 0 then 7 else 0 }

/-- The same account on a new connection, before the stored progress is read. -/
def client_reconnected : rr_server_client :=
  { client_S2 with uuid := "7f3c", inventory := fun _ _ => 5 }

/-- A stand-in for `rr_client_leave_squad`, used where a concrete run is evaluated: the
slot of the client is released and the client is in no squad. -/
def sample_leave_squad (this : rr_server) (i : Nat) : rr_server :=
  if (this.clients i).in_squad then
    set_client (set_member this (this.clients i).squad (this.clients i).squad_pos {}) i
      { this.clients i with in_squad := false }
  else this

/-- Stand-ins for the absent constants and functions of the server. -/
def sample_env : rr_server_env :=
  { RR_MAX_CLIENT_COUNT := 64
    RR_SQUAD_COUNT := 10
    RR_MAX_SLOT_COUNT := 10
    rr_get_hash := sample_hash
    rr_client_leave_squad := sample_leave_squad
    is_dead_flower := fun _ _ => false
    rr_trim_string := fun s => s
    rr_validate_user_string := fun _ => true }

/-- Scenario S4: one verified client at index 0, alone in squad 0, in game with the
player_info entity 1 and the flower 2. -/
def server_S4 : rr_server :=
  { clients := fun k =>
      if k = 0 then
        { client_S2 with in_use := true, in_squad := true, player_info := some 1, uuid := "7f3c" }
      else client_unverified
    clients_in_use := fun k => decide (k = 0)
    squads := fun q =>
      if q = 0 then { members := fun r => if r = 0 then { in_use := true, client := 0 } else {} }
      else {}
    simulation := simulation_one
    player_info := fun e => { parent_id := e, client := 0, flower_id := 2 } }

/-- Scenario S4 after the socket of client 0 has closed. -/
def server_closed : rr_server := handle_lws_closed sample_env server_S4 0

/-- Scenario S4 after client 0 has lost its connection and the same account has opened a
new one at index 1, whose first packet has just been read. -/
def server_reconnect : rr_server :=
  { server_S4 with
    clients := fun k =>
      if k = 0 then { server_S4.clients 0 with disconnected := true }
      else if k = 1 then
        first_packet_account false { client_unverified with in_use := true } "7f3c" [1]
      else client_unverified
    clients_in_use := fun k => decide (k = 0 ∨ k = 1) }

/-- A world in which every position drawn is fit for a mob and two mobs are in reach. -/
def sample_world : dev_cheat_world :=
  { rr_mob_id_max := 40
    spawn_ok := fun _ _ => true
    mobs := [5, 6]
    in_reach := fun _ => true }

/-- Scenario S1: the client of scenario S4 under the allowlisted uuid, marked dev. -/
def server_S1 : rr_server :=
  set_client server_S4 0 { server_S4.clients 0 with uuid := dev_uuid, dev := true }

/-- A public squad 0 with four members, clients 0 to 3 at the positions of the same
number; the member at position 1 has two kick votes against it. -/
def server_squad : rr_server :=
  { server_S4 with
    clients := fun k =>
      if k < 4 then { client_S2 with in_use := true, in_squad := true, squad := 0, squad_pos := k }
      else client_unverified
    clients_in_use := fun k => decide (k < 4)
    squads := fun q =>
      if q = 0 then
        { members := fun r =>
            if r < 4 then
              { in_use := true, client := r, kick_vote_count := (if r = 1 then 2 else 0) }
            else {} }
      else {} }

/-- A squad member named "Ann" with an empty loadout. -/
def member_ann : rr_squad_member := { in_use := true, client := 0, nickname := "Ann" }

/-- A server on which client 0, with ten common basics, holds the slot of "Ann". -/
def server_ann : rr_server :=
  { server_S4 with squads := (fun q =>
      if q = 0 then { members := (fun r => if r = 0 then member_ann else {}) } else {}) }

/-- A meat petal held by its slot, at rest: handle 7 with generation 1. -/
def slot_meat : petal_slot :=
  { petal := { id := rr_petal_id_meat }
    ppetal := { entity_hash := 65543, cooldown_ticks := 0 } }

/-- A shell petal held by its slot, at rest. -/
def slot_shell : petal_slot :=
  { petal := { id := rr_petal_id_shell }
    ppetal := { entity_hash := 65543, cooldown_ticks := 0 } }

/-- A slot holding common droplets. -/
def slot_droplet : rr_component_player_info_petal_slot := { id := rr_petal_id_droplet }

/-- A slot holding rare berries. -/
def slot_berry : rr_component_player_info_petal_slot := { id := rr_petal_id_berry, rarity := 2 }

/-- A simulation for the AI tick in which entity 7 is alive at the origin, no cheat is
on, the distance comparison is the exact one on squares, and every species behaviour
would pick target 99, state 5 and a timer of 100. -/
def ai_env_sample : ai_env Unit :=
  { centipede_child := fun _ => false
    has_arena := fun _ => false
    rr_simulation_entity_alive := fun _ t => decide (t = 7)
    is_dead_flower := fun _ _ => false
    no_aggro := fun _ _ => false
    position := fun _ _ => (0, 0)
    rr_vector_magnitude_cmp := (fun v r =>
      if v.1 * v.1 + v.2 * v.2 < r * r then -1
      else if r * r < v.1 * v.1 + v.2 * v.2 then 1 else 0)
    tick_summon_return_to_owner := fun e w => ((e, w), false)
    tick_ai_species := (fun _ e w =>
      ({ e with ai := { e.ai with target_entity := 99, ai_state := 5,
                                  ticks_until_next_action := 100 } }, w)) }

/-- A stunned wild mob 30 units from its living target 7, in state 3 with 4 ticks left
on its action timer and a knockback scale of 5. -/
def ai_entity_stunned : ai_entity :=
  { ai := { target_entity := 7, ai_state := 3, ticks_until_next_action := 4,
            aggro_range := 500 }
    mob := { id := 1, rarity := 0, player_spawned := false, no_drop := false,
             ticks_to_despawn := 0 }
    physical := { x := 30, y := 0, stun_ticks := 10, knockback_scale := 5 } }

/-- The four-client squad of `server_squad` on a server with alias `"eu"`, where squad 0
has code `"own"` and every other squad has code `"hidden"`, none exposed. -/
def server_codes : rr_server :=
  { server_squad with
    server_alias := "eu"
    squads := (fun q =>
      { server_squad.squads q with squad_code := if q = 0 then "own" else "hidden" }) }

/-- Row `rr_mob_id_trex` of `RR_MOB_DATA`, column `loot`: stinger 0.03, egg 0.05 and
meat 0.01, the fourth entry being zero. -/
def loot_trex (i : Nat) : Nat × ℚ :=
  if i = 0 then (4, 3 / 100) else if i = 1 then (9, 5 / 100) else if i = 2 then (26, 1 / 100)
  else (0, 0)

/-- A stand-in for `pow` that ignores the exponent unless the base is 1. -/
def pow_sample (b _c : ℚ) : ℚ := if b = 1 then 1 else b

/-- A drop coefficient table of the declared length, cumulative from 0 to 1. -/
def coeff_sample : List ℚ :=
  [0, 1 / 2, 3 / 4, 7 / 8, 15 / 16, 31 / 32, 63 / 64, 127 / 128, 255 / 256, 511 / 512,
   1023 / 1024, 2047 / 2048, 4095 / 4096, 8191 / 8192, 1]

/-- A wild rare T-rex (row 1 of `RR_MOB_DATA`). -/
def mob_trex_rare : rr_component_mob :=
  { id := 1, rarity := 2, player_spawned := false, no_drop := false,
    ticks_to_despawn := 120 * 25 }

/-- Inputs of `spawn_mob` for a cell without spawn function: the id drawn is a T-rex, the
rarity drawn is rare, every spawn is allowed and no position is too close. -/
def spawn_inputs_sample : spawn_mob_inputs :=
  { spawn_function := none
    frand_first := 1 / 2
    get_spawn_id := fun _ => 1
    get_spawn_rarity := fun _ => 2
    should_spawn_at := fun _ _ => true
    frand_x := fun _ => 1 / 2
    frand_y := fun _ => 1 / 2
    too_close := fun _ _ _ => false
    radius := fun _ _ => 32
    grid_size := 1024
    rr_mob_id_golden_meteor := 20 }

/-- A maze environment outside pvp whose `powf` is constantly 1 and whose draws are all
one half. -/
def maze_env_sample : tick_maze_env :=
  { powf := fun _ _ => 1
    pvp := false
    rr_frand := fun _ _ => 1 / 2
    spawn := fun _ _ => spawn_inputs_sample }

/-- A walkable cell of difficulty 10 with an overload factor of 1 left from earlier ticks,
on which one flower of level 1 was counted this tick: a local difficulty of -1. -/
def grid_overloaded : rr_maze_grid :=
  { value := 1, difficulty := 10, local_difficulty := -1, overload_factor := 1,
    player_count := 1 }

/-- A 2x2 maze whose north-west cell is walkable, of difficulty 5, with one flower of
level 10 counted and a spawn timer of 100, the other three cells being walls. -/
def maze_one (x y : Nat) : rr_maze_grid :=
  if x = 0 ∧ y = 0 then
    { value := 1, difficulty := 5, local_difficulty := 16 / 100, player_count := 1,
      spawn_timer := 100 }
  else {}

/-- The 2x2 maze of `maze_one` with 7 grid points on its walkable cell, more than the
four cells' `max_points` together. -/
def maze_full (x y : Nat) : rr_maze_grid :=
  if x = 0 ∧ y = 0 then
    { value := 1, difficulty := 5, local_difficulty := 16 / 100, player_count := 1,
      spawn_timer := 100, grid_points := 7 }
  else {}

/-- A 2x2 template with one wall: tiles `(0, 0)`, `(1, 0)` and `(0, 1)` have difficulties
3, 5 and 2, and tile `(1, 1)` is empty. -/
def template_sample (i : Nat) : Nat := [3, 5, 2, 0].getD i 0

/-- The server of `server_ann` where every client owns one common basic petal and nothing
else. -/
def server_one_basic : rr_server :=
  { server_ann with
    clients := (fun k =>
      { server_ann.clients k with inventory := fun id r => if id = 1 ∧ r = 0 then 1 else 0 }) }

/-- A slot of epic eggs. -/
def slot_egg : rr_component_player_info_petal_slot := { id := rr_petal_id_egg, rarity := 3 }

/-- A pass over an entry whose egg is alive, in the flower's arena and ready to hatch. -/
def reload_inputs_egg : reload_entry_inputs :=
  { entity_alive := true, cooldown := 25, reload_speed := 1, has_bubble := false,
    alloc_effect_delay := 0, other_arena := false, has_petal := true,
    petal := { id := rr_petal_id_egg, rarity := 3, effect_delay := 0 } }

/-! # Theorems -/

/-! ## Crafting -/

theorem craft_loop_unfold (rng : rr_rng) (id rarity : Nat) (base : ℚ) (s : craft_loop_state) :
    craft_loop rng id rarity base s =
      if 5 ≤ s.now then craft_loop rng id rarity base (craft_loop_body rng id rarity base s)
      else s := by
  rw [craft_loop]

/-- For the basic petal the loop consumes five petals per pass and never draws. -/
theorem craft_loop_basic (rng : rr_rng) (rarity : Nat) (base : ℚ) :
    ∀ (n : Nat) (s : craft_loop_state), s.now = n →
      craft_loop rng rr_petal_id_basic rarity base s =
        { now := s.now % 5
          success := s.success + s.now / 5
          fails := if 5 ≤ s.now then 0 else s.fails
          xp_gain := s.xp_gain + ((s.now / 5 : Nat) : ℚ) * CRAFT_XP_GAINS rarity
          frand_used := s.frand_used
          rand_used := s.rand_used } := by
  intro n
  induction n using Nat.strong_induction_on with
  | _ n ih =>
    intro s hs
    rw [craft_loop_unfold]
    by_cases h : 5 ≤ s.now
    · rw [if_pos h]
      have hb : craft_loop_body rng rr_petal_id_basic rarity base s =
          { s with success := s.success + 1, fails := 0, now := s.now - 5,
                   xp_gain := s.xp_gain + CRAFT_XP_GAINS rarity } := by
        simp [craft_loop_body]
      rw [hb, ih (s.now - 5) (by omega) _ rfl]
      have h1 : s.now / 5 = (s.now - 5) / 5 + 1 := by omega
      have h2 : (s.now - 5) % 5 = s.now % 5 := by omega
      simp only [h2, if_pos h]
      congr 1
      · omega
      · split_ifs <;> rfl
      · rw [h1]; push_cast; ring
    · rw [if_neg h]
      have h1 : s.now / 5 = 0 := by omega
      have h2 : s.now % 5 = s.now := by omega
      simp [h1, h2, h]

/-- The record a basic craft request leaves before the result packet is queued. -/
theorem craft_petal_basic_eq (hash : Nat → Nat) (chances : Nat → ℚ) (rng : rr_rng)
    (this : rr_server_client) (r count : Nat) (hr : r < rr_rarity_id_max - 1)
    (hc : 5 ≤ count) (hinv : count ≤ this.inventory rr_petal_id_basic r) :
    rr_server_client_craft_petal hash chances rng this rr_petal_id_basic r count =
      rr_server_client_write_message hash
        { this with
          inventory :=
            set2 (set2 this.inventory rr_petal_id_basic r
                ((this.inventory rr_petal_id_basic r + 2 ^ 32 - (count - count % 5)) % 2 ^ 32))
              rr_petal_id_basic (r + 1)
              ((this.inventory rr_petal_id_basic (r + 1) + count / 5) % 2 ^ 32)
          craft_fails := set2 this.craft_fails rr_petal_id_basic r 0
          experience := this.experience + ((count / 5 : Nat) : ℚ) * CRAFT_XP_GAINS r }
        (craft_result_packet rr_petal_id_basic r (count / 5) (count - count % 5) 0
          (((count / 5 : Nat) : ℚ) * CRAFT_XP_GAINS r)) := by
  have h1 : ¬ (rr_petal_id_basic ≥ rr_petal_id_max ∨ r ≥ rr_rarity_id_max - 1) := by
    simp only [rr_petal_id_basic, rr_petal_id_max]
    omega
  have h2 : ¬ count < 5 := by omega
  have h3 : ¬ this.inventory rr_petal_id_basic r < count := by omega
  unfold rr_server_client_craft_petal
  rw [if_neg h1, if_neg h2, if_neg h3]
  have hl := craft_loop_basic rng r (chances r) count
    { now := count, success := 0, fails := this.craft_fails rr_petal_id_basic r, xp_gain := 0,
      frand_used := 0, rand_used := 0 } rfl
  simp only [if_pos hc, zero_add] at hl
  simp only [hl]
  have h4 : set2 this.inventory rr_petal_id_basic r
      ((this.inventory rr_petal_id_basic r + 2 ^ 32 - (count - count % 5)) % 2 ^ 32)
      rr_petal_id_basic (r + 1) = this.inventory rr_petal_id_basic (r + 1) := by
    simp [set2]
  rw [h4]

/-- C1. A craft request for the basic petal at rarity `r` with `count >= 5` petals in stock
succeeds at every attempt: `inventory[basic][r]` goes down by `5 * (count / 5)`,
`inventory[basic][r + 1]` goes up by `count / 5` (a `uint32_t` addition, exact when it does
not wrap) and `craft_fails[basic][r]` becomes 0. -/
theorem craft_petal_basic_inventory (hash : Nat → Nat) (chances : Nat → ℚ) (rng : rr_rng)
    (this : rr_server_client) (r count : Nat) (hr : r < rr_rarity_id_max - 1)
    (hc : 5 ≤ count) (hinv : count ≤ this.inventory rr_petal_id_basic r)
    (hu32 : this.inventory rr_petal_id_basic r < 2 ^ 32) :
    (rr_server_client_craft_petal hash chances rng this rr_petal_id_basic r count).inventory
        rr_petal_id_basic r = this.inventory rr_petal_id_basic r - 5 * (count / 5) ∧
    (rr_server_client_craft_petal hash chances rng this rr_petal_id_basic r count).inventory
        rr_petal_id_basic (r + 1) =
      (this.inventory rr_petal_id_basic (r + 1) + count / 5) % 2 ^ 32 ∧
    (this.inventory rr_petal_id_basic (r + 1) + count / 5 < 2 ^ 32 →
      (rr_server_client_craft_petal hash chances rng this rr_petal_id_basic r count).inventory
        rr_petal_id_basic (r + 1) = this.inventory rr_petal_id_basic (r + 1) + count / 5) ∧
    (rr_server_client_craft_petal hash chances rng this rr_petal_id_basic r count).craft_fails
        rr_petal_id_basic r = 0 := by
  rw [craft_petal_basic_eq hash chances rng this r count hr hc hinv]
  have hw : ∀ (c : rr_server_client) (d : List pb_field),
      (rr_server_client_write_message hash c d).inventory = c.inventory ∧
      (rr_server_client_write_message hash c d).craft_fails = c.craft_fails := by
    intro c d
    unfold rr_server_client_write_message
    dsimp only
    split_ifs <;> exact ⟨rfl, rfl⟩
  rw [(hw _ _).1, (hw _ _).2]
  have e1 : (this.inventory rr_petal_id_basic r + 2 ^ 32 - (count - count % 5)) % 2 ^ 32 =
      this.inventory rr_petal_id_basic r - 5 * (count / 5) := by
    omega
  have hne : ¬ (rr_petal_id_basic = rr_petal_id_basic ∧ r = r + 1) := by omega
  refine ⟨?_, ?_, ?_, ?_⟩
  · show set2 _ _ _ _ _ _ = _
    rw [set2, if_neg hne, set2, if_pos ⟨rfl, rfl⟩]
    exact e1
  · show set2 _ _ _ _ _ _ = _
    rw [set2, if_pos ⟨rfl, rfl⟩]
  · intro hlt
    show set2 _ _ _ _ _ _ = _
    rw [set2, if_pos ⟨rfl, rfl⟩]
    exact Nat.mod_eq_of_lt hlt
  · show set2 _ _ _ _ _ _ = _
    rw [set2, if_pos ⟨rfl, rfl⟩]

/-- C1, scenario S2: ten common basic petals and `craft(basic, common, 10)` leave no common
and two unusual basic petals. -/
theorem craft_petal_basic_inventory_witness :
    (rr_server_client_craft_petal sample_hash (fun _ => 0) rng_zero client_S2
        rr_petal_id_basic 0 10).inventory rr_petal_id_basic 0 = 0 ∧
    (rr_server_client_craft_petal sample_hash (fun _ => 0) rng_zero client_S2
        rr_petal_id_basic 0 10).inventory rr_petal_id_basic 1 = 2 ∧
    (rr_server_client_craft_petal sample_hash (fun _ => 0) rng_zero client_S2
        rr_petal_id_basic 0 10).craft_fails rr_petal_id_basic 0 = 0 := by
  have h := craft_petal_basic_inventory sample_hash (fun _ => 0) rng_zero client_S2 0 10
    (by decide) (by decide) (by decide) (by decide)
  refine ⟨?_, ?_, ?_⟩
  · rw [h.1]; decide
  · rw [h.2.1]; decide
  · exact h.2.2.2

/-- What `rr_server_client_write_message` does to the queue when it has room. -/
theorem write_message_messages (hash : Nat → Nat) (c : rr_server_client)
    (d : List pb_field) (hq : c.message_length < 512) :
    (rr_server_client_write_message hash c d).messages =
      c.messages ++
        [{ packet := d
           key := (if c.received_first_packet then some (hash c.clientbound_encryption_key)
                   else none) }] := by
  have hq2 : ¬ c.message_length ≥ 512 := by omega
  unfold rr_server_client_write_message
  dsimp only
  rw [if_neg hq2]
  split_ifs <;> rfl

/-- C2 as stated fails: after `craft(basic, common, 10)` the queued craft result carries 10
in its "fail count" field (the petals consumed, `count - now`), not 0. -/
theorem craft_result_fail_count_counterexample :
    (rr_server_client_craft_petal sample_hash (fun _ => 0) rng_zero client_S2
        rr_petal_id_basic 0 10).messages =
      [{ packet := craft_result_packet rr_petal_id_basic 0 2 10 0 (2 * CRAFT_XP_GAINS 0),
         key := some (sample_hash 11) }] ∧
    ¬ ∃ m ∈ (rr_server_client_craft_petal sample_hash (fun _ => 0) rng_zero client_S2
        rr_petal_id_basic 0 10).messages,
      m.packet = craft_result_packet rr_petal_id_basic 0 2 0 0 (2 * CRAFT_XP_GAINS 0) := by
  have h : (rr_server_client_craft_petal sample_hash (fun _ => 0) rng_zero client_S2
        rr_petal_id_basic 0 10).messages =
      [{ packet := craft_result_packet rr_petal_id_basic 0 2 10 0 (2 * CRAFT_XP_GAINS 0),
         key := some (sample_hash 11) }] := by
    rw [craft_petal_basic_eq sample_hash (fun _ => 0) rng_zero client_S2 0 10
      (by decide) (by decide) (by decide)]
    rw [write_message_messages _ _ _ (by decide)]
    simp [client_S2]
  refine ⟨h, ?_⟩
  rw [h]
  simp [craft_result_packet]

/-- C2, amended. For a basic-petal craft request (rarity `r`, `count >= 5`, enough petals)
on a client whose queue has room, the craft result appended to the queue carries
successes `count / 5`, in the "fail count" field the petals consumed `5 * (count / 5)`,
attempts 0 and xp `(count / 5) * CRAFT_XP_GAINS[r]`. -/
theorem craft_petal_basic_result (hash : Nat → Nat) (chances : Nat → ℚ) (rng : rr_rng)
    (this : rr_server_client) (r count : Nat) (hr : r < rr_rarity_id_max - 1)
    (hc : 5 ≤ count) (hinv : count ≤ this.inventory rr_petal_id_basic r)
    (hq : this.message_length < 512) :
    (rr_server_client_craft_petal hash chances rng this rr_petal_id_basic r count).messages =
      this.messages ++
        [{ packet := craft_result_packet rr_petal_id_basic r (count / 5) (5 * (count / 5)) 0
             (((count / 5 : Nat) : ℚ) * CRAFT_XP_GAINS r)
           key := (if this.received_first_packet then
                     some (hash this.clientbound_encryption_key) else none) }] := by
  rw [craft_petal_basic_eq hash chances rng this r count hr hc hinv]
  have e : count - count % 5 = 5 * (count / 5) := by omega
  rw [e]
  exact write_message_messages hash _ _ hq

/-- C2, scenario S2: `craft(basic, common, 10)` queues successes 2, consumed 10,
attempts 0 and xp `2 * CRAFT_XP_GAINS[0]`. -/
theorem craft_petal_basic_result_witness :
    (rr_server_client_craft_petal sample_hash (fun _ => 0) rng_zero client_S2
        rr_petal_id_basic 0 10).messages =
      client_S2.messages ++
        [{ packet := craft_result_packet rr_petal_id_basic 0 (10 / 5) (5 * (10 / 5)) 0
             (((10 / 5 : Nat) : ℚ) * CRAFT_XP_GAINS 0)
           key := (if client_S2.received_first_packet then
                     some (sample_hash client_S2.clientbound_encryption_key) else none) }] :=
  craft_petal_basic_result sample_hash (fun _ => 0) rng_zero client_S2 0 10
    (by decide) (by decide) (by decide) (by decide)

/-- C3. A craft request with `id >= rr_petal_id_max`, or `rarity >= rr_rarity_id_max - 1`,
or `count < 5`, or fewer than `count` petals in stock, returns the client record as it
was: inventory, craft_fails, experience, keys and the outgoing queue are all unchanged. -/
theorem craft_petal_invalid_ignored (hash : Nat → Nat) (chances : Nat → ℚ) (rng : rr_rng)
    (this : rr_server_client) (id rarity count : Nat)
    (h : id ≥ rr_petal_id_max ∨ rarity ≥ rr_rarity_id_max - 1 ∨ count < 5 ∨
      this.inventory id rarity < count) :
    rr_server_client_craft_petal hash chances rng this id rarity count = this := by
  unfold rr_server_client_craft_petal
  by_cases h1 : id ≥ rr_petal_id_max ∨ rarity ≥ rr_rarity_id_max - 1
  · rw [if_pos h1]
  · rw [if_neg h1]
    by_cases h2 : count < 5
    · rw [if_pos h2]
    · rw [if_neg h2]
      have h3 : this.inventory id rarity < count := by
        rcases h with h | h | h | h
        · exact absurd (Or.inl h) h1
        · exact absurd (Or.inr h) h1
        · exact absurd h h2
        · exact h
      rw [if_pos h3]

/-- C3 on scenario S2: asking to craft 11 petals with 10 in stock changes nothing, and the
queue stays empty. -/
theorem craft_petal_invalid_ignored_witness :
    rr_server_client_craft_petal sample_hash (fun _ => 0) rng_zero client_S2
        rr_petal_id_basic 0 11 = client_S2 ∧
    (rr_server_client_craft_petal sample_hash (fun _ => 0) rng_zero client_S2
        rr_petal_id_basic 0 11).messages = [] := by
  have h := craft_petal_invalid_ignored sample_hash (fun _ => 0) rng_zero client_S2
    rr_petal_id_basic 0 11 (Or.inr (Or.inr (Or.inr (by decide))))
  exact ⟨h, by rw [h]; rfl⟩

/-! ## Session keys -/

theorem write_message_no_first_packet (hash : Nat → Nat) (c : rr_server_client)
    (d : List pb_field) (h : c.received_first_packet = false) :
    (rr_server_client_write_message hash c d).clientbound_encryption_key =
        c.clientbound_encryption_key ∧
    (rr_server_client_write_message hash c d).serverbound_encryption_key =
        c.serverbound_encryption_key := by
  unfold rr_server_client_write_message
  dsimp only
  split_ifs <;> simp_all

theorem write_message_serverbound (hash : Nat → Nat) (c : rr_server_client)
    (d : List pb_field) :
    (rr_server_client_write_message hash c d).serverbound_encryption_key =
        c.serverbound_encryption_key ∧
    (rr_server_client_write_message hash c d).received_first_packet =
        c.received_first_packet := by
  unfold rr_server_client_write_message
  dsimp only
  split_ifs <;> exact ⟨rfl, rfl⟩

theorem write_message_accepted (hash : Nat → Nat) (c : rr_server_client)
    (d : List pb_field) (h : c.received_first_packet = true) (hq : c.message_length < 512) :
    (rr_server_client_write_message hash c d).clientbound_encryption_key =
        hash c.clientbound_encryption_key ∧
    (rr_server_client_write_message hash c d).messages =
        c.messages ++ [{ packet := d, key := some (hash c.clientbound_encryption_key) }] ∧
    (rr_server_client_write_message hash c d).pending_kick = c.pending_kick := by
  have hq2 : ¬ c.message_length ≥ 512 := by omega
  unfold rr_server_client_write_message
  dsimp only
  rw [if_neg hq2, if_pos h]
  exact ⟨rfl, rfl, rfl⟩

theorem write_message_rejected (hash : Nat → Nat) (c : rr_server_client)
    (d : List pb_field) (hq : 512 ≤ c.message_length) :
    (rr_server_client_write_message hash c d).pending_kick = true ∧
    (rr_server_client_write_message hash c d).messages = c.messages ∧
    (rr_server_client_write_message hash c d).clientbound_encryption_key =
        c.clientbound_encryption_key := by
  unfold rr_server_client_write_message
  dsimp only
  rw [if_pos hq]
  exact ⟨rfl, rfl, rfl⟩

theorem handle_lws_receive_frame (sh : rr_shared) (c : rr_server_client) (p : List Nat) :
    (handle_lws_receive sh c p).client.serverbound_encryption_key =
        sh.rr_get_hash (sh.rr_get_hash c.serverbound_encryption_key) ∧
    (handle_lws_receive sh c p).client.clientbound_encryption_key =
        c.clientbound_encryption_key ∧
    (handle_lws_receive sh c p).client.messages = c.messages ∧
    (c.received_first_packet = true →
      (handle_lws_receive sh c p).client.received_first_packet = true) ∧
    ((handle_lws_receive sh c p).client.pending_kick = false → c.pending_kick = false) := by
  unfold handle_lws_receive
  dsimp only
  split_ifs <;> simp_all

theorem session_run_serverbound (sh : rr_shared) (es : List session_event) :
    ∀ s : session, (session_run sh s es).client.serverbound_encryption_key =
      sh.rr_get_hash^[2 * count_receive es] s.client.serverbound_encryption_key := by
  induction es with
  | nil => intro s; rfl
  | cons e es ih =>
    intro s
    show (session_run sh (session_step sh s e) es).client.serverbound_encryption_key = _
    rw [ih]
    cases e with
    | write d =>
      show _ = sh.rr_get_hash^[2 * count_receive es] _
      congr 1
      exact (write_message_serverbound _ _ _).1
    | writeable =>
      show _ = sh.rr_get_hash^[2 * count_receive es] _
      congr 1
      simp only [session_step, handle_lws_writeable]
      split_ifs <;> rfl
    | receive p =>
      show _ = sh.rr_get_hash^[2 * (count_receive es + 1)] _
      have e2 : 2 * (count_receive es + 1) = 2 * count_receive es + 2 := by ring
      rw [e2, Function.iterate_add_apply]
      congr 1
      exact (handle_lws_receive_frame sh s.client p).1

theorem rr_game_on_data_n_keys (hash : Nat → Nat) (n : Nat) :
    ∀ g : rr_game_socket,
      (rr_game_on_data_n hash g n).1.clientbound_encryption_key =
          hash^[n] g.clientbound_encryption_key ∧
      (rr_game_on_data_n hash g n).2 =
          (List.range n).map (fun i => hash^[i + 1] g.clientbound_encryption_key) := by
  induction n with
  | zero => intro g; exact ⟨rfl, rfl⟩
  | succ n ih =>
    intro g
    have h := ih (rr_game_on_data hash g).1
    constructor
    · show (rr_game_on_data_n hash (rr_game_on_data hash g).1 n).1.clientbound_encryption_key = _
      rw [h.1]
      rfl
    · show (rr_game_on_data hash g).2 ::
        (rr_game_on_data_n hash (rr_game_on_data hash g).1 n).2 = _
      rw [h.2, List.range_succ_eq_map, List.map_cons, List.map_map]
      rfl

theorem session_step_keys (sh : rr_shared) (k0 : Nat) (s : session) (e : session_event)
    (hfp : s.client.received_first_packet = true)
    (hk : s.client.pending_kick = false → session_keys_agree sh.rr_get_hash k0 s) :
    (session_step sh s e).client.received_first_packet = true ∧
    ((session_step sh s e).client.pending_kick = false →
      session_keys_agree sh.rr_get_hash k0 (session_step sh s e)) := by
  cases e with
  | write d =>
    refine ⟨by rw [← hfp]; exact (write_message_serverbound _ _ _).2, ?_⟩
    intro hpk
    by_cases hq : s.client.message_length < 512
    · obtain ⟨h1, h2, h3⟩ := write_message_accepted sh.rr_get_hash s.client d hfp hq
      have hpk0 : s.client.pending_kick = false := by
        rw [← h3]; exact hpk
      obtain ⟨a1, a2⟩ := hk hpk0
      unfold session_keys_agree
      simp only [session_step]
      rw [h1, h2, ← List.append_assoc]
      have hl : ∀ m : rr_server_client_message, (s.wire ++ s.client.messages ++ [m]).length =
          (s.wire ++ s.client.messages).length + 1 := by
        intro m
        rw [List.length_append, List.length_singleton]
      rw [hl]
      constructor
      · rw [Function.iterate_succ_apply', a1]
      · rw [List.map_append, a2, List.range_succ, List.map_append, List.map_singleton,
          List.map_singleton, a1, Function.iterate_succ_apply']
    · have hr := (write_message_rejected sh.rr_get_hash s.client d (by omega)).1
      simp only [session_step] at hpk
      rw [hr] at hpk
      exact absurd hpk (by decide)
  | writeable =>
    simp only [session_step, handle_lws_writeable]
    by_cases hp : s.client.pending_kick = true
    · simp only [hp, if_true]
      exact ⟨hfp, fun h => absurd h (by decide)⟩
    · have hp0 : s.client.pending_kick = false := by
        cases h : s.client.pending_kick
        · rfl
        · exact absurd h hp
      simp only [hp0, Bool.false_eq_true, if_false]
      refine ⟨hfp, fun _ => ?_⟩
      obtain ⟨a1, a2⟩ := hk hp0
      unfold session_keys_agree
      simp only [List.append_nil]
      exact ⟨a1, a2⟩
  | receive p =>
    obtain ⟨_, h2, h3, h4, h5⟩ := handle_lws_receive_frame sh s.client p
    refine ⟨h4 hfp, fun hpk => ?_⟩
    obtain ⟨a1, a2⟩ := hk (h5 hpk)
    unfold session_keys_agree
    simp only [session_step]
    rw [h2, h3]
    exact ⟨a1, a2⟩

theorem session_run_keys (sh : rr_shared) (k0 : Nat) (es : List session_event) :
    ∀ s : session, s.client.received_first_packet = true →
      (s.client.pending_kick = false → session_keys_agree sh.rr_get_hash k0 s) →
      ((session_run sh s es).client.pending_kick = false →
        session_keys_agree sh.rr_get_hash k0 (session_run sh s es)) := by
  induction es with
  | nil => intro s _ hk; exact hk
  | cons e es ih =>
    intro s hfp hk
    have h := session_step_keys sh k0 s e hfp hk
    exact ih (session_step sh s e) h.1 h.2

theorem wire_keys_of_agree (hash : Nat → Nat) (k0 : Nat) (s : session)
    (h : session_keys_agree hash k0 s) :
    s.wire.map (fun m => m.key) =
      (List.range s.wire.length).map (fun i => some (hash^[i + 1] k0)) := by
  have h2 := congrArg (List.take s.wire.length) h.2
  rw [List.map_append, List.take_left' (by simp), ← List.map_take, List.take_range,
    List.length_append] at h2
  rw [h2]
  congr 2
  omega

/-- C4. Session key schedule. A message written before the first packet was received (the
handshake) leaves both keys as they are and is queued unencrypted. Once the first packet
has been received, an accepted write replaces the clientbound key by its hash and
encrypts with the new key, and the client hashes its key once per frame before
decrypting. A received packet is decrypted with the current serverbound key, which is
then hashed twice. Over any sequence of events: after `K` received packets the
serverbound key is `hash^(2K)`; while the client is not pending kick, the server holds
`hash^N` of the initial clientbound key for the `N` messages written or queued, the
`i`-th frame on the wire was encrypted with the key the client decrypts it with, and once
the queue is flushed both sides hold the same key. -/
theorem session_key_schedule (sh : rr_shared) (c0 : rr_server_client) (g0 : rr_game_socket)
    (es : List session_event) (hfp : c0.received_first_packet = true)
    (hm : c0.messages = [])
    (hg : g0.clientbound_encryption_key = c0.clientbound_encryption_key) :
    (∀ (c : rr_server_client) (d : List pb_field), c.received_first_packet = false →
      (rr_server_client_write_message sh.rr_get_hash c d).clientbound_encryption_key =
          c.clientbound_encryption_key ∧
      (rr_server_client_write_message sh.rr_get_hash c d).serverbound_encryption_key =
          c.serverbound_encryption_key ∧
      (c.message_length < 512 →
        (rr_server_client_write_message sh.rr_get_hash c d).messages =
          c.messages ++ [{ packet := d, key := none }])) ∧
    (∀ (c : rr_server_client) (d : List pb_field), c.received_first_packet = true →
      c.message_length < 512 →
      (rr_server_client_write_message sh.rr_get_hash c d).clientbound_encryption_key =
          sh.rr_get_hash c.clientbound_encryption_key ∧
      (rr_server_client_write_message sh.rr_get_hash c d).messages =
          c.messages ++
            [{ packet := d, key := some (sh.rr_get_hash c.clientbound_encryption_key) }]) ∧
    (∀ g : rr_game_socket,
      (rr_game_on_data sh.rr_get_hash g).1.clientbound_encryption_key =
          sh.rr_get_hash g.clientbound_encryption_key ∧
      (rr_game_on_data sh.rr_get_hash g).2 = sh.rr_get_hash g.clientbound_encryption_key) ∧
    (∀ (c : rr_server_client) (p : List Nat),
      (handle_lws_receive sh c p).client.serverbound_encryption_key =
          sh.rr_get_hash (sh.rr_get_hash c.serverbound_encryption_key) ∧
      ∀ x, (handle_lws_receive sh c p).dispatched = some x →
        x = sh.proto_bug_read_uint8
          (sh.proto_bug_read_uint8 (sh.rr_decrypt p c.serverbound_encryption_key)).2) ∧
    (session_run sh { client := c0, wire := [] } es).client.serverbound_encryption_key =
        sh.rr_get_hash^[2 * count_receive es] c0.serverbound_encryption_key ∧
    ((session_run sh { client := c0, wire := [] } es).client.pending_kick = false →
      (session_run sh { client := c0, wire := [] } es).client.clientbound_encryption_key =
        sh.rr_get_hash^[(session_run sh { client := c0, wire := [] } es).wire.length +
          (session_run sh { client := c0, wire := [] } es).client.messages.length]
          c0.clientbound_encryption_key ∧
      (session_run sh { client := c0, wire := [] } es).wire.map (fun m => m.key) =
        (List.range (session_run sh { client := c0, wire := [] } es).wire.length).map
          (fun i => some (sh.rr_get_hash^[i + 1] c0.clientbound_encryption_key)) ∧
      (rr_game_on_data_n sh.rr_get_hash g0
          (session_run sh { client := c0, wire := [] } es).wire.length).2.map some =
        (session_run sh { client := c0, wire := [] } es).wire.map (fun m => m.key) ∧
      (rr_game_on_data_n sh.rr_get_hash g0
          (session_run sh { client := c0, wire := [] }
            es).wire.length).1.clientbound_encryption_key =
        sh.rr_get_hash^[(session_run sh { client := c0, wire := [] } es).wire.length]
          c0.clientbound_encryption_key ∧
      ((session_run sh { client := c0, wire := [] } es).client.messages = [] →
        (rr_game_on_data_n sh.rr_get_hash g0
          (session_run sh { client := c0, wire := [] }
            es).wire.length).1.clientbound_encryption_key =
        (session_run sh { client := c0, wire := [] } es).client.clientbound_encryption_key)) := by
  refine ⟨?_, ?_, ?_, ?_, ?_, ?_⟩
  · intro c d h
    refine ⟨(write_message_no_first_packet _ c d h).1, (write_message_no_first_packet _ c d h).2,
      fun hq => ?_⟩
    rw [write_message_messages _ c d hq, h]
    rfl
  · intro c d h hq
    exact ⟨(write_message_accepted _ c d h hq).1, (write_message_accepted _ c d h hq).2.1⟩
  · intro g
    exact ⟨rfl, rfl⟩
  · intro c p
    refine ⟨(handle_lws_receive_frame sh c p).1, ?_⟩
    intro x
    unfold handle_lws_receive
    dsimp only
    split_ifs <;> simp
    intro hx
    rw [← hx]
  · exact session_run_serverbound sh es _
  · intro hpk
    have hinit : (c0.pending_kick = false →
        session_keys_agree sh.rr_get_hash c0.clientbound_encryption_key
          { client := c0, wire := [] }) := by
      intro _
      unfold session_keys_agree
      simp [hm]
    have hag := session_run_keys sh c0.clientbound_encryption_key es
      { client := c0, wire := [] } hfp hinit hpk
    have hw := wire_keys_of_agree _ _ _ hag
    have hgm := rr_game_on_data_n_keys sh.rr_get_hash
      (session_run sh { client := c0, wire := [] } es).wire.length g0
    rw [hg] at hgm
    refine ⟨?_, hw, ?_, hgm.1, ?_⟩
    · rw [hag.1, List.length_append]
    · rw [hgm.2, hw, List.map_map]
      rfl
    · intro hq
      rw [hgm.1, hag.1, hq, List.append_nil]

/-- C4 on a short session from scenario S2: one packet received gives the serverbound key
hashed twice; the frame on the wire was encrypted with the hash of the initial clientbound
key, which is the key the client decrypts it with. -/
theorem session_key_schedule_witness :
    client_S2.received_first_packet = true ∧ client_S2.messages = [] ∧
    game_S2.clientbound_encryption_key = client_S2.clientbound_encryption_key ∧
    (session_run sample_shared { client := client_S2, wire := [] }
        events_S2).client.serverbound_encryption_key =
      sample_hash (sample_hash 12) ∧
    (session_run sample_shared { client := client_S2, wire := [] }
        events_S2).client.clientbound_encryption_key =
      sample_hash (sample_hash 11) ∧
    (rr_game_on_data_n sample_hash game_S2 1).2 = [sample_hash 11] := by
  have h := session_key_schedule sample_shared client_S2 game_S2 events_S2 rfl rfl rfl
  have hpk : (session_run sample_shared { client := client_S2, wire := [] }
      events_S2).client.pending_kick = false := by
    decide
  have hlen : (session_run sample_shared { client := client_S2, wire := [] }
      events_S2).wire.length = 1 := by
    decide
  have hlen2 : (session_run sample_shared { client := client_S2, wire := [] }
      events_S2).client.messages.length = 1 := by
    decide
  refine ⟨rfl, rfl, rfl, ?_, ?_, rfl⟩
  · rw [h.2.2.2.2.1]
    rfl
  · rw [(h.2.2.2.2.2 hpk).1, hlen, hlen2]
    rfl

/-! ## Quick verification -/

theorem handle_lws_receive_verified (sh : rr_shared) (c : rr_server_client) (p : List Nat)
    (hfp : c.received_first_packet = true) (hv : c.verified = true) :
    (handle_lws_receive sh c p).client.quick_verification =
        sh.rr_get_hash c.quick_verification % 256 ∧
    (handle_lws_receive sh c p).client.received_first_packet = true ∧
    (handle_lws_receive sh c p).client.verified = true ∧
    ((sh.proto_bug_read_uint8 (sh.rr_decrypt p c.serverbound_encryption_key)).1 ≠
        sh.rr_get_hash c.quick_verification % 256 →
      handle_lws_receive sh c p =
        { client := { c with
            serverbound_encryption_key :=
              sh.rr_get_hash (sh.rr_get_hash c.serverbound_encryption_key)
            quick_verification := sh.rr_get_hash c.quick_verification % 256
            pending_kick := true }
          ret := -1
          dispatched := none }) ∧
    ((sh.proto_bug_read_uint8 (sh.rr_decrypt p c.serverbound_encryption_key)).1 =
        sh.rr_get_hash c.quick_verification % 256 →
      (handle_lws_receive sh c p).ret = 0 ∧
      (handle_lws_receive sh c p).client.pending_kick = c.pending_kick ∧
      (handle_lws_receive sh c p).dispatched =
        some (sh.proto_bug_read_uint8 (sh.proto_bug_read_uint8
          (sh.rr_decrypt p c.serverbound_encryption_key)).2)) := by
  have n1 : ¬ ¬ c.received_first_packet = true := not_not.mpr hfp
  have n2 : ¬ ¬ c.verified = true := not_not.mpr hv
  unfold handle_lws_receive
  dsimp only
  rw [if_neg n1, if_neg n2]
  refine ⟨?_, ?_, ?_, ?_, ?_⟩
  · split_ifs <;> rfl
  · split_ifs <;> exact hfp
  · split_ifs <;> exact hv
  · intro hne
    rw [if_pos hne]
  · intro heq
    rw [if_neg (not_not.mpr heq)]
    exact ⟨rfl, rfl, rfl⟩

theorem receive_all_verified (sh : rr_shared) (ps : List (List Nat)) :
    ∀ c : rr_server_client, c.received_first_packet = true → c.verified = true →
      (receive_all sh c ps).quick_verification =
          (fun b => sh.rr_get_hash b % 256)^[ps.length] c.quick_verification ∧
      (receive_all sh c ps).received_first_packet = true ∧
      (receive_all sh c ps).verified = true := by
  induction ps with
  | nil => intro c hfp hv; exact ⟨rfl, hfp, hv⟩
  | cons p ps ih =>
    intro c hfp hv
    obtain ⟨h1, h2, h3, _, _⟩ := handle_lws_receive_verified sh c p hfp hv
    have h := ih (handle_lws_receive sh c p).client h2 h3
    refine ⟨?_, h.2.1, h.2.2⟩
    show (receive_all sh (handle_lws_receive sh c p).client ps).quick_verification = _
    rw [h.1, h1, List.length_cons, Function.iterate_succ_apply]

/-- A packet that arrives after the first one while the client is not verified: the
handler advances the serverbound key and leaves at `if (!client->verified) break;`,
returning 0 with the expected byte and `pending_kick` as they were and no dispatch. -/
theorem handle_lws_receive_unverified (sh : rr_shared) (c : rr_server_client) (p : List Nat)
    (hfp : c.received_first_packet = true) (hv : c.verified = false) :
    handle_lws_receive sh c p =
      { client := { c with
          serverbound_encryption_key :=
            sh.rr_get_hash (sh.rr_get_hash c.serverbound_encryption_key) }
        ret := 0
        dispatched := none } := by
  have n1 : ¬ ¬ c.received_first_packet = true := not_not.mpr hfp
  have n2 : ¬ c.verified = true := by
    rw [hv]
    exact Bool.false_ne_true
  unfold handle_lws_receive
  dsimp only
  rw [if_neg n1, if_pos n2]

/-- Any run of packets received while the client is not verified leaves the expected
byte, `pending_kick` and the two flags as they were. -/
theorem receive_all_unverified (sh : rr_shared) (us : List (List Nat)) :
    ∀ c : rr_server_client, c.received_first_packet = true → c.verified = false →
      (receive_all sh c us).quick_verification = c.quick_verification ∧
      (receive_all sh c us).pending_kick = c.pending_kick ∧
      (receive_all sh c us).received_first_packet = true ∧
      (receive_all sh c us).verified = false := by
  induction us with
  | nil => intro c hfp hv; exact ⟨rfl, rfl, hfp, hv⟩
  | cons p us ih =>
    intro c hfp hv
    have hstep := handle_lws_receive_unverified sh c p hfp hv
    have h := ih (handle_lws_receive sh c p).client (by rw [hstep]; exact hfp)
      (by rw [hstep]; exact hv)
    rw [hstep] at h
    show (receive_all sh (handle_lws_receive sh c p).client us).quick_verification = _ ∧
      (receive_all sh (handle_lws_receive sh c p).client us).pending_kick = _ ∧
      (receive_all sh (handle_lws_receive sh c p).client us).received_first_packet = true ∧
      (receive_all sh (handle_lws_receive sh c p).client us).verified = false
    rw [hstep]
    exact h

/-- The first packet of a fresh client leaves the expected byte at `RR_SECRET8`, marks the
first packet as received and does not verify the client. -/
theorem handle_lws_receive_fresh (sh : rr_shared) (secret r0 r1 r2 : Nat) (p : List Nat) :
    (handle_lws_receive sh (rr_server_client_init secret r0 r1 r2) p).client.quick_verification
      = secret ∧
    (handle_lws_receive sh (rr_server_client_init secret r0 r1 r2)
      p).client.received_first_packet = true ∧
    (handle_lws_receive sh (rr_server_client_init secret r0 r1 r2) p).client.verified = false
    := by
  unfold handle_lws_receive rr_server_client_init
  dsimp only
  rw [if_pos (by simp)]
  split_ifs <;> exact ⟨rfl, rfl, rfl⟩

/-- C5 as stated fails for a packet that arrives after the first one but before the client
is verified: the expected byte is not advanced (it stays 14, not `hash(14) % 256 = 197`),
the packet's byte is not compared (a wrong byte 0 is not answered by a kick), and 0 is
returned. -/
theorem quick_verification_unverified_counterexample :
    client_unverified.received_first_packet = true ∧
    (handle_lws_receive sample_shared client_unverified [0, 0]).client.quick_verification =
      14 ∧
    sample_shared.rr_get_hash 14 % 256 = 197 ∧
    (handle_lws_receive sample_shared client_unverified [0, 0]).client.pending_kick = false ∧
    (handle_lws_receive sample_shared client_unverified [0, 0]).ret = 0 := by
  refine ⟨rfl, rfl, ?_, rfl, rfl⟩
  decide

/-- C5, amended. The expected byte starts at `RR_SECRET8` and the first packet leaves it
alone. For a verified client, every packet after the first one advances the expected byte
by the hash (kept as a byte) before comparing it with the first byte of the decrypted
packet, so on the `K`-th such packet the expected byte is the `K`-fold hash of the value
it had at verification. If the packet's byte differs, the handler sets `pending_kick`,
returns -1 and reaches no packet handler: apart from the serverbound key, the expected
byte and `pending_kick`, the client record is unchanged. A packet that arrives after the
first one while the client is not verified only advances the serverbound key: the byte is
neither advanced nor compared, 0 is returned and no packet handler is reached, for every
run of such packets. So a fresh client holds `RR_SECRET8` when it is verified, and the
byte expected on its `K`-th packet after that is the `K`-fold hash of `RR_SECRET8`. -/
theorem quick_verification_schedule (sh : rr_shared) (c : rr_server_client)
    (ps : List (List Nat)) (p : List Nat)
    (hfp : c.received_first_packet = true) (hv : c.verified = true) :
    (∀ secret r0 r1 r2 : Nat,
      (rr_server_client_init secret r0 r1 r2).quick_verification = secret) ∧
    (∀ (c1 : rr_server_client) (p1 : List Nat), c1.received_first_packet = false →
      (handle_lws_receive sh c1 p1).client.quick_verification = c1.quick_verification) ∧
    (receive_all sh c ps).quick_verification =
      (fun b => sh.rr_get_hash b % 256)^[ps.length] c.quick_verification ∧
    ((sh.proto_bug_read_uint8
        (sh.rr_decrypt p (receive_all sh c ps).serverbound_encryption_key)).1 ≠
        (fun b => sh.rr_get_hash b % 256)^[ps.length + 1] c.quick_verification →
      handle_lws_receive sh (receive_all sh c ps) p =
        { client := { receive_all sh c ps with
            serverbound_encryption_key := sh.rr_get_hash
              (sh.rr_get_hash (receive_all sh c ps).serverbound_encryption_key)
            quick_verification :=
              (fun b => sh.rr_get_hash b % 256)^[ps.length + 1] c.quick_verification
            pending_kick := true }
          ret := -1
          dispatched := none }) ∧
    ((sh.proto_bug_read_uint8
        (sh.rr_decrypt p (receive_all sh c ps).serverbound_encryption_key)).1 =
        (fun b => sh.rr_get_hash b % 256)^[ps.length + 1] c.quick_verification →
      (handle_lws_receive sh (receive_all sh c ps) p).ret = 0 ∧
      (handle_lws_receive sh (receive_all sh c ps) p).dispatched =
        some (sh.proto_bug_read_uint8 (sh.proto_bug_read_uint8
          (sh.rr_decrypt p (receive_all sh c ps).serverbound_encryption_key)).2)) ∧
    (∀ (c1 : rr_server_client) (p1 : List Nat), c1.received_first_packet = true →
      c1.verified = false →
      handle_lws_receive sh c1 p1 =
        { client := { c1 with
            serverbound_encryption_key :=
              sh.rr_get_hash (sh.rr_get_hash c1.serverbound_encryption_key) }
          ret := 0
          dispatched := none }) ∧
    (∀ (c1 : rr_server_client) (us : List (List Nat)), c1.received_first_packet = true →
      c1.verified = false →
      (receive_all sh c1 us).quick_verification = c1.quick_verification ∧
      (receive_all sh c1 us).pending_kick = c1.pending_kick ∧
      (receive_all sh c1 us).verified = false) ∧
    (∀ (secret r0 r1 r2 : Nat) (p0 : List Nat) (us qs : List (List Nat)),
      (receive_all sh
        (handle_lws_receive sh (rr_server_client_init secret r0 r1 r2) p0).client
        us).quick_verification = secret ∧
      (receive_all sh
        { receive_all sh
            (handle_lws_receive sh (rr_server_client_init secret r0 r1 r2) p0).client us with
          verified := true } qs).quick_verification =
        (fun b => sh.rr_get_hash b % 256)^[qs.length] secret) := by
  obtain ⟨a1, a2, a3⟩ := receive_all_verified sh ps c hfp hv
  obtain ⟨_, _, _, b4, b5⟩ := handle_lws_receive_verified sh (receive_all sh c ps) p a2 a3
  have e : (fun b => sh.rr_get_hash b % 256)^[ps.length + 1] c.quick_verification =
      sh.rr_get_hash (receive_all sh c ps).quick_verification % 256 := by
    rw [Function.iterate_succ_apply', a1]
  refine ⟨fun _ _ _ _ => rfl, ?_, a1, ?_, ?_,
    fun c1 p1 h1 h2 => handle_lws_receive_unverified sh c1 p1 h1 h2,
    fun c1 us h1 h2 => ?_, fun secret r0 r1 r2 p0 us qs => ?_⟩
  · intro c1 p1 h1
    unfold handle_lws_receive
    dsimp only
    simp only [h1, Bool.false_eq_true, not_false_eq_true, if_true]
    split_ifs <;> rfl
  · intro hne
    rw [e] at hne ⊢
    exact b4 hne
  · intro heq
    rw [e] at heq
    exact ⟨(b5 heq).1, (b5 heq).2.2⟩
  · obtain ⟨u1, u2, _, u4⟩ := receive_all_unverified sh us c1 h1 h2
    exact ⟨u1, u2, u4⟩
  · obtain ⟨f1, f2, f3⟩ := handle_lws_receive_fresh sh secret r0 r1 r2 p0
    obtain ⟨u1, _, u3, _⟩ := receive_all_unverified sh us
      (handle_lws_receive sh (rr_server_client_init secret r0 r1 r2) p0).client f2 f3
    refine ⟨u1.trans f1, ?_⟩
    have hq := (receive_all_verified sh qs
      { receive_all sh
          (handle_lws_receive sh (rr_server_client_init secret r0 r1 r2) p0).client us with
        verified := true } u3 rfl).1
    rw [hq]
    show (fun b => sh.rr_get_hash b % 256)^[qs.length]
      (receive_all sh
        (handle_lws_receive sh (rr_server_client_init secret r0 r1 r2) p0).client
        us).quick_verification = _
    rw [u1, f1]

/-- C5 on scenario S2: after one good packet the expected byte is `hash(14) % 256 = 197`;
a second packet whose first byte is 0 instead of `hash(197) % 256 = 240` is answered by
`pending_kick`, -1 and no dispatch. The same client before it is verified keeps the byte
14 on a packet with a wrong byte, which is answered by 0. -/
theorem quick_verification_schedule_witness :
    client_S2.received_first_packet = true ∧ client_S2.verified = true ∧
    (receive_all sample_shared client_S2 [[197, 0]]).quick_verification = 197 ∧
    (handle_lws_receive sample_shared (receive_all sample_shared client_S2 [[197, 0]])
      [0, 0]).ret = -1 ∧
    (handle_lws_receive sample_shared (receive_all sample_shared client_S2 [[197, 0]])
      [0, 0]).client.pending_kick = true ∧
    (handle_lws_receive sample_shared (receive_all sample_shared client_S2 [[197, 0]])
      [0, 0]).dispatched = none ∧
    client_unverified.received_first_packet = true ∧ client_unverified.verified = false ∧
    (handle_lws_receive sample_shared client_unverified [0, 0]).ret = 0 ∧
    (handle_lws_receive sample_shared client_unverified [0, 0]).client.quick_verification =
      14 ∧
    (handle_lws_receive sample_shared client_unverified [0, 0]).dispatched = none := by
  have h := quick_verification_schedule sample_shared client_S2 [[197, 0]] [0, 0] rfl rfl
  have hne : (sample_shared.proto_bug_read_uint8 (sample_shared.rr_decrypt [0, 0]
      (receive_all sample_shared client_S2 [[197, 0]]).serverbound_encryption_key)).1 ≠
      (fun b => sample_shared.rr_get_hash b % 256)^[[[197, 0]].length + 1]
        client_S2.quick_verification := by
    decide
  have h4 := h.2.2.2.1 hne
  have h6 := h.2.2.2.2.2.1 client_unverified [0, 0] rfl rfl
  refine ⟨rfl, rfl, ?_, ?_, ?_, ?_, rfl, rfl, ?_, ?_, ?_⟩
  · rw [h.2.2.1]; decide
  · rw [h4]
  · rw [h4]
  · rw [h4]
  · rw [h6]
  · rw [h6]
    rfl
  · rw [h6]

/-! ## Handshake round trip -/

theorem rr_encrypt_from_length (ks : Nat → Nat → Nat) (key : Nat) (bs : List Nat) :
    ∀ i size, (rr_encrypt_from ks key i bs size).length = bs.length := by
  induction bs with
  | nil => intro i size; simp [rr_encrypt_from]
  | cons b bs ih =>
    intro i size
    cases size with
    | zero => rfl
    | succ n => simp [rr_encrypt_from, ih]

theorem rr_encrypt_from_comm (ks : Nat → Nat → Nat) (k1 k2 : Nat) (bs : List Nat) :
    ∀ i n1 n2, rr_encrypt_from ks k1 i (rr_encrypt_from ks k2 i bs n2) n1 =
      rr_encrypt_from ks k2 i (rr_encrypt_from ks k1 i bs n1) n2 := by
  induction bs with
  | nil => intro i n1 n2; simp [rr_encrypt_from]
  | cons b bs ih =>
    intro i n1 n2
    cases n1 with
    | zero =>
      cases n2 with
      | zero => rfl
      | succ m => rfl
    | succ n =>
      cases n2 with
      | zero => rfl
      | succ m =>
        simp only [rr_encrypt_from]
        rw [ih (i + 1) n m, Nat.xor_assoc, Nat.xor_comm (ks k2 i), ← Nat.xor_assoc]

theorem rr_encrypt_from_twice (ks : Nat → Nat → Nat) (k : Nat) (bs : List Nat) :
    ∀ i n, rr_encrypt_from ks k i (rr_encrypt_from ks k i bs n) n = bs := by
  induction bs with
  | nil => intro i n; simp [rr_encrypt_from]
  | cons b bs ih =>
    intro i n
    cases n with
    | zero => rfl
    | succ n =>
      simp only [rr_encrypt_from]
      rw [ih (i + 1) n, Nat.xor_assoc, Nat.xor_self, Nat.xor_zero]

theorem handshake_reveal_obscure (ks : Nat → Nat → Nat) (data : List Nat) :
    handshake_reveal ks (handshake_obscure ks data) = data := by
  unfold handshake_reveal handshake_obscure rr_decrypt rr_encrypt
  rw [rr_encrypt_from_comm ks 21094093777837637 59013169977270713,
    rr_encrypt_from_comm ks 21094093777837637 64709235936361169,
    rr_encrypt_from_comm ks 21094093777837637 59731158950470853,
    rr_encrypt_from_comm ks 21094093777837637 1,
    rr_encrypt_from_twice ks 21094093777837637,
    rr_encrypt_from_comm ks 1 59013169977270713,
    rr_encrypt_from_comm ks 1 64709235936361169,
    rr_encrypt_from_comm ks 1 59731158950470853,
    rr_encrypt_from_twice ks 1,
    rr_encrypt_from_comm ks 59731158950470853 59013169977270713,
    rr_encrypt_from_comm ks 59731158950470853 64709235936361169,
    rr_encrypt_from_twice ks 59731158950470853,
    rr_encrypt_from_comm ks 64709235936361169 59013169977270713,
    rr_encrypt_from_twice ks 64709235936361169,
    rr_encrypt_from_twice ks 59013169977270713]

theorem handshake_obscure_length (ks : Nat → Nat → Nat) (data : List Nat) :
    (handshake_obscure ks data).length = data.length := by
  unfold handshake_obscure rr_encrypt
  simp only [rr_encrypt_from_length]

theorem proto_bug_write_le_length (n : Nat) : ∀ v, (proto_bug_write_le n v).length = n := by
  induction n with
  | zero => intro v; rfl
  | succ n ih => intro v; simp [proto_bug_write_le, ih]

theorem proto_bug_read_write_le (n : Nat) :
    ∀ v, proto_bug_read_le (proto_bug_write_le n v) = v % 256 ^ n := by
  induction n with
  | zero => intro v; simp [proto_bug_write_le, proto_bug_read_le, Nat.mod_one]
  | succ n ih =>
    intro v
    simp only [proto_bug_write_le, proto_bug_read_le]
    rw [ih, pow_succ, mul_comm (256 ^ n) 256, Nat.mod_mul]

theorem handshake_plain_fields (window : List Nat) (v nonce ck sk : Nat)
    (hv : v < 2 ^ 64) (hck : ck < 2 ^ 64) (hsk : sk < 2 ^ 64) :
    proto_bug_read_le ((handshake_plain window v nonce ck sk).take 8) = v ∧
    proto_bug_read_le (((handshake_plain window v nonce ck sk).drop 12).take 8) = ck ∧
    proto_bug_read_le (((handshake_plain window v nonce ck sk).drop 20).take 8) = sk := by
  have l8 : ∀ x, (proto_bug_write_le 8 x).length = 8 := proto_bug_write_le_length 8
  have l4 : ∀ x, (proto_bug_write_le 4 x).length = 4 := proto_bug_write_le_length 4
  have e64 : (256 : Nat) ^ 8 = 2 ^ 64 := by norm_num
  have r8 : ∀ x, x < 2 ^ 64 → proto_bug_read_le (proto_bug_write_le 8 x) = x := by
    intro x hx
    rw [proto_bug_read_write_le, e64, Nat.mod_eq_of_lt hx]
  have d12 : (handshake_plain window v nonce ck sk).drop 12 =
      proto_bug_write_le 8 ck ++ (proto_bug_write_le 8 sk ++ window.drop 28) := by
    have : handshake_plain window v nonce ck sk =
        (proto_bug_write_le 8 v ++ proto_bug_write_le 4 nonce) ++
          (proto_bug_write_le 8 ck ++ (proto_bug_write_le 8 sk ++ window.drop 28)) := by
      simp [handshake_plain, List.append_assoc]
    rw [this]
    exact List.drop_left' (by rw [List.length_append, l8, l4])
  have d20 : (handshake_plain window v nonce ck sk).drop 20 =
      proto_bug_write_le 8 sk ++ window.drop 28 := by
    have : handshake_plain window v nonce ck sk =
        (proto_bug_write_le 8 v ++ proto_bug_write_le 4 nonce ++ proto_bug_write_le 8 ck) ++
          (proto_bug_write_le 8 sk ++ window.drop 28) := by
      simp [handshake_plain, List.append_assoc]
    rw [this]
    exact List.drop_left' (by rw [List.length_append, List.length_append, l8, l4, l8])
  have t0 : (handshake_plain window v nonce ck sk).take 8 = proto_bug_write_le 8 v := by
    have : handshake_plain window v nonce ck sk =
        proto_bug_write_le 8 v ++ (proto_bug_write_le 4 nonce ++
          (proto_bug_write_le 8 ck ++ (proto_bug_write_le 8 sk ++ window.drop 28))) := by
      simp [handshake_plain, List.append_assoc]
    rw [this]
    exact List.take_left' (l8 v)
  refine ⟨?_, ?_, ?_⟩
  · rw [t0, r8 v hv]
  · rw [d12, List.take_left' (l8 ck), r8 ck hck]
  · rw [d20, List.take_left' (l8 sk), r8 sk hsk]

/-- C6. Handshake round trip. On a fresh connection the queue holds one unencrypted
message of exactly 1024 bytes: the five keystream layers applied to verification (u64),
a u32 nonce, the clientbound key (u64) and the serverbound key (u64) in that order,
followed by what the scratch buffer held. The client's five passes undo the layers and
reading the fields back gives the verification value and the two keys the server holds. -/
theorem handshake_round_trip (hash : Nat → Nat) (ks : Nat → Nat → Nat) (secret : Nat)
    (window : List Nat) (ckey skey verification nonce : Nat)
    (hw : window.length = 1024) (hck : ckey < 2 ^ 64) (hsk : skey < 2 ^ 64)
    (hv : verification < 2 ^ 64) :
    ∃ msg : List Nat,
      (handle_lws_established hash ks secret window ckey skey verification nonce).messages =
        [{ packet := [pb_field.raw msg], key := none }] ∧
      msg.length = 1024 ∧
      msg = handshake_obscure ks
        (proto_bug_write_le 8 verification ++ proto_bug_write_le 4 nonce ++
          proto_bug_write_le 8 ckey ++ proto_bug_write_le 8 skey ++ window.drop 28) ∧
      (handle_lws_established hash ks secret window ckey skey
        verification nonce).requested_verification = verification ∧
      (handle_lws_established hash ks secret window ckey skey
        verification nonce).clientbound_encryption_key = ckey ∧
      (handle_lws_established hash ks secret window ckey skey
        verification nonce).serverbound_encryption_key = skey ∧
      rr_game_on_handshake ks secret msg =
        { verification := verification
          socket :=
            { recieved_first_packet := true
              clientbound_encryption_key := ckey
              serverbound_encryption_key := skey
              quick_verification := secret } } := by
  have hlen : (handshake_plain window verification nonce ckey skey).length = 1024 := by
    unfold handshake_plain
    simp only [List.length_append, proto_bug_write_le_length, List.length_drop, hw]
  have holen : (handshake_obscure ks
      (handshake_plain window verification nonce ckey skey)).length = 1024 := by
    rw [handshake_obscure_length, hlen]
  have htake : (handshake_obscure ks
      (handshake_plain window verification nonce ckey skey)).take 1024 =
      handshake_obscure ks (handshake_plain window verification nonce ckey skey) :=
    List.take_of_length_le (by rw [holen])
  obtain ⟨f1, f2, f3⟩ := handshake_plain_fields window verification nonce ckey skey hv hck hsk
  refine ⟨handshake_obscure ks (handshake_plain window verification nonce ckey skey),
    ?_, holen, rfl, ?_, ?_, ?_, ?_⟩
  · unfold handle_lws_established
    dsimp only
    rw [write_message_messages _ _ _ (Nat.zero_lt_succ 511)]
    simp only [rr_server_client_init, List.nil_append, Bool.false_eq_true, if_false]
    rw [htake]
  · unfold handle_lws_established rr_server_client_write_message
    dsimp only
    split_ifs <;> rfl
  · exact (write_message_no_first_packet hash
      (rr_server_client_init secret ckey skey verification) _ rfl).1
  · exact (write_message_no_first_packet hash
      (rr_server_client_init secret ckey skey verification) _ rfl).2
  · unfold rr_game_on_handshake
    simp only [handshake_reveal_obscure, f1, f2, f3]

/-- C6 on a concrete connection: keys 11 and 12, verification 13, a zeroed scratch buffer;
the client reads back 13, 11 and 12. -/
theorem handshake_round_trip_witness :
    (List.replicate 1024 0).length = 1024 ∧ 11 < 2 ^ 64 ∧ 12 < 2 ^ 64 ∧ 13 < 2 ^ 64 ∧
    ∃ msg : List Nat,
      (handle_lws_established sample_hash sample_keystream 14 (List.replicate 1024 0)
        11 12 13 99).messages = [{ packet := [pb_field.raw msg], key := none }] ∧
      msg.length = 1024 ∧
      (rr_game_on_handshake sample_keystream 14 msg).verification = 13 ∧
      (rr_game_on_handshake sample_keystream 14 msg).socket.clientbound_encryption_key = 11 ∧
      (rr_game_on_handshake sample_keystream 14 msg).socket.serverbound_encryption_key =
        12 := by
  refine ⟨List.length_replicate 1024 0, by norm_num, by norm_num, by norm_num, ?_⟩
  obtain ⟨msg, h1, h2, _, _, _, _, h7⟩ :=
    handshake_round_trip sample_hash sample_keystream 14 (List.replicate 1024 0) 11 12 13 99
      (List.length_replicate 1024 0) (by norm_num) (by norm_num) (by norm_num)
  exact ⟨msg, h1, h2, by rw [h7], by rw [h7], by rw [h7]⟩

/-! ## Deferred deletion -/

theorem entity_hash_split (g e : Nat) (h : e < 65536) : (g <<< 16) ||| e = 65536 * g + e := by
  have h2 : e < 2 ^ 16 := by norm_num; exact h
  have h3 := Nat.mul_add_lt_is_or h2 g
  rw [Nat.shiftLeft_eq, Nat.mul_comm g, ← h3]

theorem entity_hash_index (this : rr_simulation) (e : Nat) (h : e < 65536) :
    rr_simulation_get_entity_hash this e % 65536 = e ∧
    rr_simulation_get_entity_hash this e >>> 16 = this.entity_hash_tracker e := by
  unfold rr_simulation_get_entity_hash
  rw [entity_hash_split _ e h, Nat.shiftRight_eq_div_pow]
  constructor <;> omega

theorem foldl_deleted_preserve (cb : Nat → rr_simulation → rr_simulation)
    (R : rr_simulation → Prop) (hcb : ∀ i s, R s → R (cb i s)) (l : List Nat) :
    ∀ s, R s → R (l.foldl (fun s i => if s.deleted_last_tick i then cb i s else s) s) := by
  induction l with
  | nil => intro s hs; exact hs
  | cons i l ih =>
    intro s hs
    rw [List.foldl_cons]
    apply ih
    split_ifs
    · exact hcb i s hs
    · exact hs

theorem foldl_deleted_visits (cb : Nat → rr_simulation → rr_simulation)
    (Q : Nat → rr_simulation → Prop)
    (hframe : ∀ i s, (cb i s).deleted_last_tick = s.deleted_last_tick)
    (hset : ∀ i s, Q i (cb i s)) (hkeep : ∀ i j s, Q j s → Q j (cb i s)) (l : List Nat) :
    ∀ s e, e ∈ l → s.deleted_last_tick e = true →
      Q e (l.foldl (fun s i => if s.deleted_last_tick i then cb i s else s) s) := by
  induction l with
  | nil => intro s e he; exact absurd he (List.not_mem_nil e)
  | cons i l ih =>
    intro s e he hd
    rw [List.foldl_cons]
    rcases List.mem_cons.mp he with h | h
    · subst h
      rw [if_pos hd]
      exact foldl_deleted_preserve cb (Q e) (fun i s => hkeep i e s) l _ (hset e s)
    · apply ih _ e h
      split_ifs
      · rw [hframe]; exact hd
      · exact hd

/-- C7. If the bit of entity `E` is set in `pending_deletions` when the passes of a tick have
run, then after `rr_simulation_tick` has returned `pending_deletions` is empty, the bit of
`E` is in `deleted_last_tick`, both sweeps have run for `E` (its free hooks ran, its
tracker slot and component bits are cleared), and `rr_simulation_entity_alive` is false
for every hash with index `E`, the hash of `E` among them. -/
theorem deferred_deletion (max : Nat) (systems : rr_simulation → rr_simulation)
    (this : rr_simulation) (E : Nat) (hE : E < max)
    (hreq : (systems this).pending_deletions E = true) :
    (∀ i, (rr_simulation_tick max systems this).pending_deletions i = false) ∧
    (rr_simulation_tick max systems this).deleted_last_tick E = true ∧
    (rr_simulation_tick max systems this).components_freed E = true ∧
    (rr_simulation_tick max systems this).entity_tracker E = false ∧
    (∀ k, rr_simulation_has_component (rr_simulation_tick max systems this) k E = false) ∧
    (∀ hash, hash % 65536 = E →
      rr_simulation_entity_alive (rr_simulation_tick max systems this) hash = false) ∧
    (E < 65536 →
      rr_simulation_entity_alive (rr_simulation_tick max systems this)
        (rr_simulation_get_entity_hash (systems this) E) = false) := by
  have hmem : E ∈ List.range max := List.mem_range.mpr hE
  have frame1 : ∀ i s, (pending_deletion_free_components i s).deleted_last_tick =
      s.deleted_last_tick := fun _ _ => rfl
  have frame2 : ∀ i s, (pending_deletion_unset_entity i s).deleted_last_tick =
      s.deleted_last_tick := fun _ _ => rfl
  unfold rr_simulation_tick for_each_deleted
  dsimp only
  generalize hs2 : ({ systems this with
      deleted_last_tick := (systems this).pending_deletions
      pending_deletions := fun _ => false } : rr_simulation) = s2
  have d2 : s2.deleted_last_tick = (systems this).pending_deletions := by rw [← hs2]
  have p2 : s2.pending_deletions = fun _ => false := by rw [← hs2]
  generalize hs3 : (List.range max).foldl (fun s i =>
      if s.deleted_last_tick i then pending_deletion_free_components i s else s) s2 = s3
  have d3 : s3.deleted_last_tick = s2.deleted_last_tick := by
    rw [← hs3]
    exact foldl_deleted_preserve pending_deletion_free_components
      (fun s => s.deleted_last_tick = s2.deleted_last_tick)
      (fun i s h => (frame1 i s).trans h) _ s2 rfl
  have p3 : s3.pending_deletions = s2.pending_deletions := by
    rw [← hs3]
    exact foldl_deleted_preserve pending_deletion_free_components
      (fun s => s.pending_deletions = s2.pending_deletions)
      (fun i s h => h) _ s2 rfl
  have f3 : s3.components_freed E = true := by
    rw [← hs3]
    exact foldl_deleted_visits pending_deletion_free_components
      (fun e s => s.components_freed e = true) frame1
      (fun i s => by simp [pending_deletion_free_components])
      (fun i j s h => by
        simp only [pending_deletion_free_components]
        split_ifs
        · rfl
        · exact h)
      _ s2 E hmem (by rw [d2]; exact hreq)
  generalize hs4 : (List.range max).foldl (fun s i =>
      if s.deleted_last_tick i then pending_deletion_unset_entity i s else s) s3 = s4
  have d4 : s4.deleted_last_tick = s3.deleted_last_tick := by
    rw [← hs4]
    exact foldl_deleted_preserve pending_deletion_unset_entity
      (fun s => s.deleted_last_tick = s3.deleted_last_tick)
      (fun i s h => (frame2 i s).trans h) _ s3 rfl
  have p4 : s4.pending_deletions = s3.pending_deletions := by
    rw [← hs4]
    exact foldl_deleted_preserve pending_deletion_unset_entity
      (fun s => s.pending_deletions = s3.pending_deletions)
      (fun i s h => h) _ s3 rfl
  have f4 : s4.components_freed E = true := by
    rw [← hs4]
    exact foldl_deleted_preserve pending_deletion_unset_entity
      (fun s => s.components_freed E = true)
      (fun i s h => h) _ s3 f3
  have u4 : s4.entity_tracker E = false ∧ ∀ k, s4.component_tracker k E = false := by
    rw [← hs4]
    exact foldl_deleted_visits pending_deletion_unset_entity
      (fun e s => s.entity_tracker e = false ∧ ∀ k, s.component_tracker k e = false) frame2
      (fun i s => by simp [pending_deletion_unset_entity])
      (fun i j s h => by
        simp only [pending_deletion_unset_entity]
        constructor
        · split_ifs
          · rfl
          · exact h.1
        · intro k
          split_ifs
          · rfl
          · exact h.2 k)
      _ s3 E hmem (by rw [d3, d2]; exact hreq)
  have dE : s4.deleted_last_tick E = true := by rw [d4, d3, d2]; exact hreq
  have alive : ∀ hash, hash % 65536 = E → rr_simulation_entity_alive s4 hash = false := by
    intro hash hh
    unfold rr_simulation_entity_alive
    rw [hh, dE]
    simp
  refine ⟨?_, dE, f4, u4.1, u4.2, alive, ?_⟩
  · intro i
    rw [p4, p3, p2]
  · intro h16
    exact alive _ (entity_hash_index (systems this) E h16).1

/-- C7 on the one-entity simulation: entity 5 is requested for deletion during the tick;
afterwards nothing is pending, 5 is in `deleted_last_tick` and not alive. -/
theorem deferred_deletion_witness :
    5 < 8 ∧
    (rr_simulation_request_entity_deletion simulation_one 5).pending_deletions 5 = true ∧
    (rr_simulation_tick 8 (fun s => rr_simulation_request_entity_deletion s 5)
      simulation_one).deleted_last_tick 5 = true ∧
    rr_simulation_entity_alive
      (rr_simulation_tick 8 (fun s => rr_simulation_request_entity_deletion s 5)
        simulation_one)
      (rr_simulation_get_entity_hash simulation_one 5) = false := by
  have h := deferred_deletion 8 (fun s => rr_simulation_request_entity_deletion s 5)
    simulation_one 5 (by decide) rfl
  exact ⟨by decide, rfl, h.2.1, h.2.2.2.2.2.2 (by decide)⟩

/-- What the source alone settles about aliveness: in any state with the trackers of a state
in which `e` is alive, `rr_simulation_entity_alive` returns false for the hash of `e`
exactly when the bit of `e` is set in `deleted_last_tick`. -/
theorem entity_alive_after (this t : rr_simulation) (e : Nat)
    (halive : rr_simulation_entity_alive this (rr_simulation_get_entity_hash this e) = true)
    (h1 : t.entity_tracker = this.entity_tracker)
    (h2 : t.entity_hash_tracker = this.entity_hash_tracker)
    (he : rr_simulation_get_entity_hash this e % 65536 = e) :
    rr_simulation_entity_alive t (rr_simulation_get_entity_hash this e) = false ↔
      t.deleted_last_tick e = true := by
  unfold rr_simulation_entity_alive at halive ⊢
  rw [he] at halive ⊢
  rw [h1, h2]
  simp only [Bool.and_eq_true, Bool.not_eq_true', decide_eq_true_eq] at halive
  rw [halive.1.1, decide_eq_true halive.1.2]
  cases t.deleted_last_tick e <;> simp

/-- C8. Within a tick, once `request_deletion(e)` has been called for a live entity `e`,
the bit of `e` is pending for the end-of-tick sweep, `rr_simulation_entity_alive` returns
false for the hash of `e` and for every hash with the index of `e`, it returns what it
returned before for every other hash, and the slot of `e`, its generation and its
components are as before, so that its components can still be looked up. In any state
with the same trackers the test is false for `e` exactly when the bit of `e` is set in
`deleted_last_tick`. -/
theorem request_deletion_not_alive (this : rr_simulation) (e : Nat) (h16 : e < 65536)
    (halive : rr_simulation_entity_alive this (rr_simulation_get_entity_hash this e) = true) :
    (rr_simulation_request_entity_deletion this e).pending_deletions e = true ∧
    rr_simulation_entity_alive (rr_simulation_request_entity_deletion this e)
      (rr_simulation_get_entity_hash (rr_simulation_request_entity_deletion this e) e) =
        false ∧
    (∀ hash, hash % 65536 = e →
      rr_simulation_entity_alive (rr_simulation_request_entity_deletion this e) hash =
        false) ∧
    (∀ hash, hash % 65536 ≠ e →
      rr_simulation_entity_alive (rr_simulation_request_entity_deletion this e) hash =
        rr_simulation_entity_alive this hash) ∧
    (rr_simulation_request_entity_deletion this e).entity_tracker e = true ∧
    (rr_simulation_request_entity_deletion this e).entity_hash_tracker =
      this.entity_hash_tracker ∧
    (∀ k i, rr_simulation_has_component (rr_simulation_request_entity_deletion this e) k i =
      rr_simulation_has_component this k i) ∧
    (rr_simulation_request_entity_deletion this e).components_freed = this.components_freed ∧
    (∀ t : rr_simulation, t.entity_tracker = this.entity_tracker →
      t.entity_hash_tracker = this.entity_hash_tracker →
      (rr_simulation_entity_alive t (rr_simulation_get_entity_hash this e) = false ↔
        t.deleted_last_tick e = true)) := by
  have hidx := (entity_hash_index this e h16).1
  have hdead : ∀ hash, hash % 65536 = e →
      rr_simulation_entity_alive (rr_simulation_request_entity_deletion this e) hash =
        false := by
    intro hash hh
    unfold rr_simulation_entity_alive rr_simulation_request_entity_deletion
    dsimp only
    rw [hh, if_pos rfl]
    simp
  have htracker : this.entity_tracker e = true := by
    unfold rr_simulation_entity_alive at halive
    rw [hidx] at halive
    simp only [Bool.and_eq_true] at halive
    exact halive.1.1
  refine ⟨?_, hdead _ hidx, hdead, fun hash hh => ?_, htracker, rfl, fun _ _ => rfl, rfl,
    fun t h1 h2 => entity_alive_after this t e halive h1 h2 hidx⟩
  · unfold rr_simulation_request_entity_deletion
    dsimp only
    rw [if_pos rfl]
  · unfold rr_simulation_entity_alive rr_simulation_request_entity_deletion
    dsimp only
    rw [if_neg hh]

/-- C8 on the one-entity simulation: entity 5 is alive; after `request_deletion(5)` its bit
is pending, `rr_simulation_entity_alive` is false for its hash, and its component 0 can
still be looked up. -/
theorem request_deletion_not_alive_witness :
    (5 : Nat) < 65536 ∧
    rr_simulation_entity_alive simulation_one
      (rr_simulation_get_entity_hash simulation_one 5) = true ∧
    (rr_simulation_request_entity_deletion simulation_one 5).pending_deletions 5 = true ∧
    rr_simulation_entity_alive (rr_simulation_request_entity_deletion simulation_one 5)
      (rr_simulation_get_entity_hash
        (rr_simulation_request_entity_deletion simulation_one 5) 5) = false ∧
    rr_simulation_has_component (rr_simulation_request_entity_deletion simulation_one 5)
      0 5 = true := by
  have h := request_deletion_not_alive simulation_one 5 (by decide) (by decide)
  refine ⟨by decide, by decide, h.1, h.2.1, ?_⟩
  rw [h.2.2.2.2.2.2.1 0 5]
  decide

/-! ## Loot credit -/

/-- C9 as stated fails on the boundary: a squad that dealt exactly 20% of the mob's
maximum health (20 of 100) is passed over, the test being `counter <= max_health * 0.2`. -/
theorem loot_credit_boundary_counterexample :
    mob_S6.player_spawned = false ∧ mob_S6.no_drop = false ∧
    mob_S6.id ≠ rr_mob_id_meteor ∧
    (health_S6 20).max_health * (20 / 100) ≤ (health_S6 20).squad_damage_counter 1 ∧
    mob_free_rolls_loot 20 mob_S6 no_arena (health_S6 20) 1 = false := by
  refine ⟨rfl, rfl, by decide, ?_, ?_⟩
  · simp only [health_S6]
    norm_num
  · simp only [mob_free_rolls_loot, no_arena, mob_S6, health_S6, rr_mob_id_meteor]
    norm_num

/-- C9, amended. When a mob that is not player-spawned, is not an arena boss, has
`no_drop = 0` and is not a meteor is freed, loot is rolled for squad `s` if and only if
`squad_damage_counter[s]` is strictly more than 20% of `max_health`; the drops created are
the rolls of exactly those squads. -/
theorem loot_credit (squad_count golden : Nat) (mob : rr_component_mob)
    (arena : rr_mob_arena) (health : rr_component_health) (loot : Nat → List (Nat × Nat))
    (hps : mob.player_spawned = false) (hnd : mob.no_drop = false)
    (hboss : ¬ (arena.has_arena = true ∧ arena.player_entered = true))
    (hm : mob.id ≠ rr_mob_id_meteor) :
    (∀ s, mob_free_rolls_loot golden mob arena health s = true ↔
      health.max_health * (20 / 100) < health.squad_damage_counter s) ∧
    rr_component_mob_free squad_count golden mob arena health loot =
      ((List.range squad_count).filter
        (fun s => decide (health.max_health * (20 / 100) < health.squad_damage_counter s))).flatMap
        (fun squad => (loot squad).map
          (fun d => { id := d.1, rarity := d.2, can_be_picked_up_by := squad })) := by
  have e : (20 : ℚ) / 100 = 2 / 10 := by norm_num
  have h1 : ∀ s, mob_free_rolls_loot golden mob arena health s = true ↔
      health.max_health * (20 / 100) < health.squad_damage_counter s := by
    intro s
    rw [e]
    unfold mob_free_rolls_loot
    rw [if_neg hboss]
    by_cases hc : health.squad_damage_counter s ≤ health.max_health * (2 / 10)
    · rw [if_pos ⟨hm, hc⟩]
      simp only [Bool.false_eq_true, false_iff, not_lt]
      exact hc
    · rw [if_neg (fun h => hc h.2), if_neg (fun h => hc h.2)]
      simp only [true_iff]
      exact not_le.mp hc
  refine ⟨h1, ?_⟩
  unfold rr_component_mob_free
  rw [hps, hnd]
  simp only [Bool.false_eq_true, if_false]
  congr 1
  apply List.filter_congr
  intro s _
  by_cases hc : health.max_health * (20 / 100) < health.squad_damage_counter s
  · rw [(h1 s).mpr hc, decide_eq_true hc]
  · have : mob_free_rolls_loot golden mob arena health s = false := by
      cases hb : mob_free_rolls_loot golden mob arena health s
      · rfl
      · exact absurd ((h1 s).mp hb) hc
    rw [this, decide_eq_false hc]

/-- C9, scenario S6: with shares of 60% and 40% both squads get loot rolls; with 60% and
15% only the first squad does. -/
theorem loot_credit_witness :
    mob_S6.player_spawned = false ∧ mob_S6.no_drop = false ∧
    mob_free_rolls_loot 20 mob_S6 no_arena (health_S6 40) 0 = true ∧
    mob_free_rolls_loot 20 mob_S6 no_arena (health_S6 40) 1 = true ∧
    mob_free_rolls_loot 20 mob_S6 no_arena (health_S6 15) 0 = true ∧
    mob_free_rolls_loot 20 mob_S6 no_arena (health_S6 15) 1 = false := by
  have hboss : ¬ (no_arena.has_arena = true ∧ no_arena.player_entered = true) := by decide
  have hm : mob_S6.id ≠ rr_mob_id_meteor := by decide
  have h40 := (loot_credit 4 20 mob_S6 no_arena (health_S6 40) (fun _ => []) rfl rfl hboss hm).1
  have h15 := (loot_credit 4 20 mob_S6 no_arena (health_S6 15) (fun _ => []) rfl rfl hboss hm).1
  refine ⟨rfl, rfl, (h40 0).mpr ?_, (h40 1).mpr ?_, (h15 0).mpr ?_, ?_⟩
  · simp only [health_S6]; norm_num
  · simp only [health_S6]; norm_num
  · simp only [health_S6]; norm_num
  · cases hb : mob_free_rolls_loot 20 mob_S6 no_arena (health_S6 15) 1
    · rfl
    · have := (h15 1).mp hb
      simp only [health_S6] at this
      norm_num at this

/-! ## Mob despawn -/

theorem despawn_mob_empty_cell (mob : rr_component_mob) (hps : mob.player_spawned = false)
    (n : Nat) (hn : n < 750) (ht : min mob.ticks_to_despawn 750 = n + 1) :
    despawn_mob mob 1 false 0 =
      if n = 0 then
        { mob := { mob with ticks_to_despawn := 0, no_drop := false },
          deletion_requested := true }
      else
        { mob := { mob with ticks_to_despawn := n }, deletion_requested := false } := by
  unfold despawn_mob
  simp only [hps, ne_eq, not_true_eq_false, if_false, Bool.false_eq_true, if_true]
  have e0 : (if mob.ticks_to_despawn > 30 * 25 then 30 * 25 else mob.ticks_to_despawn) =
      n + 1 := by
    split_ifs <;> omega
  rw [e0]
  have e1 : (n + 1 + 2 ^ 32 - 1) % 2 ^ 32 = n := by omega
  rw [e1]
  by_cases h0 : n = 0
  · subst h0
    simp
  · rw [if_neg h0, if_neg h0]

theorem despawn_run_cons (mob : rr_component_mob) (c : Nat) (cs : List Nat) :
    despawn_run mob (c :: cs) =
      if (despawn_mob mob 1 false c).deletion_requested then despawn_mob mob 1 false c
      else despawn_run (despawn_mob mob 1 false c).mob cs := rfl

theorem despawn_run_empty_cell (n : Nat) :
    ∀ mob : rr_component_mob, mob.player_spawned = false → n < 750 →
      min mob.ticks_to_despawn 750 = n + 1 →
      (∀ k, k ≤ n → (despawn_run mob (List.replicate k 0)).deletion_requested = false) ∧
      despawn_run mob (List.replicate (n + 1) 0) =
        { mob := { mob with ticks_to_despawn := 0, no_drop := false },
          deletion_requested := true } := by
  induction n with
  | zero =>
    intro mob hps hn ht
    have h := despawn_mob_empty_cell mob hps 0 hn ht
    rw [if_pos rfl] at h
    constructor
    · intro k hk
      have : k = 0 := by omega
      subst this
      rfl
    · show despawn_run mob (0 :: []) = _
      rw [despawn_run_cons, h]
      rfl
  | succ n ih =>
    intro mob hps hn ht
    have h := despawn_mob_empty_cell mob hps (n + 1) hn ht
    rw [if_neg (Nat.succ_ne_zero n)] at h
    have ih2 := ih { mob with ticks_to_despawn := n + 1 } hps (by omega)
      (by simp only []; omega)
    constructor
    · intro k hk
      cases k with
      | zero => rfl
      | succ k =>
        show (despawn_run mob (0 :: List.replicate k 0)).deletion_requested = false
        rw [despawn_run_cons, h]
        exact ih2.1 k (by omega)
    · show despawn_run mob (0 :: List.replicate (n + 1) 0) = _
      rw [despawn_run_cons, h]
      exact ih2.2

/-- C10, the code at a failing input. A wild meteor whose cell stays empty is not deleted
during the first 749 ticks and is requested for deletion on the 750th, but `despawn_mob`
stores `no_drop = 0`: freeing the mob then rolls loot for every squad (here two squads,
one common magnet each) although nobody hit it. Had the flag been set, no drop would be
created. -/
theorem despawn_mob_rolls_loot :
    (∀ k, k ≤ 749 → (despawn_run mob_S5 (List.replicate k 0)).deletion_requested = false) ∧
    (despawn_run mob_S5 (List.replicate 750 0)).deletion_requested = true ∧
    (despawn_run mob_S5 (List.replicate 750 0)).mob.no_drop = false ∧
    rr_component_mob_free 2 20 (despawn_run mob_S5 (List.replicate 750 0)).mob no_arena
        health_untouched (fun _ => [(10, 0)]) =
      [{ id := 10, rarity := 0, can_be_picked_up_by := 0 },
       { id := 10, rarity := 0, can_be_picked_up_by := 1 }] ∧
    rr_component_mob_free 2 20
        { (despawn_run mob_S5 (List.replicate 750 0)).mob with no_drop := true } no_arena
        health_untouched (fun _ => [(10, 0)]) = [] := by
  have h := despawn_run_empty_cell 749 mob_S5 rfl (by decide) (by decide)
  have h2 : despawn_run mob_S5 (List.replicate 750 0) =
      { mob := { mob_S5 with ticks_to_despawn := 0, no_drop := false },
        deletion_requested := true } := h.2
  refine ⟨h.1, by rw [h2], by rw [h2], ?_, ?_⟩
  · rw [h2]
    simp only [rr_component_mob_free, mob_free_rolls_loot, mob_S5, no_arena,
      health_untouched, rr_mob_id_meteor]
    decide
  · rw [h2]
    rfl

/-! ## Backpressure -/

theorem handle_lws_receive_queue (sh : rr_shared) (c : rr_server_client) (p : List Nat) :
    (handle_lws_receive sh c p).client.messages = c.messages ∧
    (handle_lws_receive sh c p).client.message_length = c.message_length := by
  unfold handle_lws_receive
  dsimp only
  split_ifs <;> exact ⟨rfl, rfl⟩

theorem session_step_queue (sh : rr_shared) (s : session) (e : session_event)
    (h0 : s.client.messages.length ≤ s.client.message_length)
    (h1 : s.client.messages.length ≤ 512) :
    (session_step sh s e).client.messages.length ≤
      (session_step sh s e).client.message_length ∧
    (session_step sh s e).client.messages.length ≤ 512 := by
  cases e with
  | write d =>
    simp only [session_step, rr_server_client_write_message]
    split_ifs <;> simp only [List.length_append, List.length_singleton] <;> omega
  | writeable =>
    simp only [session_step, handle_lws_writeable]
    split_ifs <;> simp
  | receive p =>
    simp only [session_step]
    rw [(handle_lws_receive_queue sh s.client p).1, (handle_lws_receive_queue sh s.client p).2]
    exact ⟨h0, h1⟩

theorem session_run_queue (sh : rr_shared) (es : List session_event) :
    ∀ s : session, s.client.messages.length ≤ s.client.message_length →
      s.client.messages.length ≤ 512 →
      (session_run sh s es).client.messages.length ≤
        (session_run sh s es).client.message_length ∧
      (session_run sh s es).client.messages.length ≤ 512 := by
  induction es with
  | nil => intro s h0 h1; exact ⟨h0, h1⟩
  | cons e es ih =>
    intro s h0 h1
    have h := session_step_queue sh s e h0 h1
    exact ih (session_step sh s e) h.1 h.2

/-- C14. Backpressure. Starting from a client whose queue is no longer than its
`message_length` counter and holds at most 512 messages (a fresh client has both at 0),
no sequence of writes, flushes and received packets makes the queue hold more than 512
messages. A write made while 512 messages are queued sets `pending_kick`, appends nothing
and leaves the clientbound key alone; the writable callback empties the queue and resets
`message_length` to 0, whether or not the client is pending kick. -/
theorem outgoing_queue_bounded (sh : rr_shared) (c0 : rr_server_client)
    (es : List session_event) (h0 : c0.messages.length ≤ c0.message_length)
    (h1 : c0.messages.length ≤ 512) :
    (session_run sh { client := c0, wire := [] } es).client.messages.length ≤ 512 ∧
    (∀ (c : rr_server_client) (d : List pb_field),
      c.messages.length ≤ c.message_length → c.messages.length = 512 →
      (rr_server_client_write_message sh.rr_get_hash c d).pending_kick = true ∧
      (rr_server_client_write_message sh.rr_get_hash c d).messages = c.messages ∧
      (rr_server_client_write_message sh.rr_get_hash c d).clientbound_encryption_key =
        c.clientbound_encryption_key) ∧
    (∀ c : rr_server_client,
      (handle_lws_writeable c).client.messages = [] ∧
      (handle_lws_writeable c).client.message_length = 0) := by
  refine ⟨(session_run_queue sh es { client := c0, wire := [] } h0 h1).2, ?_, ?_⟩
  · intro c d hle h512
    exact write_message_rejected sh.rr_get_hash c d (by omega)
  · intro c
    unfold handle_lws_writeable
    split_ifs <;> exact ⟨rfl, rfl⟩

/-- C14 on scenario S2: after the short session the queue holds one message, and a fresh
client starts with an empty queue and a zero counter. -/
theorem outgoing_queue_bounded_witness :
    client_S2.messages.length ≤ client_S2.message_length ∧ client_S2.messages.length ≤ 512 ∧
    (session_run sample_shared { client := client_S2, wire := [] }
      events_S2).client.messages.length ≤ 512 ∧
    (handle_lws_writeable client_S2).client.message_length = 0 := by
  have h := outgoing_queue_bounded sample_shared client_S2 events_S2 (by decide) (by decide)
  exact ⟨by decide, by decide, h.1, (h.2.2 client_S2).2⟩

/-! ## Craft chances -/

/-- C15. Craft PRD law. For a petal other than basic, an attempt made with
`craft_fails = f` (and `f + 1` within `uint32_t`) draws `u` from `rr_frand()` and succeeds
exactly when `u < C * (f + 1)`, `C` being `RR_CRAFT_CHANCES[rarity]`: a success adds one
success, takes five petals and resets `craft_fails` to 0; a failure leaves `craft_fails`
at `f + 1` and takes `1 + rand() % 4` petals. For a draw in `[0, 1)` the attempt succeeds
exactly when `u < min(1, (f + 1) * C)`, so it always succeeds once `(f + 1) * C >= 1`. -/
theorem craft_prd_law (rng : rr_rng) (id rarity : Nat) (C : ℚ) (s : craft_loop_state)
    (hid : id ≠ rr_petal_id_basic) (hf : s.fails + 1 < 2 ^ 32) :
    (rng.frand s.frand_used < C * ((s.fails + 1 : Nat) : ℚ) →
      craft_loop_body rng id rarity C s =
        { s with success := s.success + 1, fails := 0, now := s.now - 5,
                 frand_used := s.frand_used + 1,
                 xp_gain := s.xp_gain + CRAFT_XP_GAINS rarity }) ∧
    (¬ rng.frand s.frand_used < C * ((s.fails + 1 : Nat) : ℚ) →
      craft_loop_body rng id rarity C s =
        { s with fails := s.fails + 1, now := s.now - (1 + rng.rand s.rand_used % 4),
                 frand_used := s.frand_used + 1, rand_used := s.rand_used + 1,
                 xp_gain := s.xp_gain + CRAFT_XP_GAINS rarity }) ∧
    (rng.frand s.frand_used < 1 →
      ((craft_loop_body rng id rarity C s).success = s.success + 1 ↔
        rng.frand s.frand_used < min 1 (((s.fails + 1 : Nat) : ℚ) * C))) ∧
    (1 ≤ ((s.fails + 1 : Nat) : ℚ) * C → rng.frand s.frand_used < 1 →
      (craft_loop_body rng id rarity C s).success = s.success + 1 ∧
      (craft_loop_body rng id rarity C s).fails = 0) := by
  have hmod : (s.fails + 1) % 2 ^ 32 = s.fails + 1 := Nat.mod_eq_of_lt hf
  have hs : rng.frand s.frand_used < C * ((s.fails + 1 : Nat) : ℚ) →
      craft_loop_body rng id rarity C s =
        { s with success := s.success + 1, fails := 0, now := s.now - 5,
                 frand_used := s.frand_used + 1,
                 xp_gain := s.xp_gain + CRAFT_XP_GAINS rarity } := by
    intro hu
    unfold craft_loop_body
    rw [if_neg hid]
    dsimp only
    rw [hmod, if_pos hu]
  have hn : ¬ rng.frand s.frand_used < C * ((s.fails + 1 : Nat) : ℚ) →
      craft_loop_body rng id rarity C s =
        { s with fails := s.fails + 1, now := s.now - (1 + rng.rand s.rand_used % 4),
                 frand_used := s.frand_used + 1, rand_used := s.rand_used + 1,
                 xp_gain := s.xp_gain + CRAFT_XP_GAINS rarity } := by
    intro hu
    unfold craft_loop_body
    rw [if_neg hid]
    dsimp only
    rw [hmod, if_neg hu]
  have hiff : (craft_loop_body rng id rarity C s).success = s.success + 1 ↔
      rng.frand s.frand_used < C * ((s.fails + 1 : Nat) : ℚ) := by
    by_cases hu : rng.frand s.frand_used < C * ((s.fails + 1 : Nat) : ℚ)
    · rw [hs hu]
      exact ⟨fun _ => hu, fun _ => rfl⟩
    · rw [hn hu]
      constructor
      · intro h
        have h2 : s.success = s.success + 1 := h
        omega
      · intro h
        exact absurd h hu
  refine ⟨hs, hn, ?_, ?_⟩
  · intro h1
    rw [hiff, mul_comm, lt_min_iff]
    exact ⟨fun h => ⟨h1, h⟩, fun h => h.2⟩
  · intro hC h1
    have hu : rng.frand s.frand_used < C * ((s.fails + 1 : Nat) : ℚ) := by
      rw [mul_comm]
      exact lt_of_lt_of_le h1 hC
    rw [hs hu]
    exact ⟨rfl, rfl⟩

/-- C15 on a concrete attempt: pellet (id 2), chance 1/5, three failures so far and a draw
of 1/2; as `1/2 < 4 * 1/5` the fourth attempt succeeds and `craft_fails` is reset. -/
theorem craft_prd_law_witness :
    (2 : Nat) ≠ rr_petal_id_basic ∧ craft_state_3.fails + 1 < 2 ^ 32 ∧
    (craft_loop_body rng_half 2 0 (1 / 5) craft_state_3).success = 1 ∧
    (craft_loop_body rng_half 2 0 (1 / 5) craft_state_3).fails = 0 ∧
    (craft_loop_body rng_half 2 0 (1 / 5) craft_state_3).now = 0 := by
  have h := craft_prd_law rng_half 2 0 (1 / 5) craft_state_3 (by decide) (by decide)
  have hu : rng_half.frand craft_state_3.frand_used <
      1 / 5 * ((craft_state_3.fails + 1 : Nat) : ℚ) := by
    simp only [rng_half, craft_state_3]
    norm_num
  refine ⟨by decide, by decide, ?_, ?_, ?_⟩ <;> rw [h.1 hu] <;> rfl

/-! ## Account persistence -/

theorem api_encode_triples_append (a b : List (Nat × Nat × Nat)) :
    api_encode_triples (a ++ b) = api_encode_triples a ++ api_encode_triples b := by
  induction a with
  | nil => rfl
  | cons t ts ih => simp [api_encode_triples, ih]

theorem api_encode_triples_length (ts : List (Nat × Nat × Nat)) :
    ts.length ≤ (api_encode_triples ts).length := by
  induction ts with
  | nil => exact Nat.le_refl 0
  | cons t ts ih =>
    simp only [api_encode_triples, List.length_cons]
    omega

theorem api_write_table_eq (table : Nat → Nat → Nat) (ids : List Nat) (shift : Nat) :
    api_write_table table ids shift =
      api_encode_triples (api_table_triples table ids shift) := by
  have inner : ∀ (id : Nat) (rs : List Nat),
      rs.flatMap (fun rarity =>
        if table id rarity = 0 then []
        else [api_field.uint8 ((id + shift) % 256), api_field.uint8 rarity,
              api_field.varuint (table id rarity)]) =
      api_encode_triples (rs.flatMap (fun rarity =>
        if table id rarity = 0 then []
        else [((id + shift) % 256, rarity, table id rarity)])) := by
    intro id rs
    induction rs with
    | nil => rfl
    | cons r rs ih =>
      rw [List.flatMap_cons, List.flatMap_cons, api_encode_triples_append, ih]
      by_cases h : table id r = 0
      · simp [h, api_encode_triples]
      · simp [h, api_encode_triples]
  unfold api_write_table api_table_triples
  induction ids with
  | nil => rfl
  | cons id ids ih =>
    rw [List.flatMap_cons, List.flatMap_cons, api_encode_triples_append, ih, inner]

theorem api_read_table_encoded (id_max shift : Nat) (rest : List api_field)
    (ts : List (Nat × Nat × Nat)) :
    (∀ t ∈ ts, t.1 ≠ 0) → ∀ (fuel : Nat) (table : Nat → Nat → Nat), ts.length + 1 ≤ fuel →
      api_read_table id_max shift fuel
        (rr_binary_encoder_read_uint8
          (api_encode_triples ts ++ api_field.uint8 0 :: rest)).1
        (rr_binary_encoder_read_uint8
          (api_encode_triples ts ++ api_field.uint8 0 :: rest)).2 table =
      (ts.foldl (api_apply_triple id_max shift) table, rest) := by
  induction ts with
  | nil =>
    intro _ fuel table hf
    cases fuel with
    | zero => omega
    | succ f => simp [api_encode_triples, rr_binary_encoder_read_uint8, api_read_table]
  | cons t ts ih =>
    intro hne fuel table hf
    cases fuel with
    | zero => omega
    | succ f =>
      have ht : t.1 ≠ 0 := hne t (List.mem_cons_self t ts)
      have hrest := ih (fun t' h' => hne t' (List.mem_cons_of_mem t h')) f
        (api_apply_triple id_max shift table t) (by simp only [List.length_cons] at hf; omega)
      simp only [api_encode_triples, List.cons_append, rr_binary_encoder_read_uint8,
        rr_binary_encoder_read_varuint, api_read_table, if_neg ht, List.foldl_cons]
      exact hrest

theorem api_apply_triple_at (id_max shift : Nat) (table : Nat → Nat → Nat)
    (t : Nat × Nat × Nat) (i r : Nat) :
    api_apply_triple id_max shift table t i r =
      if (t.1 - shift < id_max ∧ t.2.1 < rr_rarity_id_max) ∧ (i = t.1 - shift ∧ r = t.2.1)
      then t.2.2 % 2 ^ 32 else table i r := by
  unfold api_apply_triple set2
  by_cases h1 : t.1 - shift < id_max ∧ t.2.1 < rr_rarity_id_max
  · by_cases h2 : i = t.1 - shift ∧ r = t.2.1
    · simp only [if_pos h1, if_pos h2, if_pos (And.intro h1 h2)]
    · simp only [if_pos h1, if_neg h2, if_neg (fun h => h2 (And.right h))]
  · simp only [if_neg h1, if_neg (fun h => h1 (And.left h))]

theorem api_fold_consistent (id_max shift : Nat) (T : Nat → Nat → Nat) (i r : Nat)
    (ts : List (Nat × Nat × Nat)) :
    (∀ t ∈ ts, t.1 - shift < id_max ∧ t.2.1 < rr_rarity_id_max →
      t.2.2 % 2 ^ 32 = T (t.1 - shift) t.2.1) →
    ∀ table : Nat → Nat → Nat,
      ((table i r = 0 ∨ table i r = T i r) →
        ts.foldl (api_apply_triple id_max shift) table i r = 0 ∨
        ts.foldl (api_apply_triple id_max shift) table i r = T i r) ∧
      (table i r = T i r → ts.foldl (api_apply_triple id_max shift) table i r = T i r) ∧
      ((∃ t ∈ ts, (t.1 - shift < id_max ∧ t.2.1 < rr_rarity_id_max) ∧
          (i = t.1 - shift ∧ r = t.2.1)) →
        ts.foldl (api_apply_triple id_max shift) table i r = T i r) := by
  induction ts with
  | nil =>
    intro _ table
    refine ⟨fun h => h, fun h => h, ?_⟩
    rintro ⟨t, ht, _⟩
    exact absurd ht (List.not_mem_nil t)
  | cons t ts ih =>
    intro hcons table
    have hc := hcons t (List.mem_cons_self t ts)
    have ih2 := ih (fun t' h' => hcons t' (List.mem_cons_of_mem t h'))
      (api_apply_triple id_max shift table t)
    have hat := api_apply_triple_at id_max shift table t i r
    rw [List.foldl_cons]
    by_cases hk : (t.1 - shift < id_max ∧ t.2.1 < rr_rarity_id_max) ∧
        (i = t.1 - shift ∧ r = t.2.1)
    · have hv : api_apply_triple id_max shift table t i r = T i r := by
        rw [hat, if_pos hk, hc hk.1, hk.2.1, hk.2.2]
      exact ⟨fun _ => Or.inr (ih2.2.1 hv), fun _ => ih2.2.1 hv, fun _ => ih2.2.1 hv⟩
    · have hv : api_apply_triple id_max shift table t i r = table i r := by
        rw [hat, if_neg hk]
      refine ⟨fun h => ih2.1 (by rw [hv]; exact h), fun h => ih2.2.1 (by rw [hv]; exact h), ?_⟩
      rintro ⟨t', ht', hk'⟩
      rcases List.mem_cons.mp ht' with h | h
      · subst h
        exact absurd hk' hk
      · exact ih2.2.2 ⟨t', h, hk'⟩

theorem api_table_triples_mem (T : Nat → Nat → Nat) (ids : List Nat) (shift : Nat)
    (t : Nat × Nat × Nat) :
    t ∈ api_table_triples T ids shift ↔
      ∃ id ∈ ids, ∃ r, r < rr_rarity_id_max ∧ T id r ≠ 0 ∧
        t = ((id + shift) % 256, r, T id r) := by
  unfold api_table_triples
  simp only [List.mem_flatMap, List.mem_range]
  constructor
  · rintro ⟨id, hid, r, hr, ht⟩
    by_cases h0 : T id r = 0
    · rw [if_pos h0] at ht
      exact absurd ht (List.not_mem_nil t)
    · rw [if_neg h0] at ht
      exact ⟨id, hid, r, hr, h0, List.mem_singleton.mp ht⟩
  · rintro ⟨id, hid, r, hr, h0, ht⟩
    refine ⟨id, hid, r, hr, ?_⟩
    rw [if_neg h0]
    exact List.mem_singleton.mpr ht

theorem api_table_round_trip (id_max shift : Nat) (T : Nat → Nat → Nat) (ids : List Nat)
    (rest : List api_field)
    (hids : ∀ id ∈ ids, 0 < id + shift ∧ id + shift < 256 ∧ id < id_max)
    (hT : ∀ id r, id < id_max → r < rr_rarity_id_max → T id r < 2 ^ 32) :
    ∃ R : Nat → Nat → Nat,
      api_read_list id_max shift (api_write_table T ids shift ++ api_field.uint8 0 :: rest)
        (fun _ _ => 0) = (R, rest) ∧
      (∀ i ∈ ids, ∀ r, r < rr_rarity_id_max → R i r = T i r) ∧
      (∀ i r, R i r = 0 ∨ R i r = T i r) := by
  have hne : ∀ t ∈ api_table_triples T ids shift, t.1 ≠ 0 := by
    intro t ht
    obtain ⟨id, hid, r, _, _, rfl⟩ := (api_table_triples_mem T ids shift t).mp ht
    have h := hids id hid
    show (id + shift) % 256 ≠ 0
    rw [Nat.mod_eq_of_lt h.2.1]
    omega
  have hcons : ∀ t ∈ api_table_triples T ids shift,
      t.1 - shift < id_max ∧ t.2.1 < rr_rarity_id_max →
        t.2.2 % 2 ^ 32 = T (t.1 - shift) t.2.1 := by
    intro t ht _
    obtain ⟨id, hid, r, hr, _, rfl⟩ := (api_table_triples_mem T ids shift t).mp ht
    have h := hids id hid
    show T id r % 2 ^ 32 = T ((id + shift) % 256 - shift) r
    rw [Nat.mod_eq_of_lt h.2.1, Nat.add_sub_cancel, Nat.mod_eq_of_lt (hT id r h.2.2 hr)]
  refine ⟨(api_table_triples T ids shift).foldl (api_apply_triple id_max shift)
    (fun _ _ => 0), ?_, ?_, ?_⟩
  · unfold api_read_list
    rw [api_write_table_eq]
    apply api_read_table_encoded id_max shift rest _ hne
    have := api_encode_triples_length (api_table_triples T ids shift)
    rw [List.length_append]
    omega
  · intro i hi r hr
    have hfold := api_fold_consistent id_max shift T i r _ hcons (fun _ _ => 0)
    by_cases h0 : T i r = 0
    · rcases hfold.1 (Or.inl rfl) with h | h
      · rw [h, h0]
      · exact h
    · have h := hids i hi
      refine hfold.2.2 ⟨((i + shift) % 256, r, T i r),
        (api_table_triples_mem T ids shift _).mpr ⟨i, hi, r, hr, h0, rfl⟩, ?_⟩
      show ((i + shift) % 256 - shift < id_max ∧ r < rr_rarity_id_max) ∧
        (i = (i + shift) % 256 - shift ∧ r = r)
      rw [Nat.mod_eq_of_lt h.2.1, Nat.add_sub_cancel]
      exact ⟨⟨h.2.2, hr⟩, rfl, rfl⟩
  · intro i r
    exact (api_fold_consistent id_max shift T i r _ hcons (fun _ _ => 0)).1 (Or.inl rfl)

/-- C16. Account persistence round trip. For a non-dev client whose inventory and
craft-fail rows of petal id 0 are zero (counts being `uint32_t`, the checkpoint a byte and
mob ids bytes), `rr_server_client_write_to_api` writes the tag byte 2 followed by a
payload, and `rr_server_client_read_from_api` on that payload, into a non-dev client with
the same uuid, returns 1 and restores the same experience, checkpoint, inventory,
craft_fails and mob_gallery. -/
theorem account_round_trip (mob_id_max : Nat) (xp_to_reach_level : Nat → ℚ)
    (this target : rr_server_client)
    (hdev : this.dev = false) (htdev : target.dev = false) (huuid : target.uuid = this.uuid)
    (hinv0 : ∀ r, r < rr_rarity_id_max → this.inventory 0 r = 0)
    (hcf0 : ∀ r, r < rr_rarity_id_max → this.craft_fails 0 r = 0)
    (hmob : mob_id_max ≤ 255) (hcp : this.checkpoint < 256)
    (hinv : ∀ id r, id < rr_petal_id_max → r < rr_rarity_id_max →
      this.inventory id r < 2 ^ 32)
    (hcf : ∀ id r, id < rr_petal_id_max → r < rr_rarity_id_max →
      this.craft_fails id r < 2 ^ 32)
    (hmg : ∀ id r, id < mob_id_max → r < rr_rarity_id_max →
      this.mob_gallery id r < 2 ^ 32) :
    ∃ payload : List api_field,
      rr_server_client_write_to_api mob_id_max this = some (api_field.uint8 2 :: payload) ∧
      (rr_server_client_read_from_api mob_id_max xp_to_reach_level target payload).1 = 1 ∧
      (rr_server_client_read_from_api mob_id_max xp_to_reach_level target
        payload).2.experience = this.experience ∧
      (rr_server_client_read_from_api mob_id_max xp_to_reach_level target
        payload).2.checkpoint = this.checkpoint ∧
      (∀ id r, id < rr_petal_id_max → r < rr_rarity_id_max →
        (rr_server_client_read_from_api mob_id_max xp_to_reach_level target
          payload).2.inventory id r = this.inventory id r) ∧
      (∀ id r, id < rr_petal_id_max → r < rr_rarity_id_max →
        (rr_server_client_read_from_api mob_id_max xp_to_reach_level target
          payload).2.craft_fails id r = this.craft_fails id r) ∧
      (∀ id r, id < mob_id_max → r < rr_rarity_id_max →
        (rr_server_client_read_from_api mob_id_max xp_to_reach_level target
          payload).2.mob_gallery id r = this.mob_gallery id r) := by
  have hpet : ∀ id ∈ List.range' 1 (rr_petal_id_max - 1),
      0 < id + 0 ∧ id + 0 < 256 ∧ id < rr_petal_id_max := by
    intro id hid
    rw [List.mem_range'_1] at hid
    simp only [rr_petal_id_max] at hid ⊢
    omega
  have hmobs : ∀ id ∈ List.range mob_id_max,
      0 < id + 1 ∧ id + 1 < 256 ∧ id < mob_id_max := by
    intro id hid
    rw [List.mem_range] at hid
    omega
  obtain ⟨R3, h3, h3a, _⟩ := api_table_round_trip mob_id_max 1 this.mob_gallery
    (List.range mob_id_max) [] hmobs hmg
  obtain ⟨R2, h2, h2a, h2b⟩ := api_table_round_trip rr_petal_id_max 0 this.craft_fails
    (List.range' 1 (rr_petal_id_max - 1))
    (api_write_table this.mob_gallery (List.range mob_id_max) 1 ++ [api_field.uint8 0])
    hpet hcf
  obtain ⟨R1, h1, h1a, h1b⟩ := api_table_round_trip rr_petal_id_max 0 this.inventory
    (List.range' 1 (rr_petal_id_max - 1))
    (api_write_table this.craft_fails (List.range' 1 (rr_petal_id_max - 1)) 0 ++
      api_field.uint8 0 ::
      (api_write_table this.mob_gallery (List.range mob_id_max) 1 ++ [api_field.uint8 0]))
    hpet hinv
  have hread : rr_server_client_read_from_api mob_id_max xp_to_reach_level target
      (api_field.nt_string this.uuid :: api_field.float64 this.experience ::
        api_field.uint8 (this.checkpoint % 256) ::
        (api_write_table this.inventory (List.range' 1 (rr_petal_id_max - 1)) 0 ++
          api_field.uint8 0 ::
          (api_write_table this.craft_fails (List.range' 1 (rr_petal_id_max - 1)) 0 ++
            api_field.uint8 0 ::
            (api_write_table this.mob_gallery (List.range mob_id_max) 1 ++
              [api_field.uint8 0])))) =
      (1, { target with
        experience := this.experience
        checkpoint := this.checkpoint
        inventory := R1
        craft_fails := R2
        mob_gallery := R3 }) := by
    unfold rr_server_client_read_from_api
    simp only [rr_binary_encoder_read_nt_string, rr_binary_encoder_read_float64,
      rr_binary_encoder_read_uint8, huuid, htdev, ne_eq, not_true_eq_false, if_false,
      Bool.false_eq_true, h1, h2, h3, Nat.mod_eq_of_lt hcp]
  refine ⟨api_field.nt_string this.uuid :: api_field.float64 this.experience ::
    api_field.uint8 (this.checkpoint % 256) ::
    (api_write_table this.inventory (List.range' 1 (rr_petal_id_max - 1)) 0 ++
      api_field.uint8 0 ::
      (api_write_table this.craft_fails (List.range' 1 (rr_petal_id_max - 1)) 0 ++
        api_field.uint8 0 ::
        (api_write_table this.mob_gallery (List.range mob_id_max) 1 ++
          [api_field.uint8 0]))), ?_, ?_⟩
  · unfold rr_server_client_write_to_api
    rw [hdev]
    simp only [Bool.false_eq_true, if_false, List.cons_append, List.nil_append,
      List.append_assoc, List.singleton_append]
  · rw [hread]
    refine ⟨rfl, rfl, rfl, ?_, ?_, ?_⟩
    · intro id r hid hr
      show R1 id r = this.inventory id r
      by_cases h0 : id = 0
      · subst h0
        rcases h1b 0 r with h | h
        · rw [h, hinv0 r hr]
        · exact h
      · exact h1a id (by rw [List.mem_range'_1]; simp only [rr_petal_id_max] at hid ⊢; omega)
          r hr
    · intro id r hid hr
      show R2 id r = this.craft_fails id r
      by_cases h0 : id = 0
      · subst h0
        rcases h2b 0 r with h | h
        · rw [h, hcf0 r hr]
        · exact h
      · exact h2a id (by rw [List.mem_range'_1]; simp only [rr_petal_id_max] at hid ⊢; omega)
          r hr
    · intro id r hid hr
      exact h3a id (List.mem_range.mpr hid) r hr

/-- C16 on a concrete account: the payload written for `client_account` restores, on a new
connection with the same uuid, the ten pellets, the three failed crafts, the seven kills,
the experience and the checkpoint. -/
theorem account_round_trip_witness :
    client_account.dev = false ∧ client_reconnected.dev = false ∧
    client_reconnected.uuid = client_account.uuid ∧
    ∃ payload : List api_field,
      rr_server_client_write_to_api 10 client_account =
        some (api_field.uint8 2 :: payload) ∧
      (rr_server_client_read_from_api 10 (fun _ => 0) client_reconnected payload).1 = 1 ∧
      (rr_server_client_read_from_api 10 (fun _ => 0) client_reconnected
        payload).2.experience = 5 / 2 ∧
      (rr_server_client_read_from_api 10 (fun _ => 0) client_reconnected
        payload).2.checkpoint = 3 ∧
      (rr_server_client_read_from_api 10 (fun _ => 0) client_reconnected
        payload).2.inventory 2 0 = 10 ∧
      (rr_server_client_read_from_api 10 (fun _ => 0) client_reconnected
        payload).2.inventory 1 0 = 0 ∧
      (rr_server_client_read_from_api 10 (fun _ => 0) client_reconnected
        payload).2.craft_fails 2 1 = 3 ∧
      (rr_server_client_read_from_api 10 (fun _ => 0) client_reconnected
        payload).2.mob_gallery 0 0 = 7 := by
  have h32 : ∀ (c : Prop) [Decidable c] (v : Nat), v < 2 ^ 32 →
      (if c then v else 0) < 2 ^ 32 := by
    intro c _ v hv
    split_ifs
    · exact hv
    · exact Nat.pos_of_ne_zero (by decide)
  obtain ⟨payload, hw, hr, he, hc, hi, hf, hm⟩ :=
    account_round_trip 10 (fun _ => 0) client_account client_reconnected rfl rfl rfl
      (fun r _ => by
        show (if (0 : Nat) = 2 ∧ r = 0 then 10 else 0) = 0
        exact if_neg (fun h => absurd (And.left h) (by decide)))
      (fun r _ => by
        show (if (0 : Nat) = 2 ∧ r = 1 then 3 else 0) = 0
        exact if_neg (fun h => absurd (And.left h) (by decide)))
      (by decide) (by decide)
      (fun id r _ _ => h32 _ 10 (by decide))
      (fun id r _ _ => h32 _ 3 (by decide))
      (fun id r _ _ => h32 _ 7 (by decide))
  exact ⟨rfl, rfl, rfl, payload, hw, hr, he, hc,
    hi 2 0 (by decide) (by decide), hi 1 0 (by decide) (by decide),
    hf 2 1 (by decide) (by decide), hm 0 0 (by decide) (by decide)⟩

/-! ## Server tick: grace window and AFK counter -/

theorem server_tick_cooldown_client_eq (c : rr_server_client) :
    server_tick_cooldown_client c =
      { c with
        ticks_to_next_squad_action := (server_tick_cooldown_client c).ticks_to_next_squad_action
        ticks_to_next_kick_vote := (server_tick_cooldown_client c).ticks_to_next_kick_vote } := by
  unfold server_tick_cooldown_client
  dsimp only
  split_ifs <;> rfl

theorem server_tick_cooldowns_clients (s : rr_server) (i : Nat) :
    (server_tick_cooldowns s i).clients =
      fun k => if k = i then server_tick_cooldown_client (s.clients i) else s.clients k := by
  unfold server_tick_cooldowns
  dsimp only
  split_ifs <;> rfl

theorem server_tick_cooldowns_frame (s : rr_server) (i : Nat) :
    (server_tick_cooldowns s i).clients_in_use = s.clients_in_use ∧
    (server_tick_cooldowns s i).simulation = s.simulation ∧
    (server_tick_cooldowns s i).player_info = s.player_info := by
  unfold server_tick_cooldowns
  dsimp only
  split_ifs <;> exact ⟨rfl, rfl, rfl⟩

theorem server_tick_cooldowns_client (s : rr_server) (i : Nat) :
    (server_tick_cooldowns s i).clients i = server_tick_cooldown_client (s.clients i) := by
  rw [server_tick_cooldowns_clients]
  exact if_pos rfl

theorem set_member_members (s : rr_server) (q0 p0 : Nat) (m : rr_squad_member) (q r : Nat) :
    ((set_member s q0 p0 m).squads q).members r =
      if q = q0 ∧ r = p0 then m else (s.squads q).members r := by
  unfold set_member
  by_cases hq : q = q0 <;> by_cases hr : r = p0 <;> simp [hq, hr]

theorem set_member_membership (s : rr_server) (q0 p0 : Nat) (m : rr_squad_member)
    (h1 : m.in_use = ((s.squads q0).members p0).in_use)
    (h2 : m.client = ((s.squads q0).members p0).client) (q r : Nat) :
    (((set_member s q0 p0 m).squads q).members r).in_use = ((s.squads q).members r).in_use ∧
    (((set_member s q0 p0 m).squads q).members r).client =
      ((s.squads q).members r).client := by
  rw [set_member_members]
  by_cases h : q = q0 ∧ r = p0
  · rw [if_pos h, h.1, h.2]
    exact ⟨h1, h2⟩
  · rw [if_neg h]
    exact ⟨rfl, rfl⟩

theorem withdraw_vote_members (t : rr_server) (c : rr_server_client) (v q r : Nat) :
    (((set_member
        (set_member t c.squad v
          { (t.squads c.squad).members v with
            kick_vote_count := (((t.squads c.squad).members v).kick_vote_count + 255) % 256 })
        c.squad c.squad_pos
        { rr_squad_get_client_slot
            (set_member t c.squad v
              { (t.squads c.squad).members v with
                kick_vote_count :=
                  (((t.squads c.squad).members v).kick_vote_count + 255) % 256 }) c with
          kick_vote_pos := -1 }).squads q).members r).in_use =
      ((t.squads q).members r).in_use ∧
    (((set_member
        (set_member t c.squad v
          { (t.squads c.squad).members v with
            kick_vote_count := (((t.squads c.squad).members v).kick_vote_count + 255) % 256 })
        c.squad c.squad_pos
        { rr_squad_get_client_slot
            (set_member t c.squad v
              { (t.squads c.squad).members v with
                kick_vote_count :=
                  (((t.squads c.squad).members v).kick_vote_count + 255) % 256 }) c with
          kick_vote_pos := -1 }).squads q).members r).client =
      ((t.squads q).members r).client := by
  have h1 := set_member_membership t c.squad v
    { (t.squads c.squad).members v with
      kick_vote_count := (((t.squads c.squad).members v).kick_vote_count + 255) % 256 }
    rfl rfl q r
  have h2 := set_member_membership
    (set_member t c.squad v
      { (t.squads c.squad).members v with
        kick_vote_count := (((t.squads c.squad).members v).kick_vote_count + 255) % 256 })
    c.squad c.squad_pos
    { rr_squad_get_client_slot
        (set_member t c.squad v
          { (t.squads c.squad).members v with
            kick_vote_count :=
              (((t.squads c.squad).members v).kick_vote_count + 255) % 256 }) c with
      kick_vote_pos := -1 }
    rfl rfl q r
  exact ⟨h2.1.trans h1.1, h2.2.trans h1.2⟩

theorem server_tick_cooldowns_members (s : rr_server) (i q r : Nat) :
    (((server_tick_cooldowns s i).squads q).members r).in_use =
      ((s.squads q).members r).in_use ∧
    (((server_tick_cooldowns s i).squads q).members r).client =
      ((s.squads q).members r).client := by
  unfold server_tick_cooldowns
  dsimp only
  split_ifs
  · exact withdraw_vote_members
      (set_client s i (server_tick_cooldown_client (s.clients i)))
      (server_tick_cooldown_client (s.clients i)) _ q r
  · exact ⟨rfl, rfl⟩
  · exact ⟨rfl, rfl⟩

theorem server_tick_client_grace (env : rr_server_env) (s : rr_server) (i : Nat)
    (hd : (s.clients i).disconnected = true)
    (hn : (s.clients i).disconnected_ticks + 1 ≤ 60 * 25) :
    server_tick_client env s i =
      set_client (server_tick_cooldowns s i) i
        { server_tick_cooldown_client (s.clients i) with
          disconnected_ticks := (s.clients i).disconnected_ticks + 1 } := by
  have hc := server_tick_cooldowns_client s i
  have hd3 : (server_tick_cooldown_client (s.clients i)).disconnected = true := by
    rw [server_tick_cooldown_client_eq]
    exact hd
  have hn3 : (server_tick_cooldown_client (s.clients i)).disconnected_ticks =
      (s.clients i).disconnected_ticks := by
    rw [server_tick_cooldown_client_eq]
  unfold server_tick_client
  simp only [hc, hd3, hn3, if_true]
  rw [if_neg (by omega)]

theorem server_tick_client_expiry (env : rr_server_env) (s : rr_server) (i : Nat)
    (hd : (s.clients i).disconnected = true)
    (hn : 60 * 25 < (s.clients i).disconnected_ticks + 1) :
    server_tick_client env s i =
      rr_server_client_free env
        { set_client (server_tick_cooldowns s i) i
            { server_tick_cooldown_client (s.clients i) with
              disconnected_ticks := (s.clients i).disconnected_ticks + 1
              in_use := false } with
          clients_in_use := fun k =>
            if k = i then false else (server_tick_cooldowns s i).clients_in_use k } i := by
  have hc := server_tick_cooldowns_client s i
  have hd3 : (server_tick_cooldown_client (s.clients i)).disconnected = true := by
    rw [server_tick_cooldown_client_eq]
    exact hd
  have hn3 : (server_tick_cooldown_client (s.clients i)).disconnected_ticks =
      (s.clients i).disconnected_ticks := by
    rw [server_tick_cooldown_client_eq]
  unfold server_tick_client
  simp only [hc, hd3, hn3, if_true]
  rw [if_pos (by omega)]
  congr 1
  simp only [set_client]
  congr 1
  funext k
  split_ifs <;> rfl

theorem same_session_refl (i : Nat) (s : rr_server) : same_session i s s :=
  ⟨rfl, rfl, rfl, rfl, rfl, rfl, rfl, fun _ _ => ⟨rfl, rfl⟩⟩

theorem same_session_trans (i : Nat) (s t u : rr_server) (h1 : same_session i s t)
    (h2 : same_session i t u) : same_session i s u :=
  ⟨h2.1.trans h1.1, h2.2.1.trans h1.2.1, h2.2.2.1.trans h1.2.2.1,
    h2.2.2.2.1.trans h1.2.2.2.1, h2.2.2.2.2.1.trans h1.2.2.2.2.1,
    h2.2.2.2.2.2.1.trans h1.2.2.2.2.2.1, h2.2.2.2.2.2.2.1.trans h1.2.2.2.2.2.2.1,
    fun q r => ⟨(h2.2.2.2.2.2.2.2 q r).1.trans (h1.2.2.2.2.2.2.2 q r).1,
      (h2.2.2.2.2.2.2.2 q r).2.trans (h1.2.2.2.2.2.2.2 q r).2⟩⟩

theorem server_tick_cooldowns_same_session (s : rr_server) (i : Nat) :
    same_session i s (server_tick_cooldowns s i) := by
  have hf := server_tick_cooldowns_frame s i
  have hc := server_tick_cooldowns_client s i
  refine ⟨hf.1, hf.2.1, ?_, ?_, ?_, ?_, ?_, server_tick_cooldowns_members s i⟩ <;>
    rw [hc, server_tick_cooldown_client_eq]

theorem server_tick_client_grace_session (env : rr_server_env) (s : rr_server) (i : Nat)
    (hd : (s.clients i).disconnected = true)
    (hn : (s.clients i).disconnected_ticks + 1 ≤ 60 * 25) :
    same_session i s (server_tick_client env s i) ∧
    ((server_tick_client env s i).clients i).disconnected = true ∧
    ((server_tick_client env s i).clients i).disconnected_ticks =
      (s.clients i).disconnected_ticks + 1 := by
  have hs := server_tick_cooldowns_same_session s i
  rw [server_tick_client_grace env s i hd hn]
  refine ⟨⟨hs.1, hs.2.1, ?_, ?_, ?_, ?_, ?_, hs.2.2.2.2.2.2.2⟩, ?_, ?_⟩
  all_goals simp only [set_client, if_true]
  all_goals rw [server_tick_cooldown_client_eq]
  exact hd

theorem grace_run (env : rr_server_env) (i : Nat) :
    ∀ (n : Nat) (s : rr_server), (s.clients i).disconnected = true →
      (s.clients i).disconnected_ticks + n ≤ 60 * 25 →
      same_session i s (client_run env i s (List.replicate n client_event.tick)) ∧
      ((client_run env i s (List.replicate n client_event.tick)).clients i).disconnected =
        true ∧
      ((client_run env i s (List.replicate n client_event.tick)).clients
        i).disconnected_ticks = (s.clients i).disconnected_ticks + n := by
  intro n
  induction n with
  | zero =>
    intro s hd _
    exact ⟨same_session_refl i s, hd, rfl⟩
  | succ k ih =>
    intro s hd hn
    have h1 := server_tick_client_grace_session env s i hd (by omega)
    have h2 := ih (server_tick_client env s i) h1.2.1 (by rw [h1.2.2]; omega)
    show same_session i s
        (client_run env i (server_tick_client env s i) (List.replicate k client_event.tick)) ∧
      ((client_run env i (server_tick_client env s i)
        (List.replicate k client_event.tick)).clients i).disconnected = true ∧
      ((client_run env i (server_tick_client env s i)
        (List.replicate k client_event.tick)).clients i).disconnected_ticks =
        (s.clients i).disconnected_ticks + (k + 1)
    refine ⟨same_session_trans i _ _ _ h1.1 h2.1, h2.2.1, ?_⟩
    rw [h2.2.2, h1.2.2]
    omega

theorem lws_closed_mark_client (s : rr_server) (i : Nat) :
    (lws_closed_mark s i).clients i =
      { s.clients i with disconnected := true, player_accel_x := 0, player_accel_y := 0 } := by
  unfold lws_closed_mark
  dsimp only
  cases (s.clients i).player_info <;> simp [set_client]

theorem lws_closed_mark_frame (s : rr_server) (i : Nat) :
    (lws_closed_mark s i).clients_in_use = s.clients_in_use ∧
    (lws_closed_mark s i).simulation = s.simulation ∧
    (lws_closed_mark s i).squads = s.squads := by
  unfold lws_closed_mark
  dsimp only
  cases (s.clients i).player_info <;> exact ⟨rfl, rfl, rfl⟩

theorem lws_closed_mark_input (s : rr_server) (i p : Nat)
    (hp : (s.clients i).player_info = some p) :
    ((lws_closed_mark s i).player_info p).input = 0 ∧
    ((lws_closed_mark s i).player_info p).parent_id = (s.player_info p).parent_id := by
  unfold lws_closed_mark
  dsimp only
  rw [hp]
  simp [set_client]

theorem rr_server_client_free_requests (env : rr_server_env) (t : rr_server) (i p : Nat)
    (hp : (t.clients i).player_info = some p) :
    (rr_server_client_free env t i).simulation =
      (env.rr_client_leave_squad
        { t with simulation :=
            (rr_simulation_request_entity_deletion t.simulation
              (t.player_info p).parent_id) } i).simulation ∧
    (rr_server_client_free env t i).squads =
      (env.rr_client_leave_squad
        { t with simulation :=
            (rr_simulation_request_entity_deletion t.simulation
              (t.player_info p).parent_id) } i).squads ∧
    (rr_simulation_request_entity_deletion t.simulation
      (t.player_info p).parent_id).pending_deletions (t.player_info p).parent_id = true := by
  unfold rr_server_client_free
  rw [hp]
  refine ⟨rfl, rfl, ?_⟩
  simp [rr_simulation_request_entity_deletion]

/-- C13. Disconnect grace window. When the socket of a verified client that is not pending
kick closes, the client is marked disconnected with no acceleration and no input, and its
session is kept: the slot stays in use, the player_info and the place in the squad are the
same and nothing is requested for deletion. While `disconnected_ticks` stays within
`60 * 25` the ticks keep the session; the tick on which it exceeds `60 * 25` clears the
slot and calls `rr_server_client_free`, which requests the deletion of the player_info
before the client leaves its squad. A client that is unverified or pending kick when the
socket closes is freed at once. -/
theorem disconnect_grace (env : rr_server_env) (s : rr_server) (i : Nat) :
    ((s.clients i).verified = true → (s.clients i).pending_kick = false →
      same_session i s (handle_lws_closed env s i) ∧
      ((handle_lws_closed env s i).clients i).disconnected = true ∧
      ((handle_lws_closed env s i).clients i).player_accel_x = 0 ∧
      ((handle_lws_closed env s i).clients i).player_accel_y = 0 ∧
      ∀ p, (s.clients i).player_info = some p →
        ((handle_lws_closed env s i).player_info p).input = 0) ∧
    ((s.clients i).verified = false ∨ (s.clients i).pending_kick = true →
      ∃ t : rr_server, t.clients_in_use i = false ∧ (t.clients i).in_use = false ∧
        (t.clients i).player_info = (s.clients i).player_info ∧
        t.simulation = s.simulation ∧
        handle_lws_closed env s i = rr_server_client_free env t i) ∧
    (∀ n, (s.clients i).disconnected = true →
      (s.clients i).disconnected_ticks + n ≤ 60 * 25 →
      same_session i s (client_run env i s (List.replicate n client_event.tick)) ∧
      ((client_run env i s (List.replicate n client_event.tick)).clients
        i).disconnected_ticks = (s.clients i).disconnected_ticks + n) ∧
    ((s.clients i).disconnected = true → 60 * 25 < (s.clients i).disconnected_ticks + 1 →
      ∃ t : rr_server, t.clients_in_use i = false ∧ (t.clients i).in_use = false ∧
        (t.clients i).player_info = (s.clients i).player_info ∧
        t.simulation = s.simulation ∧ t.player_info = s.player_info ∧
        server_tick_client env s i = rr_server_client_free env t i) ∧
    (∀ (t : rr_server) (p : Nat), (t.clients i).player_info = some p →
      (rr_server_client_free env t i).simulation =
        (env.rr_client_leave_squad
          { t with simulation :=
              (rr_simulation_request_entity_deletion t.simulation
                (t.player_info p).parent_id) } i).simulation ∧
      (rr_simulation_request_entity_deletion t.simulation
        (t.player_info p).parent_id).pending_deletions (t.player_info p).parent_id =
        true) := by
  have hc := lws_closed_mark_client s i
  have hf := lws_closed_mark_frame s i
  refine ⟨?_, ?_, ?_, ?_, ?_⟩
  · intro hv hk
    have hno : ¬ (((lws_closed_mark s i).clients i).verified = false ∨
        ((lws_closed_mark s i).clients i).pending_kick = true) := by
      rw [hc]
      simp [hv, hk]
    have he : handle_lws_closed env s i = lws_closed_mark s i := by
      unfold handle_lws_closed
      exact if_neg hno
    rw [he]
    refine ⟨⟨hf.1, hf.2.1, ?_, ?_, ?_, ?_, ?_, ?_⟩, ?_, ?_, ?_, ?_⟩
    · rw [hc]
    · rw [hc]
    · rw [hc]
    · rw [hc]
    · rw [hc]
    · intro q r
      rw [hf.2.2]
      exact ⟨rfl, rfl⟩
    · rw [hc]
    · rw [hc]
    · rw [hc]
    · intro p hp
      exact (lws_closed_mark_input s i p hp).1
  · intro hvk
    have hyes : ((lws_closed_mark s i).clients i).verified = false ∨
        ((lws_closed_mark s i).clients i).pending_kick = true := by
      rw [hc]
      exact hvk
    refine ⟨{ set_client (lws_closed_mark s i) i
        { (lws_closed_mark s i).clients i with in_use := false } with
      clients_in_use := fun k =>
        if k = i then false else (lws_closed_mark s i).clients_in_use k }, ?_, ?_, ?_, ?_, ?_⟩
    · exact if_pos rfl
    · simp [set_client]
    · simp only [set_client, if_true]
      rw [hc]
    · exact hf.2.1
    · unfold handle_lws_closed
      exact if_pos hyes
  · intro n hd hn
    have h := grace_run env i n s hd hn
    exact ⟨h.1, h.2.2⟩
  · intro hd hn
    have hcf := server_tick_cooldowns_frame s i
    refine ⟨_, ?_, ?_, ?_, ?_, ?_, server_tick_client_expiry env s i hd hn⟩
    · exact if_pos rfl
    · simp [set_client]
    · simp only [set_client, if_true]
      rw [server_tick_cooldown_client_eq]
    · exact hcf.2.1
    · exact hcf.2.2
  · intro t p hp
    have h := rr_server_client_free_requests env t i p hp
    exact ⟨h.1, h.2.2⟩

/-- C13 on scenario S4: client 0 closes its socket; its session is kept at once and over
the next 1500 ticks, and tick 1501 clears the slot and frees the client. -/
theorem disconnect_grace_witness :
    (server_S4.clients 0).verified = true ∧ (server_S4.clients 0).pending_kick = false ∧
    same_session 0 server_S4 server_closed ∧
    (server_closed.clients 0).disconnected = true ∧
    same_session 0 server_closed
      (client_run sample_env 0 server_closed (List.replicate 1500 client_event.tick)) ∧
    ((client_run sample_env 0 server_closed
      (List.replicate 1500 client_event.tick)).clients 0).disconnected_ticks = 1500 ∧
    ∃ t : rr_server, t.clients_in_use 0 = false ∧
      server_tick_client sample_env
        (client_run sample_env 0 server_closed (List.replicate 1500 client_event.tick)) 0 =
        rr_server_client_free sample_env t 0 := by
  have h1 := (disconnect_grace sample_env server_S4 0).1 rfl rfl
  have h0 : (server_closed.clients 0).disconnected_ticks = 0 := rfl
  have hd : (server_closed.clients 0).disconnected = true := h1.2.1
  have h3 := (disconnect_grace sample_env server_closed 0).2.2.1 1500 hd
    (by rw [h0])
  have hr := grace_run sample_env 0 1500 server_closed hd (by rw [h0])
  obtain ⟨t, ht, _, _, _, _, he⟩ := (disconnect_grace sample_env
    (client_run sample_env 0 server_closed (List.replicate 1500 client_event.tick))
    0).2.2.2.1 hr.2.1 (by rw [hr.2.2, h0]; decide)
  exact ⟨rfl, rfl, h1.1, hd, h3.1, by rw [h3.2, h0], t, ht, he⟩

theorem client_flower_alive_in_game (env : rr_server_env) (sim : rr_simulation)
    (pi : Nat → rr_component_player_info) (p : Nat) (ax ay : ℚ) (i : Nat) (s : rr_server)
    (h : client_in_game env sim pi p ax ay i s) :
    client_flower_alive env (server_tick_cooldowns s i)
      (server_tick_cooldown_client (s.clients i)) = true := by
  obtain ⟨hsim, hpi, _, _, hp, _, _, hfl, hdead⟩ := h
  have hf := server_tick_cooldowns_frame s i
  have hp3 : (server_tick_cooldown_client (s.clients i)).player_info = some p := by
    rw [server_tick_cooldown_client_eq]
    exact hp
  unfold client_flower_alive
  rw [hp3]
  simp only [hf.2.1, hf.2.2, hsim, hpi, hdead, Bool.not_false, Bool.and_true,
    decide_eq_true_eq]
  exact hfl

theorem server_tick_client_afk_count (env : rr_server_env) (sim : rr_simulation)
    (pi : Nat → rr_component_player_info) (p : Nat) (ax ay : ℚ) (i : Nat) (s : rr_server)
    (h : client_in_game env sim pi p ax ay i s)
    (hn : (s.clients i).afk_ticks + 1 ≤ 10 * 60 * 25) :
    server_tick_client env s i =
      set_client (server_tick_cooldowns s i) i
        { server_tick_cooldown_client (s.clients i) with
          afk_ticks := (s.clients i).afk_ticks + 1 } := by
  have halive := client_flower_alive_in_game env sim pi p ax ay i s h
  obtain ⟨_, _, hdev, hdis, _, _, _, _, _⟩ := h
  have hc := server_tick_cooldowns_client s i
  have hd3 : (server_tick_cooldown_client (s.clients i)).disconnected = false := by
    rw [server_tick_cooldown_client_eq]
    exact hdis
  have hv3 : (server_tick_cooldown_client (s.clients i)).dev = false := by
    rw [server_tick_cooldown_client_eq]
    exact hdev
  have hn3 : (server_tick_cooldown_client (s.clients i)).afk_ticks =
      (s.clients i).afk_ticks := by
    rw [server_tick_cooldown_client_eq]
  unfold server_tick_client
  simp only [hc, hd3, hv3, hn3, halive, Bool.false_eq_true, if_false, and_self, if_true]
  rw [if_neg (by omega)]

theorem server_tick_client_afk_kick (env : rr_server_env) (sim : rr_simulation)
    (pi : Nat → rr_component_player_info) (p : Nat) (ax ay : ℚ) (i : Nat) (s : rr_server)
    (h : client_in_game env sim pi p ax ay i s)
    (hn : 10 * 60 * 25 < (s.clients i).afk_ticks + 1) :
    server_tick_client env s i =
      server_tick_afk_notify env
        (server_tick_afk_request
          (set_client (server_tick_cooldowns s i) i
            { server_tick_cooldown_client (s.clients i) with
              afk_ticks := (s.clients i).afk_ticks + 1 }) i) i := by
  have halive := client_flower_alive_in_game env sim pi p ax ay i s h
  obtain ⟨_, _, hdev, hdis, _, _, _, _, _⟩ := h
  have hc := server_tick_cooldowns_client s i
  have hd3 : (server_tick_cooldown_client (s.clients i)).disconnected = false := by
    rw [server_tick_cooldown_client_eq]
    exact hdis
  have hv3 : (server_tick_cooldown_client (s.clients i)).dev = false := by
    rw [server_tick_cooldown_client_eq]
    exact hdev
  have hn3 : (server_tick_cooldown_client (s.clients i)).afk_ticks =
      (s.clients i).afk_ticks := by
    rw [server_tick_cooldown_client_eq]
  unfold server_tick_client
  simp only [hc, hd3, hv3, hn3, halive, Bool.false_eq_true, if_false, and_self, if_true]
  rw [if_pos (by omega)]

theorem server_tick_afk_request_spec (t : rr_server) (i p : Nat)
    (hp : (t.clients i).player_info = some p) :
    (server_tick_afk_request t i).simulation =
      rr_simulation_request_entity_deletion t.simulation (t.player_info p).parent_id ∧
    (server_tick_afk_request t i).simulation.pending_deletions
      (t.player_info p).parent_id = true ∧
    ((server_tick_afk_request t i).clients i).player_info = none ∧
    (server_tick_afk_request t i).clients_in_use = t.clients_in_use ∧
    (server_tick_afk_request t i).squads = t.squads := by
  unfold server_tick_afk_request
  rw [hp]
  simp [set_client, rr_simulation_request_entity_deletion]

theorem set_client_self (s : rr_server) (i : Nat) : set_client s i (s.clients i) = s := by
  unfold set_client
  have h : (fun k => if k = i then s.clients i else s.clients k) = s.clients := by
    funext k
    split_ifs with hk
    · rw [hk]
    · rfl
  rw [h]

theorem set_accel_self (c : rr_server_client) (x y : ℚ) (h1 : c.player_accel_x = x)
    (h2 : c.player_accel_y = y) :
    { c with player_accel_x := x, player_accel_y := y } = c := by
  subst h1 h2
  rfl

theorem rr_serverbound_input_idle (env : rr_server_env) (sim : rr_simulation)
    (pi : Nat → rr_component_player_info) (p : Nat) (ax ay : ℚ) (i : Nat) (s : rr_server)
    (h : client_in_game env sim pi p ax ay i s) (movementFlags : Nat) (x y : ℚ)
    (hidle : input_idle ax ay (pi p).input (client_event.input movementFlags x y)) :
    rr_serverbound_input env s i movementFlags x y = s := by
  obtain ⟨hsim, hpi, _, _, hp, hax, hay, hfl, hdead⟩ := h
  obtain ⟨hacc, hbits⟩ := hidle
  have hfl2 : (s.player_info p).flower_id ≠ RR_NULL_ENTITY := by
    rw [hpi]
    exact hfl
  have hdead2 : env.is_dead_flower s.simulation (s.player_info p).flower_id = false := by
    rw [hpi, hsim]
    exact hdead
  have hin : (s.player_info p).input = (movementFlags >>> 4) &&& 3 := by
    rw [hpi, hbits]
  have hstore : (fun e => if e = p then
      { s.player_info e with input := (movementFlags >>> 4) &&& 3 }
      else s.player_info e) = s.player_info := by
    funext e
    split_ifs with he
    · rw [he, ← hin]
    · rfl
  unfold rr_serverbound_input
  rw [hp]
  show rr_serverbound_input_apply env s i p movementFlags x y = s
  unfold rr_serverbound_input_apply
  simp only [hfl2, hdead2, false_or, Bool.false_eq_true, if_false, hstore, ne_eq, hin,
    not_true_eq_false]
  unfold input_accel at hacc
  by_cases hc : (x ≠ 0 ∨ y ≠ 0) ∧ |x| < 10000 ∧ |y| < 10000
  · rw [if_pos hc] at hacc
    have hx : x = ax := congrArg Prod.fst hacc
    have hy : y = ay := congrArg Prod.snd hacc
    have hne : ¬ (¬ (s.clients i).player_accel_x = x ∨ ¬ (s.clients i).player_accel_y = y) := by
      rw [hax, hay, hx, hy]
      simp
    simp only [ne_eq] at hc
    rw [if_pos hc, if_neg hne]
    rw [set_accel_self (s.clients i) x y (hax.trans hx.symm) (hay.trans hy.symm)]
    exact set_client_self s i
  · rw [if_neg hc] at hacc
    have hx : (0 : ℚ) = ax := congrArg Prod.fst hacc
    have hy : (0 : ℚ) = ay := congrArg Prod.snd hacc
    have hne : ¬ (¬ (s.clients i).player_accel_x = 0 ∨ ¬ (s.clients i).player_accel_y = 0) := by
      rw [hax, hay, ← hx, ← hy]
      simp
    simp only [ne_eq] at hc
    rw [if_neg hc, if_neg hne]
    rw [set_accel_self (s.clients i) 0 0 (hax.trans hx.symm) (hay.trans hy.symm)]
    exact set_client_self s i

theorem server_tick_client_afk_session (env : rr_server_env) (sim : rr_simulation)
    (pi : Nat → rr_component_player_info) (p : Nat) (ax ay : ℚ) (i : Nat) (s : rr_server)
    (h : client_in_game env sim pi p ax ay i s)
    (hn : (s.clients i).afk_ticks + 1 ≤ 10 * 60 * 25) :
    client_in_game env sim pi p ax ay i (server_tick_client env s i) ∧
    same_session i s (server_tick_client env s i) ∧
    ((server_tick_client env s i).clients i).afk_ticks = (s.clients i).afk_ticks + 1 ∧
    ((server_tick_client env s i).clients i).messages = (s.clients i).messages := by
  have hs := server_tick_cooldowns_same_session s i
  have hf := server_tick_cooldowns_frame s i
  rw [server_tick_client_afk_count env sim pi p ax ay i s h hn]
  obtain ⟨hsim, hpi, hdev, hdis, hp, hax, hay, hfl, hdead⟩ := h
  refine ⟨⟨hf.2.1.trans hsim, hf.2.2.trans hpi, ?_, ?_, ?_, ?_, ?_, hfl, hdead⟩,
    ⟨hs.1, hs.2.1, ?_, ?_, ?_, ?_, ?_, hs.2.2.2.2.2.2.2⟩, ?_, ?_⟩
  all_goals simp only [set_client, if_true]
  all_goals rw [server_tick_cooldown_client_eq]
  · exact hdev
  · exact hdis
  · exact hp
  · exact hax
  · exact hay

theorem afk_run_idle (env : rr_server_env) (sim : rr_simulation)
    (pi : Nat → rr_component_player_info) (p : Nat) (ax ay : ℚ) (i : Nat) :
    ∀ (es : List client_event) (s : rr_server), client_in_game env sim pi p ax ay i s →
      (∀ e ∈ es, input_idle ax ay (pi p).input e) →
      (s.clients i).afk_ticks + count_ticks es ≤ 10 * 60 * 25 →
      client_in_game env sim pi p ax ay i (client_run env i s es) ∧
      same_session i s (client_run env i s es) ∧
      ((client_run env i s es).clients i).afk_ticks =
        (s.clients i).afk_ticks + count_ticks es ∧
      ((client_run env i s es).clients i).messages = (s.clients i).messages := by
  intro es
  induction es with
  | nil =>
    intro s h _ _
    exact ⟨h, same_session_refl i s, rfl, rfl⟩
  | cons e es ih =>
    intro s h hidle hn
    have hrest : ∀ e' ∈ es, input_idle ax ay (pi p).input e' :=
      fun e' he' => hidle e' (List.mem_cons_of_mem e he')
    cases e with
    | tick =>
      have hn1 : (s.clients i).afk_ticks + (count_ticks es + 1) ≤ 10 * 60 * 25 := hn
      have h1 := server_tick_client_afk_session env sim pi p ax ay i s h (by omega)
      have h2 := ih (server_tick_client env s i) h1.1 hrest (by rw [h1.2.2.1]; omega)
      show client_in_game env sim pi p ax ay i
          (client_run env i (server_tick_client env s i) es) ∧
        same_session i s (client_run env i (server_tick_client env s i) es) ∧
        ((client_run env i (server_tick_client env s i) es).clients i).afk_ticks =
          (s.clients i).afk_ticks + (count_ticks es + 1) ∧
        ((client_run env i (server_tick_client env s i) es).clients i).messages =
          (s.clients i).messages
      refine ⟨h2.1, same_session_trans i _ _ _ h1.2.1 h2.2.1, ?_, h2.2.2.2.trans h1.2.2.2⟩
      rw [h2.2.2.1, h1.2.2.1]
      omega
    | input movementFlags x y =>
      have hstep := rr_serverbound_input_idle env sim pi p ax ay i s h movementFlags x y
        (hidle _ (List.mem_cons_self _ es))
      have hn1 : (s.clients i).afk_ticks + count_ticks es ≤ 10 * 60 * 25 := hn
      have h2 := ih s h hrest hn1
      show client_in_game env sim pi p ax ay i
          (client_run env i (rr_serverbound_input env s i movementFlags x y) es) ∧
        same_session i s
          (client_run env i (rr_serverbound_input env s i movementFlags x y) es) ∧
        ((client_run env i (rr_serverbound_input env s i movementFlags x y) es).clients
          i).afk_ticks = (s.clients i).afk_ticks + count_ticks es ∧
        ((client_run env i (rr_serverbound_input env s i movementFlags x y) es).clients
          i).messages = (s.clients i).messages
      rw [hstep]
      exact h2

theorem server_tick_client_dev (env : rr_server_env) (s : rr_server) (i : Nat)
    (hdev : (s.clients i).dev = true) (hdis : (s.clients i).disconnected = false) :
    same_session i s (server_tick_client env s i) ∧
    ((server_tick_client env s i).clients i).afk_ticks = 0 := by
  have hs := server_tick_cooldowns_same_session s i
  have hc := server_tick_cooldowns_client s i
  have hd3 : (server_tick_cooldown_client (s.clients i)).disconnected = false := by
    rw [server_tick_cooldown_client_eq]
    exact hdis
  have hv3 : (server_tick_cooldown_client (s.clients i)).dev = true := by
    rw [server_tick_cooldown_client_eq]
    exact hdev
  have he : server_tick_client env s i =
      set_client (server_tick_cooldowns s i) i
        { server_tick_cooldown_client (s.clients i) with afk_ticks := 0 } := by
    unfold server_tick_client
    simp only [hc, hd3, hv3, Bool.false_eq_true, if_false, Bool.true_eq_false, false_and]
  rw [he]
  refine ⟨⟨hs.1, hs.2.1, ?_, ?_, ?_, ?_, ?_, hs.2.2.2.2.2.2.2⟩, ?_⟩
  all_goals simp only [set_client, if_true]
  all_goals rw [server_tick_cooldown_client_eq]

theorem rr_serverbound_input_reset (env : rr_server_env) (sim : rr_simulation)
    (pi : Nat → rr_component_player_info) (p : Nat) (ax ay : ℚ) (i : Nat) (s : rr_server)
    (h : client_in_game env sim pi p ax ay i s) (movementFlags : Nat) (x y : ℚ)
    (hchange : input_accel x y ≠ (ax, ay) ∨ (movementFlags >>> 4) &&& 3 ≠ (pi p).input) :
    ((rr_serverbound_input env s i movementFlags x y).clients i).afk_ticks = 0 := by
  obtain ⟨hsim, hpi, _, _, hp, hax, hay, hfl, hdead⟩ := h
  have hfl2 : (s.player_info p).flower_id ≠ RR_NULL_ENTITY := by
    rw [hpi]
    exact hfl
  have hdead2 : env.is_dead_flower s.simulation (s.player_info p).flower_id = false := by
    rw [hpi, hsim]
    exact hdead
  have hg : ¬ ((s.player_info p).flower_id = RR_NULL_ENTITY ∨
      env.is_dead_flower s.simulation (s.player_info p).flower_id = true) := by
    rw [hdead2]
    simp [hfl2]
  unfold rr_serverbound_input
  rw [hp]
  show ((rr_serverbound_input_apply env s i p movementFlags x y).clients i).afk_ticks = 0
  unfold rr_serverbound_input_apply
  dsimp only
  rw [if_neg hg]
  simp only [set_client, if_true]
  by_cases hb : (s.player_info p).input ≠ (movementFlags >>> 4) &&& 3
  · rw [if_pos hb]
  · rw [if_neg hb]
    have hacc : input_accel x y ≠ (ax, ay) := by
      rcases hchange with h1 | h1
      · exact h1
      · exact absurd (by rw [← hpi]; exact (not_not.mp hb).symm) h1
    unfold input_accel at hacc
    by_cases hc : (x ≠ 0 ∨ y ≠ 0) ∧ |x| < 10000 ∧ |y| < 10000
    · rw [if_pos hc] at hacc
      have hne : (s.clients i).player_accel_x ≠ x ∨ (s.clients i).player_accel_y ≠ y := by
        by_contra hcon
        push_neg at hcon
        exact hacc (by rw [← hax, ← hay, hcon.1, hcon.2])
      rw [if_pos hc, if_pos hne]
    · rw [if_neg hc] at hacc
      have hne : (s.clients i).player_accel_x ≠ 0 ∨ (s.clients i).player_accel_y ≠ 0 := by
        by_contra hcon
        push_neg at hcon
        exact hacc (by rw [← hax, ← hay, hcon.1, hcon.2])
      rw [if_neg hc, if_pos hne]

theorem server_tick_client_dev_flags (env : rr_server_env) (s : rr_server) (i : Nat)
    (hdev : (s.clients i).dev = true) (hdis : (s.clients i).disconnected = false) :
    ((server_tick_client env s i).clients i).dev = true ∧
    ((server_tick_client env s i).clients i).disconnected = false := by
  have hc := server_tick_cooldowns_client s i
  have hd3 : (server_tick_cooldown_client (s.clients i)).disconnected = false := by
    rw [server_tick_cooldown_client_eq]
    exact hdis
  have hv3 : (server_tick_cooldown_client (s.clients i)).dev = true := by
    rw [server_tick_cooldown_client_eq]
    exact hdev
  have he : server_tick_client env s i =
      set_client (server_tick_cooldowns s i) i
        { server_tick_cooldown_client (s.clients i) with afk_ticks := 0 } := by
    unfold server_tick_client
    simp only [hc, hd3, hv3, Bool.false_eq_true, if_false, Bool.true_eq_false, false_and]
  rw [he]
  simp only [set_client, if_true]
  exact ⟨hv3, hd3⟩

theorem dev_run (env : rr_server_env) (i : Nat) :
    ∀ (n : Nat) (s : rr_server), (s.clients i).dev = true →
      (s.clients i).disconnected = false →
      same_session i s (client_run env i s (List.replicate n client_event.tick)) := by
  intro n
  induction n with
  | zero =>
    intro s _ _
    exact same_session_refl i s
  | succ k ih =>
    intro s hdev hdis
    have h1 := server_tick_client_dev env s i hdev hdis
    have h2 := server_tick_client_dev_flags env s i hdev hdis
    exact same_session_trans i _ _ _ h1.1 (ih (server_tick_client env s i) h2.1 h2.2)

theorem count_ticks_replicate (n : Nat) :
    count_ticks (List.replicate n client_event.tick) = n := by
  induction n with
  | zero => rfl
  | succ k ih =>
    show count_ticks (List.replicate k client_event.tick) + 1 = k + 1
    rw [ih]
theorem client_run_append (env : rr_server_env) (i : Nat) (s : rr_server)
    (es fs : List client_event) :
    client_run env i s (es ++ fs) = client_run env i (client_run env i s es) fs := by
  unfold client_run
  exact List.foldl_append _ _ _ _

theorem server_S4_in_game :
    client_in_game sample_env simulation_one server_S4.player_info 1 0 0 0 server_S4 :=
  ⟨rfl, rfl, rfl, rfl, rfl, rfl, rfl, by decide, rfl⟩

/-- C11. AFK kick. A connected, non-dev client with a living flower starts with
`afk_ticks = 0` and sends only input packets that change neither its acceleration nor its
input bits. After `10 * 60 * 25 = 15000` ticks the counter stands at 15000 and the session
is untouched: the test is `++afk_ticks > 15000`. The next tick, the 15001st, requests the
deletion of the player_info entity, sets `player_info` to `NULL`, calls
`rr_client_leave_squad`, and writes `squad_fail` with fail type 3 to the client if it is
still connected. An input packet that changes the acceleration or the input bits resets
`afk_ticks` to 0, and ticks never end the session of a dev client. -/
theorem afk_kick (env : rr_server_env) (sim : rr_simulation)
    (pi : Nat → rr_component_player_info) (p : Nat) (ax ay : ℚ) (i : Nat) (s : rr_server)
    (h : client_in_game env sim pi p ax ay i s) (h0 : (s.clients i).afk_ticks = 0)
    (es : List client_event) (hidle : ∀ e ∈ es, input_idle ax ay (pi p).input e)
    (hn : count_ticks es = 10 * 60 * 25) :
    (same_session i s (client_run env i s es) ∧
      ((client_run env i s es).clients i).afk_ticks = 10 * 60 * 25) ∧
    (∃ s6 : rr_server,
      s6.simulation = rr_simulation_request_entity_deletion sim (pi p).parent_id ∧
      s6.simulation.pending_deletions (pi p).parent_id = true ∧
      (s6.clients i).player_info = none ∧
      client_run env i s (es ++ [client_event.tick]) =
        server_tick_afk_notify env s6 i) ∧
    (∀ t : rr_server, ((env.rr_client_leave_squad t i).clients i).disconnected = false →
      (server_tick_afk_notify env t i).clients i =
        rr_server_client_write_message env.rr_get_hash
          ((env.rr_client_leave_squad t i).clients i)
          [pb_field.uint8 rr_clientbound_squad_fail, pb_field.uint8 3]) ∧
    (∀ (movementFlags : Nat) (x y : ℚ),
      input_accel x y ≠ (ax, ay) ∨ (movementFlags >>> 4) &&& 3 ≠ (pi p).input →
      ((rr_serverbound_input env (client_run env i s es) i movementFlags x y).clients
        i).afk_ticks = 0) ∧
    (∀ (t : rr_server) (n : Nat), (t.clients i).dev = true →
      (t.clients i).disconnected = false →
      same_session i t (client_run env i t (List.replicate n client_event.tick))) := by
  have hrun := afk_run_idle env sim pi p ax ay i es s h hidle (by rw [h0, hn])
  have hticks : ((client_run env i s es).clients i).afk_ticks = 10 * 60 * 25 := by
    rw [hrun.2.2.1, h0, hn]
  refine ⟨⟨hrun.2.1, hticks⟩, ?_, ?_, ?_, ?_⟩
  · have hkick := server_tick_client_afk_kick env sim pi p ax ay i (client_run env i s es)
      hrun.1 (by rw [hticks]; omega)
    have hcf := server_tick_cooldowns_frame (client_run env i s es) i
    obtain ⟨hsim, hpi, _, _, hp, _, _, _, _⟩ := hrun.1
    have hp4 : ((set_client (server_tick_cooldowns (client_run env i s es) i) i
        { server_tick_cooldown_client ((client_run env i s es).clients i) with
          afk_ticks := ((client_run env i s es).clients i).afk_ticks + 1 }).clients
        i).player_info = some p := by
      simp only [set_client, if_true]
      rw [server_tick_cooldown_client_eq]
      exact hp
    have hreq := server_tick_afk_request_spec _ i p hp4
    refine ⟨_, ?_, ?_, hreq.2.2.1, ?_⟩
    · rw [hreq.1]
      show rr_simulation_request_entity_deletion
          (server_tick_cooldowns (client_run env i s es) i).simulation
          (((server_tick_cooldowns (client_run env i s es) i).player_info p).parent_id) = _
      rw [hcf.2.1, hcf.2.2, hsim, hpi]
    · have h2 := hreq.2.1
      have hpar : ((set_client (server_tick_cooldowns (client_run env i s es) i) i
          { server_tick_cooldown_client ((client_run env i s es).clients i) with
            afk_ticks := ((client_run env i s es).clients i).afk_ticks + 1 }).player_info
          p).parent_id = (pi p).parent_id := by
        show (((server_tick_cooldowns (client_run env i s es) i).player_info p).parent_id) = _
        rw [hcf.2.2, hpi]
      rw [hpar] at h2
      exact h2
    · rw [client_run_append]
      exact hkick
  · intro t ht
    unfold server_tick_afk_notify
    simp only [ht, if_true, set_client]
  · intro movementFlags x y hchange
    exact rr_serverbound_input_reset env sim pi p ax ay i _ hrun.1 movementFlags x y hchange
  · intro t n hdev hdis
    exact dev_run env i n t hdev hdis

/-- C11 on scenario S4: client 0 idles; 15000 ticks keep its session, and the tick after
them requests the deletion of its player_info entity 1 and hands the server to the
squad-leave and `squad_fail` step. -/
theorem afk_kick_witness :
    client_in_game sample_env simulation_one server_S4.player_info 1 0 0 0 server_S4 ∧
    (server_S4.clients 0).afk_ticks = 0 ∧
    count_ticks (List.replicate 15000 client_event.tick) = 10 * 60 * 25 ∧
    same_session 0 server_S4
      (client_run sample_env 0 server_S4 (List.replicate 15000 client_event.tick)) ∧
    ∃ s6 : rr_server, s6.simulation.pending_deletions 1 = true ∧
      (s6.clients 0).player_info = none ∧
      client_run sample_env 0 server_S4
        (List.replicate 15000 client_event.tick ++ [client_event.tick]) =
        server_tick_afk_notify sample_env s6 0 := by
  have hidle : ∀ e ∈ List.replicate 15000 client_event.tick,
      input_idle 0 0 (server_S4.player_info 1).input e := by
    intro e he
    rw [List.eq_of_mem_replicate he]
    exact True.intro
  have h := afk_kick sample_env simulation_one server_S4.player_info 1 0 0 0 server_S4
    server_S4_in_game rfl (List.replicate 15000 client_event.tick) hidle
    (count_ticks_replicate 15000)
  obtain ⟨s6, _, hdel, hnone, hrun⟩ := h.2.1
  exact ⟨server_S4_in_game, rfl, count_ticks_replicate 15000, h.1.1, s6, hdel, hnone, hrun⟩

/-- C11, the boundary: after exactly 15000 idle ticks of scenario S4 the client still has
its player_info, no deletion is pending for it and nothing has been written to it. -/
theorem afk_no_kick_counterexample :
    ((client_run sample_env 0 server_S4
      (List.replicate (10 * 60 * 25) client_event.tick)).clients 0).player_info = some 1 ∧
    (client_run sample_env 0 server_S4
      (List.replicate (10 * 60 * 25) client_event.tick)).simulation.pending_deletions 1 =
      false ∧
    ((client_run sample_env 0 server_S4
      (List.replicate (10 * 60 * 25) client_event.tick)).clients 0).afk_ticks = 15000 ∧
    ((client_run sample_env 0 server_S4
      (List.replicate (10 * 60 * 25) client_event.tick)).clients 0).messages = [] := by
  have hidle : ∀ e ∈ List.replicate (10 * 60 * 25) client_event.tick,
      input_idle 0 0 (server_S4.player_info 1).input e := by
    intro e he
    rw [List.eq_of_mem_replicate he]
    exact True.intro
  have h := afk_run_idle sample_env simulation_one server_S4.player_info 1 0 0 0
    (List.replicate (10 * 60 * 25) client_event.tick) server_S4 server_S4_in_game hidle
    (by rw [count_ticks_replicate]; exact Nat.le_refl _)
  obtain ⟨hsim, _, _, _, hp, _, _, _, _⟩ := h.1
  refine ⟨hp, ?_, ?_, ?_⟩
  · rw [hsim]
    rfl
  · rw [h.2.2.1, count_ticks_replicate]
    rfl
  · rw [h.2.2.2]
    rfl

/-! ## Reconnect adoption -/

theorem find_client_first (p : Nat → Bool) :
    ∀ (n j0 j : Nat), j0 ≤ j → j < j0 + n → p j = true →
      (∀ k, j0 ≤ k → k < j → p k = false) → find_client p n j0 = some j := by
  intro n
  induction n with
  | zero =>
    intro j0 j h1 h2 _ _
    omega
  | succ m ih =>
    intro j0 j h1 h2 hp hfirst
    unfold find_client
    by_cases hj : j0 = j
    · rw [hj, hp]
      rfl
    · rw [hfirst j0 (Nat.le_refl j0) (by omega)]
      exact ih (j0 + 1) j (by omega) (by omega) hp
        (fun k hk1 hk2 => hfirst k (by omega) hk2)

theorem adopt_transfer_client (env : rr_server_env) (s : rr_server) (i j k : Nat)
    (hij : i ≠ j) :
    ((adopt_transfer env s i j).clients k).player_info =
      (if k = j then none else if k = i then (s.clients j).player_info
        else (s.clients k).player_info) ∧
    ((adopt_transfer env s i j).clients k).in_squad =
      (if k = j then false else if k = i then (s.clients j).in_squad
        else (s.clients k).in_squad) ∧
    ((adopt_transfer env s i j).clients k).squad =
      (if k = i then (s.clients j).squad else (s.clients k).squad) ∧
    ((adopt_transfer env s i j).clients k).squad_pos =
      (if k = i then (s.clients j).squad_pos else (s.clients k).squad_pos) := by
  have hji : ¬ j = i := fun h => hij h.symm
  unfold adopt_transfer adopt_squad_slot adopt_player_info adopt_squad adopt_blocked
    adopt_fields set_client
  by_cases hkj : k = j
  · subst hkj
    simp only [if_true, if_neg hji]
    refine ⟨trivial, trivial, ?_, ?_⟩ <;> split_ifs <;> rfl
  · by_cases hki : k = i
    · subst hki
      simp only [if_true, if_neg hkj, if_neg hji]
      refine ⟨?_, ?_, ?_, ?_⟩ <;> split_ifs <;> rfl
    · simp only [if_neg hkj, if_neg hki]
      refine ⟨?_, ?_, ?_, ?_⟩ <;> split_ifs <;> rfl

theorem adopt_squad_client (env : rr_server_env) (s : rr_server) (i j : Nat) (hij : i ≠ j) :
    ((adopt_squad (adopt_blocked env (adopt_fields s i j) i j) i j).clients i).player_info =
      (s.clients j).player_info ∧
    ((adopt_squad (adopt_blocked env (adopt_fields s i j) i j) i j).clients i).in_squad =
      (s.clients j).in_squad ∧
    ((adopt_squad (adopt_blocked env (adopt_fields s i j) i j) i j).clients i).squad =
      (s.clients j).squad ∧
    ((adopt_squad (adopt_blocked env (adopt_fields s i j) i j) i j).clients i).squad_pos =
      (s.clients j).squad_pos := by
  have hji : ¬ j = i := fun h => hij h.symm
  unfold adopt_squad adopt_blocked adopt_fields set_client
  simp only [if_true, if_neg hji]
  refine ⟨?_, ?_, ?_, ?_⟩ <;> split_ifs <;> rfl

theorem adopt_transfer_frame (env : rr_server_env) (s : rr_server) (i j : Nat) :
    (adopt_transfer env s i j).simulation = s.simulation ∧
    (adopt_transfer env s i j).clients_in_use = s.clients_in_use :=
  ⟨rfl, rfl⟩

theorem adopt_transfer_player_info (env : rr_server_env) (s : rr_server) (i j p : Nat)
    (hij : i ≠ j) (hp : (s.clients j).player_info = some p) :
    ((adopt_transfer env s i j).player_info p).client = i ∧
    ((adopt_transfer env s i j).player_info p).parent_id = (s.player_info p).parent_id := by
  have hu := (adopt_squad_client env s i j hij).1
  rw [hp] at hu
  show ((adopt_player_info (adopt_squad (adopt_blocked env (adopt_fields s i j) i j) i j)
      i).player_info p).client = i ∧
    ((adopt_player_info (adopt_squad (adopt_blocked env (adopt_fields s i j) i j) i j)
      i).player_info p).parent_id = (s.player_info p).parent_id
  unfold adopt_player_info
  simp only [hu, if_true]
  exact ⟨trivial, rfl⟩

theorem adopt_transfer_slot (env : rr_server_env) (s : rr_server) (i j : Nat)
    (hij : i ≠ j) (hsq : (s.clients j).in_squad = true) :
    (((adopt_transfer env s i j).squads (s.clients j).squad).members
      (s.clients j).squad_pos).client = i := by
  have hu := adopt_squad_client env s i j hij
  show (((adopt_squad_slot (adopt_player_info
      (adopt_squad (adopt_blocked env (adopt_fields s i j) i j) i j) i) i).squads
      (s.clients j).squad).members (s.clients j).squad_pos).client = i
  unfold adopt_squad_slot
  have h1 : ((adopt_player_info
      (adopt_squad (adopt_blocked env (adopt_fields s i j) i j) i j) i).clients i) =
      ((adopt_squad (adopt_blocked env (adopt_fields s i j) i j) i j).clients i) := rfl
  simp only [h1, hu.2.1, hu.2.2.1, hu.2.2.2, hsq, if_true]
  rw [set_member_members, if_pos ⟨rfl, rfl⟩]

theorem adopt_transfer_disconnected (env : rr_server_env) (s : rr_server) (i j : Nat)
    (hij : i ≠ j) :
    ((adopt_transfer env s i j).clients j).disconnected = (s.clients j).disconnected := by
  have hji : ¬ j = i := fun h => hij h.symm
  unfold adopt_transfer adopt_squad_slot adopt_player_info adopt_squad adopt_blocked
    adopt_fields set_client
  simp only [if_true, if_neg hji]
  split_ifs <;> rfl

theorem adopt_candidate_of (s : rr_server) (i j : Nat) (hij : i ≠ j)
    (huse : s.clients_in_use j = true) (hver : (s.clients j).verified = true)
    (hkick : (s.clients j).pending_kick = false)
    (hdev : (s.clients i).dev = (s.clients j).dev)
    (hdd : (s.clients i).dev = true → (s.clients j).disconnected = true)
    (huuid : (s.clients i).uuid = (s.clients j).uuid) :
    adopt_candidate s i j = true := by
  unfold adopt_candidate
  cases hd : (s.clients i).dev
  · simp [hij, huse, hver, hkick, huuid, ← hdev, hd]
  · simp [hij, huse, hver, hkick, huuid, ← hdev, hd, hdd hd]

/-- C12. Reconnect adoption. Client `i` sends its first packet while another client `j`
is in use, verified, not pending kick, of the same dev status (disconnected if dev) and
under the same uuid, `j` being the first such client. Then the second loop transfers and
releases `j`: client `i` has the player_info `p`, the squad, the position and the squad
flag of `j`; the player_info and the squad slot point to `i`; `j` has no player_info and
no squad before it is released; and the simulation, with its pending deletions, is as it
was. If `p` was referenced by `j` alone, it is referenced by `i` alone afterwards. A
connected `j` is marked pending kick; a disconnected `j` is taken out of use and freed,
and `rr_server_client_free` requests no deletion for a client without player_info. -/
theorem reconnect_adoption (env : rr_server_env) (s : rr_server) (i j p : Nat)
    (hij : i ≠ j) (huse : s.clients_in_use j = true)
    (hver : (s.clients j).verified = true) (hkick : (s.clients j).pending_kick = false)
    (hdev : (s.clients i).dev = (s.clients j).dev)
    (hdd : (s.clients i).dev = true → (s.clients j).disconnected = true)
    (huuid : (s.clients i).uuid = (s.clients j).uuid)
    (hj : j < env.RR_MAX_CLIENT_COUNT)
    (hfirst : ∀ k, k < j → adopt_candidate s i k = false)
    (hp : (s.clients j).player_info = some p)
    (huniq : ∀ k, (s.clients k).player_info = some p → k = j) :
    first_packet_adopt env s i = release_client env (adopt_transfer env s i j) j ∧
    ((adopt_transfer env s i j).clients i).player_info = some p ∧
    ((adopt_transfer env s i j).clients i).squad = (s.clients j).squad ∧
    ((adopt_transfer env s i j).clients i).squad_pos = (s.clients j).squad_pos ∧
    ((adopt_transfer env s i j).clients i).in_squad = (s.clients j).in_squad ∧
    ((adopt_transfer env s i j).player_info p).client = i ∧
    ((s.clients j).in_squad = true →
      (((adopt_transfer env s i j).squads (s.clients j).squad).members
        (s.clients j).squad_pos).client = i) ∧
    ((adopt_transfer env s i j).clients j).player_info = none ∧
    ((adopt_transfer env s i j).clients j).in_squad = false ∧
    (adopt_transfer env s i j).simulation = s.simulation ∧
    (∀ k, ((adopt_transfer env s i j).clients k).player_info = some p ↔ k = i) ∧
    ((s.clients j).disconnected = false →
      (release_client env (adopt_transfer env s i j) j).simulation = s.simulation ∧
      ((release_client env (adopt_transfer env s i j) j).clients j).pending_kick = true ∧
      ∀ k, ((release_client env (adopt_transfer env s i j) j).clients k).player_info =
        some p ↔ k = i) ∧
    ((s.clients j).disconnected = true →
      ∃ t : rr_server, t.simulation = s.simulation ∧ t.clients_in_use j = false ∧
        (t.clients j).player_info = none ∧
        (∀ k, (t.clients k).player_info = some p ↔ k = i) ∧
        release_client env (adopt_transfer env s i j) j = rr_server_client_free env t j ∧
        (rr_server_client_free env t j).simulation =
          (env.rr_client_leave_squad t j).simulation) := by
  have hji : ¬ j = i := fun h => hij h.symm
  have hcand := adopt_candidate_of s i j hij huse hver hkick hdev hdd huuid
  have hcl := adopt_transfer_client env s i j
  have hdisc := adopt_transfer_disconnected env s i j hij
  have hone : ∀ k, ((adopt_transfer env s i j).clients k).player_info = some p ↔ k = i := by
    intro k
    rw [(hcl k hij).1]
    by_cases hkj : k = j
    · rw [if_pos hkj, hkj]
      exact ⟨fun h => Option.noConfusion h, fun h => absurd h hji⟩
    · rw [if_neg hkj]
      by_cases hki : k = i
      · rw [if_pos hki]
        exact ⟨fun _ => hki, fun _ => hp⟩
      · rw [if_neg hki]
        exact ⟨fun h => absurd (huniq k h) hkj, fun h => absurd h hki⟩
  have hi := hcl i hij
  have hjj := hcl j hij
  rw [if_neg hij, if_pos rfl] at hi
  rw [if_pos rfl] at hjj
  refine ⟨?_, ?_, ?_, ?_, ?_, (adopt_transfer_player_info env s i j p hij hp).1,
    adopt_transfer_slot env s i j hij, hjj.1, ?_, rfl, hone, ?_, ?_⟩
  · unfold first_packet_adopt
    rw [find_client_first _ env.RR_MAX_CLIENT_COUNT 0 j (Nat.zero_le j) (by omega) hcand
      (fun k _ hk => hfirst k hk)]
  · rw [hi.1, hp]
  · rw [hi.2.2.1, if_pos rfl]
  · rw [hi.2.2.2, if_pos rfl]
  · rw [hi.2.1, if_neg hij, if_pos rfl]
  · rw [hjj.2.1, if_pos rfl]
  · intro hd
    have hd2 : ((adopt_transfer env s i j).clients j).disconnected = false := by
      rw [hdisc, hd]
    have he : release_client env (adopt_transfer env s i j) j =
        set_client (adopt_transfer env s i j) j
          { (adopt_transfer env s i j).clients j with pending_kick := true } := by
      unfold release_client
      simp only [hd2, Bool.false_eq_true, if_false]
    rw [he]
    refine ⟨rfl, ?_, ?_⟩
    · simp [set_client]
    · intro k
      rw [← hone k]
      simp only [set_client]
      split_ifs with hk
      · rw [hk]
      · rfl
  · intro hd
    have hd2 : ((adopt_transfer env s i j).clients j).disconnected = true := by
      rw [hdisc, hd]
    refine ⟨{ set_client (adopt_transfer env s i j) j
        { (adopt_transfer env s i j).clients j with in_use := false } with
      clients_in_use := fun k =>
        if k = j then false else (adopt_transfer env s i j).clients_in_use k },
      rfl, if_pos rfl, ?_, ?_, ?_, ?_⟩
    · simp only [set_client, if_true]
      exact hjj.1
    · intro k
      rw [← hone k]
      simp only [set_client]
      split_ifs with hk
      · rw [hk]
      · rfl
    · unfold release_client
      simp only [hd2, if_true]
    · unfold rr_server_client_free
      simp only [set_client, if_true, hjj.1]

theorem first_packet_account_frame (SANDBOX : Bool) (c : rr_server_client) (uuid : String)
    (rest : List Nat) :
    (first_packet_account SANDBOX c uuid rest).uuid = uuid ∧
    (first_packet_account SANDBOX c uuid rest).player_info = c.player_info ∧
    (first_packet_account SANDBOX c uuid rest).dev_cheats = c.dev_cheats := by
  unfold first_packet_account
  dsimp only
  split_ifs <;> exact ⟨rfl, rfl, rfl⟩

theorem first_packet_account_dev (c : rr_server_client) (uuid : String) (rest : List Nat)
    (h0 : c.dev = false) :
    (first_packet_account false c uuid rest).dev = true ↔ uuid = dev_uuid := by
  unfold first_packet_account
  by_cases hu : uuid = dev_uuid
  · simp [hu]
  · simp [hu, h0]

/-- C12 on scenario S4: client 0 is disconnected and client 1 arrives under the same uuid;
client 1 adopts the player_info 1 and the squad slot, client 0 keeps neither, and the
simulation is untouched. -/
theorem reconnect_adoption_witness :
    (1 : Nat) ≠ 0 ∧ server_reconnect.clients_in_use 0 = true ∧
    (server_reconnect.clients 0).player_info = some 1 ∧
    ((adopt_transfer sample_env server_reconnect 1 0).clients 1).player_info = some 1 ∧
    ((adopt_transfer sample_env server_reconnect 1 0).player_info 1).client = 1 ∧
    ((adopt_transfer sample_env server_reconnect 1 0).clients 0).player_info = none ∧
    (adopt_transfer sample_env server_reconnect 1 0).simulation =
      server_reconnect.simulation ∧
    first_packet_adopt sample_env server_reconnect 1 =
      release_client sample_env (adopt_transfer sample_env server_reconnect 1 0) 0 := by
  have hdev1 : (server_reconnect.clients 1).dev = false := by
    cases hd : (server_reconnect.clients 1).dev
    · rfl
    · exact absurd ((first_packet_account_dev { client_unverified with in_use := true }
        "7f3c" [1] rfl).mp hd) (by decide)
  have huniq : ∀ k, (server_reconnect.clients k).player_info = some 1 → k = 0 := by
    intro k hk
    by_contra h0
    have hnone : (server_reconnect.clients k).player_info = none := by
      show (if k = 0 then { server_S4.clients 0 with disconnected := true }
        else if k = 1 then
          first_packet_account false { client_unverified with in_use := true } "7f3c" [1]
        else client_unverified).player_info = none
      rw [if_neg h0]
      split_ifs
      · exact (first_packet_account_frame false _ "7f3c" [1]).2.1
      · rfl
    rw [hnone] at hk
    exact Option.noConfusion hk
  have h := reconnect_adoption sample_env server_reconnect 1 0 1 (by decide) rfl rfl rfl
    (hdev1.trans rfl) (fun hd => absurd (hdev1.symm.trans hd) (by decide))
    ((first_packet_account_frame false _ "7f3c" [1]).1.trans rfl) (by decide)
    (fun k hk => absurd hk (Nat.not_lt_zero k)) rfl huniq
  exact ⟨by decide, rfl, rfl, h.2.1, h.2.2.2.2.2.1, h.2.2.2.2.2.2.2.1, h.2.2.2.2.2.2.2.2.2.1,
    h.1⟩

/-! ## Dev allowlist -/

/-- C18. Dev allowlist. Without `SANDBOX`, the account part of a first packet that has
passed the verification test leaves a client that was not dev marked dev exactly when the
uuid of the packet is the allowlisted one, whatever follows the uuid in the packet (the
dev flag of the client is there and is never read). For a client with `dev = 0`, every
`dev_cheat` packet leaves the server as it was, with the cheats of the client and the
pending deletions, and allocates no mob. -/
theorem dev_allowlist (w : dev_cheat_world) (s : rr_server) (i : Nat)
    (c : rr_server_client) (uuid : String) (rest rest2 : List Nat) (h0 : c.dev = false) :
    ((first_packet_account false c uuid rest).dev = true ↔ uuid = dev_uuid) ∧
    first_packet_account false c uuid rest = first_packet_account false c uuid rest2 ∧
    ((s.clients i).dev = false → ∀ cheat : rr_dev_cheat,
      rr_serverbound_dev_cheat w s i cheat = { server := s, summoned := [] }) := by
  refine ⟨first_packet_account_dev c uuid rest h0, rfl, ?_⟩
  intro hdev cheat
  cases cheat <;> simp [rr_serverbound_dev_cheat, hdev]

/-- C18 on concrete clients: the allowlisted uuid marks the client dev and another uuid
does not, whatever dev flag follows; the summon of a non-dev client allocates nothing,
while the same packet from the dev client of scenario S1 allocates its two mobs. -/
theorem dev_allowlist_witness :
    client_unverified.dev = false ∧ (server_S4.clients 0).dev = false ∧
    (first_packet_account false client_unverified dev_uuid [0]).dev = true ∧
    (first_packet_account false client_unverified "7f3c" [1]).dev = false ∧
    (rr_serverbound_dev_cheat sample_world server_S4 0
      (rr_dev_cheat.summon_mob 1 0 2 0)).summoned = [] ∧
    (rr_serverbound_dev_cheat sample_world server_S1 0
      (rr_dev_cheat.summon_mob 1 0 2 0)).summoned = [(1, 0, 0), (1, 0, 0)] := by
  have h1 := dev_allowlist sample_world server_S4 0 client_unverified dev_uuid [0] [1] rfl
  have h2 := dev_allowlist sample_world server_S4 0 client_unverified "7f3c" [1] [0] rfl
  refine ⟨rfl, rfl, h1.1.mpr rfl, ?_, ?_, rfl⟩
  · exact Bool.eq_false_iff.mpr (fun hd => absurd (h2.1.mp hd) (by decide))
  · rw [h1.2.2 rfl]

/-! ## Squad kick -/

theorem squad_kick_vote_iff (env : rr_server_env) (SANDBOX : Bool) (s : rr_server)
    (i index pos : Nat) (hdev : (s.clients i).dev = false) :
    (squad_kick_vote env SANDBOX s i index pos).2 = true ↔
      index < env.RR_SQUAD_COUNT ∧ pos < RR_SQUAD_MEMBER_COUNT ∧
      ((s.squads index).members pos).in_use = true ∧
      ¬ (SANDBOX = true ∧ ((s.squads index).members pos).is_dev = true) ∧
      (s.clients i).in_squad = true ∧ (s.clients i).squad = index ∧
      (s.clients i).squad_pos ≠ pos ∧
      (((s.squads index).«private» = true ∧ (s.clients i).squad_pos = (s.squads index).owner) ∨
        ((s.squads index).«private» = false ∧ (s.clients i).ticks_to_next_kick_vote = 0 ∧
          RR_SQUAD_MEMBER_COUNT - 1 ≤
            (((s.squads index).members pos).kick_vote_count + 1) % 256)) := by
  unfold squad_kick_vote
  by_cases h1 : index ≥ env.RR_SQUAD_COUNT
  · rw [if_pos h1]
    exact ⟨fun h => Bool.noConfusion h, fun h => absurd h.1 (by omega)⟩
  rw [if_neg h1]
  by_cases h2 : pos ≥ RR_SQUAD_MEMBER_COUNT
  · rw [if_pos h2]
    exact ⟨fun h => Bool.noConfusion h, fun h => absurd h.2.1 (by omega)⟩
  rw [if_neg h2]
  by_cases h3 : ((s.squads index).members pos).in_use = false
  · rw [if_pos h3]
    exact ⟨fun h => Bool.noConfusion h, fun h => by rw [h3] at h; exact Bool.noConfusion h.2.2.1⟩
  rw [if_neg h3]
  by_cases h4 : SANDBOX = true ∧ ((s.squads index).members pos).is_dev = true
  · rw [if_pos h4]
    exact ⟨fun h => Bool.noConfusion h, fun h => absurd h4 h.2.2.2.1⟩
  rw [if_neg h4, if_neg (by rw [hdev]; exact Bool.noConfusion)]
  by_cases h5 : (s.clients i).in_squad = false
  · rw [if_pos h5]
    exact ⟨fun h => Bool.noConfusion h,
      fun h => by rw [h5] at h; exact Bool.noConfusion h.2.2.2.2.1⟩
  rw [if_neg h5]
  by_cases h6 : (s.clients i).squad ≠ index
  · rw [if_pos h6]
    exact ⟨fun h => Bool.noConfusion h, fun h => absurd h.2.2.2.2.2.1 h6⟩
  rw [if_neg h6]
  by_cases h7 : (s.clients i).squad_pos = pos
  · rw [if_pos h7]
    exact ⟨fun h => Bool.noConfusion h, fun h => absurd h7 h.2.2.2.2.2.2.1⟩
  rw [if_neg h7]
  have hbase : index < env.RR_SQUAD_COUNT ∧ pos < RR_SQUAD_MEMBER_COUNT ∧
      ((s.squads index).members pos).in_use = true ∧
      ¬ (SANDBOX = true ∧ ((s.squads index).members pos).is_dev = true) ∧
      (s.clients i).in_squad = true ∧ (s.clients i).squad = index ∧
      (s.clients i).squad_pos ≠ pos :=
    ⟨by omega, by omega, by simpa using h3, h4, by simpa using h5, not_not.mp h6, h7⟩
  by_cases h8 : (s.squads index).«private» = true
  · rw [if_pos h8]
    by_cases h9 : (s.clients i).squad_pos ≠ (s.squads index).owner
    · rw [if_pos h9]
      refine ⟨fun h => Bool.noConfusion h, fun h => ?_⟩
      rcases h.2.2.2.2.2.2.2 with hh | hh
      · exact absurd hh.2 h9
      · rw [h8] at hh
        exact Bool.noConfusion hh.1
    · rw [if_neg h9]
      exact ⟨fun _ => ⟨hbase.1, hbase.2.1, hbase.2.2.1, hbase.2.2.2.1, hbase.2.2.2.2.1,
        hbase.2.2.2.2.2.1, hbase.2.2.2.2.2.2, Or.inl ⟨h8, not_not.mp h9⟩⟩, fun _ => rfl⟩
  · rw [if_neg h8]
    have h8f : (s.squads index).«private» = false := by simpa using h8
    by_cases h10 : (s.clients i).ticks_to_next_kick_vote > 0
    · rw [if_pos h10]
      refine ⟨fun h => Bool.noConfusion h, fun h => ?_⟩
      rcases h.2.2.2.2.2.2.2 with hh | hh
      · exact absurd hh.1 h8
      · omega
    · rw [if_neg h10]
      have hcount : (((set_member
          (set_client s i { s.clients i with ticks_to_next_kick_vote := 60 * 25 })
          ((set_client s i { s.clients i with ticks_to_next_kick_vote := 60 * 25 }).clients
            i).squad
          ((set_client s i { s.clients i with ticks_to_next_kick_vote := 60 * 25 }).clients
            i).squad_pos
          { rr_squad_get_client_slot
              (set_client s i { s.clients i with ticks_to_next_kick_vote := 60 * 25 })
              ((set_client s i { s.clients i with ticks_to_next_kick_vote := 60 * 25 }).clients
                i) with kick_vote_pos := (pos : Int) }).squads index).members
          pos).kick_vote_count = ((s.squads index).members pos).kick_vote_count := by
        rw [set_member_members]
        have hc : ((set_client s i
            { s.clients i with ticks_to_next_kick_vote := 60 * 25 }).clients i).squad_pos =
            (s.clients i).squad_pos := by
          simp [set_client]
        rw [hc, if_neg (fun h => h7 h.2.symm)]
        rfl
      dsimp only
      rw [hcount]
      by_cases h11 : (((s.squads index).members pos).kick_vote_count + 1) % 256 <
          RR_SQUAD_MEMBER_COUNT - 1
      · rw [if_pos h11]
        refine ⟨fun h => Bool.noConfusion h, fun h => ?_⟩
        rcases h.2.2.2.2.2.2.2 with hh | hh
        · exact absurd hh.1 h8
        · omega
      · rw [if_neg h11]
        exact ⟨fun _ => ⟨hbase.1, hbase.2.1, hbase.2.2.1, hbase.2.2.2.1, hbase.2.2.2.2.1,
          hbase.2.2.2.2.2.1, hbase.2.2.2.2.2.2, Or.inr ⟨h8f, by omega, by omega⟩⟩,
          fun _ => rfl⟩

theorem set_member_same_session (t : rr_server) (q0 p0 : Nat) (m : rr_squad_member)
    (h1 : m.in_use = ((t.squads q0).members p0).in_use)
    (h2 : m.client = ((t.squads q0).members p0).client) (k : Nat) :
    same_session k t (set_member t q0 p0 m) :=
  ⟨rfl, rfl, rfl, rfl, rfl, rfl, rfl, fun q r => set_member_membership t q0 p0 m h1 h2 q r⟩

theorem set_client_same_session (t : rr_server) (i : Nat) (c : rr_server_client)
    (h1 : c.in_use = (t.clients i).in_use) (h2 : c.player_info = (t.clients i).player_info)
    (h3 : c.in_squad = (t.clients i).in_squad) (h4 : c.squad = (t.clients i).squad)
    (h5 : c.squad_pos = (t.clients i).squad_pos) (k : Nat) :
    same_session k t (set_client t i c) := by
  unfold set_client
  refine ⟨rfl, rfl, ?_, ?_, ?_, ?_, ?_, fun _ _ => ⟨rfl, rfl⟩⟩
  all_goals dsimp only
  all_goals split_ifs with hk
  all_goals first | rfl | (rw [hk]; assumption)

theorem vote_keeps (s : rr_server) (i k : Nat) (c : rr_server_client)
    (h1 : c.in_use = (s.clients i).in_use) (h2 : c.player_info = (s.clients i).player_info)
    (h3 : c.in_squad = (s.clients i).in_squad) (h4 : c.squad = (s.clients i).squad)
    (h5 : c.squad_pos = (s.clients i).squad_pos) (q0 p0 : Nat) (v : Int) (q1 p1 n : Nat) :
    same_session k s
      (set_member
        (set_member (set_client s i c) q0 p0
          { ((set_client s i c).squads q0).members p0 with kick_vote_pos := v })
        q1 p1
        { ((set_member (set_client s i c) q0 p0
            { ((set_client s i c).squads q0).members p0 with kick_vote_pos := v }).squads
            q1).members p1 with kick_vote_count := n }) := by
  have a := set_client_same_session s i c h1 h2 h3 h4 h5 k
  have b := set_member_same_session (set_client s i c) q0 p0
    { ((set_client s i c).squads q0).members p0 with kick_vote_pos := v } rfl rfl k
  have d := set_member_same_session
    (set_member (set_client s i c) q0 p0
      { ((set_client s i c).squads q0).members p0 with kick_vote_pos := v })
    q1 p1
    { ((set_member (set_client s i c) q0 p0
        { ((set_client s i c).squads q0).members p0 with kick_vote_pos := v }).squads
        q1).members p1 with kick_vote_count := n } rfl rfl k
  exact same_session_trans k _ _ _ (same_session_trans k _ _ _ a b) d

theorem squad_kick_vote_keeps (env : rr_server_env) (SANDBOX : Bool) (s : rr_server)
    (i index pos k : Nat) :
    same_session k s (squad_kick_vote env SANDBOX s i index pos).1 := by
  unfold squad_kick_vote
  by_cases h1 : index ≥ env.RR_SQUAD_COUNT
  · rw [if_pos h1]
    exact same_session_refl k s
  rw [if_neg h1]
  by_cases h2 : pos ≥ RR_SQUAD_MEMBER_COUNT
  · rw [if_pos h2]
    exact same_session_refl k s
  rw [if_neg h2]
  by_cases h3 : ((s.squads index).members pos).in_use = false
  · rw [if_pos h3]
    exact same_session_refl k s
  rw [if_neg h3]
  by_cases h4 : SANDBOX = true ∧ ((s.squads index).members pos).is_dev = true
  · rw [if_pos h4]
    exact same_session_refl k s
  rw [if_neg h4]
  by_cases h4b : (s.clients i).dev = true
  · rw [if_pos h4b]
    exact same_session_refl k s
  rw [if_neg h4b]
  by_cases h5 : (s.clients i).in_squad = false
  · rw [if_pos h5]
    exact same_session_refl k s
  rw [if_neg h5]
  by_cases h6 : (s.clients i).squad ≠ index
  · rw [if_pos h6]
    exact same_session_refl k s
  rw [if_neg h6]
  by_cases h7 : (s.clients i).squad_pos = pos
  · rw [if_pos h7]
    exact same_session_refl k s
  rw [if_neg h7]
  by_cases h8 : (s.squads index).«private» = true
  · rw [if_pos h8]
    by_cases h9 : (s.clients i).squad_pos ≠ (s.squads index).owner
    · rw [if_pos h9]
      exact same_session_refl k s
    · rw [if_neg h9]
      exact same_session_refl k s
  rw [if_neg h8]
  by_cases h10 : (s.clients i).ticks_to_next_kick_vote > 0
  · rw [if_pos h10]
    exact same_session_refl k s
  rw [if_neg h10]
  rw [apply_ite Prod.fst]
  dsimp only
  rw [ite_self]
  exact vote_keeps s i k { s.clients i with ticks_to_next_kick_vote := 60 * 25 }
    rfl rfl rfl rfl rfl _ _ _ _ _ _

theorem squad_kick_vote_sandbox (env : rr_server_env) (s : rr_server) (i index pos : Nat)
    (hdev : ((s.squads index).members pos).is_dev = true) :
    squad_kick_vote env true s i index pos = (s, false) := by
  unfold squad_kick_vote
  by_cases h1 : index ≥ env.RR_SQUAD_COUNT
  · rw [if_pos h1]
  rw [if_neg h1]
  by_cases h2 : pos ≥ RR_SQUAD_MEMBER_COUNT
  · rw [if_pos h2]
  rw [if_neg h2]
  by_cases h3 : ((s.squads index).members pos).in_use = false
  · rw [if_pos h3]
  rw [if_neg h3, if_pos ⟨rfl, hdev⟩]

/-- C19. Squad kick authorisation. For a sender that is not dev, the case goes on to
remove the targeted member exactly when the target is an occupied slot of an existing
squad (not flagged `is_dev` under `SANDBOX`), the sender is in that squad at another
position, and either the squad is private and the sender is its owner, or the squad is
public, the sender's kick-vote cooldown is 0 and this vote brings the byte
`kick_vote_count` of the target to at least `RR_SQUAD_MEMBER_COUNT - 1` (from a count below
that, exactly to it). In every other case the handler ends with the state of the vote, in
which every client keeps its session and every squad its members. Under `SANDBOX` a
packet aimed at a member flagged `is_dev` leaves the server as it was, whoever sends it;
without `SANDBOX` the flag is not looked at. -/
theorem squad_kick_authorisation (env : rr_server_env) (SANDBOX : Bool) (s : rr_server)
    (i index pos : Nat) (hdev : (s.clients i).dev = false) :
    ((squad_kick_vote env SANDBOX s i index pos).2 = true ↔
      index < env.RR_SQUAD_COUNT ∧ pos < RR_SQUAD_MEMBER_COUNT ∧
      ((s.squads index).members pos).in_use = true ∧
      ¬ (SANDBOX = true ∧ ((s.squads index).members pos).is_dev = true) ∧
      (s.clients i).in_squad = true ∧ (s.clients i).squad = index ∧
      (s.clients i).squad_pos ≠ pos ∧
      (((s.squads index).«private» = true ∧ (s.clients i).squad_pos = (s.squads index).owner) ∨
        ((s.squads index).«private» = false ∧ (s.clients i).ticks_to_next_kick_vote = 0 ∧
          RR_SQUAD_MEMBER_COUNT - 1 ≤
            (((s.squads index).members pos).kick_vote_count + 1) % 256))) ∧
    (((s.squads index).members pos).kick_vote_count < RR_SQUAD_MEMBER_COUNT - 1 →
      (RR_SQUAD_MEMBER_COUNT - 1 ≤
          (((s.squads index).members pos).kick_vote_count + 1) % 256 ↔
        (((s.squads index).members pos).kick_vote_count + 1) % 256 =
          RR_SQUAD_MEMBER_COUNT - 1)) ∧
    ((squad_kick_vote env SANDBOX s i index pos).2 = true →
      rr_serverbound_squad_kick env SANDBOX s i index pos =
        squad_kick_remove env (squad_kick_vote env SANDBOX s i index pos).1 index pos) ∧
    ((squad_kick_vote env SANDBOX s i index pos).2 = false →
      rr_serverbound_squad_kick env SANDBOX s i index pos =
        (squad_kick_vote env SANDBOX s i index pos).1 ∧
      ∀ k, same_session k s (rr_serverbound_squad_kick env SANDBOX s i index pos)) ∧
    (∀ sender, ((s.squads index).members pos).is_dev = true →
      rr_serverbound_squad_kick env true s sender index pos = s) ∧
    ((squad_kick_vote env false s i index pos).2 = true ↔
      index < env.RR_SQUAD_COUNT ∧ pos < RR_SQUAD_MEMBER_COUNT ∧
      ((s.squads index).members pos).in_use = true ∧
      (s.clients i).in_squad = true ∧ (s.clients i).squad = index ∧
      (s.clients i).squad_pos ≠ pos ∧
      (((s.squads index).«private» = true ∧ (s.clients i).squad_pos = (s.squads index).owner) ∨
        ((s.squads index).«private» = false ∧ (s.clients i).ticks_to_next_kick_vote = 0 ∧
          RR_SQUAD_MEMBER_COUNT - 1 ≤
            (((s.squads index).members pos).kick_vote_count + 1) % 256))) := by
  refine ⟨squad_kick_vote_iff env SANDBOX s i index pos hdev, ?_, ?_, ?_, ?_, ?_⟩
  · intro hlt
    simp only [RR_SQUAD_MEMBER_COUNT] at hlt ⊢
    omega
  · intro h
    unfold rr_serverbound_squad_kick
    rw [if_pos h]
  · intro h
    have he : rr_serverbound_squad_kick env SANDBOX s i index pos =
        (squad_kick_vote env SANDBOX s i index pos).1 := by
      unfold rr_serverbound_squad_kick
      rw [h]
      rfl
    refine ⟨he, fun k => ?_⟩
    rw [he]
    exact squad_kick_vote_keeps env SANDBOX s i index pos k
  · intro sender hd
    unfold rr_serverbound_squad_kick
    rw [squad_kick_vote_sandbox env s sender index pos hd]
    rfl
  · rw [squad_kick_vote_iff env false s i index pos hdev]
    constructor
    · rintro ⟨a, b, c, _, d⟩
      exact ⟨a, b, c, d⟩
    · rintro ⟨a, b, c, d⟩
      exact ⟨a, b, c, fun h => Bool.noConfusion h.1, d⟩

/-- C19 on a public squad of four: the vote of client 0 against the member at position 1,
which already has two votes, meets every condition, and the handler removes the
member; under `SANDBOX` the same packet aimed at a member flagged dev changes nothing. -/
theorem squad_kick_authorisation_witness :
    (server_squad.clients 0).dev = false ∧
    (squad_kick_vote sample_env false server_squad 0 0 1).2 = true ∧
    rr_serverbound_squad_kick sample_env false server_squad 0 0 1 =
      squad_kick_remove sample_env (squad_kick_vote sample_env false server_squad 0 0 1).1
        0 1 ∧
    ((squad_kick_vote sample_env false server_squad 0 0 2).2 = false ∧
      ∀ k, same_session k server_squad
        (rr_serverbound_squad_kick sample_env false server_squad 0 0 2)) := by
  have h := squad_kick_authorisation sample_env false server_squad 0 0 1 rfl
  have h2 := squad_kick_authorisation sample_env false server_squad 0 0 2 rfl
  have hv : (squad_kick_vote sample_env false server_squad 0 0 1).2 = true :=
    h.1.mpr ⟨by decide, by decide, rfl, fun hh => Bool.noConfusion hh.1, rfl, rfl,
      by decide, Or.inr ⟨rfl, rfl, by decide⟩⟩
  have hv2 : (squad_kick_vote sample_env false server_squad 0 0 2).2 = false := by
    cases hb : (squad_kick_vote sample_env false server_squad 0 0 2).2
    · rfl
    · have hc := h2.1.mp hb
      rcases hc.2.2.2.2.2.2.2 with hp | hp
      · exact Bool.noConfusion hp.1
      · exact absurd hp.2.2 (by decide)
  exact ⟨rfl, hv, h.2.2.1 hv, hv2, (h2.2.2.2.1 hv2).2⟩

/-! ## Squad update -/

theorem squad_update_slot (env : rr_server_env) (sh : rr_shared) (s : rr_server) (i : Nat)
    (nickname : String) (data : List Nat) (hsq : (s.clients i).in_squad = true) :
    rr_squad_get_client_slot (rr_serverbound_squad_update env sh s i nickname data)
        (s.clients i) =
      squad_update_member env sh (s.clients i).inventory
        (rr_squad_get_client_slot s (s.clients i)) nickname data := by
  unfold rr_serverbound_squad_update
  rw [if_neg (by rw [hsq]; exact Bool.noConfusion)]
  show ((set_member s (s.clients i).squad (s.clients i).squad_pos _).squads
    (s.clients i).squad).members (s.clients i).squad_pos = _
  rw [set_member_members, if_pos ⟨rfl, rfl⟩]

/-- C17. Squad update on a malformed packet. The handler writes the slot as it reads the
packet and stops at the malformed field. The nickname is replaced by the one of the
packet (trimmed, or "Anonymous") before anything else is read, so also when the packet
is malformed. A loadout count above `RR_MAX_SLOT_COUNT` leaves the loadout as it was. In
the loop, an entry with a petal id or a rarity out of range ends the loop with the
loadout as it stands: the entries stored on earlier passes stay, and a bad secondary
entry leaves the primary entry of the same pass stored. -/
theorem squad_update_malformed (env : rr_server_env) (sh : rr_shared) (s : rr_server)
    (i : Nat) (nickname : String) (data : List Nat)
    (hsq : (s.clients i).in_squad = true) :
    (rr_squad_get_client_slot (rr_serverbound_squad_update env sh s i nickname data)
      (s.clients i)).nickname = squad_update_nickname env nickname ∧
    ((sh.proto_bug_read_uint8 data).1 > env.RR_MAX_SLOT_COUNT →
      (rr_squad_get_client_slot (rr_serverbound_squad_update env sh s i nickname data)
        (s.clients i)).loadout = (rr_squad_get_client_slot s (s.clients i)).loadout) ∧
    (∀ (n k : Nat) (rest : List Nat) (temp_inv : Nat → Nat → Nat)
      (loadout : Nat → rr_id_rarity_pair),
      (sh.proto_bug_read_uint8 rest).1 ≥ rr_petal_id_max ∨
        (sh.proto_bug_read_uint8 (sh.proto_bug_read_uint8 rest).2).1 ≥ rr_rarity_id_max →
      squad_update_loadout sh env.RR_MAX_SLOT_COUNT (n + 1) k rest temp_inv loadout =
        loadout) ∧
    (∀ (n k : Nat) (rest : List Nat) (temp_inv : Nat → Nat → Nat)
      (loadout : Nat → rr_id_rarity_pair),
      (sh.proto_bug_read_uint8 rest).1 < rr_petal_id_max →
      (sh.proto_bug_read_uint8 (sh.proto_bug_read_uint8 rest).2).1 < rr_rarity_id_max →
      ((sh.proto_bug_read_uint8 rest).1 = 0 ∨
        temp_inv (sh.proto_bug_read_uint8 rest).1
          (sh.proto_bug_read_uint8 (sh.proto_bug_read_uint8 rest).2).1 ≠ 0) →
      ((sh.proto_bug_read_uint8
          (sh.proto_bug_read_uint8 (sh.proto_bug_read_uint8 rest).2).2).1 ≥
        rr_petal_id_max ∨
        (sh.proto_bug_read_uint8 (sh.proto_bug_read_uint8
          (sh.proto_bug_read_uint8 (sh.proto_bug_read_uint8 rest).2).2).2).1 ≥
        rr_rarity_id_max) →
      squad_update_loadout sh env.RR_MAX_SLOT_COUNT (n + 1) k rest temp_inv loadout =
        fun j => if j = k then
          { id := (sh.proto_bug_read_uint8 rest).1
            rarity := (sh.proto_bug_read_uint8 (sh.proto_bug_read_uint8 rest).2).1 }
        else loadout j) := by
  have hslot := squad_update_slot env sh s i nickname data hsq
  refine ⟨?_, ?_, ?_, ?_⟩
  · rw [hslot]
    unfold squad_update_member
    dsimp only
    split_ifs <;> rfl
  · intro hc
    rw [hslot]
    unfold squad_update_member
    dsimp only
    rw [if_pos hc]
  · intro n k rest temp_inv loadout hbad
    unfold squad_update_loadout
    dsimp only
    by_cases h1 : (sh.proto_bug_read_uint8 rest).1 ≥ rr_petal_id_max
    · rw [if_pos h1]
    · rw [if_neg h1]
      rcases hbad with h | h
      · exact absurd h h1
      · rw [if_pos h]
  · intro n k rest temp_inv loadout h1 h2 h3 h4
    unfold squad_update_loadout
    dsimp only
    rw [if_neg (by omega), if_neg (by omega), if_neg (by
      rintro ⟨ha, hb⟩
      rcases h3 with h | h
      · exact ha h
      · exact h hb)]
    by_cases h5 : (sh.proto_bug_read_uint8
        (sh.proto_bug_read_uint8 (sh.proto_bug_read_uint8 rest).2).2).1 ≥ rr_petal_id_max
    · rw [if_pos h5]
    · rw [if_neg h5]
      rcases h4 with h | h
      · exact absurd h h5
      · rw [if_pos h]

/-- C17 on the slot of "Ann": a packet with the nickname "Bob" and a loadout count of 11,
above the maximum of 10, leaves the loadout as it was and the slot under the name
"Bob". -/
theorem squad_update_malformed_witness :
    (server_ann.clients 0).in_squad = true ∧
    (sample_shared.proto_bug_read_uint8 [11]).1 > sample_env.RR_MAX_SLOT_COUNT ∧
    (rr_squad_get_client_slot
      (rr_serverbound_squad_update sample_env sample_shared server_ann 0 "Bob" [11])
      (server_ann.clients 0)).nickname = "Bob" ∧
    (rr_squad_get_client_slot
      (rr_serverbound_squad_update sample_env sample_shared server_ann 0 "Bob" [11])
      (server_ann.clients 0)).loadout =
      (rr_squad_get_client_slot server_ann (server_ann.clients 0)).loadout := by
  have h := squad_update_malformed sample_env sample_shared server_ann 0 "Bob" [11] rfl
  exact ⟨rfl, by decide, h.1.trans (by decide), h.2.1 (by decide)⟩

/-- C17, the partial application: a packet for the slot of "Ann" with the nickname "Bob",
two loadout entries announced, a good first entry (a common basic, which the sender
owns) and a second entry with the petal id 99. The handler stops at the bad id, and the
slot has changed: it is named "Bob" and its first loadout entry is the basic. -/
theorem squad_update_partial_counterexample :
    (99 : Nat) ≥ rr_petal_id_max ∧
    (rr_squad_get_client_slot server_ann (server_ann.clients 0)).nickname = "Ann" ∧
    (rr_squad_get_client_slot server_ann (server_ann.clients 0)).loadout 0 =
      { id := 0, rarity := 0 } ∧
    (rr_squad_get_client_slot
      (rr_serverbound_squad_update sample_env sample_shared server_ann 0 "Bob"
        [2, 1, 0, 0, 0, 99, 0])
      (server_ann.clients 0)).nickname = "Bob" ∧
    (rr_squad_get_client_slot
      (rr_serverbound_squad_update sample_env sample_shared server_ann 0 "Bob"
        [2, 1, 0, 0, 0, 99, 0])
      (server_ann.clients 0)).loadout 0 = { id := 1, rarity := 0 } := by
  refine ⟨by decide, rfl, rfl, ?_, ?_⟩
  · decide
  · decide

/-! ## Petal detach -/

/-- C20. Petal detach and the slot. When a pass of `system_flower_petal_movement_logic`
detaches a petal that was not detached, the petal is a shell, peas, web, gravel, meat,
nest or seed. For shell, peas, web and gravel the pass goes through
`system_petal_detach`: the entry of the slot gives up its handle and its cooldown is set
to the cooldown of the petal data. For meat, nest and seed the pass only sets the flag:
the entry of the slot keeps the handle of the detached petal and its cooldown. -/
theorem petal_detach_slot (rotation_count input : Nat) (cooldown : Int) (seed_target : Bool)
    (seed_delay : Int) (this : petal_slot) (h0 : this.petal.detached = false)
    (h1 : (system_flower_petal_movement_logic rotation_count input cooldown seed_target
      seed_delay this).petal.detached = true) :
    (this.petal.id = rr_petal_id_shell ∨ this.petal.id = rr_petal_id_peas ∨
      this.petal.id = rr_petal_id_web ∨ this.petal.id = rr_petal_id_gravel ∨
      this.petal.id = rr_petal_id_meat ∨ this.petal.id = rr_petal_id_nest ∨
      this.petal.id = rr_petal_id_seed) ∧
    (this.petal.id = rr_petal_id_shell ∨ this.petal.id = rr_petal_id_peas ∨
      this.petal.id = rr_petal_id_web ∨ this.petal.id = rr_petal_id_gravel →
      (system_flower_petal_movement_logic rotation_count input cooldown seed_target
        seed_delay this).ppetal =
        { entity_hash := RR_NULL_ENTITY, cooldown_ticks := cooldown }) ∧
    (this.petal.id = rr_petal_id_meat ∨ this.petal.id = rr_petal_id_nest ∨
      this.petal.id = rr_petal_id_seed →
      (system_flower_petal_movement_logic rotation_count input cooldown seed_target
        seed_delay this).ppetal = this.ppetal) := by
  have hne : ¬ this.petal.detached = true := by
    rw [h0]
    exact Bool.noConfusion
  unfold system_flower_petal_movement_logic at h1 ⊢
  by_cases hr : rotation_count = 0
  · rw [if_pos hr] at h1
    exact absurd h1 hne
  rw [if_neg hr] at h1 ⊢
  by_cases he : this.petal.effect_delay = 0
  swap
  · rw [if_neg he, if_pos h0] at h1
    exact absurd h1 hne
  rw [if_pos he] at h1 ⊢
  unfold petal_effect at h1 ⊢
  simp only [rr_petal_id_shell, rr_petal_id_peas, rr_petal_id_web, rr_petal_id_gravel,
    rr_petal_id_meat, rr_petal_id_nest, rr_petal_id_seed] at h1 ⊢
  by_cases k1 : this.petal.id = 6
  · rw [if_pos k1] at h1 ⊢
    by_cases hi : input &&& 1 = 0
    · rw [if_pos hi] at h1
      exact absurd h1 hne
    · rw [if_neg hi]
      exact ⟨Or.inl k1, fun _ => rfl, fun h => by omega⟩
  rw [if_neg k1] at h1 ⊢
  by_cases k2 : this.petal.id = 7
  · rw [if_pos k2] at h1 ⊢
    by_cases hi : input &&& 1 = 0
    · rw [if_pos hi] at h1
      exact absurd h1 hne
    · rw [if_neg hi]
      exact ⟨Or.inr (Or.inl k2), fun _ => rfl, fun h => by omega⟩
  rw [if_neg k2] at h1 ⊢
  by_cases k3 : this.petal.id = 15
  · rw [if_pos k3] at h1 ⊢
    by_cases hi : input &&& 3 = 0
    · rw [if_pos hi] at h1
      exact absurd h1 hne
    · rw [if_neg hi]
      exact ⟨Or.inr (Or.inr (Or.inl k3)), fun _ => rfl, fun h => by omega⟩
  rw [if_neg k3] at h1 ⊢
  by_cases k4 : this.petal.id = 26
  · rw [if_pos k4] at h1 ⊢
    by_cases hi : input &&& 3 = 0
    · rw [if_pos hi] at h1
      exact absurd h1 hne
    · rw [if_neg hi]
      exact ⟨Or.inr (Or.inr (Or.inr (Or.inr (Or.inl k4)))), fun h => by omega, fun _ => rfl⟩
  rw [if_neg k4] at h1 ⊢
  by_cases k5 : this.petal.id = 24
  · rw [if_pos k5] at h1 ⊢
    by_cases hi : input &&& 2 = 0
    · rw [if_pos hi] at h1
      exact absurd h1 hne
    · rw [if_neg hi]
      exact ⟨Or.inr (Or.inr (Or.inr (Or.inr (Or.inr (Or.inl k5))))), fun h => by omega,
        fun _ => rfl⟩
  rw [if_neg k5] at h1 ⊢
  by_cases k6 : this.petal.id = 16
  · rw [if_pos k6] at h1 ⊢
    by_cases hi : seed_target = true
    · rw [if_pos hi]
      exact ⟨Or.inr (Or.inr (Or.inr (Or.inr (Or.inr (Or.inr k6))))), fun h => by omega,
        fun _ => rfl⟩
    · rw [if_neg hi] at h1
      exact absurd h1 hne
  rw [if_neg k6] at h1 ⊢
  by_cases k7 : this.petal.id = 17
  · rw [if_pos k7] at h1 ⊢
    by_cases hi : input &&& 3 = 0
    · rw [if_pos hi] at h1
      exact absurd h1 hne
    · rw [if_neg hi]
      exact ⟨Or.inr (Or.inr (Or.inr (Or.inl k7))), fun _ => rfl, fun h => by omega⟩
  rw [if_neg k7] at h1
  exact absurd h1 hne

/-- C20 on a shell: with the attack bit set the pass detaches the shell, and the entry of
its slot holds the null entity and the cooldown 50 of the shell row. -/
theorem petal_detach_slot_witness :
    slot_shell.petal.detached = false ∧
    (system_flower_petal_movement_logic 1 1 50 false 0 slot_shell).petal.detached = true ∧
    (system_flower_petal_movement_logic 1 1 50 false 0 slot_shell).ppetal =
      { entity_hash := RR_NULL_ENTITY, cooldown_ticks := 50 } :=
  ⟨rfl, by decide,
    (petal_detach_slot 1 1 50 false 0 slot_shell rfl (by decide)).2.1 (Or.inl rfl)⟩

/-- C20, the petals that only set the flag: with the attack bit set the pass detaches the
meat petal, and the entry of its slot still holds the handle of the petal, not the null
entity, and its cooldown is not the 188 of the meat row. -/
theorem petal_detach_meat_counterexample :
    slot_meat.petal.detached = false ∧
    (system_flower_petal_movement_logic 1 1 188 false 0 slot_meat).petal.detached = true ∧
    (system_flower_petal_movement_logic 1 1 188 false 0 slot_meat).ppetal.entity_hash =
      65543 ∧
    (system_flower_petal_movement_logic 1 1 188 false 0 slot_meat).ppetal.entity_hash ≠
      RR_NULL_ENTITY ∧
    (system_flower_petal_movement_logic 1 1 188 false 0 slot_meat).ppetal.cooldown_ticks ≠
      188 := by
  decide

/-! ## Craft loop: termination and bounds -/

theorem craft_loop_body_step (rng : rr_rng) (id rarity : Nat) (base : ℚ)
    (s : craft_loop_state) (h5 : 5 ≤ s.now) :
    (craft_loop_body rng id rarity base s).now < s.now ∧
    s.now ≤ (craft_loop_body rng id rarity base s).now + 5 ∧
    (craft_loop_body rng id rarity base s).now +
      5 * (craft_loop_body rng id rarity base s).success ≤ s.now + 5 * s.success ∧
    s.success ≤ (craft_loop_body rng id rarity base s).success ∧
    (craft_loop_body rng id rarity base s).xp_gain = s.xp_gain + CRAFT_XP_GAINS rarity := by
  unfold craft_loop_body
  dsimp only
  have hr : rng.rand s.rand_used % 4 < 4 := Nat.mod_lt _ (by decide)
  split_ifs <;> dsimp only <;> refine ⟨by omega, by omega, by omega, by omega, rfl⟩

theorem craft_loop_run (rng : rr_rng) (id rarity : Nat) (base : ℚ) :
    ∀ (m : Nat) (s : craft_loop_state), s.now = m →
      ∃ n : Nat,
        craft_loop rng id rarity base s = (craft_loop_body rng id rarity base)^[n] s ∧
        (5 ≤ s.now → n + 4 ≤ s.now) ∧ (s.now < 5 → n = 0) ∧
        (∀ k, k < n → 5 ≤ ((craft_loop_body rng id rarity base)^[k] s).now) ∧
        (craft_loop rng id rarity base s).now < 5 ∧
        (craft_loop rng id rarity base s).now +
          5 * (craft_loop rng id rarity base s).success ≤ s.now + 5 * s.success ∧
        s.success ≤ (craft_loop rng id rarity base s).success ∧
        (craft_loop rng id rarity base s).xp_gain =
          s.xp_gain + (n : ℚ) * CRAFT_XP_GAINS rarity := by
  intro m
  induction m using Nat.strong_induction_on with
  | _ m ih =>
    intro s hs
    rw [craft_loop_unfold]
    by_cases h5 : 5 ≤ s.now
    · rw [if_pos h5]
      have hb := craft_loop_body_step rng id rarity base s h5
      obtain ⟨n, hn1, hn2, hn3, hn4, hn5, hn6, hn7, hn8⟩ :=
        ih (craft_loop_body rng id rarity base s).now (by rw [← hs]; exact hb.1)
          (craft_loop_body rng id rarity base s) rfl
      refine ⟨n + 1, ?_, ?_, ?_, ?_, hn5, ?_, ?_, ?_⟩
      · rw [hn1, Function.iterate_succ_apply]
      · intro _
        by_cases h5b : 5 ≤ (craft_loop_body rng id rarity base s).now
        · have := hn2 h5b
          omega
        · have := hn3 (by omega)
          omega
      · intro hlt
        omega
      · intro k hk
        cases k with
        | zero => exact h5
        | succ j =>
          rw [Function.iterate_succ_apply]
          exact hn4 j (by omega)
      · omega
      · omega
      · rw [hn8, hb.2.2.2.2]
        push_cast
        ring
    · rw [if_neg h5]
      exact ⟨0, rfl, fun h => absurd h h5, fun _ => rfl, fun k hk => absurd hk (Nat.not_lt_zero k),
        by omega, Nat.le_refl _, Nat.le_refl _, by simp⟩

/-- C26. Craft loop termination and bounds. For an accepted request (`count >= 5`,
`inventory[id][rarity] >= count`) and any random draws, the loop of
`rr_server_client_craft_petal` is a run of `n` passes of its body with `n <= count - 4`;
every pass is entered with at least 5 petals left and takes between 1 and 5 of them, so
the unsigned remainder never wraps; the loop ends with a remainder below 5, and the
petals consumed, `count - now`, lie between `5 * success` and `count`, hence within the
inventory; the xp gained is `n` times `CRAFT_XP_GAINS[rarity]`. -/
theorem craft_loop_terminates (rng : rr_rng) (id rarity : Nat) (base : ℚ)
    (count fails inventory : Nat) (hc : 5 ≤ count) (hinv : count ≤ inventory) :
    ∃ n : Nat, n ≤ count - 4 ∧
      craft_loop rng id rarity base
        { now := count, success := 0, fails := fails, xp_gain := 0, frand_used := 0,
          rand_used := 0 } =
        (craft_loop_body rng id rarity base)^[n]
          { now := count, success := 0, fails := fails, xp_gain := 0, frand_used := 0,
            rand_used := 0 } ∧
      (∀ k, k < n →
        5 ≤ ((craft_loop_body rng id rarity base)^[k]
          { now := count, success := 0, fails := fails, xp_gain := 0, frand_used := 0,
            rand_used := 0 }).now ∧
        ((craft_loop_body rng id rarity base)^[k + 1]
          { now := count, success := 0, fails := fails, xp_gain := 0, frand_used := 0,
            rand_used := 0 }).now <
          ((craft_loop_body rng id rarity base)^[k]
            { now := count, success := 0, fails := fails, xp_gain := 0, frand_used := 0,
              rand_used := 0 }).now ∧
        ((craft_loop_body rng id rarity base)^[k]
          { now := count, success := 0, fails := fails, xp_gain := 0, frand_used := 0,
            rand_used := 0 }).now ≤
          ((craft_loop_body rng id rarity base)^[k + 1]
            { now := count, success := 0, fails := fails, xp_gain := 0, frand_used := 0,
              rand_used := 0 }).now + 5) ∧
      (craft_loop rng id rarity base
        { now := count, success := 0, fails := fails, xp_gain := 0, frand_used := 0,
          rand_used := 0 }).now < 5 ∧
      5 * (craft_loop rng id rarity base
        { now := count, success := 0, fails := fails, xp_gain := 0, frand_used := 0,
          rand_used := 0 }).success ≤
        count - (craft_loop rng id rarity base
          { now := count, success := 0, fails := fails, xp_gain := 0, frand_used := 0,
            rand_used := 0 }).now ∧
      (craft_loop rng id rarity base
        { now := count, success := 0, fails := fails, xp_gain := 0, frand_used := 0,
          rand_used := 0 }).now ≤ count ∧
      count - (craft_loop rng id rarity base
        { now := count, success := 0, fails := fails, xp_gain := 0, frand_used := 0,
          rand_used := 0 }).now ≤ inventory ∧
      (craft_loop rng id rarity base
        { now := count, success := 0, fails := fails, xp_gain := 0, frand_used := 0,
          rand_used := 0 }).xp_gain = (n : ℚ) * CRAFT_XP_GAINS rarity := by
  obtain ⟨n, h1, h2, _, h4, h5, h6, _, h8⟩ := craft_loop_run rng id rarity base count
    { now := count, success := 0, fails := fails, xp_gain := 0, frand_used := 0,
      rand_used := 0 } rfl
  have h2b : n + 4 ≤ count := h2 hc
  have h6b : (craft_loop rng id rarity base
      { now := count, success := 0, fails := fails, xp_gain := 0, frand_used := 0,
        rand_used := 0 }).now +
      5 * (craft_loop rng id rarity base
        { now := count, success := 0, fails := fails, xp_gain := 0, frand_used := 0,
          rand_used := 0 }).success ≤ count := by
    have := h6
    simp only [Nat.mul_zero, Nat.add_zero] at this
    exact this
  refine ⟨n, by omega, h1, ?_, h5, by omega, by omega, by omega, ?_⟩
  · intro k hk
    have hk5 := h4 k hk
    have hstep := craft_loop_body_step rng id rarity base _ hk5
    rw [Function.iterate_succ_apply']
    exact ⟨hk5, hstep.1, hstep.2.1⟩
  · rw [h8]
    simp

/-- C26 on a request for 5 pellets after three failures, every draw being 1/2: the loop
is one pass, a success, which takes the five petals. -/
theorem craft_loop_terminates_witness :
    (5 : Nat) ≤ 5 ∧ (5 : Nat) ≤ 10 ∧
    ∃ n : Nat, n ≤ 5 - 4 ∧
      (craft_loop rng_half 2 0 (1 / 5)
        { now := 5, success := 0, fails := 3, xp_gain := 0, frand_used := 0,
          rand_used := 0 }).now < 5 ∧
      (craft_loop rng_half 2 0 (1 / 5)
        { now := 5, success := 0, fails := 3, xp_gain := 0, frand_used := 0,
          rand_used := 0 }).xp_gain = (n : ℚ) * CRAFT_XP_GAINS 0 := by
  obtain ⟨n, h1, _, _, h4, _, _, _, h8⟩ :=
    craft_loop_terminates rng_half 2 0 (1 / 5) 5 3 10 (by decide) (by decide)
  exact ⟨by decide, by decide, n, h1, h4, h8⟩

/-! ## Rotation -/

theorem petal_modifiers_fold (slots : List rr_component_player_info_petal_slot) :
    ∀ (a : ℚ) (c : Nat), c < 256 →
      (slots.foldl petal_modifiers_step (a, c)).1 =
        a + ((slots.filter (fun s => decide (s.id = rr_petal_id_berry))).map
          (fun s => 2 / 100 + 12 / 1000 * (s.rarity : ℚ))).sum ∧
      (slots.foldl petal_modifiers_step (a, c)).2 =
        (c + (slots.filter (fun s => decide (s.id = rr_petal_id_droplet))).length) % 256 := by
  induction slots with
  | nil =>
    intro a c hc
    exact ⟨by simp, by simp [Nat.mod_eq_of_lt hc]⟩
  | cons s rest ih =>
    intro a c hc
    rw [List.foldl_cons]
    by_cases hb : s.id = rr_petal_id_berry
    · have hd : ¬ s.id = rr_petal_id_droplet := by
        rw [hb]
        decide
      have hs : petal_modifiers_step (a, c) s =
          (a + (2 / 100 + 12 / 1000 * (s.rarity : ℚ)), c) := by
        unfold petal_modifiers_step
        rw [if_pos hb]
      have h := ih (a + (2 / 100 + 12 / 1000 * (s.rarity : ℚ))) c hc
      rw [hs, h.1, h.2]
      simp only [List.filter_cons, hb, hd, decide_True, decide_False, if_true,
        Bool.false_eq_true, if_false, List.map_cons, List.sum_cons]
      exact ⟨by ring, rfl⟩
    · by_cases hd : s.id = rr_petal_id_droplet
      · have hs : petal_modifiers_step (a, c) s = (a, (c + 1) % 256) := by
          unfold petal_modifiers_step
          rw [if_neg hb, if_pos hd]
        have h := ih a ((c + 1) % 256) (Nat.mod_lt _ (by decide))
        rw [hs, h.1, h.2]
        simp only [List.filter_cons, hb, hd, decide_True, decide_False, if_true,
          Bool.false_eq_true, if_false, List.length_cons]
        refine ⟨rfl, ?_⟩
        omega
      · have hs : petal_modifiers_step (a, c) s = (a, c) := by
          unfold petal_modifiers_step
          rw [if_neg hb, if_neg hd]
        have h := ih a c hc
        rw [hs, h.1, h.2]
        simp only [List.filter_cons, hb, hd, decide_False, Bool.false_eq_true, if_false]
        constructor <;> first | rfl | trivial

/-- C29. Rotation sign. With fewer than 256 slots, `petal_modifiers` advances
`global_rotation` by the accumulated rate, 0.1 plus `0.02 + 0.012 * rarity` per berry
slot, times a factor given by the number `d` of droplet slots modulo 3: `+1` when
`d % 3 = 0`, `-1` when `d % 3 = 1` and `0` when `d % 3 = 2`. -/
theorem rotation_sign (slots : List rr_component_player_info_petal_slot)
    (global_rotation : ℚ) (h : slots.length < 256) :
    petal_modifiers slots global_rotation =
      global_rotation +
        (1 / 10 + ((slots.filter (fun s => decide (s.id = rr_petal_id_berry))).map
          (fun s => 2 / 100 + 12 / 1000 * (s.rarity : ℚ))).sum) *
        (if (slots.filter (fun s => decide (s.id = rr_petal_id_droplet))).length % 3 = 0
          then 1
        else if (slots.filter (fun s => decide (s.id = rr_petal_id_droplet))).length % 3 = 1
          then -1
        else 0) := by
  have hf := petal_modifiers_fold slots (1 / 10) 0 (by decide)
  have hd : (slots.filter (fun s => decide (s.id = rr_petal_id_droplet))).length < 256 :=
    Nat.lt_of_le_of_lt (List.length_filter_le _ _) h
  unfold petal_modifiers rotation_factor
  rw [hf.1, hf.2, Nat.zero_add, Nat.mod_eq_of_lt hd]
  by_cases h0 : (slots.filter (fun s => decide (s.id = rr_petal_id_droplet))).length % 3 = 0
  · rw [if_neg (not_not.mpr h0), if_pos h0]
  · rw [if_pos h0, if_neg h0]
    by_cases h1 : (slots.filter (fun s => decide (s.id = rr_petal_id_droplet))).length % 3 = 1
    · rw [if_pos h1, if_neg (by omega)]
    · rw [if_neg h1, if_pos (by omega)]

/-- C29 on a loadout of one rare berry slot and one droplet slot: the rotation goes back
by `0.1 + 0.02 + 0.012 * 2`. -/
theorem rotation_sign_witness :
    [slot_berry, slot_droplet].length < 256 ∧
    petal_modifiers [slot_berry, slot_droplet] 1 = 1 - (1 / 10 + 2 / 100 + 12 / 1000 * 2) := by
  have h := rotation_sign [slot_berry, slot_droplet] 1 (by decide)
  refine ⟨by decide, ?_⟩
  rw [h]
  simp [slot_berry, slot_droplet, rr_petal_id_berry, rr_petal_id_droplet]
  norm_num

/-- C29, the parity reading: with two droplet slots, an even number, the rotation does
not advance at all, and with three, an odd number, it advances forward by 0.1. -/
theorem rotation_parity_counterexample :
    petal_modifiers [slot_droplet, slot_droplet] 0 = 0 ∧
    petal_modifiers [slot_droplet, slot_droplet] 0 ≠ 1 / 10 ∧
    petal_modifiers [slot_droplet, slot_droplet, slot_droplet] 0 = 1 / 10 ∧
    petal_modifiers [slot_droplet, slot_droplet, slot_droplet] 0 ≠ -(1 / 10) := by
  have h2 : petal_modifiers [slot_droplet, slot_droplet] 0 = 0 := by
    simp [petal_modifiers, petal_modifiers_step, rotation_factor, slot_droplet,
      rr_petal_id_berry, rr_petal_id_droplet]
  have h3 : petal_modifiers [slot_droplet, slot_droplet, slot_droplet] 0 = 1 / 10 := by
    simp [petal_modifiers, petal_modifiers_step, rotation_factor, slot_droplet,
      rr_petal_id_berry, rr_petal_id_droplet]
  refine ⟨h2, ?_, h3, ?_⟩
  · rw [h2]
    norm_num
  · rw [h3]
    norm_num

/-! ## Stunned mobs -/

/-- The stunned branch keeps state and target, sets the knockback scale to 1, and takes
one tick off a positive action timer. -/
theorem ai_stunned_fields (e : ai_entity) :
    (ai_stunned e).ai.ai_state = e.ai.ai_state ∧
    (ai_stunned e).ai.target_entity = e.ai.target_entity ∧
    (ai_stunned e).ai.aggro_range = e.ai.aggro_range ∧
    (ai_stunned e).mob = e.mob ∧
    (ai_stunned e).physical.knockback_scale = 1 ∧
    (ai_stunned e).physical.stun_ticks = e.physical.stun_ticks ∧
    (0 < e.ai.ticks_until_next_action →
      (ai_stunned e).ai.ticks_until_next_action = e.ai.ticks_until_next_action - 1) ∧
    (e.ai.ticks_until_next_action ≤ 0 →
      (ai_stunned e).ai.ticks_until_next_action = e.ai.ticks_until_next_action) := by
  unfold ai_stunned
  by_cases h : 0 < e.ai.ticks_until_next_action
  · rw [if_pos h]
    exact ⟨rfl, rfl, rfl, rfl, rfl, rfl, fun _ => rfl, fun h0 => absurd h (not_lt.mpr h0)⟩
  · rw [if_neg h]
    exact ⟨rfl, rfl, rfl, rfl, rfl, rfl, fun h0 => absurd h0 h, fun _ => rfl⟩

/-- With no centipede parent, no arena and the summon rule not returning, a positive
`stun_ticks` makes `system_for_each` take the stunned branch. -/
theorem system_for_each_stunned {W : Type} (env : ai_env W) (e : ai_entity) (w : W)
    (hc : env.centipede_child w = false) (ha : env.has_arena w = false)
    (hsummon : (ai_summon_rule env (ai_target_checks env e w) w).2 = false)
    (hstun : 0 < (ai_summon_rule env (ai_target_checks env e w) w).1.1.physical.stun_ticks) :
    system_for_each env e w =
      (ai_stunned (ai_summon_rule env (ai_target_checks env e w) w).1.1,
        (ai_summon_rule env (ai_target_checks env e w) w).1.2) := by
  unfold system_for_each
  rw [if_neg (by rw [hc]; exact Bool.false_ne_true), if_neg (by rw [ha]; exact Bool.false_ne_true),
    if_neg (by rw [hsummon]; exact Bool.false_ne_true), if_pos hstun]

/-- C28. Stunned mobs. For an entity that passes the centipede and arena tests, that the
summon return-to-owner rule does not handle, and whose `stun_ticks` is positive,
`system_for_each` runs no species behaviour: the result is the same whatever the species
`switch` does, the rest of the simulation is as the summon rule left it, `ai_state`,
`target_entity` and the mob keep their values, `knockback_scale` is 1, a positive
`ticks_until_next_action` goes down by exactly 1 and one that is 0 stays 0. For a mob that
is not player-spawned the values kept are those after the two target checks. -/
theorem stunned_mob_skips_planning {W : Type} (env : ai_env W) (e : ai_entity) (w : W)
    (hc : env.centipede_child w = false) (ha : env.has_arena w = false)
    (hsummon : (ai_summon_rule env (ai_target_checks env e w) w).2 = false)
    (hstun : 0 < (ai_summon_rule env (ai_target_checks env e w) w).1.1.physical.stun_ticks) :
    (∀ f : Nat → ai_entity → W → ai_entity × W,
      system_for_each { env with tick_ai_species := f } e w = system_for_each env e w) ∧
    (system_for_each env e w).2 = (ai_summon_rule env (ai_target_checks env e w) w).1.2 ∧
    (system_for_each env e w).1.ai.ai_state =
      (ai_summon_rule env (ai_target_checks env e w) w).1.1.ai.ai_state ∧
    (system_for_each env e w).1.ai.target_entity =
      (ai_summon_rule env (ai_target_checks env e w) w).1.1.ai.target_entity ∧
    (system_for_each env e w).1.mob =
      (ai_summon_rule env (ai_target_checks env e w) w).1.1.mob ∧
    (system_for_each env e w).1.physical.knockback_scale = 1 ∧
    (0 < (ai_summon_rule env (ai_target_checks env e w) w).1.1.ai.ticks_until_next_action →
      (system_for_each env e w).1.ai.ticks_until_next_action =
        (ai_summon_rule env (ai_target_checks env e w) w).1.1.ai.ticks_until_next_action - 1) ∧
    ((ai_summon_rule env (ai_target_checks env e w) w).1.1.ai.ticks_until_next_action = 0 →
      (system_for_each env e w).1.ai.ticks_until_next_action = 0) ∧
    (e.mob.player_spawned = false →
      (ai_summon_rule env (ai_target_checks env e w) w).1 = (ai_target_checks env e w, w)) := by
  have hrun := system_for_each_stunned env e w hc ha hsummon hstun
  have hf := ai_stunned_fields (ai_summon_rule env (ai_target_checks env e w) w).1.1
  refine ⟨fun f => ?_, ?_, ?_, ?_, ?_, ?_, ?_, ?_, ?_⟩
  · rw [hrun]
    exact system_for_each_stunned { env with tick_ai_species := f } e w hc ha hsummon hstun
  · rw [hrun]
  · rw [hrun]
    exact hf.1
  · rw [hrun]
    exact hf.2.1
  · rw [hrun]
    exact hf.2.2.2.1
  · rw [hrun]
    exact hf.2.2.2.2.1
  · intro h
    rw [hrun]
    exact hf.2.2.2.2.2.2.1 h
  · intro h
    rw [hrun]
    exact (hf.2.2.2.2.2.2.2 (le_of_eq h)).trans h
  · intro h
    unfold ai_summon_rule
    have hps : (ai_target_checks env e w).mob.player_spawned = false := h
    rw [if_neg (by rw [hps]; exact Bool.false_ne_true)]

/-- C28 on a stunned wild mob with a living target in range: the species behaviour, which
would pick target 99 and state 5, does not run; target 7 and state 3 stay, the knockback
scale becomes 1 and the timer goes from 4 to 3. -/
theorem stunned_mob_skips_planning_witness :
    ai_env_sample.centipede_child () = false ∧ ai_env_sample.has_arena () = false ∧
    (ai_summon_rule ai_env_sample (ai_target_checks ai_env_sample ai_entity_stunned ()) ()).2
      = false ∧
    (system_for_each ai_env_sample ai_entity_stunned ()).1.ai.ai_state = 3 ∧
    (system_for_each ai_env_sample ai_entity_stunned ()).1.ai.target_entity = 7 ∧
    (system_for_each ai_env_sample ai_entity_stunned ()).1.physical.knockback_scale = 1 ∧
    (system_for_each ai_env_sample ai_entity_stunned ()).1.ai.ticks_until_next_action = 3 := by
  have hchk : ai_target_checks ai_env_sample ai_entity_stunned () = ai_entity_stunned := by
    simp [ai_target_checks, ai_check_target_range, ai_check_target_valid, ai_env_sample,
      ai_entity_stunned, RR_NULL_ENTITY]
    norm_num
  have hsum : ai_summon_rule ai_env_sample ai_entity_stunned () =
      ((ai_entity_stunned, ()), false) := rfl
  have hsummon : (ai_summon_rule ai_env_sample
      (ai_target_checks ai_env_sample ai_entity_stunned ()) ()).2 = false := by
    rw [hchk, hsum]
  have hstun : 0 < (ai_summon_rule ai_env_sample
      (ai_target_checks ai_env_sample ai_entity_stunned ()) ()).1.1.physical.stun_ticks := by
    rw [hchk, hsum]
    decide
  have h := stunned_mob_skips_planning ai_env_sample ai_entity_stunned () rfl rfl hsummon hstun
  rw [hchk, hsum] at h
  refine ⟨rfl, rfl, hsummon, h.2.2.1, h.2.2.2.1, h.2.2.2.2.2.1, ?_⟩
  have h7 := h.2.2.2.2.2.2.1 (by decide)
  rw [h7]
  rfl

/-! ## Squad code confidentiality -/

/-- Writing another code into squad `q` changes no client, no member, no owner and no
flag. -/
theorem with_squad_code_fields (this : rr_server) (q : Nat) (code : String) (s : Nat) :
    (with_squad_code this q code).clients = this.clients ∧
    (with_squad_code this q code).server_alias = this.server_alias ∧
    ((with_squad_code this q code).squads s).members = (this.squads s).members ∧
    ((with_squad_code this q code).squads s).owner = (this.squads s).owner ∧
    ((with_squad_code this q code).squads s).«private» = (this.squads s).«private» ∧
    ((with_squad_code this q code).squads s).expose_code = (this.squads s).expose_code ∧
    (s ≠ q → ((with_squad_code this q code).squads s).squad_code =
      (this.squads s).squad_code) := by
  unfold with_squad_code
  by_cases h : s = q
  · refine ⟨rfl, rfl, ?_, ?_, ?_, ?_, fun hne => absurd h hne⟩ <;>
      (dsimp only; rw [if_pos h])
  · refine ⟨rfl, rfl, ?_, ?_, ?_, ?_, fun _ => ?_⟩ <;>
      (dsimp only; rw [if_neg h])

/-- The code field of a squad the client may not see is the constant. -/
theorem squad_dump_joined_code_private (this : rr_server) (client : rr_server_client)
    (q : Nat) (hdev : client.dev = false) (hexp : (this.squads q).expose_code = false)
    (hmem : client.in_squad = false ∨ client.squad ≠ q) :
    squad_dump_joined_code this client q = "(private)" := by
  unfold squad_dump_joined_code
  rw [if_neg]
  rw [hdev, hexp]
  rintro (h | h | ⟨h1, h2⟩)
  · exact Bool.false_ne_true h
  · exact Bool.false_ne_true h
  · rcases hmem with hm | hm
    · rw [hm] at h1
      exact Bool.false_ne_true h1
    · exact hm h2

/-- C27. Squad code confidentiality. For a client that is not dev and a squad `q` with
`expose_code = 0` of which the client is not a member, the fields that the squad dump
writes for `q` end with the string `"(private)"`, and the whole squad dump, as well as
the server state after queueing it, is the same in two server states that differ only in
the `squad_code` of `q`. -/
theorem squad_code_confidential (env : rr_server_env) (RR_GLOBAL_BIOME : Nat)
    (this : rr_server) (i q : Nat) (code : String)
    (hdev : (this.clients i).dev = false)
    (hexp : (this.squads q).expose_code = false)
    (hmem : (this.clients i).in_squad = false ∨ (this.clients i).squad ≠ q) :
    (squad_dump_squad env RR_GLOBAL_BIOME this (this.clients i) q).getLast? =
      some (pb_field.string "(private)" 16) ∧
    squad_dump_packet env RR_GLOBAL_BIOME (with_squad_code this q code) i =
      squad_dump_packet env RR_GLOBAL_BIOME this i ∧
    (server_tick_squad_dump env RR_GLOBAL_BIOME (with_squad_code this q code) i).clients =
      (server_tick_squad_dump env RR_GLOBAL_BIOME this i).clients := by
  have hf := with_squad_code_fields this q code
  have hpriv := squad_dump_joined_code_private this (this.clients i) q hdev hexp hmem
  have hexp2 : ((with_squad_code this q code).squads q).expose_code = false := by
    rw [(hf q).2.2.2.2.2.1]
    exact hexp
  have hpriv2 := squad_dump_joined_code_private (with_squad_code this q code)
    (this.clients i) q hdev hexp2 hmem
  have hcode : ∀ s, squad_dump_joined_code (with_squad_code this q code) (this.clients i) s =
      squad_dump_joined_code this (this.clients i) s := by
    intro s
    by_cases hs : s = q
    · rw [hs, hpriv, hpriv2]
    · unfold squad_dump_joined_code
      rw [(hf s).2.2.2.2.2.1, (hf s).2.2.2.2.2.2 hs, (hf s).2.1]
  have hmember : ∀ m, squad_dump_member env (with_squad_code this q code) (this.clients i) m =
      squad_dump_member env this (this.clients i) m := fun m => rfl
  have hsquad : ∀ s, squad_dump_squad env RR_GLOBAL_BIOME (with_squad_code this q code)
      (this.clients i) s = squad_dump_squad env RR_GLOBAL_BIOME this (this.clients i) s := by
    intro s
    unfold squad_dump_squad
    rw [hcode s, (hf s).2.2.1, (hf s).2.2.2.1, (hf s).2.2.2.2.1, (hf s).2.2.2.2.2.1]
    simp only [hmember]
  have hkick : squad_dump_kick_vote_pos (with_squad_code this q code) (this.clients i) =
      squad_dump_kick_vote_pos this (this.clients i) := by
    unfold squad_dump_kick_vote_pos rr_squad_get_client_slot
    rw [(hf (this.clients i).squad).2.2.1]
  have hpacket : squad_dump_packet env RR_GLOBAL_BIOME (with_squad_code this q code) i =
      squad_dump_packet env RR_GLOBAL_BIOME this i := by
    unfold squad_dump_packet
    have hc : (with_squad_code this q code).clients i = this.clients i := rfl
    rw [hc, hkick]
    simp only [hsquad]
  refine ⟨?_, hpacket, ?_⟩
  · unfold squad_dump_squad
    rw [hpriv, List.getLast?_append]
    rfl
  · unfold server_tick_squad_dump
    rw [hpacket]
    rfl

/-- C27 on the server with alias `"eu"`: client 0, a member of squad 0, is sent
`"(private)"` for squad 1, and gets the same dump when the code of squad 1 is
`"other"`; for its own squad it is sent `"eu-own"`. -/
theorem squad_code_confidential_witness :
    (server_codes.clients 0).dev = false ∧
    (server_codes.squads 1).expose_code = false ∧
    (server_codes.clients 0).squad ≠ 1 ∧
    (server_codes.squads 1).squad_code = "hidden" ∧
    ((with_squad_code server_codes 1 "other").squads 1).squad_code = "other" ∧
    (squad_dump_squad sample_env 0 server_codes (server_codes.clients 0) 1).getLast? =
      some (pb_field.string "(private)" 16) ∧
    squad_dump_packet sample_env 0 (with_squad_code server_codes 1 "other") 0 =
      squad_dump_packet sample_env 0 server_codes 0 ∧
    squad_dump_joined_code server_codes (server_codes.clients 0) 0 = "eu-own" := by
  have h := squad_code_confidential sample_env 0 server_codes 0 1 "other" rfl rfl
    (Or.inr (by decide))
  exact ⟨rfl, rfl, by decide, by decide, by decide, h.1, h.2.1, by decide⟩

/-! ## Loot rarity bounds -/

/-- The cap is below the length of the drop table for every mob rarity. -/
theorem loot_cap_le (rarity : Nat) (hr : rarity < rr_rarity_id_max) :
    loot_cap rarity ≤ rr_rarity_id_nebula + 1 := by
  unfold loot_cap rr_rarity_id_exotic rr_rarity_id_nebula
  unfold rr_rarity_id_max at hr
  split_ifs <;> omega

/-- A read of a table below its length succeeds. -/
theorem table_read (t : List ℚ) (k : Nat) (hk : k < t.length) : ∃ v, t.get? k = some v :=
  ⟨t.get ⟨k, hk⟩, List.get?_eq_get hk⟩

/-- The value `end` of a pass: every read is inside the table, the value is 1 on the last
pass and when the cap is below the petal's minimum, and it is the coefficient of the
minimum on every pass up to the minimum. -/
theorem loot_end_spec (coeff : List ℚ) (m cap drop : Nat) (hlen : cap < coeff.length)
    (hd : drop ≤ cap + 1) :
    (∃ e, loot_end coeff m cap drop = some e) ∧
    (drop = cap + 1 → loot_end coeff m cap drop = some 1) ∧
    (cap < m → loot_end coeff m cap drop = some 1) ∧
    (m ≤ cap → drop ≤ m → loot_end coeff m cap drop = coeff.get? m) := by
  by_cases h1 : drop = cap + 1
  · by_cases h2 : cap < m
    · have hval : loot_end coeff m cap drop = some 1 := by
        unfold loot_end
        rw [if_pos h1]
        simp only [Option.some_bind, if_pos h2]
      rw [hval]
      exact ⟨⟨1, rfl⟩, fun _ => rfl, fun _ => rfl, fun h => absurd h2 (by omega)⟩
    · have h3 : ¬ drop < m := by omega
      have hval : loot_end coeff m cap drop = some 1 := by
        unfold loot_end
        rw [if_pos h1]
        simp only [Option.some_bind, if_neg h2, if_neg h3]
      rw [hval]
      exact ⟨⟨1, rfl⟩, fun _ => rfl, fun h => absurd h h2, fun _ h => absurd h (by omega)⟩
  · obtain ⟨v, hv⟩ := table_read coeff drop (by omega)
    by_cases h2 : cap < m
    · have hval : loot_end coeff m cap drop = some 1 := by
        unfold loot_end
        rw [if_neg h1, hv]
        simp only [Option.some_bind, if_pos h2]
      rw [hval]
      exact ⟨⟨1, rfl⟩, fun _ => rfl, fun _ => rfl, fun h => absurd h2 (by omega)⟩
    · by_cases h3 : drop < m
      · obtain ⟨c, hc⟩ := table_read coeff m (by omega)
        have hval : loot_end coeff m cap drop = some c := by
          unfold loot_end
          rw [if_neg h1, hv]
          simp only [Option.some_bind, if_neg h2, if_pos h3, hc]
        rw [hval, hc]
        exact ⟨⟨c, rfl⟩, fun h => absurd h h1, fun h => absurd h h2, fun _ _ => rfl⟩
      · have hval : loot_end coeff m cap drop = some v := by
          unfold loot_end
          rw [if_neg h1, hv]
          simp only [Option.some_bind, if_neg h2, if_neg h3]
        rw [hval]
        refine ⟨⟨v, rfl⟩, fun h => absurd h h1, fun h => absurd h h2, fun _ h => ?_⟩
        have : drop = m := by omega
        rw [← this, hv]

/-- One pass of the inner loop, when `drop` is within the bound and `end` is read. -/
theorem loot_loop_step (coeff : List ℚ) (pow : ℚ → ℚ → ℚ) (coefficient seed s2 : ℚ)
    (m cap fuel drop : Nat) (e : ℚ) (hd : drop ≤ cap + 1)
    (he : loot_end coeff m cap drop = some e) :
    loot_loop coeff pow coefficient seed s2 m cap (fuel + 1) drop =
      if seed ≤ pow (1 - (1 - e) * s2) coefficient then some drop
      else loot_loop coeff pow coefficient seed s2 m cap fuel (drop + 1) := by
  rw [loot_loop, if_pos hd, he]

/-- The inner loop leaves through its `break`, with `drop` between its start and
`cap + 1`. -/
theorem loot_loop_breaks (coeff : List ℚ) (pow : ℚ → ℚ → ℚ) (coefficient seed s2 : ℚ)
    (m cap : Nat) (hlen : cap < coeff.length) (hpow : ∀ c, pow 1 c = 1) (hseed : seed ≤ 1) :
    ∀ fuel drop, drop ≤ cap + 1 → cap + 2 ≤ fuel + drop →
      ∃ d, loot_loop coeff pow coefficient seed s2 m cap fuel drop = some d ∧
        drop ≤ d ∧ d ≤ cap + 1 := by
  intro fuel
  induction fuel with
  | zero =>
    intro drop hd hf
    omega
  | succ fuel ih =>
    intro drop hd hf
    obtain ⟨⟨e, he⟩, hlast, _, _⟩ := loot_end_spec coeff m cap drop hlen hd
    rw [loot_loop_step coeff pow coefficient seed s2 m cap fuel drop e hd he]
    by_cases ht : seed ≤ pow (1 - (1 - e) * s2) coefficient
    · rw [if_pos ht]
      exact ⟨drop, rfl, le_refl _, hd⟩
    · rw [if_neg ht]
      have hne : drop ≠ cap + 1 := by
        intro h
        have h1 : e = 1 := by
          have := hlast h
          rw [he] at this
          exact Option.some.inj this
        apply ht
        rw [h1, sub_self, zero_mul, sub_zero, hpow]
        exact hseed
      obtain ⟨d, hd1, hd2, hd3⟩ := ih (drop + 1) (by omega) (by omega)
      exact ⟨d, hd1, by omega, hd3⟩

/-- The inner loop never leaves with `drop` below its start. -/
theorem loot_loop_ge (coeff : List ℚ) (pow : ℚ → ℚ → ℚ) (coefficient seed s2 : ℚ)
    (m cap : Nat) :
    ∀ fuel drop d,
      loot_loop coeff pow coefficient seed s2 m cap fuel drop = some d → drop ≤ d := by
  intro fuel
  induction fuel with
  | zero =>
    intro drop d h
    rw [loot_loop] at h
    exact Option.noConfusion h
  | succ fuel ih =>
    intro drop d h
    rw [loot_loop] at h
    by_cases hd : drop ≤ cap + 1
    · rw [if_pos hd] at h
      cases he : loot_end coeff m cap drop with
      | none =>
        rw [he] at h
        exact Option.noConfusion h
      | some e =>
        rw [he] at h
        dsimp only at h
        by_cases ht : seed ≤ pow (1 - (1 - e) * s2) coefficient
        · rw [if_pos ht] at h
          exact le_of_eq (Option.some.inj h)
        · rw [if_neg ht] at h
          exact Nat.le_of_succ_le (ih (drop + 1) d h)
    · rw [if_neg hd] at h
      exact le_of_eq (Option.some.inj h)

/-- When the test fails with the coefficient of the minimum, the loop does not leave
before `drop` has passed the minimum. -/
theorem loot_loop_skips (coeff : List ℚ) (pow : ℚ → ℚ → ℚ) (coefficient seed s2 : ℚ)
    (m cap : Nat) (cm : ℚ) (hlen : cap < coeff.length) (hm : m ≤ cap)
    (hcm : coeff.get? m = some cm)
    (ht : ¬ seed ≤ pow (1 - (1 - cm) * s2) coefficient) :
    ∀ fuel drop d, drop ≤ m →
      loot_loop coeff pow coefficient seed s2 m cap fuel drop = some d → m + 1 ≤ d := by
  intro fuel
  induction fuel with
  | zero =>
    intro drop d _ h
    rw [loot_loop] at h
    exact Option.noConfusion h
  | succ fuel ih =>
    intro drop d hd h
    have hd1 : drop ≤ cap + 1 := by omega
    have he := (loot_end_spec coeff m cap drop hlen hd1).2.2.2 hm hd
    rw [hcm] at he
    rw [loot_loop_step coeff pow coefficient seed s2 m cap fuel drop cm hd1 he, if_neg ht] at h
    by_cases hlt : drop + 1 ≤ m
    · exact ih (drop + 1) d hlt h
    · have hge := loot_loop_ge coeff pow coefficient seed s2 m cap fuel (drop + 1) d h
      omega

/-- The roll for one loot entry: every table read is in bounds, the loop leaves through
its `break` with `drop ≤ cap + 1`, and a `drop` other than 0 is above the petal's minimum
rarity. -/
theorem loot_roll_spec (coeff loot_coeff : List ℚ) (pow : ℚ → ℚ → ℚ) (rarity id : Nat)
    (s2 seed : ℚ) (hcoeff : coeff.length = RR_DROP_RARITY_COEFFICIENTS.length)
    (hl : loot_coeff.length = RR_MOB_LOOT_RARITY_COEFFICIENTS.length)
    (hpow : ∀ c, pow 1 c = 1) (hr : rarity < rr_rarity_id_max) (hseed : seed ≤ 1) :
    ∃ d, loot_roll coeff loot_coeff pow rarity id s2 seed = some d ∧
      d ≤ loot_cap rarity + 1 ∧ (d ≠ 0 → RR_PETAL_DATA_min_rarity id + 1 ≤ d) := by
  have hcap := loot_cap_le rarity hr
  have hlen : loot_cap rarity < coeff.length := by
    rw [hcoeff]
    unfold rr_rarity_id_nebula at hcap
    have : RR_DROP_RARITY_COEFFICIENTS.length = 15 := rfl
    omega
  have hl2 : rarity < loot_coeff.length := by
    rw [hl]
    exact hr
  obtain ⟨c, hc⟩ := table_read loot_coeff rarity hl2
  unfold loot_roll
  rw [hc, Option.some_bind]
  obtain ⟨d, hd, _, hd2⟩ := loot_loop_breaks coeff pow c seed s2 (RR_PETAL_DATA_min_rarity id)
    (loot_cap rarity) hlen hpow hseed (loot_cap rarity + 3) 0 (by omega) (by omega)
  refine ⟨d, hd, hd2, fun hne => ?_⟩
  have hspec := loot_end_spec coeff (RR_PETAL_DATA_min_rarity id) (loot_cap rarity) 0 hlen
    (by omega)
  by_cases hm : loot_cap rarity < RR_PETAL_DATA_min_rarity id
  · have he := hspec.2.2.1 hm
    have hstep := loot_loop_step coeff pow c seed s2 (RR_PETAL_DATA_min_rarity id)
      (loot_cap rarity) (loot_cap rarity + 2) 0 1 (by omega) he
    rw [if_pos (by rw [sub_self, zero_mul, sub_zero, hpow]; exact hseed)] at hstep
    rw [hstep] at hd
    exact absurd (Option.some.inj hd).symm hne
  · have hm2 : RR_PETAL_DATA_min_rarity id ≤ loot_cap rarity := by omega
    obtain ⟨cm, hcm⟩ := table_read coeff (RR_PETAL_DATA_min_rarity id) (by omega)
    have he := hspec.2.2.2 hm2 (Nat.zero_le _)
    rw [hcm] at he
    by_cases ht : seed ≤ pow (1 - (1 - cm) * s2) c
    · have hstep := loot_loop_step coeff pow c seed s2 (RR_PETAL_DATA_min_rarity id)
        (loot_cap rarity) (loot_cap rarity + 2) 0 cm (by omega) he
      rw [if_pos ht] at hstep
      rw [hstep] at hd
      exact absurd (Option.some.inj hd).symm hne
    · exact loot_loop_skips coeff pow c seed s2 (RR_PETAL_DATA_min_rarity id)
        (loot_cap rarity) cm hlen hm2 hcm ht (loot_cap rarity + 3) 0 d (Nat.zero_le _) hd

/-- The loop over the loot entries: it finishes, stores at most one pair per entry left,
and every pair stored is a loot entry's petal with a rarity between the petal's minimum
and the cap. -/
theorem mob_loot_from_spec (coeff loot_coeff : List ℚ) (pow : ℚ → ℚ → ℚ) (rarity : Nat)
    (loot : Nat → Nat × ℚ) (seed : Nat → ℚ)
    (hcoeff : coeff.length = RR_DROP_RARITY_COEFFICIENTS.length)
    (hl : loot_coeff.length = RR_MOB_LOOT_RARITY_COEFFICIENTS.length)
    (hpow : ∀ c, pow 1 c = 1) (hr : rarity < rr_rarity_id_max) (hseed : ∀ i, seed i ≤ 1) :
    ∀ n i, ∃ drops, mob_loot_from coeff loot_coeff pow rarity loot seed n i = some drops ∧
      drops.length ≤ n ∧
      ∀ d ∈ drops, RR_PETAL_DATA_min_rarity d.1 ≤ d.2 ∧ d.2 ≤ loot_cap rarity ∧
        d.1 ≠ 0 ∧ ∃ j, i ≤ j ∧ j < i + n ∧ (loot j).1 = d.1 := by
  intro n
  induction n with
  | zero =>
    intro i
    exact ⟨[], rfl, le_refl _, fun d hd => absurd hd (List.not_mem_nil d)⟩
  | succ n ih =>
    intro i
    rw [mob_loot_from]
    by_cases h0 : (loot i).1 = 0
    · rw [if_pos h0]
      exact ⟨[], rfl, Nat.zero_le _, fun d hd => absurd hd (List.not_mem_nil d)⟩
    · rw [if_neg h0]
      obtain ⟨drop, hroll, hup, hlow⟩ := loot_roll_spec coeff loot_coeff pow rarity (loot i).1
        (loot i).2 (seed i) hcoeff hl hpow hr (hseed i)
      obtain ⟨rest, hrest, hlen, hall⟩ := ih (i + 1)
      rw [hroll, hrest]
      have hrest2 : ∀ d ∈ rest, RR_PETAL_DATA_min_rarity d.1 ≤ d.2 ∧ d.2 ≤ loot_cap rarity ∧
          d.1 ≠ 0 ∧ ∃ j, i ≤ j ∧ j < i + (n + 1) ∧ (loot j).1 = d.1 := by
        intro d hd
        obtain ⟨h1, h2, h3, j, hj1, hj2, hj3⟩ := hall d hd
        exact ⟨h1, h2, h3, j, by omega, by omega, hj3⟩
      by_cases hd0 : drop = 0
      · refine ⟨rest, ?_, by omega, hrest2⟩
        simp only [Option.map_some', if_pos hd0]
      · refine ⟨((loot i).1, drop - 1) :: rest, ?_, ?_, ?_⟩
        · simp only [Option.map_some', if_neg hd0]
        · rw [List.length_cons]
          omega
        · intro d hd
          rcases List.mem_cons.mp hd with h | h
          · have hlow2 := hlow hd0
            rw [h]
            exact ⟨by show RR_PETAL_DATA_min_rarity (loot i).1 ≤ drop - 1; omega,
              by show drop - 1 ≤ loot_cap rarity; omega, h0, i, le_refl _, by omega, rfl⟩
          · exact hrest2 d h

/-- Drops of squads other than `squad` do not pass the filter on `squad`. -/
theorem drops_of_other_squads (f : Nat → List rr_component_drop)
    (hf : ∀ s, ∀ d ∈ f s, d.can_be_picked_up_by = s) (squad : Nat) :
    ∀ l : List Nat, squad ∉ l →
      (l.flatMap f).filter (fun d => decide (d.can_be_picked_up_by = squad)) = [] := by
  intro l hl
  rw [List.filter_eq_nil_iff]
  intro d hd
  obtain ⟨s, hs, hds⟩ := List.mem_flatMap.mp hd
  have := hf s d hds
  simp only [decide_eq_true_eq]
  intro h
  apply hl
  rw [← h, this]
  exact hs

/-- Over a list of distinct squads, the drops that one squad may pick up are those
created in that squad's pass. -/
theorem drops_per_squad (f : Nat → List rr_component_drop)
    (hf : ∀ s, ∀ d ∈ f s, d.can_be_picked_up_by = s) (hlen : ∀ s, (f s).length ≤ 4)
    (squad : Nat) :
    ∀ l : List Nat, l.Nodup →
      ((l.flatMap f).filter (fun d => decide (d.can_be_picked_up_by = squad))).length ≤ 4 := by
  intro l
  induction l with
  | nil =>
    intro _
    exact Nat.zero_le _
  | cons a t ih =>
    intro hnd
    rw [List.flatMap_cons, List.filter_append, List.length_append]
    have hnd2 := List.nodup_cons.mp hnd
    by_cases ha : a = squad
    · rw [drops_of_other_squads f hf squad t (by rw [← ha]; exact hnd2.1)]
      have := List.length_filter_le (fun d => decide (d.can_be_picked_up_by = squad)) (f a)
      have := hlen a
      rw [List.length_nil]
      omega
    · have h0 : (f a).filter (fun d => decide (d.can_be_picked_up_by = squad)) = [] := by
        rw [List.filter_eq_nil_iff]
        intro d hd
        simp only [decide_eq_true_eq]
        rw [hf a d hd]
        exact ha
      rw [h0, List.length_nil, Nat.zero_add]
      exact ih hnd2.2

/-- C23. Loot rarity bounds. For drop and loot coefficient tables of the declared
lengths, a `pow` with `pow(1, c) = 1`, a mob rarity below `rr_rarity_id_max`, any loot
array and any draws not above 1: the rolls of every squad finish with every table read in
bounds and store at most 4 pairs; every drop that `rr_component_mob_free` creates has a
rarity between the petal's `min_rarity` and the cap (so none is created when the cap is
below the minimum), where the cap is the mob's rarity, or one less from exotic on; and at
most 4 drops are created per squad. -/
theorem loot_rarity_bounds (coeff loot_coeff : List ℚ) (pow : ℚ → ℚ → ℚ)
    (squad_count golden : Nat) (mob : rr_component_mob) (arena : rr_mob_arena)
    (health : rr_component_health) (loot : Nat → Nat × ℚ) (seed : Nat → Nat → ℚ)
    (hcoeff : coeff.length = RR_DROP_RARITY_COEFFICIENTS.length)
    (hl : loot_coeff.length = RR_MOB_LOOT_RARITY_COEFFICIENTS.length)
    (hpow : ∀ c, pow 1 c = 1) (hr : mob.rarity < rr_rarity_id_max)
    (hseed : ∀ squad i, seed squad i ≤ 1) :
    (∀ squad, ∃ drops,
      mob_loot coeff loot_coeff pow mob.rarity loot (seed squad) = some drops ∧
      drops.length ≤ 4) ∧
    (∀ d ∈ rr_component_mob_free squad_count golden mob arena health
        (fun squad => (mob_loot coeff loot_coeff pow mob.rarity loot (seed squad)).getD []),
      RR_PETAL_DATA_min_rarity d.id ≤ d.rarity ∧ d.rarity ≤ loot_cap mob.rarity ∧
      (loot_cap mob.rarity = if mob.rarity ≥ rr_rarity_id_exotic then mob.rarity - 1
        else mob.rarity)) ∧
    (∀ squad, ((rr_component_mob_free squad_count golden mob arena health
        (fun squad => (mob_loot coeff loot_coeff pow mob.rarity loot (seed squad)).getD [])).filter
        (fun d => decide (d.can_be_picked_up_by = squad))).length ≤ 4) := by
  have hspec : ∀ squad, ∃ drops,
      mob_loot coeff loot_coeff pow mob.rarity loot (seed squad) = some drops ∧
      drops.length ≤ 4 ∧
      ∀ d ∈ drops, RR_PETAL_DATA_min_rarity d.1 ≤ d.2 ∧ d.2 ≤ loot_cap mob.rarity := by
    intro squad
    obtain ⟨drops, h1, h2, h3⟩ := mob_loot_from_spec coeff loot_coeff pow mob.rarity loot
      (seed squad) hcoeff hl hpow hr (hseed squad) 4 0
    exact ⟨drops, h1, h2, fun d hd => ⟨(h3 d hd).1, (h3 d hd).2.1⟩⟩
  have hf : ∀ s, ∀ d ∈ ((mob_loot coeff loot_coeff pow mob.rarity loot (seed s)).getD []).map
      (fun p => ({ id := p.1, rarity := p.2, can_be_picked_up_by := s } : rr_component_drop)),
      d.can_be_picked_up_by = s ∧ RR_PETAL_DATA_min_rarity d.id ≤ d.rarity ∧
        d.rarity ≤ loot_cap mob.rarity := by
    intro s d hd
    obtain ⟨p, hp, hpd⟩ := List.mem_map.mp hd
    obtain ⟨drops, h1, _, h3⟩ := hspec s
    rw [h1] at hp
    rw [← hpd]
    exact ⟨rfl, h3 p hp⟩
  have hlen : ∀ s, (((mob_loot coeff loot_coeff pow mob.rarity loot (seed s)).getD []).map
      (fun p => ({ id := p.1, rarity := p.2, can_be_picked_up_by := s } :
        rr_component_drop))).length ≤ 4 := by
    intro s
    obtain ⟨drops, h1, h2, _⟩ := hspec s
    rw [h1, List.length_map]
    exact h2
  refine ⟨fun squad => ?_, ?_, ?_⟩
  · obtain ⟨drops, h1, h2, _⟩ := hspec squad
    exact ⟨drops, h1, h2⟩
  · intro d hd
    unfold rr_component_mob_free at hd
    by_cases hps : mob.player_spawned = true
    · rw [if_pos hps] at hd
      exact absurd hd (List.not_mem_nil d)
    · rw [if_neg hps] at hd
      by_cases hnd : mob.no_drop = true
      · rw [if_pos hnd] at hd
        exact absurd hd (List.not_mem_nil d)
      · rw [if_neg hnd] at hd
        obtain ⟨s, _, hds⟩ := List.mem_flatMap.mp hd
        exact ⟨(hf s d hds).2.1, (hf s d hds).2.2, rfl⟩
  · intro squad
    unfold rr_component_mob_free
    by_cases hps : mob.player_spawned = true
    · rw [if_pos hps]
      exact Nat.zero_le _
    · rw [if_neg hps]
      by_cases hnd : mob.no_drop = true
      · rw [if_pos hnd]
        exact Nat.zero_le _
      · rw [if_neg hnd]
        exact drops_per_squad _ (fun s d hd => (hf s d hd).1) hlen squad _
          ((List.nodup_range squad_count).filter _)

/-- C23 on a rare T-rex with every draw at 0.99: the stinger drops as unusual, the egg as
rare and the meat not at all, within the bounds for a cap of 2. -/
theorem loot_rarity_bounds_witness :
    coeff_sample.length = RR_DROP_RARITY_COEFFICIENTS.length ∧
    mob_trex_rare.rarity < rr_rarity_id_max ∧
    mob_loot coeff_sample RR_MOB_LOOT_RARITY_COEFFICIENTS pow_sample mob_trex_rare.rarity
      loot_trex (fun _ => 99 / 100) = some [(4, 1), (9, 2)] ∧
    (∀ d ∈ rr_component_mob_free 2 21 mob_trex_rare no_arena (health_S6 0)
        (fun squad => (mob_loot coeff_sample RR_MOB_LOOT_RARITY_COEFFICIENTS pow_sample
          mob_trex_rare.rarity loot_trex ((fun _ _ => 99 / 100) squad)).getD []),
      RR_PETAL_DATA_min_rarity d.id ≤ d.rarity ∧ d.rarity ≤ 2) := by
  have h := loot_rarity_bounds coeff_sample RR_MOB_LOOT_RARITY_COEFFICIENTS pow_sample 2 21
    mob_trex_rare no_arena (health_S6 0) loot_trex (fun _ _ => 99 / 100) rfl rfl
    (fun c => if_pos rfl) (by decide) (fun _ _ => by norm_num)
  refine ⟨rfl, by decide, ?_, fun d hd => ⟨(h.2.1 d hd).1, (h.2.1 d hd).2.1⟩⟩
  simp [mob_loot, mob_loot_from, loot_roll, loot_loop, loot_end, loot_trex, loot_cap,
    mob_trex_rare, rr_rarity_id_exotic, coeff_sample, RR_MOB_LOOT_RARITY_COEFFICIENTS,
    pow_sample, RR_PETAL_DATA_min_rarity, RR_PETAL_DATA_min_rarity_column]
  norm_num

/-! ## Overload clamp -/

/-- The clamp stays within its bounds when they are ordered. -/
theorem rr_fclamp_bounds (v lo hi : ℚ) (h : lo ≤ hi) :
    lo ≤ rr_fclamp v lo hi ∧ rr_fclamp v lo hi ≤ hi := by
  unfold rr_fclamp
  split_ifs with h1 h2
  · exact ⟨le_refl _, h⟩
  · exact ⟨h, le_refl _⟩
  · exact ⟨not_lt.mp h1, not_lt.mp h2⟩

/-- A decayed value clamped to `[0, hi]` lies between 0 and the value before. -/
theorem rr_fclamp_decay (o d hi : ℚ) (ho : 0 ≤ o) (hd : 0 ≤ d) (hhi : 0 ≤ hi) :
    0 ≤ rr_fclamp (o - d) 0 hi ∧ rr_fclamp (o - d) 0 hi ≤ o := by
  unfold rr_fclamp
  split_ifs with h1 h2
  · exact ⟨le_refl _, ho⟩
  · exact ⟨by linarith, by linarith⟩
  · exact ⟨not_lt.mp h1, by linarith⟩

/-- The head of `tick_grid`: the local difficulty is clamped; a positive one bounds the
overload factor by 1.5 times itself, and otherwise the overload factor does not grow. -/
theorem tick_grid_overload_spec (grid : rr_maze_grid) (ho : 0 ≤ grid.overload_factor) :
    (tick_grid_overload grid).local_difficulty =
      rr_fclamp grid.local_difficulty (-(1 / 2)) PLAYER_COUNT_CAP ∧
    (tick_grid_overload grid).player_count = grid.player_count ∧
    (tick_grid_overload grid).grid_points = grid.grid_points ∧
    (tick_grid_overload grid).spawn_timer = grid.spawn_timer ∧
    (tick_grid_overload grid).value = grid.value ∧
    (tick_grid_overload grid).difficulty = grid.difficulty ∧
    0 ≤ (tick_grid_overload grid).overload_factor ∧
    (0 < (tick_grid_overload grid).local_difficulty →
      (tick_grid_overload grid).overload_factor ≤
        15 / 10 * (tick_grid_overload grid).local_difficulty) ∧
    ((tick_grid_overload grid).local_difficulty ≤ 0 →
      (tick_grid_overload grid).overload_factor ≤ grid.overload_factor) := by
  unfold tick_grid_overload
  by_cases h : 0 < rr_fclamp grid.local_difficulty (-(1 / 2)) PLAYER_COUNT_CAP
  · rw [if_pos h]
    have hb := rr_fclamp_bounds
      (grid.overload_factor +
        5 / 1000 * rr_fclamp grid.local_difficulty (-(1 / 2)) PLAYER_COUNT_CAP / 25)
      0 (15 / 10 * rr_fclamp grid.local_difficulty (-(1 / 2)) PLAYER_COUNT_CAP)
      (by linarith)
    exact ⟨rfl, rfl, rfl, rfl, rfl, rfl, hb.1, fun _ => hb.2,
      fun h0 => absurd h (not_lt.mpr h0)⟩
  · rw [if_neg h]
    have hb := rr_fclamp_decay grid.overload_factor (25 / 1000 / 25) grid.overload_factor ho
      (by norm_num) ho
    exact ⟨rfl, rfl, rfl, rfl, rfl, rfl, hb.1, fun h0 => absurd h0 h, fun _ => hb.2⟩

/-- Function `spawn_mob` changes only `grid_points` and `spawn_timer` of the cell. -/
theorem spawn_mob_keeps (inp : spawn_mob_inputs) (grid_x grid_y : Nat) (grid : rr_maze_grid) :
    (spawn_mob inp grid_x grid_y grid).1.local_difficulty = grid.local_difficulty ∧
    (spawn_mob inp grid_x grid_y grid).1.overload_factor = grid.overload_factor ∧
    (spawn_mob inp grid_x grid_y grid).1.player_count = grid.player_count ∧
    (spawn_mob inp grid_x grid_y grid).1.value = grid.value ∧
    (spawn_mob inp grid_x grid_y grid).1.difficulty = grid.difficulty := by
  unfold spawn_mob
  split_ifs
  · exact ⟨rfl, rfl, rfl, rfl, rfl⟩
  · split
    · exact ⟨rfl, rfl, rfl, rfl, rfl⟩
    · exact ⟨rfl, rfl, rfl, rfl, rfl⟩

/-- C21. Overload clamp, as the code has it. After `tick_grid` on a walkable cell whose
overload factor was not negative, the local difficulty is the counted one clamped to
`[-0.5, PLAYER_COUNT_CAP]` and the overload factor is not negative; when the clamped
local difficulty is positive the overload factor is at most 1.5 times it, and when it is
zero or negative the overload factor is at most what it was before the tick. -/
theorem overload_clamp (env : tick_maze_env) (grid_x grid_y : Nat) (grid : rr_maze_grid)
    (hw : grid_walkable grid = true) (ho : 0 ≤ grid.overload_factor) :
    (tick_grid env grid_x grid_y grid).grid.local_difficulty =
      rr_fclamp grid.local_difficulty (-(1 / 2)) PLAYER_COUNT_CAP ∧
    0 ≤ (tick_grid env grid_x grid_y grid).grid.overload_factor ∧
    (0 < (tick_grid env grid_x grid_y grid).grid.local_difficulty →
      (tick_grid env grid_x grid_y grid).grid.overload_factor ≤
        15 / 10 * (tick_grid env grid_x grid_y grid).grid.local_difficulty) ∧
    ((tick_grid env grid_x grid_y grid).grid.local_difficulty ≤ 0 →
      (tick_grid env grid_x grid_y grid).grid.overload_factor ≤ grid.overload_factor) := by
  have hs := tick_grid_overload_spec grid ho
  have hwalk : ¬ (grid.value = 0 ∨ grid.value &&& 8 ≠ 0) := by
    unfold grid_walkable at hw
    intro h
    rcases h with h | h
    · simp [h] at hw
    · simp [h] at hw
  unfold tick_grid
  rw [if_neg hwalk]
  by_cases h1 : get_max_points env.powf env.pvp (tick_grid_overload grid) ≤
      (tick_grid_overload grid).grid_points
  · rw [if_pos h1]
    exact ⟨hs.1, hs.2.2.2.2.2.2.1, hs.2.2.2.2.2.2.2.1, hs.2.2.2.2.2.2.2.2⟩
  · rw [if_neg h1]
    by_cases h2 : (tick_grid_overload grid).player_count = 0
    · rw [if_pos h2]
      have hd := rr_fclamp_decay (tick_grid_overload grid).overload_factor (25 / 1000 / 25) 15
        hs.2.2.2.2.2.2.1 (by norm_num) (by norm_num)
      refine ⟨hs.1, hd.1, fun h => ?_, fun h => ?_⟩
      · exact le_trans hd.2 (hs.2.2.2.2.2.2.2.1 h)
      · exact le_trans hd.2 (hs.2.2.2.2.2.2.2.2 h)
    · rw [if_neg h2]
      by_cases h3 : tick_grid_spawn_at env.powf env.pvp (tick_grid_overload grid) ≤
          (tick_grid_overload grid).spawn_timer
      · rw [if_pos h3]
        have hk := spawn_mob_keeps (env.spawn grid_x grid_y) grid_x grid_y
          (tick_grid_overload grid)
        dsimp only
        rw [hk.1, hk.2.1]
        exact ⟨hs.1, hs.2.2.2.2.2.2.1, hs.2.2.2.2.2.2.2.1, hs.2.2.2.2.2.2.2.2⟩
      · rw [if_neg h3]
        exact ⟨hs.1, hs.2.2.2.2.2.2.1, hs.2.2.2.2.2.2.2.1, hs.2.2.2.2.2.2.2.2⟩

/-- C21 on the cell with overload factor 1 and a counted local difficulty of -1: the
local difficulty becomes -0.5 and the overload factor decays to 0.999. -/
theorem overload_clamp_witness :
    grid_walkable grid_overloaded = true ∧ 0 ≤ grid_overloaded.overload_factor ∧
    (tick_grid maze_env_sample 0 0 grid_overloaded).grid.local_difficulty = -(1 / 2) ∧
    (tick_grid maze_env_sample 0 0 grid_overloaded).grid.overload_factor ≤ 1 := by
  have h := overload_clamp maze_env_sample 0 0 grid_overloaded (by decide)
    (by norm_num [grid_overloaded])
  have hld : (tick_grid maze_env_sample 0 0 grid_overloaded).grid.local_difficulty =
      -(1 / 2) := by
    rw [h.1]
    norm_num [rr_fclamp, grid_overloaded, PLAYER_COUNT_CAP]
  refine ⟨by decide, by norm_num [grid_overloaded], hld, ?_⟩
  have h4 := h.2.2.2 (by rw [hld]; norm_num)
  exact h4

/-- C21, the bound of the claim: on the cell with overload factor 1 and a counted local
difficulty of -1, the overload factor after `tick_grid` is 0.999, above 1.5 times the
local difficulty, which is -0.75; and on a cell that no flower is near, where the reset
of `tick_maze` leaves a local difficulty of 0, it is 0.998, above 0. -/
theorem overload_clamp_counterexample :
    grid_walkable grid_overloaded = true ∧ 0 ≤ grid_overloaded.overload_factor ∧
    (tick_grid maze_env_sample 0 0 grid_overloaded).grid.overload_factor = 999 / 1000 ∧
    ¬ ((tick_grid maze_env_sample 0 0 grid_overloaded).grid.overload_factor ≤
      15 / 10 * (tick_grid maze_env_sample 0 0 grid_overloaded).grid.local_difficulty) ∧
    (tick_grid maze_env_sample 0 0 (tick_maze_reset grid_overloaded)).grid.overload_factor =
      998 / 1000 ∧
    ¬ ((tick_grid maze_env_sample 0 0 (tick_maze_reset grid_overloaded)).grid.overload_factor ≤
      15 / 10 *
        (tick_grid maze_env_sample 0 0 (tick_maze_reset grid_overloaded)).grid.local_difficulty)
    := by
  have h1 : (tick_grid maze_env_sample 0 0 grid_overloaded).grid.overload_factor =
      999 / 1000 := by
    norm_num [tick_grid, tick_grid_overload, get_max_points, tick_grid_spawn_at, rr_fclamp,
      grid_overloaded, maze_env_sample, PLAYER_COUNT_CAP]
  have h2 : (tick_grid maze_env_sample 0 0 grid_overloaded).grid.local_difficulty =
      -(1 / 2) := by
    norm_num [tick_grid, tick_grid_overload, get_max_points, tick_grid_spawn_at, rr_fclamp,
      grid_overloaded, maze_env_sample, PLAYER_COUNT_CAP]
  have h3 : (tick_grid maze_env_sample 0 0
      (tick_maze_reset grid_overloaded)).grid.overload_factor = 998 / 1000 := by
    norm_num [tick_grid, tick_grid_overload, get_max_points, tick_grid_spawn_at, rr_fclamp,
      grid_overloaded, maze_env_sample, PLAYER_COUNT_CAP, tick_maze_reset]
  have h4 : (tick_grid maze_env_sample 0 0
      (tick_maze_reset grid_overloaded)).grid.local_difficulty = 0 := by
    norm_num [tick_grid, tick_grid_overload, get_max_points, tick_grid_spawn_at, rr_fclamp,
      grid_overloaded, maze_env_sample, PLAYER_COUNT_CAP, tick_maze_reset]
  refine ⟨by decide, by norm_num [grid_overloaded], h1, ?_, h3, ?_⟩
  · rw [h1, h2]
    norm_num
  · rw [h3, h4]
    norm_num

/-! ## Spawn gating -/

/-- Function `tick_grid` either makes no call of `spawn_mob` and returns 0, or makes exactly
one, for its own cell and under the gate, and returns 1. -/
theorem tick_grid_calls (env : tick_maze_env) (x y : Nat) (grid : rr_maze_grid) :
    ((tick_grid env x y grid).calls = [] ∧ (tick_grid env x y grid).ret = 0) ∨
    ((tick_grid env x y grid).calls =
        [{ grid_x := x, grid_y := y,
           mob := (spawn_mob (env.spawn x y) x y (tick_grid_overload grid)).2 }] ∧
      (tick_grid env x y grid).ret = 1 ∧ spawn_gate env grid ∧
      (tick_grid env x y grid).grid =
        (spawn_mob (env.spawn x y) x y (tick_grid_overload grid)).1) := by
  unfold tick_grid
  by_cases h0 : grid.value = 0 ∨ grid.value &&& 8 ≠ 0
  · rw [if_pos h0]
    exact Or.inl ⟨rfl, rfl⟩
  · rw [if_neg h0]
    by_cases h1 : get_max_points env.powf env.pvp (tick_grid_overload grid) ≤
        (tick_grid_overload grid).grid_points
    · rw [if_pos h1]
      exact Or.inl ⟨rfl, rfl⟩
    · rw [if_neg h1]
      by_cases h2 : (tick_grid_overload grid).player_count = 0
      · rw [if_pos h2]
        exact Or.inl ⟨rfl, rfl⟩
      · rw [if_neg h2]
        by_cases h3 : tick_grid_spawn_at env.powf env.pvp (tick_grid_overload grid) ≤
            (tick_grid_overload grid).spawn_timer
        · rw [if_pos h3]
          refine Or.inr ⟨rfl, rfl, ⟨?_, ?_, ?_, ?_⟩, rfl⟩
          · unfold grid_walkable
            have hv : grid.value ≠ 0 := fun h => h0 (Or.inl h)
            have h8 : ¬ grid.value &&& 8 ≠ 0 := fun h => h0 (Or.inr h)
            simp [hv, h8]
          · have hp : (tick_grid_overload grid).player_count = grid.player_count := by
              unfold tick_grid_overload
              split_ifs <;> rfl
            rw [hp] at h2
            exact Nat.pos_of_ne_zero h2
          · have hp : (tick_grid_overload grid).grid_points = grid.grid_points := by
              unfold tick_grid_overload
              split_ifs <;> rfl
            rw [hp] at h1
            exact not_le.mp h1
          · have hp : (tick_grid_overload grid).spawn_timer = grid.spawn_timer := by
              unfold tick_grid_overload
              split_ifs <;> rfl
            rw [hp] at h3
            exact h3
        · rw [if_neg h3]
          exact Or.inl ⟨rfl, rfl⟩

/-- A cell other than the one assigned keeps its value. -/
theorem set_grid_other (maze : Nat → Nat → rr_maze_grid) (x y : Nat) (grid : rr_maze_grid)
    (x' y' : Nat) (h : (x', y') ≠ (x, y)) : set_grid maze x y grid x' y' = maze x' y' := by
  unfold set_grid
  rw [if_neg]
  rintro ⟨h1, h2⟩
  exact h (by rw [h1, h2])

/-- One call of `tick_grid` on the state of the maze works on its own cell only. -/
theorem tick_grid_at_ok (env : tick_maze_env) (x y : Nat) :
    tick_cells_ok env [(x, y)] (tick_grid_at env x y) := by
  intro st
  refine ⟨(tick_grid env x y (st.maze x y)).calls, rfl, ?_, ?_, ?_⟩
  · rcases tick_grid_calls env x y (st.maze x y) with h | h
    · rw [h.1]
      exact Nat.zero_le _
    · rw [h.1]
      exact le_refl _
  · intro c hc
    rcases tick_grid_calls env x y (st.maze x y) with h | h
    · rw [h.1] at hc
      exact absurd hc (List.not_mem_nil c)
    · rw [h.1] at hc
      rw [List.mem_singleton.mp hc]
      exact ⟨List.mem_singleton.mpr rfl, h.2.2.1, rfl⟩
  · intro x' y' h
    exact set_grid_other st.maze x y _ x' y' (fun he => h (List.mem_singleton.mpr he))

/-- The pattern `if (tick_grid(..)) continue;` followed by a part that works on other
cells works on the cell and those cells. -/
theorem tick_grid_then_ok (env : tick_maze_env) (x y : Nat) (cells : List (Nat × Nat))
    (rest : tick_maze_state → tick_maze_state) (hrest : tick_cells_ok env cells rest)
    (hxy : (x, y) ∉ cells) :
    tick_cells_ok env ((x, y) :: cells) (tick_grid_then env x y rest) := by
  intro st
  obtain ⟨new1, h1, h2, h3, h4⟩ := tick_grid_at_ok env x y st
  unfold tick_grid_then
  by_cases hr : (tick_grid env x y (st.maze x y)).ret ≠ 0
  · rw [if_pos hr]
    refine ⟨new1, h1, h2, fun c hc => ⟨?_, (h3 c hc).2⟩,
      fun x' y' h => h4 x' y' (fun he => h ?_)⟩
    · rw [List.mem_singleton.mp (h3 c hc).1]
      exact List.mem_cons_self _ _
    · rw [List.mem_singleton.mp he]
      exact List.mem_cons_self _ _
  · rw [if_neg hr]
    have hnone : (tick_grid env x y (st.maze x y)).calls = [] := by
      rcases tick_grid_calls env x y (st.maze x y) with h | h
      · exact h.1
      · exact absurd (by rw [h.2.1]; decide) hr
    obtain ⟨new2, g1, g2, g3, g4⟩ := hrest (tick_grid_at env x y st)
    have hcalls : (tick_grid_at env x y st).calls = st.calls := by
      unfold tick_grid_at
      dsimp only
      rw [hnone, List.append_nil]
    refine ⟨new2, by rw [g1, hcalls], g2, fun c hc => ?_, fun x' y' h => ?_⟩
    · obtain ⟨hm, hgate, hmob⟩ := g3 c hc
      have hne : (c.grid_x, c.grid_y) ≠ (x, y) := fun he => hxy (he ▸ hm)
      have hcell : (tick_grid_at env x y st).maze c.grid_x c.grid_y =
          st.maze c.grid_x c.grid_y := set_grid_other st.maze x y _ _ _ hne
      rw [hcell] at hgate hmob
      exact ⟨List.mem_cons_of_mem _ hm, hgate, hmob⟩
    · have hx1 : (x', y') ≠ (x, y) := fun he => h (he ▸ List.mem_cons_self _ _)
      have hx2 : (x', y') ∉ cells := fun he => h (List.mem_cons_of_mem _ he)
      rw [g4 x' y' hx2]
      exact set_grid_other st.maze x y _ x' y' hx1

/-- The four cells of the block with north-west cell `b` are the cells whose block is
`b`. -/
theorem block_cells_iff (b : Nat × Nat) (hb : b.1 % 2 = 0 ∧ b.2 % 2 = 0) (x y : Nat) :
    (x, y) ∈ [(b.1, b.2), (b.1 + 1, b.2), (b.1, b.2 + 1), (b.1 + 1, b.2 + 1)] ↔
      tick_maze_block_of x y = b := by
  obtain ⟨b1, b2⟩ := b
  unfold tick_maze_block_of
  simp only [List.mem_cons, Prod.mk.injEq, List.mem_singleton, List.not_mem_nil, or_false]
  dsimp only at hb
  omega

/-- The body of the loop of `tick_maze` works on the four cells of its block, and does
nothing at all on a block that is full. -/
theorem tick_maze_block_ok (env : tick_maze_env) (grid_x grid_y : Nat) :
    tick_cells_ok env
      [(grid_x, grid_y), (grid_x + 1, grid_y), (grid_x, grid_y + 1), (grid_x + 1, grid_y + 1)]
      (tick_maze_block env grid_x grid_y) ∧
    ∀ st, tick_maze_block_full env st.maze grid_x grid_y →
      tick_maze_block env grid_x grid_y st = st := by
  have hchain : tick_cells_ok env
      [(grid_x, grid_y), (grid_x + 1, grid_y), (grid_x, grid_y + 1), (grid_x + 1, grid_y + 1)]
      (tick_grid_then env grid_x grid_y
        (tick_grid_then env (grid_x + 1) grid_y
          (tick_grid_then env grid_x (grid_y + 1)
            (tick_grid_at env (grid_x + 1) (grid_y + 1))))) := by
    apply tick_grid_then_ok
    · apply tick_grid_then_ok
      · apply tick_grid_then_ok
        · exact tick_grid_at_ok env (grid_x + 1) (grid_y + 1)
        · simp
      · simp
    · simp
  constructor
  · intro st
    unfold tick_maze_block
    by_cases h : tick_maze_block_full env st.maze grid_x grid_y
    · rw [if_pos h]
      exact ⟨[], (List.append_nil _).symm, Nat.zero_le _,
        fun c hc => absurd hc (List.not_mem_nil c), fun _ _ _ => rfl⟩
    · rw [if_neg h]
      exact hchain st
  · intro st h
    unfold tick_maze_block
    rw [if_pos h]

/-- The test for a full block reads the four cells of the block only. -/
theorem tick_maze_block_full_congr (env : tick_maze_env) (m1 m2 : Nat → Nat → rr_maze_grid)
    (b : Nat × Nat) (hb : b.1 % 2 = 0 ∧ b.2 % 2 = 0)
    (h : ∀ x y, tick_maze_block_of x y = b → m1 x y = m2 x y) :
    tick_maze_block_full env m1 b.1 b.2 → tick_maze_block_full env m2 b.1 b.2 := by
  have hc := fun x y => (block_cells_iff b hb x y).mp
  have h1 := h b.1 b.2 (hc _ _ (by simp))
  have h2 := h (b.1 + 1) b.2 (hc _ _ (by simp))
  have h3 := h b.1 (b.2 + 1) (hc _ _ (by simp))
  have h4 := h (b.1 + 1) (b.2 + 1) (hc _ _ (by simp))
  unfold tick_maze_block_full
  rw [h1, h2, h3, h4]
  exact id

/-- The loops of `tick_maze` over a list of distinct blocks: every call of `spawn_mob`
logged is for a cell of one of the blocks, as that cell was at the start, and under the
gate; at most one call is logged per block; cells outside the blocks are left as they
were; and a block that is full at the start is left as it was, without a call. -/
theorem tick_maze_fold (env : tick_maze_env) :
    ∀ l : List (Nat × Nat), l.Nodup → (∀ b ∈ l, b.1 % 2 = 0 ∧ b.2 % 2 = 0) →
    ∀ st : tick_maze_state, ∃ new : List spawn_mob_call,
      (l.foldl (fun s b => tick_maze_block env b.1 b.2 s) st).calls = st.calls ++ new ∧
      (∀ c ∈ new, tick_maze_block_of c.grid_x c.grid_y ∈ l ∧ spawn_call_ok env st.maze c) ∧
      (∀ b, (new.filter (fun c =>
        decide (tick_maze_block_of c.grid_x c.grid_y = b))).length ≤ 1) ∧
      (∀ x y, tick_maze_block_of x y ∉ l →
        (l.foldl (fun s b => tick_maze_block env b.1 b.2 s) st).maze x y = st.maze x y) ∧
      (∀ b ∈ l, tick_maze_block_full env st.maze b.1 b.2 →
        (∀ x y, tick_maze_block_of x y = b →
          (l.foldl (fun s b => tick_maze_block env b.1 b.2 s) st).maze x y = st.maze x y) ∧
        ∀ c ∈ new, tick_maze_block_of c.grid_x c.grid_y ≠ b) := by
  intro l
  induction l with
  | nil =>
    intro _ _ st
    exact ⟨[], (List.append_nil _).symm, fun c hc => absurd hc (List.not_mem_nil c),
      fun _ => Nat.zero_le _, fun _ _ _ => rfl, fun b hb => absurd hb (List.not_mem_nil b)⟩
  | cons b t ih =>
    intro hnd heven st
    have hnd2 := List.nodup_cons.mp hnd
    have hbe := heven b (List.mem_cons_self _ _)
    obtain ⟨hok, hfull⟩ := tick_maze_block_ok env b.1 b.2
    obtain ⟨new1, a1, a2, a3, a4⟩ := hok st
    obtain ⟨new2, c1, c2, c3, c4, c5⟩ := ih hnd2.2
      (fun b' hb' => heven b' (List.mem_cons_of_mem _ hb')) (tick_maze_block env b.1 b.2 st)
    have hblock1 : ∀ c ∈ new1, tick_maze_block_of c.grid_x c.grid_y = b :=
      fun c hc => (block_cells_iff b hbe _ _).mp (a3 c hc).1
    have hkeep : ∀ x y, tick_maze_block_of x y ≠ b →
        (tick_maze_block env b.1 b.2 st).maze x y = st.maze x y :=
      fun x y h => a4 x y (fun hm => h ((block_cells_iff b hbe x y).mp hm))
    have hblock2 : ∀ c ∈ new2, tick_maze_block_of c.grid_x c.grid_y ≠ b :=
      fun c hc he => hnd2.1 (he ▸ (c2 c hc).1)
    rw [List.foldl_cons]
    refine ⟨new1 ++ new2, ?_, ?_, ?_, ?_, ?_⟩
    · rw [c1, a1, List.append_assoc]
    · intro c hc
      rcases List.mem_append.mp hc with h | h
      · exact ⟨by rw [hblock1 c h]; exact List.mem_cons_self _ _, (a3 c h).2⟩
      · refine ⟨List.mem_cons_of_mem _ (c2 c h).1, ?_⟩
        have hcell := hkeep c.grid_x c.grid_y (hblock2 c h)
        have hcok := (c2 c h).2
        unfold spawn_call_ok at hcok ⊢
        rw [hcell] at hcok
        exact hcok
    · intro b'
      rw [List.filter_append, List.length_append]
      by_cases hb' : b' = b
      · have h0 : new2.filter (fun c =>
            decide (tick_maze_block_of c.grid_x c.grid_y = b')) = [] := by
          rw [List.filter_eq_nil_iff]
          intro c hc
          simp only [decide_eq_true_eq]
          rw [hb']
          exact hblock2 c hc
        have := List.length_filter_le
          (fun c => decide (tick_maze_block_of c.grid_x c.grid_y = b')) new1
        rw [h0, List.length_nil]
        omega
      · have h0 : new1.filter (fun c =>
            decide (tick_maze_block_of c.grid_x c.grid_y = b')) = [] := by
          rw [List.filter_eq_nil_iff]
          intro c hc
          simp only [decide_eq_true_eq]
          rw [hblock1 c hc]
          exact fun h => hb' h.symm
        rw [h0, List.length_nil, Nat.zero_add]
        exact c3 b'
    · intro x y h
      have h1 : tick_maze_block_of x y ≠ b := fun he => h (he ▸ List.mem_cons_self _ _)
      have h2 : tick_maze_block_of x y ∉ t := fun he => h (List.mem_cons_of_mem _ he)
      rw [c4 x y h2]
      exact hkeep x y h1
    · intro b' hb' hf
      rcases List.mem_cons.mp hb' with h | h
      · rw [h] at hf
        have hst := hfull st hf
        have hnew1 : new1 = [] := by
          rw [hst] at a1
          exact List.self_eq_append_right.mp a1
        refine ⟨fun x y hxy => ?_, fun c hc => ?_⟩
        · rw [c4 x y (by rw [hxy, h]; exact hnd2.1), hst]
        · rcases List.mem_append.mp hc with h1 | h1
          · rw [hnew1] at h1
            exact absurd h1 (List.not_mem_nil c)
          · rw [h]
            exact hblock2 c h1
      · have hne : b' ≠ b := fun he => hnd2.1 (he ▸ h)
        have hbe' := heven b' hb'
        have hf2 : tick_maze_block_full env (tick_maze_block env b.1 b.2 st).maze b'.1 b'.2 :=
          tick_maze_block_full_congr env st.maze _ b' hbe'
            (fun x y hxy => (hkeep x y (by rw [hxy]; exact hne)).symm) hf
        obtain ⟨d1, d2⟩ := c5 b' h hf2
        refine ⟨fun x y hxy => ?_, fun c hc => ?_⟩
        · rw [d1 x y hxy]
          exact hkeep x y (by rw [hxy]; exact hne)
        · rcases List.mem_append.mp hc with h1 | h1
          · rw [hblock1 c h1]
            exact fun he => hne he.symm
          · exact d2 c h1

/-- The blocks visited by `tick_maze` are distinct and have even coordinates. -/
theorem tick_maze_blocks_spec (maze_dim : Nat) :
    (tick_maze_blocks maze_dim).Nodup ∧
    (∀ b ∈ tick_maze_blocks maze_dim, b.1 % 2 = 0 ∧ b.2 % 2 = 0) ∧
    (∀ i j, i < (maze_dim + 1) / 2 → j < (maze_dim + 1) / 2 →
      (2 * i, 2 * j) ∈ tick_maze_blocks maze_dim) := by
  unfold tick_maze_blocks
  refine ⟨?_, ?_, ?_⟩
  · rw [List.nodup_flatMap]
    constructor
    · intro i _
      apply List.Nodup.map
      · intro a b h
        simp only [Prod.mk.injEq] at h
        omega
      · exact List.nodup_range _
    · refine List.Pairwise.imp ?_ (List.nodup_range _)
      intro a b hab
      intro p hp1 hp2
      obtain ⟨j1, _, h1⟩ := List.mem_map.mp hp1
      obtain ⟨j2, _, h2⟩ := List.mem_map.mp hp2
      rw [← h2] at h1
      simp only [Prod.mk.injEq] at h1
      omega
  · intro b hb
    obtain ⟨i, _, hi⟩ := List.mem_flatMap.mp hb
    obtain ⟨j, _, hj⟩ := List.mem_map.mp hi
    rw [← hj]
    exact ⟨Nat.mul_mod_right 2 i, Nat.mul_mod_right 2 j⟩
  · intro i j hi hj
    exact List.mem_flatMap.mpr ⟨i, List.mem_range.mpr hi,
      List.mem_map.mpr ⟨j, List.mem_range.mpr hj, rfl⟩⟩

/-- Function `spawn_mob` allocates at most one mob; with a mob allocated the cell gets the
mob's difficulty coefficient added to `grid_points` and `spawn_timer` set to 0, the mob's
zone being the cell; with none the cell is left as it was. -/
theorem spawn_mob_spec (inp : spawn_mob_inputs) (grid_x grid_y : Nat) (grid : rr_maze_grid) :
    ((spawn_mob inp grid_x grid_y grid).2 = none ∧ (spawn_mob inp grid_x grid_y grid).1 = grid) ∨
    (∃ mob, (spawn_mob inp grid_x grid_y grid).2 = some mob ∧
      mob.zone_x = grid_x ∧ mob.zone_y = grid_y ∧
      (spawn_mob inp grid_x grid_y grid).1 =
        { grid with
          grid_points := grid.grid_points + (RR_MOB_DIFFICULTY_COEFFICIENTS mob.id : ℚ)
          spawn_timer := 0 }) := by
  have hzone : ∀ fuel n mob id rarity,
      spawn_mob_attempts inp grid_x grid_y id rarity fuel n = some mob →
      mob.zone_x = grid_x ∧ mob.zone_y = grid_y := by
    intro fuel
    induction fuel with
    | zero =>
      intro n mob id rarity h
      rw [spawn_mob_attempts] at h
      exact Option.noConfusion h
    | succ fuel ih =>
      intro n mob id rarity h
      rw [spawn_mob_attempts] at h
      split_ifs at h with hc
      · exact ih _ _ _ _ h
      · rw [← Option.some.inj h]
        exact ⟨rfl, rfl⟩
  unfold spawn_mob
  split_ifs with h0
  · exact Or.inl ⟨rfl, rfl⟩
  · cases hm : spawn_mob_attempts inp grid_x grid_y (spawn_mob_id inp)
        (inp.get_spawn_rarity (grid.difficulty + grid.local_difficulty * 0)) 10 0 with
    | none => exact Or.inl ⟨rfl, rfl⟩
    | some mob =>
      exact Or.inr ⟨mob, rfl, (hzone _ _ _ _ _ hm).1, (hzone _ _ _ _ _ hm).2, rfl⟩

/-- C25. Spawn gating. In the spawning loops of `tick_maze`, every call of `spawn_mob` is
for a cell that, as it was at the start of the loops, is walkable, has `player_count > 0`,
has `grid_points` below its `max_points` and has `spawn_timer >= spawn_at`, and the call's
mob is the one `spawn_mob` allocates on that cell; at most one call is made per 2x2
block; a block whose summed `grid_points` exceed the sum of its four `max_points` is
left as it was, without a call; and a call of `spawn_mob` allocates at most one mob, adds
the coefficient of an allocated mob to the cell's `grid_points` and sets its
`spawn_timer` to 0, and otherwise leaves the cell as it was. -/
theorem spawn_gating (env : tick_maze_env) (maze_dim : Nat) (maze : Nat → Nat → rr_maze_grid) :
    (∀ c ∈ (tick_maze env maze_dim { maze := maze, calls := [] }).calls,
      grid_walkable (maze c.grid_x c.grid_y) = true ∧
      0 < (maze c.grid_x c.grid_y).player_count ∧
      (maze c.grid_x c.grid_y).grid_points <
        get_max_points env.powf env.pvp (tick_grid_overload (maze c.grid_x c.grid_y)) ∧
      tick_grid_spawn_at env.powf env.pvp (tick_grid_overload (maze c.grid_x c.grid_y)) ≤
        (maze c.grid_x c.grid_y).spawn_timer ∧
      c.mob = (spawn_mob (env.spawn c.grid_x c.grid_y) c.grid_x c.grid_y
        (tick_grid_overload (maze c.grid_x c.grid_y))).2) ∧
    (∀ b, ((tick_maze env maze_dim { maze := maze, calls := [] }).calls.filter
      (fun c => decide (tick_maze_block_of c.grid_x c.grid_y = b))).length ≤ 1) ∧
    (∀ i j, i < (maze_dim + 1) / 2 → j < (maze_dim + 1) / 2 →
      tick_maze_block_full env maze (2 * i) (2 * j) →
      (∀ x y, tick_maze_block_of x y = (2 * i, 2 * j) →
        (tick_maze env maze_dim { maze := maze, calls := [] }).maze x y = maze x y) ∧
      ∀ c ∈ (tick_maze env maze_dim { maze := maze, calls := [] }).calls,
        tick_maze_block_of c.grid_x c.grid_y ≠ (2 * i, 2 * j)) ∧
    (∀ (inp : spawn_mob_inputs) (grid_x grid_y : Nat) (grid : rr_maze_grid),
      ((spawn_mob inp grid_x grid_y grid).2 = none ∧
        (spawn_mob inp grid_x grid_y grid).1 = grid) ∨
      (∃ mob, (spawn_mob inp grid_x grid_y grid).2 = some mob ∧
        (spawn_mob inp grid_x grid_y grid).1 =
          { grid with
            grid_points := grid.grid_points + (RR_MOB_DIFFICULTY_COEFFICIENTS mob.id : ℚ)
            spawn_timer := 0 })) := by
  obtain ⟨hnd, heven, hmem⟩ := tick_maze_blocks_spec maze_dim
  obtain ⟨new, h1, h2, h3, _, h5⟩ := tick_maze_fold env (tick_maze_blocks maze_dim) hnd heven
    { maze := maze, calls := [] }
  have hcalls : (tick_maze env maze_dim { maze := maze, calls := [] }).calls = new := by
    unfold tick_maze
    rw [h1]
    rfl
  rw [hcalls]
  refine ⟨fun c hc => ?_, h3, fun i j hi hj hf => ?_, fun inp grid_x grid_y grid => ?_⟩
  · obtain ⟨hg, hm⟩ := (h2 c hc).2
    exact ⟨hg.1, hg.2.1, hg.2.2.1, hg.2.2.2, hm⟩
  · exact h5 (2 * i, 2 * j) (hmem i j hi hj) hf
  · rcases spawn_mob_spec inp grid_x grid_y grid with h | ⟨mob, hm1, _, _, hm2⟩
    · exact Or.inl h
    · exact Or.inr ⟨mob, hm1, hm2⟩

/-- C25 on two 2x2 mazes. In the first the walkable cell passes the gate: one call of
`spawn_mob` is made, which allocates a T-rex, and the cell then has 4 grid points and a
spawn timer of 0. In the second the block is full: no call is made and the cell keeps
its spawn timer. -/
theorem spawn_gating_witness :
    (tick_maze maze_env_sample 2 { maze := maze_one, calls := [] }).calls.length = 1 ∧
    (∀ c ∈ (tick_maze maze_env_sample 2 { maze := maze_one, calls := [] }).calls,
      0 < (maze_one c.grid_x c.grid_y).player_count) ∧
    ((tick_maze maze_env_sample 2 { maze := maze_one, calls := [] }).maze 0 0).grid_points
      = 4 ∧
    0 < (2 + 1) / 2 ∧ tick_maze_block_full maze_env_sample maze_full (2 * 0) (2 * 0) ∧
    (tick_maze maze_env_sample 2 { maze := maze_full, calls := [] }).maze 0 0 =
      maze_full 0 0 := by
  have h := spawn_gating maze_env_sample 2 maze_one
  have h' := spawn_gating maze_env_sample 2 maze_full
  have hfull : tick_maze_block_full maze_env_sample maze_full (2 * 0) (2 * 0) := by
    norm_num [tick_maze_block_full, maze_full, get_max_points, maze_env_sample]
  have hgrid : tick_grid maze_env_sample 0 0 (maze_one 0 0) =
      { grid := (spawn_mob (maze_env_sample.spawn 0 0) 0 0
          (tick_grid_overload (maze_one 0 0))).1
        calls := [{ grid_x := 0, grid_y := 0,
                    mob := (spawn_mob (maze_env_sample.spawn 0 0) 0 0
                      (tick_grid_overload (maze_one 0 0))).2 }]
        ret := 1 } := by
    unfold tick_grid
    rw [if_neg (by decide), if_neg, if_neg, if_pos]
    · norm_num [tick_grid_spawn_at, get_max_points, tick_grid_overload, rr_fclamp, maze_one,
        maze_env_sample, PLAYER_COUNT_CAP]
    · norm_num [tick_grid_overload, rr_fclamp, maze_one, PLAYER_COUNT_CAP]
    · norm_num [get_max_points, tick_grid_overload, rr_fclamp, maze_one, maze_env_sample,
        PLAYER_COUNT_CAP]
  have hnot : ¬ tick_maze_block_full maze_env_sample maze_one 0 0 := by
    norm_num [tick_maze_block_full, maze_one, get_max_points, maze_env_sample]
  have hrun : tick_maze maze_env_sample 2 { maze := maze_one, calls := [] } =
      tick_grid_at maze_env_sample 0 0 { maze := maze_one, calls := [] } := by
    have hb : tick_maze_blocks 2 = [(0, 0)] := by decide
    unfold tick_maze
    rw [hb, List.foldl_cons, List.foldl_nil]
    unfold tick_maze_block
    rw [if_neg hnot]
    unfold tick_grid_then
    rw [if_pos (by rw [hgrid]; decide)]
  have hrun2 : tick_grid_at maze_env_sample 0 0 { maze := maze_one, calls := [] } =
      { maze := set_grid maze_one 0 0 (spawn_mob (maze_env_sample.spawn 0 0) 0 0
          (tick_grid_overload (maze_one 0 0))).1
        calls := [{ grid_x := 0, grid_y := 0,
                    mob := (spawn_mob (maze_env_sample.spawn 0 0) 0 0
                      (tick_grid_overload (maze_one 0 0))).2 }] } := by
    unfold tick_grid_at
    rw [hgrid]
    rfl
  rw [hrun2] at hrun
  refine ⟨?_, fun c hc => (h.1 c hc).2.1, ?_, by decide, hfull,
    (h'.2.2.1 0 0 (by decide) (by decide) hfull).1 0 0 rfl⟩
  · rw [hrun]
    rfl
  · rw [hrun]
    show (spawn_mob (maze_env_sample.spawn 0 0) 0 0
      (tick_grid_overload (maze_one 0 0))).1.grid_points = 4
    norm_num [spawn_mob, spawn_mob_attempts, spawn_mob_id, maze_env_sample,
      spawn_inputs_sample, tick_grid_overload, rr_fclamp, maze_one, PLAYER_COUNT_CAP,
      RR_MOB_DIFFICULTY_COEFFICIENTS]

/-! ## Maze expansion -/

/-- Inside a maze that fits 32-bit indices, the index of a cell does not wrap. -/
theorem maze_grid_index_eq (size x y : Nat) (hs : size * size < 2 ^ 32) (hx : x < size)
    (hy : y < size) : maze_grid_index size x y = y * size + x := by
  unfold maze_grid_index
  apply Nat.mod_eq_of_lt
  have h1 : y * size ≤ (size - 1) * size := Nat.mul_le_mul_right _ (by omega)
  have h2 : (size - 1) * size + size = size * size := by
    have : size - 1 + 1 = size := by omega
    calc (size - 1) * size + size = (size - 1 + 1) * size := by ring
      _ = size * size := by rw [this]
  omega

/-- Distinct cells of the maze have distinct indices. -/
theorem maze_grid_index_inj (size x y x' y' : Nat) (hs : size * size < 2 ^ 32)
    (hx : x < size) (hy : y < size) (hx' : x' < size) (hy' : y' < size)
    (h : maze_grid_index size x y = maze_grid_index size x' y') : x = x' ∧ y = y' := by
  rw [maze_grid_index_eq size x y hs hx hy, maze_grid_index_eq size x' y' hs hx' hy'] at h
  have h1 : (y * size + x) % size = (y' * size + x') % size := by rw [h]
  have h2 : (y * size + x) / size = (y' * size + x') / size := by rw [h]
  have hpos : 0 < size := by omega
  rw [Nat.mul_add_mod_of_lt hx, Nat.mul_add_mod_of_lt hx'] at h1
  rw [Nat.add_comm, Nat.add_mul_div_right _ _ hpos, Nat.div_eq_of_lt hx, Nat.zero_add,
    Nat.add_comm, Nat.add_mul_div_right _ _ hpos, Nat.div_eq_of_lt hx', Nat.zero_add] at h2
  exact ⟨h1, h2⟩

/-- The tile read by `offset(0, 0)` is the template tile `(x, y)`, in a maze of even
side. -/
theorem maze_offset_self (n : Nat) (template : Nat → Nat) (x y : Nat)
    (hs : 2 * n * (2 * n) < 2 ^ 32) (hx : x < n) (hy : y < n) :
    maze_offset (2 * n) template x y 0 0 = template (y * n + x) := by
  unfold maze_offset
  have hhalf : 2 * n / 2 = n := by omega
  rw [hhalf, if_neg (by omega)]
  have h1 : ((y : Int) + 0).toNat = y := by simp
  have h2 : ((x : Int) + 0).toNat = x := by simp
  rw [h1, h2]
  have h3 : y * n < n * n := Nat.mul_lt_mul_of_pos_right hy (by omega)
  have h4 : 2 * n * (2 * n) = 4 * (n * n) := by ring
  have h5 : y * (2 * n) = 2 * (y * n) := by ring
  have h6 : y * (2 * n) % 2 ^ 32 = 2 * (y * n) := by
    rw [h5]
    apply Nat.mod_eq_of_lt
    omega
  rw [h6, Nat.mul_div_cancel_left _ (by decide : 0 < 2)]
  congr 1
  apply Nat.mod_eq_of_lt
  have : x < n * n ∨ n * n ≤ x := Nat.lt_or_ge _ _
  have hn : n ≤ n * n := Nat.le_mul_of_pos_left n (by omega)
  omega

/-- The four values written for a tile are shapes of walkable cells when the tile is not
zero and shapes of walls when it is. -/
theorem init_maze_value_spec (size : Nat) (template : Nat → Nat) (x y : Nat) :
    (maze_offset size template x y 0 0 ≠ 0 →
      init_maze_value_nw size template x y ∈ [1, 4, 5, 6, 7] ∧
      init_maze_value_ne size template x y ∈ [1, 4, 5, 6, 7] ∧
      init_maze_value_sw size template x y ∈ [1, 4, 5, 6, 7] ∧
      init_maze_value_se size template x y ∈ [1, 4, 5, 6, 7]) ∧
    (maze_offset size template x y 0 0 = 0 →
      init_maze_value_nw size template x y ∈ [0, 12, 13, 14, 15] ∧
      init_maze_value_ne size template x y ∈ [0, 12, 13, 14, 15] ∧
      init_maze_value_sw size template x y ∈ [0, 12, 13, 14, 15] ∧
      init_maze_value_se size template x y ∈ [0, 12, 13, 14, 15]) := by
  constructor
  · intro h
    have ht : init_maze_this_tile size template x y = 1 := by
      unfold init_maze_this_tile
      rw [if_pos h]
    unfold init_maze_value_nw init_maze_value_ne init_maze_value_sw init_maze_value_se
    rw [ht]
    refine ⟨?_, ?_, ?_, ?_⟩ <;> split_ifs <;> first | decide | omega
  · intro h
    have ht : init_maze_this_tile size template x y = 0 := by
      unfold init_maze_this_tile
      rw [if_neg (not_not.mpr h)]
    unfold init_maze_value_nw init_maze_value_ne init_maze_value_sw init_maze_value_se
    rw [ht]
    refine ⟨?_, ?_, ?_, ?_⟩ <;> split_ifs <;> first | decide | omega

/-- A cell with the difficulty of its tile and a value of the right kind is as the maze
expansion should leave it. -/
theorem init_maze_cell_ok_of (tile : Nat) (grid : rr_maze_grid)
    (hd : grid.difficulty = (tile : ℚ))
    (h1 : tile ≠ 0 → grid.value ∈ [1, 4, 5, 6, 7])
    (h0 : tile = 0 → grid.value ∈ [0, 12, 13, 14, 15]) : init_maze_cell_ok tile grid := by
  unfold init_maze_cell_ok grid_walkable
  by_cases ht : tile = 0
  · have hv := h0 ht
    simp only [List.mem_cons, List.mem_singleton, List.not_mem_nil, or_false] at hv
    refine ⟨?_, ?_, hd⟩
    · rcases hv with h | h | h | h | h <;> rw [h] <;> simp [ht]
    · rcases hv with h | h | h | h | h <;> rw [h] <;> simp
  · have hv := h1 ht
    simp only [List.mem_cons, List.mem_singleton, List.not_mem_nil, or_false] at hv
    refine ⟨?_, ?_, hd⟩
    · rcases hv with h | h | h | h | h <;> rw [h] <;> simp [ht] <;> decide
    · rcases hv with h | h | h | h | h <;> rw [h] <;> simp

/-- An assignment to `value` shows on the cell assigned and on no other. -/
theorem maze_set_value_at (maze : Nat → rr_maze_grid) (i v j : Nat) :
    (j = i → (maze_set_value maze i v j).value = v ∧
      (maze_set_value maze i v j).difficulty = (maze j).difficulty) ∧
    (j ≠ i → maze_set_value maze i v j = maze j) := by
  unfold maze_set_value
  constructor
  · intro h
    rw [if_pos h]
    exact ⟨rfl, rfl⟩
  · intro h
    rw [if_neg h]

/-- An assignment to `difficulty` shows on the cell assigned and on no other. -/
theorem maze_set_difficulty_at (maze : Nat → rr_maze_grid) (i : Nat) (d : ℚ) (j : Nat) :
    (j = i → (maze_set_difficulty maze i d j).difficulty = d) ∧
    (j ≠ i → maze_set_difficulty maze i d j = maze j) := by
  unfold maze_set_difficulty
  constructor
  · intro h
    rw [if_pos h]
  · intro h
    rw [if_neg h]

/-- The body of `init_maze` for the tile `(x, y)`, seen from the cell `(X, Y)` of a maze of
even side: a cell of the tile ends as the expansion should leave it, and any other cell
is not touched. -/
theorem init_maze_tile_spec (n : Nat) (template : Nat → Nat) (x y : Nat)
    (maze : Nat → rr_maze_grid) (hs : 2 * n * (2 * n) < 2 ^ 32) (hx : x < n) (hy : y < n)
    (X Y : Nat) (hX : X < 2 * n) (hY : Y < 2 * n) :
    ((X / 2, Y / 2) = (x, y) →
      init_maze_cell_ok (template (y * n + x))
        (init_maze_tile (2 * n) template x y maze (maze_grid_index (2 * n) X Y))) ∧
    ((X / 2, Y / 2) ≠ (x, y) →
      init_maze_tile (2 * n) template x y maze (maze_grid_index (2 * n) X Y) =
        maze (maze_grid_index (2 * n) X Y)) := by
  have hoff := maze_offset_self n template x y hs hx hy
  have hval := init_maze_value_spec (2 * n) template x y
  rw [hoff] at hval
  have hne : ∀ a b a' b', a < 2 * n → b < 2 * n → a' < 2 * n → b' < 2 * n →
      (a ≠ a' ∨ b ≠ b') → maze_grid_index (2 * n) a b ≠ maze_grid_index (2 * n) a' b' := by
    intro a b a' b' ha hb ha' hb' hd h
    have := maze_grid_index_inj (2 * n) a b a' b' hs ha hb ha' hb' h
    omega
  constructor
  · intro h
    simp only [Prod.mk.injEq] at h
    have hcases : (X = x * 2 ∨ X = x * 2 + 1) ∧ (Y = y * 2 ∨ Y = y * 2 + 1) := by omega
    apply init_maze_cell_ok_of
    · unfold init_maze_tile
      rcases hcases with ⟨hX' | hX', hY' | hY'⟩ <;> subst hX' <;> subst hY'
      · rw [(maze_set_value_at _ _ _ _).2 (hne _ _ _ _ hX hY (by omega) (by omega) (by omega)),
          (maze_set_value_at _ _ _ _).2 (hne _ _ _ _ hX hY (by omega) (by omega) (by omega)),
          (maze_set_value_at _ _ _ _).2 (hne _ _ _ _ hX hY (by omega) (by omega) (by omega)),
          ((maze_set_value_at _ _ _ _).1 rfl).2]
        unfold init_maze_tile_difficulty
        rw [(maze_set_difficulty_at _ _ _ _).2
            (hne _ _ _ _ hX hY (by omega) (by omega) (by omega)),
          (maze_set_difficulty_at _ _ _ _).2
            (hne _ _ _ _ hX hY (by omega) (by omega) (by omega)),
          (maze_set_difficulty_at _ _ _ _).2
            (hne _ _ _ _ hX hY (by omega) (by omega) (by omega)),
          (maze_set_difficulty_at _ _ _ _).1 rfl, hoff]
      · rw [(maze_set_value_at _ _ _ _).2 (hne _ _ _ _ hX hY (by omega) (by omega) (by omega)),
          ((maze_set_value_at _ _ _ _).1 rfl).2,
          (maze_set_value_at _ _ _ _).2 (hne _ _ _ _ hX hY (by omega) (by omega) (by omega)),
          (maze_set_value_at _ _ _ _).2 (hne _ _ _ _ hX hY (by omega) (by omega) (by omega))]
        unfold init_maze_tile_difficulty
        rw [(maze_set_difficulty_at _ _ _ _).2
            (hne _ _ _ _ hX hY (by omega) (by omega) (by omega)),
          (maze_set_difficulty_at _ _ _ _).1 rfl, hoff]
      · rw [(maze_set_value_at _ _ _ _).2 (hne _ _ _ _ hX hY (by omega) (by omega) (by omega)),
          (maze_set_value_at _ _ _ _).2 (hne _ _ _ _ hX hY (by omega) (by omega) (by omega)),
          ((maze_set_value_at _ _ _ _).1 rfl).2,
          (maze_set_value_at _ _ _ _).2 (hne _ _ _ _ hX hY (by omega) (by omega) (by omega))]
        unfold init_maze_tile_difficulty
        rw [(maze_set_difficulty_at _ _ _ _).2
            (hne _ _ _ _ hX hY (by omega) (by omega) (by omega)),
          (maze_set_difficulty_at _ _ _ _).2
            (hne _ _ _ _ hX hY (by omega) (by omega) (by omega)),
          (maze_set_difficulty_at _ _ _ _).1 rfl, hoff]
      · rw [((maze_set_value_at _ _ _ _).1 rfl).2,
          (maze_set_value_at _ _ _ _).2 (hne _ _ _ _ hX hY (by omega) (by omega) (by omega)),
          (maze_set_value_at _ _ _ _).2 (hne _ _ _ _ hX hY (by omega) (by omega) (by omega)),
          (maze_set_value_at _ _ _ _).2 (hne _ _ _ _ hX hY (by omega) (by omega) (by omega))]
        unfold init_maze_tile_difficulty
        rw [(maze_set_difficulty_at _ _ _ _).1 rfl, hoff]
    · intro ht
      have hv := hval.1 ht
      unfold init_maze_tile
      rcases hcases with ⟨hX' | hX', hY' | hY'⟩ <;> subst hX' <;> subst hY'
      · rw [(maze_set_value_at _ _ _ _).2 (hne _ _ _ _ hX hY (by omega) (by omega) (by omega)),
          (maze_set_value_at _ _ _ _).2 (hne _ _ _ _ hX hY (by omega) (by omega) (by omega)),
          (maze_set_value_at _ _ _ _).2 (hne _ _ _ _ hX hY (by omega) (by omega) (by omega)),
          ((maze_set_value_at _ _ _ _).1 rfl).1]
        exact hv.1
      · rw [(maze_set_value_at _ _ _ _).2 (hne _ _ _ _ hX hY (by omega) (by omega) (by omega)),
          ((maze_set_value_at _ _ _ _).1 rfl).1]
        exact hv.2.2.1
      · rw [(maze_set_value_at _ _ _ _).2 (hne _ _ _ _ hX hY (by omega) (by omega) (by omega)),
          (maze_set_value_at _ _ _ _).2 (hne _ _ _ _ hX hY (by omega) (by omega) (by omega)),
          ((maze_set_value_at _ _ _ _).1 rfl).1]
        exact hv.2.1
      · rw [((maze_set_value_at _ _ _ _).1 rfl).1]
        exact hv.2.2.2
    · intro ht
      have hv := hval.2 ht
      unfold init_maze_tile
      rcases hcases with ⟨hX' | hX', hY' | hY'⟩ <;> subst hX' <;> subst hY'
      · rw [(maze_set_value_at _ _ _ _).2 (hne _ _ _ _ hX hY (by omega) (by omega) (by omega)),
          (maze_set_value_at _ _ _ _).2 (hne _ _ _ _ hX hY (by omega) (by omega) (by omega)),
          (maze_set_value_at _ _ _ _).2 (hne _ _ _ _ hX hY (by omega) (by omega) (by omega)),
          ((maze_set_value_at _ _ _ _).1 rfl).1]
        exact hv.1
      · rw [(maze_set_value_at _ _ _ _).2 (hne _ _ _ _ hX hY (by omega) (by omega) (by omega)),
          ((maze_set_value_at _ _ _ _).1 rfl).1]
        exact hv.2.2.1
      · rw [(maze_set_value_at _ _ _ _).2 (hne _ _ _ _ hX hY (by omega) (by omega) (by omega)),
          (maze_set_value_at _ _ _ _).2 (hne _ _ _ _ hX hY (by omega) (by omega) (by omega)),
          ((maze_set_value_at _ _ _ _).1 rfl).1]
        exact hv.2.1
      · rw [((maze_set_value_at _ _ _ _).1 rfl).1]
        exact hv.2.2.2
  · intro h
    simp only [ne_eq, Prod.mk.injEq] at h
    unfold init_maze_tile init_maze_tile_difficulty
    rw [(maze_set_value_at _ _ _ _).2 (hne _ _ _ _ hX hY (by omega) (by omega) (by omega)),
      (maze_set_value_at _ _ _ _).2 (hne _ _ _ _ hX hY (by omega) (by omega) (by omega)),
      (maze_set_value_at _ _ _ _).2 (hne _ _ _ _ hX hY (by omega) (by omega) (by omega)),
      (maze_set_value_at _ _ _ _).2 (hne _ _ _ _ hX hY (by omega) (by omega) (by omega)),
      (maze_set_difficulty_at _ _ _ _).2 (hne _ _ _ _ hX hY (by omega) (by omega) (by omega)),
      (maze_set_difficulty_at _ _ _ _).2 (hne _ _ _ _ hX hY (by omega) (by omega) (by omega)),
      (maze_set_difficulty_at _ _ _ _).2 (hne _ _ _ _ hX hY (by omega) (by omega) (by omega)),
      (maze_set_difficulty_at _ _ _ _).2 (hne _ _ _ _ hX hY (by omega) (by omega) (by omega))]

/-- The loops of `init_maze` over a list of tiles, seen from the cell `(X, Y)`: if the
cell's tile is in the list the cell ends as the expansion should leave it, and otherwise
it is not touched. -/
theorem init_maze_fold (n : Nat) (template : Nat → Nat) (hs : 2 * n * (2 * n) < 2 ^ 32)
    (X Y : Nat) (hX : X < 2 * n) (hY : Y < 2 * n) :
    ∀ (l : List (Nat × Nat)), (∀ t ∈ l, t.1 < n ∧ t.2 < n) → ∀ maze : Nat → rr_maze_grid,
      ((X / 2, Y / 2) ∈ l →
        init_maze_cell_ok (template (Y / 2 * n + X / 2))
          (l.foldl (fun m t => init_maze_tile (2 * n) template t.1 t.2 m) maze
            (maze_grid_index (2 * n) X Y))) ∧
      ((X / 2, Y / 2) ∉ l →
        l.foldl (fun m t => init_maze_tile (2 * n) template t.1 t.2 m) maze
            (maze_grid_index (2 * n) X Y) = maze (maze_grid_index (2 * n) X Y)) := by
  intro l
  induction l with
  | nil =>
    intro _ maze
    exact ⟨fun h => absurd h (List.not_mem_nil _), fun _ => rfl⟩
  | cons t ts ih =>
    intro hl maze
    have ht := hl t (List.mem_cons_self _ _)
    have ih2 := ih (fun t' ht' => hl t' (List.mem_cons_of_mem _ ht'))
      (init_maze_tile (2 * n) template t.1 t.2 maze)
    have hspec := init_maze_tile_spec n template t.1 t.2 maze hs ht.1 ht.2 X Y hX hY
    rw [List.foldl_cons]
    by_cases hts : (X / 2, Y / 2) ∈ ts
    · exact ⟨fun _ => ih2.1 hts, fun h => absurd (List.mem_cons_of_mem _ hts) h⟩
    · rw [ih2.2 hts]
      by_cases heq : (X / 2, Y / 2) = (t.1, t.2)
      · refine ⟨fun _ => ?_, fun h => absurd (by rw [heq]; exact List.mem_cons_self _ _) h⟩
        have h1 := hspec.1 heq
        simp only [Prod.mk.injEq] at heq
        rw [heq.1, heq.2]
        exact h1
      · refine ⟨fun h => ?_, fun _ => hspec.2 heq⟩
        rcases List.mem_cons.mp h with h1 | h1
        · exact absurd h1 heq
        · exact absurd h1 hts

/-- C24. Maze expansion. For a maze of even side `size = 2 * n` that fits 32-bit indices
and any template of side `n`, every cell `(X, Y)` of the maze built by `init_maze` passes
the walkable test of `tick_grid` if and only if the template tile `(X / 2, Y / 2)` is not
zero; its value is one of 0, 1, 4, 5, 6, 7, 12, 13, 14, 15; and on the server its
difficulty is the value of that tile. -/
theorem maze_expansion (n : Nat) (template : Nat → Nat) (maze : Nat → rr_maze_grid)
    (hs : 2 * n * (2 * n) < 2 ^ 32) (X Y : Nat) (hX : X < 2 * n) (hY : Y < 2 * n) :
    maze_grid_index (2 * n) X Y = Y * (2 * n) + X ∧
    (grid_walkable (init_maze (2 * n) template maze (maze_grid_index (2 * n) X Y)) = true ↔
      template (Y / 2 * n + X / 2) ≠ 0) ∧
    (init_maze (2 * n) template maze (maze_grid_index (2 * n) X Y)).value ∈
      [0, 1, 4, 5, 6, 7, 12, 13, 14, 15] ∧
    (init_maze (2 * n) template maze (maze_grid_index (2 * n) X Y)).difficulty =
      (template (Y / 2 * n + X / 2) : ℚ) := by
  have hhalf : 2 * n / 2 = n := by omega
  have hmem : (X / 2, Y / 2) ∈ init_maze_tiles (2 * n) := by
    unfold init_maze_tiles
    rw [hhalf]
    exact List.mem_flatMap.mpr ⟨Y / 2, List.mem_range.mpr (by omega),
      List.mem_map.mpr ⟨X / 2, List.mem_range.mpr (by omega), rfl⟩⟩
  have hall : ∀ t ∈ init_maze_tiles (2 * n), t.1 < n ∧ t.2 < n := by
    intro t ht
    unfold init_maze_tiles at ht
    rw [hhalf] at ht
    obtain ⟨y, hy, hty⟩ := List.mem_flatMap.mp ht
    obtain ⟨x, hx, hxy⟩ := List.mem_map.mp hty
    rw [← hxy]
    exact ⟨List.mem_range.mp hx, List.mem_range.mp hy⟩
  have h := (init_maze_fold n template hs X Y hX hY (init_maze_tiles (2 * n)) hall maze).1 hmem
  exact ⟨maze_grid_index_eq (2 * n) X Y hs hX hY, h.1, h.2.1, h.2.2⟩

/-- C24 on the 2x2 template with tiles 3, 5, 2 and an empty one: in the 4x4 maze the cell
`(3, 0)`, of tile `(1, 0)`, is walkable with difficulty 5, and the cell `(2, 3)`, of the
empty tile `(1, 1)`, is not walkable. -/
theorem maze_expansion_witness :
    2 * 2 * (2 * 2) < 2 ^ 32 ∧
    grid_walkable (init_maze (2 * 2) template_sample (fun _ => {})
      (maze_grid_index (2 * 2) 3 0)) = true ∧
    (init_maze (2 * 2) template_sample (fun _ => {}) (maze_grid_index (2 * 2) 3 0)).difficulty
      = 5 ∧
    grid_walkable (init_maze (2 * 2) template_sample (fun _ => {})
      (maze_grid_index (2 * 2) 2 3)) ≠ true := by
  have h1 := maze_expansion 2 template_sample (fun _ => {}) (by decide) 3 0 (by decide)
    (by decide)
  have h2 := maze_expansion 2 template_sample (fun _ => {}) (by decide) 2 3 (by decide)
    (by decide)
  refine ⟨by decide, h1.2.1.mpr (by decide), ?_, fun h => h2.2.1.mp h (by decide)⟩
  rw [h1.2.2.2]
  have : template_sample (0 / 2 * 2 + 3 / 2) = 5 := by decide
  rw [this]
  norm_num

/-! ## Loadout ownership -/

/-- Writing one entry of a loadout adds at most one entry equal to a given pair, and none
when the entry written is another pair. -/
theorem countP_update (loadout : Nat → rr_id_rarity_pair) (i : Nat) (e p : rr_id_rarity_pair) :
    ∀ l : List Nat, l.Nodup →
      l.countP (fun k => decide ((if k = i then e else loadout k) = p)) ≤
        l.countP (fun k => decide (loadout k = p)) + (if e = p then 1 else 0) := by
  intro l
  induction l with
  | nil =>
    intro _
    exact Nat.zero_le _
  | cons a t ih =>
    intro hnd
    have hnd2 := List.nodup_cons.mp hnd
    rw [List.countP_cons, List.countP_cons]
    by_cases ha : a = i
    · have htail : t.countP (fun k => decide ((if k = i then e else loadout k) = p)) =
          t.countP (fun k => decide (loadout k = p)) := by
        apply List.countP_congr
        intro k hk
        have hki : k ≠ i := fun h => hnd2.1 (by rw [ha, ← h]; exact hk)
        simp only [if_neg hki]
      rw [htail]
      simp only [if_pos ha]
      have h1 : (if decide (e = p) = true then 1 else 0) ≤ (if e = p then 1 else 0) := by
        by_cases hep : e = p <;> simp [hep]
      omega
    · have h := ih hnd2.2
      simp only [if_neg ha]
      omega

/-- Writing the entry at `i` of a loadout: the pairs counted over all the slots. -/
theorem loadout_entries_update (m : Nat) (loadout : Nat → rr_id_rarity_pair) (i : Nat)
    (e : rr_id_rarity_pair) (id rarity : Nat) :
    loadout_entries m (fun k => if k = i then e else loadout k) id rarity ≤
      loadout_entries m loadout id rarity +
        (if e = { id := id, rarity := rarity } then 1 else 0) := by
  unfold loadout_entries
  exact countP_update loadout i e { id := id, rarity := rarity } _ (List.nodup_range _)

/-- The zeroed loadout has no entry with a petal id other than 0. -/
theorem loadout_entries_zero (m id rarity : Nat) (hid : id ≠ 0) :
    loadout_entries m (fun _ => {}) id rarity = 0 := by
  unfold loadout_entries
  rw [List.countP_eq_zero]
  intro k _
  simp only [decide_eq_true_eq]
  intro h
  have := congrArg rr_id_rarity_pair.id h
  exact hid this.symm

/-- Taking one petal out of the local inventory copy. -/
theorem set2_dec (t : Nat → Nat → Nat) (a b id rarity : Nat) (h : t a b ≠ 0) :
    set2 t a b (t a b - 1) id rarity + (if a = id ∧ b = rarity then 1 else 0) = t id rarity := by
  unfold set2
  by_cases hab : id = a ∧ rarity = b
  · rw [if_pos hab, if_pos ⟨hab.1.symm, hab.2.symm⟩, hab.1, hab.2]
    omega
  · rw [if_neg hab, if_neg (fun h => hab ⟨h.1.symm, h.2.symm⟩)]
    rfl

/-- One entry read by the loop of the squad update, when the inventory copy covers it:
the entries equal to a pair and what the copy still holds of it do not grow together. -/
theorem squad_update_entry (m : Nat) (loadout : Nat → rr_id_rarity_pair)
    (t : Nat → Nat → Nat) (i a b id rarity : Nat) (hid : id ≠ 0)
    (hcov : ¬ (a ≠ 0 ∧ t a b = 0)) :
    loadout_entries m (fun k => if k = i then { id := a, rarity := b } else loadout k)
        id rarity +
      (if a ≠ 0 then set2 t a b (t a b - 1) else t) id rarity ≤
    loadout_entries m loadout id rarity + t id rarity := by
  have h1 := loadout_entries_update m loadout i { id := a, rarity := b } id rarity
  by_cases ha : a ≠ 0
  · rw [if_pos ha]
    have hne : t a b ≠ 0 := fun h => hcov ⟨ha, h⟩
    have h2 := set2_dec t a b id rarity hne
    by_cases hp : a = id ∧ b = rarity
    · rw [if_pos hp] at h2
      rw [if_pos (by rw [hp.1, hp.2])] at h1
      omega
    · rw [if_neg hp] at h2
      rw [if_neg (fun h => hp ⟨congrArg rr_id_rarity_pair.id h,
        congrArg rr_id_rarity_pair.rarity h⟩)] at h1
      omega
  · rw [if_neg ha]
    have ha0 : a = 0 := not_not.mp ha
    rw [if_neg (fun h => hid ((congrArg rr_id_rarity_pair.id h).symm.trans ha0))] at h1
    omega

/-- The loop of the squad update: for a petal id other than 0, the entries equal to a pair
after the loop are at most the entries equal to it before, plus what the inventory copy
held of it. -/
theorem squad_update_loadout_entries (sh : rr_shared) (m id rarity : Nat) (hid : id ≠ 0) :
    ∀ (n i : Nat) (data : List Nat) (t : Nat → Nat → Nat) (loadout : Nat → rr_id_rarity_pair),
      loadout_entries m (squad_update_loadout sh m n i data t loadout) id rarity ≤
        loadout_entries m loadout id rarity + t id rarity := by
  intro n
  induction n with
  | zero =>
    intro i data t loadout
    rw [squad_update_loadout]
    exact Nat.le_add_right _ _
  | succ n ih =>
    intro i data t loadout
    rw [squad_update_loadout]
    dsimp only
    by_cases h1 : (sh.proto_bug_read_uint8 data).1 ≥ rr_petal_id_max
    · rw [if_pos h1]
      exact Nat.le_add_right _ _
    rw [if_neg h1]
    by_cases h2 : (sh.proto_bug_read_uint8 (sh.proto_bug_read_uint8 data).2).1 ≥
        rr_rarity_id_max
    · rw [if_pos h2]
      exact Nat.le_add_right _ _
    rw [if_neg h2]
    by_cases h3 : (sh.proto_bug_read_uint8 data).1 ≠ 0 ∧
        t (sh.proto_bug_read_uint8 data).1
          (sh.proto_bug_read_uint8 (sh.proto_bug_read_uint8 data).2).1 = 0
    · rw [if_pos h3, loadout_entries_zero m id rarity hid]
      exact Nat.zero_le _
    rw [if_neg h3]
    have e1 := squad_update_entry m loadout t i (sh.proto_bug_read_uint8 data).1
      (sh.proto_bug_read_uint8 (sh.proto_bug_read_uint8 data).2).1 id rarity hid h3
    by_cases h4 : (sh.proto_bug_read_uint8
        (sh.proto_bug_read_uint8 (sh.proto_bug_read_uint8 data).2).2).1 ≥ rr_petal_id_max
    · rw [if_pos h4]
      exact le_trans (Nat.le_add_right _ _) e1
    rw [if_neg h4]
    by_cases h5 : (sh.proto_bug_read_uint8 (sh.proto_bug_read_uint8
        (sh.proto_bug_read_uint8 (sh.proto_bug_read_uint8 data).2).2).2).1 ≥ rr_rarity_id_max
    · rw [if_pos h5]
      exact le_trans (Nat.le_add_right _ _) e1
    rw [if_neg h5]
    by_cases h6 : (sh.proto_bug_read_uint8
          (sh.proto_bug_read_uint8 (sh.proto_bug_read_uint8 data).2).2).1 ≠ 0 ∧
        (if (sh.proto_bug_read_uint8 data).1 ≠ 0 then
          set2 t (sh.proto_bug_read_uint8 data).1
            (sh.proto_bug_read_uint8 (sh.proto_bug_read_uint8 data).2).1
            (t (sh.proto_bug_read_uint8 data).1
              (sh.proto_bug_read_uint8 (sh.proto_bug_read_uint8 data).2).1 - 1)
        else t)
          (sh.proto_bug_read_uint8
            (sh.proto_bug_read_uint8 (sh.proto_bug_read_uint8 data).2).2).1
          (sh.proto_bug_read_uint8 (sh.proto_bug_read_uint8
            (sh.proto_bug_read_uint8 (sh.proto_bug_read_uint8 data).2).2).2).1 = 0
    · rw [if_pos h6, loadout_entries_zero m id rarity hid]
      exact Nat.zero_le _
    rw [if_neg h6]
    have e2 := squad_update_entry m
      (fun k => if k = i then
        ({ id := (sh.proto_bug_read_uint8 data).1
           rarity := (sh.proto_bug_read_uint8 (sh.proto_bug_read_uint8 data).2).1 } :
          rr_id_rarity_pair)
        else loadout k)
      (if (sh.proto_bug_read_uint8 data).1 ≠ 0 then
          set2 t (sh.proto_bug_read_uint8 data).1
            (sh.proto_bug_read_uint8 (sh.proto_bug_read_uint8 data).2).1
            (t (sh.proto_bug_read_uint8 data).1
              (sh.proto_bug_read_uint8 (sh.proto_bug_read_uint8 data).2).1 - 1)
        else t)
      (i + m)
      (sh.proto_bug_read_uint8
        (sh.proto_bug_read_uint8 (sh.proto_bug_read_uint8 data).2).2).1
      (sh.proto_bug_read_uint8 (sh.proto_bug_read_uint8
        (sh.proto_bug_read_uint8 (sh.proto_bug_read_uint8 data).2).2).2).1
      id rarity hid h6
    exact le_trans (ih (i + 1) _ _ _) (le_trans e2 e1)

/-- What the check of the squad update achieves whatever the packet: the handler does not
change the inventory, and for every petal id other than 0 and every rarity the number of
entries of the member's loadout equal to `(id, rarity)` is afterwards at most
`inventory[id][rarity]` plus the number of such entries before the packet; so it is at
most `inventory[id][rarity]` when the loadout held no petal before the packet. -/
theorem squad_update_entries_bound (env : rr_server_env) (sh : rr_shared) (s : rr_server) (i : Nat)
    (nickname : String) (data : List Nat) (id rarity : Nat)
    (hsq : (s.clients i).in_squad = true) (hid : id ≠ 0) :
    ((rr_serverbound_squad_update env sh s i nickname data).clients i).inventory =
      (s.clients i).inventory ∧
    loadout_entries env.RR_MAX_SLOT_COUNT
        (rr_squad_get_client_slot (rr_serverbound_squad_update env sh s i nickname data)
          (s.clients i)).loadout id rarity ≤
      (s.clients i).inventory id rarity +
        loadout_entries env.RR_MAX_SLOT_COUNT
          (rr_squad_get_client_slot s (s.clients i)).loadout id rarity ∧
    ((∀ k, ((rr_squad_get_client_slot s (s.clients i)).loadout k).id = 0) →
      loadout_entries env.RR_MAX_SLOT_COUNT
          (rr_squad_get_client_slot (rr_serverbound_squad_update env sh s i nickname data)
            (s.clients i)).loadout id rarity ≤
        (s.clients i).inventory id rarity) := by
  have hslot := squad_update_slot env sh s i nickname data hsq
  have hbound : loadout_entries env.RR_MAX_SLOT_COUNT
      (rr_squad_get_client_slot (rr_serverbound_squad_update env sh s i nickname data)
        (s.clients i)).loadout id rarity ≤
      (s.clients i).inventory id rarity +
        loadout_entries env.RR_MAX_SLOT_COUNT
          (rr_squad_get_client_slot s (s.clients i)).loadout id rarity := by
    rw [hslot]
    unfold squad_update_member
    dsimp only
    by_cases hc : (sh.proto_bug_read_uint8 data).1 > env.RR_MAX_SLOT_COUNT
    · rw [if_pos hc]
      exact Nat.le_add_left _ _
    · rw [if_neg hc]
      have h := squad_update_loadout_entries sh env.RR_MAX_SLOT_COUNT id rarity hid
        (sh.proto_bug_read_uint8 data).1 0 (sh.proto_bug_read_uint8 data).2
        (s.clients i).inventory (rr_squad_get_client_slot s (s.clients i)).loadout
      rw [Nat.add_comm]
      exact h
  refine ⟨?_, hbound, fun hempty => ?_⟩
  · unfold rr_serverbound_squad_update
    rw [if_neg (by rw [hsq]; exact Bool.noConfusion)]
    rfl
  · have h0 : loadout_entries env.RR_MAX_SLOT_COUNT
        (rr_squad_get_client_slot s (s.clients i)).loadout id rarity = 0 := by
      unfold loadout_entries
      rw [List.countP_eq_zero]
      intro k _
      simp only [decide_eq_true_eq]
      intro h
      have := congrArg rr_id_rarity_pair.id h
      rw [hempty k] at this
      exact hid this.symm
    rw [h0] at hbound
    exact hbound

/-- C22, the code at a failing input. The sender owns one common basic and its loadout is
empty. A first packet of two entries puts the basic in the second primary slot, within
the inventory. A second packet of one entry puts the basic in the first primary slot: the
handler checks that entry against a fresh copy of the inventory and never looks at the
second slot, which the packet does not name and which keeps its entry. The loadout then
holds two common basics for an inventory of one, and `rr_server_client_create_player_info`
copies both into the slots of the player. The same two entries sent in one packet are
caught by the check, which zeroes the loadout. -/
theorem loadout_ownership_stale_entries :
    (server_one_basic.clients 0).in_squad = true ∧
    (server_one_basic.clients 0).inventory 1 0 = 1 ∧
    (∀ k, ((rr_squad_get_client_slot server_one_basic
      (server_one_basic.clients 0)).loadout k).id = 0) ∧
    loadout_entries sample_env.RR_MAX_SLOT_COUNT
      (rr_squad_get_client_slot
        (rr_serverbound_squad_update sample_env sample_shared server_one_basic 0 "Ann"
          [2, 0, 0, 0, 0, 1, 0, 0, 0])
        (server_one_basic.clients 0)).loadout 1 0 = 1 ∧
    loadout_entries sample_env.RR_MAX_SLOT_COUNT
      (rr_squad_get_client_slot
        (rr_serverbound_squad_update sample_env sample_shared
          (rr_serverbound_squad_update sample_env sample_shared server_one_basic 0 "Ann"
            [2, 0, 0, 0, 0, 1, 0, 0, 0])
          0 "Ann" [1, 1, 0, 0, 0])
        (server_one_basic.clients 0)).loadout 1 0 = 2 ∧
    ((rr_serverbound_squad_update sample_env sample_shared
        (rr_serverbound_squad_update sample_env sample_shared server_one_basic 0 "Ann"
          [2, 0, 0, 0, 0, 1, 0, 0, 0])
        0 "Ann" [1, 1, 0, 0, 0]).clients 0).inventory 1 0 = 1 ∧
    create_player_info_slots sample_env.RR_MAX_SLOT_COUNT 5
      (rr_squad_get_client_slot
        (rr_serverbound_squad_update sample_env sample_shared
          (rr_serverbound_squad_update sample_env sample_shared server_one_basic 0 "Ann"
            [2, 0, 0, 0, 0, 1, 0, 0, 0])
          0 "Ann" [1, 1, 0, 0, 0])
        (server_one_basic.clients 0)).loadout =
      [({ id := 1, rarity := 0 }, {}), ({ id := 1, rarity := 0 }, {}), ({}, {}), ({}, {}),
       ({}, {})] ∧
    loadout_entries sample_env.RR_MAX_SLOT_COUNT
      (rr_squad_get_client_slot
        (rr_serverbound_squad_update sample_env sample_shared server_one_basic 0 "Ann"
          [2, 1, 0, 0, 0, 1, 0, 0, 0])
        (server_one_basic.clients 0)).loadout 1 0 = 0 := by
  refine ⟨rfl, by decide, fun _ => rfl, by decide, by decide, by decide, by decide, by decide⟩

/-! ## Hatching -/

/-- The id column of the petal table names the row, and is 0 outside the table. -/
theorem RR_PETAL_DATA_id_eq (id k : Nat) (hk : k ≠ 0) (h : RR_PETAL_DATA_id id = k) :
    id = k := by
  unfold RR_PETAL_DATA_id RR_PETAL_DATA_id_column at h
  by_cases hlt : id < rr_petal_id_max
  · rw [List.getD_eq_getElem _ _ (by rw [List.length_range]; exact hlt),
      List.getElem_range] at h
    exact h
  · rw [List.getD_eq_default _ _ (by rw [List.length_range]; exact not_lt.mp hlt)] at h
    exact absurd h.symm hk

/-- Hatching on an egg or a meteor petal: nothing happens while `effect_delay` is
positive; otherwise the petal is requested for deletion and the mob allocated has both
parameters assigned. -/
theorem system_egg_hatching_logic_spec (flower_id : Nat) (petal : rr_component_petal)
    (hid : petal.id = rr_petal_id_egg ∨ petal.id = rr_petal_id_meteor) :
    ∀ mob, (system_egg_hatching_logic flower_id petal).mob = some mob →
      (system_egg_hatching_logic flower_id petal).deletion_requested = true ∧
      (petal.id = rr_petal_id_egg → mob.id = some rr_mob_id_trex ∧ mob.aggro = true) ∧
      (petal.id = rr_petal_id_meteor → mob.id = some rr_mob_id_meteor ∧ mob.aggro = false) ∧
      mob.rarity = some (petal.rarity - 1) ∧
      mob.player_spawned = true ∧ mob.owner = flower_id := by
  intro mob hmob
  unfold system_egg_hatching_logic at hmob ⊢
  by_cases hd : petal.effect_delay > 0
  · rw [if_pos hd] at hmob
    exact Option.noConfusion hmob
  · rw [if_neg hd] at hmob ⊢
    have hm := (Option.some.inj hmob).symm
    have hrar : (if petal.rarity ≥ 1 then petal.rarity - 1 else 0) = petal.rarity - 1 := by
      split_ifs <;> omega
    rw [hm]
    refine ⟨rfl, fun he => ?_, fun he => ?_, ?_, rfl, rfl⟩
    · have h1 : hatching_m_id petal = some rr_mob_id_trex := by
        unfold hatching_m_id
        rw [if_pos he]
      exact ⟨h1, decide_eq_true h1⟩
    · have hne : petal.id ≠ rr_petal_id_egg := by
        rw [he]
        decide
      have h1 : hatching_m_id petal = some rr_mob_id_meteor := by
        unfold hatching_m_id
        rw [if_neg hne, if_pos he]
      refine ⟨h1, ?_⟩
      show decide (hatching_m_id petal = some rr_mob_id_trex) = false
      rw [h1]
      decide
    · show hatching_m_rar petal = some (petal.rarity - 1)
      unfold hatching_m_rar
      rcases hid with he | he
      · rw [if_pos he, hrar]
      · have hne : petal.id ≠ rr_petal_id_egg := by
          rw [he]
          decide
        rw [if_neg hne, if_pos he, hrar]

/-- C30. Hatching is only reached with initialised mob parameters. Given that the petal
behind a slot entry carries the slot's petal id, whenever a pass of the inner loop of
`rr_system_petal_reload_foreach_function` calls `system_egg_hatching_logic` it does so on
a petal whose id is the slot's and is egg or meteor; if the call allocates a mob, the
petal's `effect_delay` is not positive, the petal is requested for deletion, `m_id` and
`m_rar` are assigned, the mob is a T-rex for an egg and a meteor for a meteor petal, its
rarity is the petal's minus 1 and 0 for a common petal, it is flagged `player_spawned`
and its owner is the flower. -/
theorem hatching_initialised (flower_id : Nat) (slot : rr_component_player_info_petal_slot)
    (w : reload_entry_inputs) (p_petal : rr_component_player_info_petal)
    (hcarry : w.has_petal = true → w.petal.id = slot.id) :
    ∀ r, reload_entry_hatching flower_id slot w p_petal = some r →
      ∃ petal : rr_component_petal,
        r = system_egg_hatching_logic flower_id petal ∧ petal.id = slot.id ∧
        (petal.id = rr_petal_id_egg ∨ petal.id = rr_petal_id_meteor) ∧
        ∀ mob, r.mob = some mob →
          petal.effect_delay ≤ 0 ∧ r.deletion_requested = true ∧
          (∃ m_id m_rar, mob.id = some m_id ∧ mob.rarity = some m_rar) ∧
          (petal.id = rr_petal_id_egg → mob.id = some rr_mob_id_trex) ∧
          (petal.id = rr_petal_id_meteor → mob.id = some rr_mob_id_meteor) ∧
          mob.rarity = some (petal.rarity - 1) ∧
          mob.player_spawned = true ∧ mob.owner = flower_id := by
  intro r hr
  have hfinish : ∀ petal : rr_component_petal, petal.id = slot.id →
      (petal.id = rr_petal_id_egg ∨ petal.id = rr_petal_id_meteor) →
      r = system_egg_hatching_logic flower_id petal →
      ∃ petal : rr_component_petal,
        r = system_egg_hatching_logic flower_id petal ∧ petal.id = slot.id ∧
        (petal.id = rr_petal_id_egg ∨ petal.id = rr_petal_id_meteor) ∧
        ∀ mob, r.mob = some mob →
          petal.effect_delay ≤ 0 ∧ r.deletion_requested = true ∧
          (∃ m_id m_rar, mob.id = some m_id ∧ mob.rarity = some m_rar) ∧
          (petal.id = rr_petal_id_egg → mob.id = some rr_mob_id_trex) ∧
          (petal.id = rr_petal_id_meteor → mob.id = some rr_mob_id_meteor) ∧
          mob.rarity = some (petal.rarity - 1) ∧
          mob.player_spawned = true ∧ mob.owner = flower_id := by
    intro petal hslot hid hreq
    refine ⟨petal, hreq, hslot, hid, fun mob hmob => ?_⟩
    rw [hreq] at hmob ⊢
    obtain ⟨h1, h2, h3, h4, h5, h6⟩ :=
      system_egg_hatching_logic_spec flower_id petal hid mob hmob
    have hdelay : petal.effect_delay ≤ 0 := by
      by_contra hd
      unfold system_egg_hatching_logic at hmob
      rw [if_pos (not_le.mp hd)] at hmob
      exact Option.noConfusion hmob
    refine ⟨hdelay, h1, ?_, fun he => (h2 he).1, fun he => (h3 he).1, h4, h5, h6⟩
    rcases hid with he | he
    · exact ⟨_, _, (h2 he).1, h4⟩
    · exact ⟨_, _, (h3 he).1, h4⟩
  unfold reload_entry_hatching at hr
  by_cases h0 : (reload_entry_clear w p_petal).entity_hash = RR_NULL_ENTITY
  · rw [if_pos h0] at hr
    by_cases h1 : reload_entry_cooldown slot w (reload_entry_clear w p_petal) ≤ 0
    · rw [if_pos h1] at hr
      by_cases h2 : RR_PETAL_DATA_id slot.id = rr_petal_id_meteor
      · rw [if_pos h2] at hr
        have hs := RR_PETAL_DATA_id_eq slot.id rr_petal_id_meteor (by decide) h2
        exact hfinish _ rfl (Or.inr hs) (Option.some.inj hr).symm
      · rw [if_neg h2] at hr
        exact Option.noConfusion hr
    · rw [if_neg h1] at hr
      exact Option.noConfusion hr
  · rw [if_neg h0] at hr
    by_cases h1 : w.other_arena = true ∨ (slot.id = rr_petal_id_bubble ∧ w.has_bubble = true)
    · rw [if_pos h1] at hr
      exact Option.noConfusion hr
    · rw [if_neg h1] at hr
      by_cases h2 : RR_PETAL_DATA_id slot.id = rr_petal_id_egg
      · rw [if_pos h2] at hr
        by_cases h3 : w.has_petal = true
        · rw [if_pos h3] at hr
          have hs := RR_PETAL_DATA_id_eq slot.id rr_petal_id_egg (by decide) h2
          exact hfinish w.petal (hcarry h3) (Or.inl ((hcarry h3).trans hs))
            (Option.some.inj hr).symm
        · rw [if_neg h3] at hr
          exact Option.noConfusion hr
      · rw [if_neg h2] at hr
        exact Option.noConfusion hr

/-- C30 on a slot of epic eggs whose egg is alive and ready: the pass hatches a rare
T-rex owned by flower 42 and flagged `player_spawned`. -/
theorem hatching_initialised_witness :
    (reload_inputs_egg.has_petal = true → reload_inputs_egg.petal.id = slot_egg.id) ∧
    reload_entry_hatching 42 slot_egg reload_inputs_egg { entity_hash := 65543, cooldown_ticks := 0 }
      = some { deletion_requested := true
               mob := some { id := some rr_mob_id_trex, rarity := some 2, owner := 42,
                             aggro := true, player_spawned := true } } ∧
    ∃ petal : rr_component_petal,
      ({ deletion_requested := true
         mob := some { id := some rr_mob_id_trex, rarity := some 2, owner := 42,
                       aggro := true, player_spawned := true } } : hatch_result) =
        system_egg_hatching_logic 42 petal ∧
      petal.id = slot_egg.id ∧
      (petal.id = rr_petal_id_egg ∨ petal.id = rr_petal_id_meteor) := by
  have hrun : reload_entry_hatching 42 slot_egg reload_inputs_egg
      { entity_hash := 65543, cooldown_ticks := 0 } =
      some { deletion_requested := true
             mob := some { id := some rr_mob_id_trex, rarity := some 2, owner := 42,
                           aggro := true, player_spawned := true } } := by decide
  obtain ⟨petal, h1, h2, h3, _⟩ := hatching_initialised 42 slot_egg reload_inputs_egg
    { entity_hash := 65543, cooldown_ticks := 0 } (fun _ => rfl) _ hrun
  exact ⟨fun _ => rfl, hrun, petal, h1, h2, h3⟩

end Rysteria
